import Mathlib

/-!
vtkImageData: index arithmetic and geometry of the regular grid

A shallow embedding of the extent / increment / tuple-index part, the cell
lookups, the index-physical transforms, the bounds, the point and cell
location, the point gradient, the cell and point getters, `Crop` and the
scan-line copy of `Common/DataModel/vtkImageData.cxx`.

Conventions of the embedding

* `int` and `vtkIdType` values are mathematical integers (`Int`).  Both C++
  types are signed, so the source has defined behaviour only where no
  intermediate value overflows, and there it computes exactly these integers.
* `int extent[6]` is the record `Extent6`; `int coordinate[3]` is a triple.
* A method that can emit `vtkErrorMacro` returns its C++ result together with
  the object after the call; the only member such a call can change is the
  error log.
* `vtkDataArray` is an external collaborator.  The methods embedded here only
  observe `GetNumberOfComponents()` and `GetMaxId()`; `GetNumberOfTuples()` is
  carried alongside so that statements about the tuple count can be written.
* `double` values are rationals (`ℚ`): the geometry is stated over exact
  arithmetic.  `double[3]` is a triple, `double bounds[6]` the record `Bounds6`,
  a `vtkMatrix4x4` the matrix whose entry `(r, c)` is `mdata[4*r + c]`.
* The static helpers `TransformCoordinates` and `TransformNormal` are templates
  in the source and are written over an arbitrary field here.
* Integer `/` and `%` of C++ truncate towards zero (`Int.tdiv`, `Int.tmod`); a
  zero divisor is the fault `DivisionByZero`.
* `vtkMath::Floor` is the mathematical floor.  A `/` of two doubles with the
  divisor 0 is the fault `DoubleDivisionByZero`: its IEEE value is not a
  rational.
* A method that can emit `vtkWarningMacro` returns its C++ result together with
  the warnings it emitted.
* The scalar array handed to `GetPointGradient` is the function
  `s : vtkIdType → ℚ`, `s id` standing for `s->GetComponent(id, 0)`; each axis
  block records, besides its component, the tuple ids it read and the divisors
  it used, in source order.
* Where a statement depends on the width of the integer types, the method is
  embedded with machine integers, in the namespace `Machine`: the result of
  every `int` operation goes through `wrapInt32` and the result of a
  `vtkIdType` product or sum that can leave the range through `wrapInt64`
  (two's complement of 32 and 64 bits; beyond the range the C++ standard leaves
  the behaviour undefined), an `int` loop whose upper limit is `INT_MAX` does
  not end (`LoopCounterOverflow`), and `vtkMath::Floor`, which returns an
  `int`, is a parameter.  The lemmas `Machine_..._eq` show that the two
  embeddings agree where every value is a value of its type.  The `int`
  product `numPts` of `Crop` and the `vtkIdType` product of `AllocateScalars`
  are written with `wrapInt32` as well.
* The attribute containers (`vtkPointData`, `vtkCellData`) are external
  collaborators: a container is the record `vtkDataSetAttributes` of what it
  has room for, how many tuples it holds and the tuple stored under each id.
  `Crop` takes the point data and the cell data of the grid as arguments and
  returns them with the grid.
* A pointer into a scalar array is the offset of the value it points to; the
  scan-line loop returns the output array together with the list of the
  assignments it made, in order.
-/

namespace VTK

/-- The id type of VTK (a signed integer type). -/
abbrev vtkIdType := Int

/-- The member `int Extent[6]`: `[xmin, xmax, ymin, ymax, zmin, zmax]`,
that is `extent[0] .. extent[5]`. -/
structure Extent6 where
  xmin : Int
  xmax : Int
  ymin : Int
  ymax : Int
  zmin : Int
  zmax : Int
deriving DecidableEq, Repr

/-- What the grid observes of an attribute array: the values returned by
`GetNumberOfComponents()`, `GetNumberOfTuples()` and `GetMaxId()`. -/
structure vtkDataArray where
  NumberOfComponents : Int
  NumberOfTuples : vtkIdType
  MaxId : vtkIdType
deriving DecidableEq, Repr

/-- The messages the embedded methods pass to `vtkErrorMacro`, one constructor
per call site, with the values the message prints. -/
inductive ErrorMessage where
  /-- ComputeIncrements: "No Scalar Field has been specified - assuming 1 component!" -/
  | NoScalarField
  /-- GetScalarPointer: "Pixel (...) not in memory. Current extent= (...)" -/
  | ScalarPointerNotInMemory (coordinate : Int × Int × Int) (extent : Extent6)
  /-- GetScalarIndex: "Pixel (...) not in memory. Current extent= (...)" -/
  | ScalarIndexNotInMemory (coordinate : Int × Int × Int) (extent : Extent6)
  /-- GetTupleIndex: "GetPointer: Pixel (...) not in current extent: (...)" -/
  | PixelNotInCurrentExtent (coordinate : Int × Int × Int) (extent : Extent6)
  /-- GetTupleIndex: "Coordinate (...) out side of array (max = ...)" -/
  | CoordinateOutSideOfArray (coordinate : Int × Int × Int) (maxId : vtkIdType)
  /-- SetExtent: "Bad Extent, retaining previous values" -/
  | BadExtent
  /-- GetIJKMinForCellId, GetIJKMaxForIJKMin: "Requesting a cell from an empty image." -/
  | RequestingCellFromEmptyImage
  /-- GetIJKMinForCellId, GetIJKMaxForIJKMin, GetCellTemplateForDataDescription:
  "Invalid DataDescription." -/
  | InvalidDataDescription
  /-- GetPoint: "Requesting a point from an empty image." -/
  | RequestingPointFromEmptyImage
deriving DecidableEq, Repr

/-- Modelled from the spec: the classification codes are declared in
`vtkStructuredData.h`, outside the sources at hand.  The spec names the
classifications (unchanged, single point, three lines, three planes, grid,
empty); the values are those of the header.  The proofs use only that they are
distinct and not negative. -/
def VTK_UNCHANGED : Int := 0

/-- Modelled from the spec: see `VTK_UNCHANGED`. -/
def VTK_SINGLE_POINT : Int := 1

/-- Modelled from the spec: see `VTK_UNCHANGED`. -/
def VTK_X_LINE : Int := 2

/-- Modelled from the spec: see `VTK_UNCHANGED`. -/
def VTK_Y_LINE : Int := 3

/-- Modelled from the spec: see `VTK_UNCHANGED`. -/
def VTK_Z_LINE : Int := 4

/-- Modelled from the spec: see `VTK_UNCHANGED`. -/
def VTK_XY_PLANE : Int := 5

/-- Modelled from the spec: see `VTK_UNCHANGED`. -/
def VTK_YZ_PLANE : Int := 6

/-- Modelled from the spec: see `VTK_UNCHANGED`. -/
def VTK_XZ_PLANE : Int := 7

/-- Modelled from the spec: see `VTK_UNCHANGED`. -/
def VTK_XYZ_GRID : Int := 8

/-- Modelled from the spec: see `VTK_UNCHANGED`. -/
def VTK_EMPTY : Int := 9

/-- A `double bounds[6]`: `[xmin, xmax, ymin, ymax, zmin, zmax]`, that is
`bounds[0] .. bounds[5]`. -/
structure Bounds6 where
  xmin : ℚ
  xmax : ℚ
  ymin : ℚ
  ymax : ℚ
  zmin : ℚ
  zmax : ℚ
deriving DecidableEq, Repr

/-- Modelled from the spec: `vtkMath::UninitializeBounds` is outside the sources at
hand; it writes the "uninitialized" sentinel, whose minimum is greater than its
maximum on each axis: `(1, -1, 1, -1, 1, -1)`. -/
def UninitializeBounds : Bounds6 := ⟨1, -1, 1, -1, 1, -1⟩

/-- What the grid observes of its `vtkMatrix3x3* DirectionMatrix`: the nine elements
and the matrix's own modification time. -/
structure vtkMatrix3x3 where
  Element : Matrix (Fin 3) (Fin 3) ℚ
  MTime : Nat
deriving DecidableEq, Repr

/-- The members of `vtkImageData` that the embedded methods read or write.
`Scalars` is `this->GetPointData()->GetScalars()` (absent = `nullptr`);
`ErrorLog` collects what was reported through `vtkErrorMacro`.  The members added
after `ErrorLog` default to the values the constructor gives them. -/
structure vtkImageData where
  Extent : Extent6
  Dimensions : Int × Int × Int
  Scalars : Option vtkDataArray
  ErrorLog : List ErrorMessage
  /-- The dimensionality classification, one of the `VTK_...` codes. -/
  DataDescription : Int := VTK_EMPTY
  /-- Whether the member `Vertex` holds a cell primitive (is not `nullptr`). -/
  Vertex : Bool := false
  /-- Whether the member `Line` holds a cell primitive. -/
  Line : Bool := false
  /-- Whether the member `Pixel` holds a cell primitive. -/
  Pixel : Bool := false
  /-- Whether the member `Voxel` holds a cell primitive. -/
  Voxel : Bool := false
  Origin : ℚ × ℚ × ℚ := (0, 0, 0)
  Spacing : ℚ × ℚ × ℚ := (1, 1, 1)
  DirectionMatrix : vtkMatrix3x3 := ⟨1, 0⟩
  IndexToPhysicalMatrix : Matrix (Fin 4) (Fin 4) ℚ := 1
  PhysicalToIndexMatrix : Matrix (Fin 4) (Fin 4) ℚ := 1
  Bounds : Bounds6 := UninitializeBounds
  /-- The modification time `GetMTime()` reports. -/
  MTime : Nat := 0
  /-- The time stamp of the last bounds computation. -/
  ComputeTime : Nat := 0
deriving DecidableEq, Repr

/-- What a pointer-returning method hands back: the null pointer, or whatever
`array->GetVoidPointer(valueIdx)` yields for the value index it was asked for. -/
inductive VoidPointer where
  | nullptr
  | GetVoidPointer (array : vtkDataArray) (valueIdx : vtkIdType)
deriving DecidableEq, Repr

/-- Ways in which a call leaves defined behaviour. -/
inductive Fault where
  /-- A member function was invoked through a null `vtkDataArray*`. -/
  | NullArrayDereference
  /-- An integer `/` or `%` was evaluated with divisor 0. -/
  | DivisionByZero
  /-- A `/` of two doubles was evaluated with divisor 0. -/
  | DoubleDivisionByZero
  /-- An `int` loop counter was incremented at `INT_MAX` in a loop whose test cannot fail. -/
  | LoopCounterOverflow
deriving DecidableEq, Repr

namespace vtkImageData

/-- Modelled from the spec: `vtkErrorMacro` is defined outside the sources at
hand; section 7 describes it as a non-fatal log entry, after which the method
goes on to return its sentinel.  Here it appends the message to the log. -/
def vtkErrorMacro (self : vtkImageData) (msg : ErrorMessage) : vtkImageData :=
  { self with ErrorLog := self.ErrorLog ++ [msg] }

/-- The loop test of the three pointer/index methods:
`coordinate[idx] < extent[idx*2] || coordinate[idx] > extent[idx*2+1]`
for `idx = 0, 1, 2` (the loop returns at the first axis where it holds). -/
def OutOfExtent (extent : Extent6) (coordinate : Int × Int × Int) : Prop :=
  (coordinate.1 < extent.xmin ∨ coordinate.1 > extent.xmax) ∨
  (coordinate.2.1 < extent.ymin ∨ coordinate.2.1 > extent.ymax) ∨
  (coordinate.2.2 < extent.zmin ∨ coordinate.2.2 > extent.zmax)

instance (extent : Extent6) (coordinate : Int × Int × Int) :
    Decidable (OutOfExtent extent coordinate) := by
  unfold OutOfExtent; infer_instance

/-- The tuple increments of `GetTupleIndex`:
`incs[0] = 1; incs[1] = extent[1]-extent[0]+1; incs[2] = incs[1]*(extent[3]-extent[2]+1)`. -/
def GetTupleIndex.incs (extent : Extent6) : vtkIdType × vtkIdType × vtkIdType :=
  let incs0 : vtkIdType := 1
  let incs1 : vtkIdType := extent.xmax - extent.xmin + 1
  let incs2 : vtkIdType := incs1 * (extent.ymax - extent.ymin + 1)
  (incs0, incs1, incs2)

/-- The index expression of `GetTupleIndex`:
`(coordinate[0]-extent[0])*incs[0] + (coordinate[1]-extent[2])*incs[1]
 + (coordinate[2]-extent[4])*incs[2]`. -/
def GetTupleIndex.idx (extent : Extent6) (coordinate : Int × Int × Int) : vtkIdType :=
  let incs := GetTupleIndex.incs extent
  (coordinate.1 - extent.xmin) * incs.1 + (coordinate.2.1 - extent.ymin) * incs.2.1 +
    (coordinate.2.2 - extent.zmin) * incs.2.2

/-- `vtkIdType vtkImageData::GetTupleIndex(vtkDataArray* array, int coordinate[3])`. -/
def GetTupleIndex (self : vtkImageData) (array : Option vtkDataArray)
    (coordinate : Int × Int × Int) : vtkIdType × vtkImageData :=
  match array with
  | none => (-1, self)
  | some array =>
    let extent := self.Extent
    if OutOfExtent extent coordinate then
      (-1, self.vtkErrorMacro (.PixelNotInCurrentExtent coordinate extent))
    else
      let idx := GetTupleIndex.idx extent coordinate
      if idx < 0 ∨ idx > array.MaxId then
        (-1, self.vtkErrorMacro (.CoordinateOutSideOfArray coordinate array.MaxId))
      else
        (idx, self)

/-- `void* vtkImageData::GetArrayPointer(vtkDataArray* array, int coordinate[3])`:
`return array->GetVoidPointer(array->GetNumberOfComponents() * this->GetTupleIndex(array, coordinate));`
with no test of `array` and none of the index. -/
def GetArrayPointer (self : vtkImageData) (array : Option vtkDataArray)
    (coordinate : Int × Int × Int) : Except Fault (VoidPointer × vtkImageData) :=
  match array with
  | none => .error .NullArrayDereference
  | some a =>
    let r := self.GetTupleIndex (some a) coordinate
    .ok (.GetVoidPointer a (a.NumberOfComponents * r.1), r.2)

/-- `void* vtkImageData::GetScalarPointer(int coordinate[3])`. -/
def GetScalarPointer (self : vtkImageData) (coordinate : Int × Int × Int) :
    Except Fault (VoidPointer × vtkImageData) :=
  match self.Scalars with
  | none => .ok (.nullptr, self)
  | some scalars =>
    let extent := self.Extent
    if OutOfExtent extent coordinate then
      .ok (.nullptr, self.vtkErrorMacro (.ScalarPointerNotInMemory coordinate extent))
    else
      self.GetArrayPointer (some scalars) coordinate

/-- `vtkIdType vtkImageData::GetScalarIndex(int coordinate[3])`. -/
def GetScalarIndex (self : vtkImageData) (coordinate : Int × Int × Int) :
    vtkIdType × vtkImageData :=
  match self.Scalars with
  | none => (-1, self)
  | some scalars =>
    let extent := self.Extent
    if OutOfExtent extent coordinate then
      (-1, self.vtkErrorMacro (.ScalarIndexNotInMemory coordinate extent))
    else
      self.GetTupleIndex (some scalars) coordinate

/-- `void vtkImageData::GetDimensions(vtkIdType dims[3])`.
Over the mathematical integers;
`Machine.GetDimensions_dims` is the same method with the width of the integer types. -/
def GetDimensions_dims (self : vtkImageData) : vtkIdType × vtkIdType × vtkIdType :=
  let extent := self.Extent
  (extent.xmax - extent.xmin + 1, extent.ymax - extent.ymin + 1, extent.zmax - extent.zmin + 1)

/-- The loop of `GetNumberOfCells` over the remaining `dims[i]`, carrying `nCells`:
`if (dims[i] == 0) return 0; if (dims[i] > 1) nCells *= (dims[i] - 1);`. -/
def GetNumberOfCells.loop : List vtkIdType → vtkIdType → vtkIdType
  | [], nCells => nCells
  | d :: rest, nCells =>
    if d = 0 then 0
    else GetNumberOfCells.loop rest (if d > 1 then nCells * (d - 1) else nCells)

/-- `vtkIdType vtkImageData::GetNumberOfCells()`.
Over the mathematical integers;
`Machine.GetNumberOfCells` is the same method with the width of the integer types. -/
def GetNumberOfCells (self : vtkImageData) : vtkIdType :=
  let nCells : vtkIdType := 1
  let extent := self.Extent
  let dims0 : vtkIdType := extent.xmax - extent.xmin + 1
  let dims1 : vtkIdType := extent.ymax - extent.ymin + 1
  let dims2 : vtkIdType := extent.zmax - extent.zmin + 1
  GetNumberOfCells.loop [dims0, dims1, dims2] nCells

/-- `void vtkImageData::ComputeIncrements(int numberOfComponents, vtkIdType inc[3])`:
`incr = numberOfComponents; for idx: inc[idx] = incr; incr *= extent[idx*2+1]-extent[idx*2]+1`.
Over the mathematical integers;
`Machine.ComputeIncrements_numberOfComponents` is the same method with the width of the integer types. -/
def ComputeIncrements_numberOfComponents (self : vtkImageData) (numberOfComponents : Int) :
    vtkIdType × vtkIdType × vtkIdType :=
  let extent := self.Extent
  let incr0 : vtkIdType := numberOfComponents
  let inc0 := incr0
  let incr1 := incr0 * (extent.xmax - extent.xmin + 1)
  let inc1 := incr1
  let incr2 := incr1 * (extent.ymax - extent.ymin + 1)
  let inc2 := incr2
  (inc0, inc1, inc2)

/-- `void vtkImageData::ComputeIncrements(vtkDataArray* scalars, vtkIdType inc[3])`. -/
def ComputeIncrements_scalars (self : vtkImageData) (scalars : Option vtkDataArray) :
    (vtkIdType × vtkIdType × vtkIdType) × vtkImageData :=
  match scalars with
  | none =>
    let self1 := self.vtkErrorMacro .NoScalarField
    (self1.ComputeIncrements_numberOfComponents 1, self1)
  | some scalars => (self.ComputeIncrements_numberOfComponents scalars.NumberOfComponents, self)

/-- `void vtkImageData::ComputeIncrements(vtkIdType inc[3])`, on the active scalars. -/
def ComputeIncrements (self : vtkImageData) :
    (vtkIdType × vtkIdType × vtkIdType) × vtkImageData :=
  self.ComputeIncrements_scalars self.Scalars

/-- `void vtkImageData::GetContinuousIncrements(vtkDataArray* scalars, int extent[6],
vtkIdType& incX, vtkIdType& incY, vtkIdType& incZ)`; the result is `(incX, incY, incZ)`. -/
def GetContinuousIncrements_scalars (self : vtkImageData) (scalars : Option vtkDataArray)
    (extent : Extent6) : (vtkIdType × vtkIdType × vtkIdType) × vtkImageData :=
  let incX : vtkIdType := 0
  let selfExtent := self.Extent
  let e0 := if extent.xmin < selfExtent.xmin then selfExtent.xmin else extent.xmin
  let e1 := if extent.xmax > selfExtent.xmax then selfExtent.xmax else extent.xmax
  let e2 := if extent.ymin < selfExtent.ymin then selfExtent.ymin else extent.ymin
  let e3 := if extent.ymax > selfExtent.ymax then selfExtent.ymax else extent.ymax
  let r := self.ComputeIncrements_scalars scalars
  let inc := r.1
  let incY := inc.2.1 - (e1 - e0 + 1) * inc.1
  let incZ := inc.2.2 - (e3 - e2 + 1) * inc.2.1
  ((incX, incY, incZ), r.2)

/-- `void vtkImageData::GetContinuousIncrements(int extent[6], vtkIdType& incX,
vtkIdType& incY, vtkIdType& incZ)`, on the active scalars. -/
def GetContinuousIncrements (self : vtkImageData) (extent : Extent6) :
    (vtkIdType × vtkIdType × vtkIdType) × vtkImageData :=
  self.GetContinuousIncrements_scalars self.Scalars extent

/-- The integer tail of `vtkIdType vtkImageData::FindPoint(double x[3])`, from the
rounded location `loc` on: the extent test that returns -1, the shift by the extent
minimum, and `return loc[2] * dims[0] * dims[1] + loc[1] * dims[0] + loc[0];`
with `dims` from `GetDimensions(vtkIdType dims[3])`. -/
def FindPoint.pointId (self : vtkImageData) (loc : Int × Int × Int) : vtkIdType :=
  let dims := self.GetDimensions_dims
  let extent := self.Extent
  if loc.1 < extent.xmin ∨ loc.1 > extent.xmax ∨ loc.2.1 < extent.ymin ∨
      loc.2.1 > extent.ymax ∨ loc.2.2 < extent.zmin ∨ loc.2.2 > extent.zmax then
    -1
  else
    let loc0 := loc.1 - extent.xmin
    let loc1 := loc.2.1 - extent.ymin
    let loc2 := loc.2.2 - extent.zmin
    loc2 * dims.1 * dims.2.1 + loc1 * dims.1 + loc0

/-- A grid with the given extent and scalars whose cached `Dimensions` are the ones
derived from the extent, and with nothing reported yet. -/
def ofExtent (extent : Extent6) (scalars : Option vtkDataArray) : vtkImageData :=
  { Extent := extent
    Dimensions := (extent.xmax - extent.xmin + 1, extent.ymax - extent.ymin + 1,
      extent.zmax - extent.zmin + 1)
    Scalars := scalars
    ErrorLog := [] }

/-- The grid points of an extent: the coordinates inside `[min, max]` on all three axes. -/
def GridPoints (extent : Extent6) : Set (Int × Int × Int) :=
  {c | (extent.xmin ≤ c.1 ∧ c.1 ≤ extent.xmax) ∧ (extent.ymin ≤ c.2.1 ∧ c.2.1 ≤ extent.ymax) ∧
    (extent.zmin ≤ c.2.2 ∧ c.2.2 ≤ extent.zmax)}

/-- Modelled from the spec: `Modified()` belongs to the base object, outside the
sources at hand; per section 4.1 it marks the grid modified.  Here the modification
time moves past every time stamp the grid holds. -/
def Modified (self : vtkImageData) : vtkImageData :=
  { self with MTime := max self.MTime self.ComputeTime + 1 }

/-- `void vtkImageData::SetDataDescription(int desc)`. -/
def SetDataDescription (self : vtkImageData) (desc : Int) : vtkImageData :=
  if desc = self.DataDescription then self
  else
    let self1 := { self with DataDescription := desc }
    let self2 := { self1 with Vertex := false, Line := false, Pixel := false, Voxel := false }
    if self2.DataDescription = VTK_SINGLE_POINT then { self2 with Vertex := true }
    else if self2.DataDescription = VTK_X_LINE ∨ self2.DataDescription = VTK_Y_LINE ∨
        self2.DataDescription = VTK_Z_LINE then { self2 with Line := true }
    else if self2.DataDescription = VTK_XY_PLANE ∨ self2.DataDescription = VTK_YZ_PLANE ∨
        self2.DataDescription = VTK_XZ_PLANE then { self2 with Pixel := true }
    else if self2.DataDescription = VTK_XYZ_GRID then { self2 with Voxel := true }
    else self2

/-- Modelled from the spec: `vtkStructuredData::GetDimensionsFromExtent` is outside the
sources at hand; per section 3, "Dimensions are `max-min+1` per axis". -/
def GetDimensionsFromExtent (ext : Extent6) : Int × Int × Int :=
  (ext.xmax - ext.xmin + 1, ext.ymax - ext.ymin + 1, ext.zmax - ext.zmin + 1)

/-- `void vtkImageData::SetExtent(int* extent)`.  The validation step
`vtkStructuredData::SetExtent(extent, this->Extent)` is outside the sources at hand and
is the parameter `structuredSetExtent`: from the requested and the stored extent it
yields the description it returns and the stored extent it leaves behind. -/
def SetExtent (structuredSetExtent : Extent6 → Extent6 → Int × Extent6) (self : vtkImageData)
    (extent : Extent6) : vtkImageData :=
  let r := structuredSetExtent extent self.Extent
  let description := r.1
  let self1 := { self with Extent := r.2 }
  let self2 := if description < 0 then self1.vtkErrorMacro .BadExtent else self1
  if description = VTK_UNCHANGED then self2
  else
    let self3 := { self2 with Dimensions := GetDimensionsFromExtent extent }
    let self4 := self3.SetDataDescription description
    self4.Modified

/-- `void vtkImageData::SetExtent(int x1, int x2, int y1, int y2, int z1, int z2)`. -/
def SetExtent_x1 (structuredSetExtent : Extent6 → Extent6 → Int × Extent6)
    (self : vtkImageData) (x1 x2 y1 y2 z1 z2 : Int) : vtkImageData :=
  self.SetExtent structuredSetExtent ⟨x1, x2, y1, y2, z1, z2⟩

/-- `void vtkImageData::SetDimensions(int i, int j, int k)`. -/
def SetDimensions (structuredSetExtent : Extent6 → Extent6 → Int × Extent6)
    (self : vtkImageData) (i j k : Int) : vtkImageData :=
  self.SetExtent_x1 structuredSetExtent 0 (i - 1) 0 (j - 1) 0 (k - 1)

/-- `void vtkImageData::Initialize()`.  Modelled from the spec: the superclass part
belongs to the attribute containers, which section 1 places outside the grid; it is
taken to release the attribute data and to leave the grid's own members alone. -/
def Initialize (structuredSetExtent : Extent6 → Extent6 → Int × Extent6)
    (self : vtkImageData) : vtkImageData :=
  let self1 := { self with Scalars := none }
  self1.SetDimensions structuredSetExtent 0 0 0

end vtkImageData

/-- Modelled from the spec: `vtkMatrix3x3::SetElement` belongs to the matrix primitives,
which section 1 treats as a black box; it stores the value and marks the matrix modified
when the stored value differs. -/
def vtkMatrix3x3.SetElement (m : vtkMatrix3x3) (i j : Fin 3) (value : ℚ) : vtkMatrix3x3 :=
  if m.Element i j ≠ value then
    { Element := fun r c => if r = i ∧ c = j then value else m.Element r c, MTime := m.MTime + 1 }
  else m

/-- Modelled from the spec: `vtkMatrix3x3::DeepCopy` (matrix primitive, section 1) copies
the nine elements of the source and marks the matrix modified. -/
def vtkMatrix3x3.DeepCopy (m source : vtkMatrix3x3) : vtkMatrix3x3 :=
  { Element := source.Element, MTime := m.MTime + 1 }

/-- Modelled from the spec: `vtkMatrix3x3::IsIdentity` (matrix primitive, section 1). -/
def vtkMatrix3x3.IsIdentity (m : vtkMatrix3x3) : Bool :=
  decide (m.Element = 1)

/-- Modelled from the spec: `vtkMatrix4x4::SetElement` (matrix primitive, section 1). -/
def vtkMatrix4x4.SetElement {K : Type} (m : Matrix (Fin 4) (Fin 4) K) (i j : Fin 4) (value : K) :
    Matrix (Fin 4) (Fin 4) K :=
  fun r c => if r = i ∧ c = j then value else m r c

/-- Modelled from the spec: `vtkMatrix4x4::Invert(in, out)` is a matrix primitive outside
the sources at hand; per section 4.2 it "computes inverse via exact 4×4 inversion".  The
inverse is the adjugate divided by the determinant; a matrix with determinant 0 has no
inverse and `out` is left as it was. -/
def vtkMatrix4x4.Invert (m out : Matrix (Fin 4) (Fin 4) ℚ) : Matrix (Fin 4) (Fin 4) ℚ :=
  if m.det = 0 then out else (m.det)⁻¹ • m.adjugate

/-- Modelled from the spec: `vtkMath::Normalize` is outside the sources at hand; it
divides the vector by its Euclidean length and leaves a vector of length 0 alone.  The
square root it takes is the parameter `sqrt`. -/
def vtkMath.Normalize {K : Type} [Field K] [DecidableEq K] (sqrt : K → K) (v : K × K × K) :
    K × K × K :=
  let den := sqrt (v.1 * v.1 + v.2.1 * v.2.1 + v.2.2 * v.2.2)
  if den ≠ 0 then (v.1 / den, v.2.1 / den, v.2.2 / den) else v

/-- The static template `TransformCoordinates(input0, input1, input2, output, m4)`:
`output[r] = mdata[4r]*input0 + mdata[4r+1]*input1 + mdata[4r+2]*input2 + mdata[4r+3]`
for `r = 0, 1, 2`. -/
def TransformCoordinates {K : Type} [Field K] (input0 input1 input2 : K)
    (m4 : Matrix (Fin 4) (Fin 4) K) : K × K × K :=
  (m4 0 0 * input0 + m4 0 1 * input1 + m4 0 2 * input2 + m4 0 3,
    m4 1 0 * input0 + m4 1 1 * input1 + m4 1 2 * input2 + m4 1 3,
    m4 2 0 * input0 + m4 2 1 * input1 + m4 2 2 * input2 + m4 2 3)

/-- The static template `TransformNormal(input0, input1, input2, output, m4)`:
`output[c] = mdata[c]*input0 + mdata[4+c]*input1 + mdata[8+c]*input2` for `c = 0, 1, 2`. -/
def TransformNormal {K : Type} [Field K] (input0 input1 input2 : K)
    (m4 : Matrix (Fin 4) (Fin 4) K) : K × K × K :=
  (m4 0 0 * input0 + m4 1 0 * input1 + m4 2 0 * input2,
    m4 0 1 * input0 + m4 1 1 * input1 + m4 2 1 * input2,
    m4 0 2 * input0 + m4 1 2 * input1 + m4 2 2 * input2)

/-- The body of `TransformPhysicalPlaneToContinuousIndex(normal, xnormal)` over the two
cached matrices it reads; `normal` and the result are `(n0, n1, n2, d)`. -/
def TransformPhysicalPlaneToContinuousIndex_matrices {K : Type} [Field K] [DecidableEq K]
    (sqrt : K → K) (IndexToPhysicalMatrix PhysicalToIndexMatrix : Matrix (Fin 4) (Fin 4) K)
    (normal : K × K × K × K) : K × K × K × K :=
  let xn := TransformNormal normal.1 normal.2.1 normal.2.2.1 IndexToPhysicalMatrix
  let xn := vtkMath.Normalize sqrt xn
  let newPt := TransformCoordinates (-normal.2.2.2 * normal.1) (-normal.2.2.2 * normal.2.1)
    (-normal.2.2.2 * normal.2.2.1) PhysicalToIndexMatrix
  let xnormal3 := -xn.1 * newPt.1 - xn.2.1 * newPt.2.1 - xn.2.2 * newPt.2.2
  (xn.1, xn.2.1, xn.2.2, xnormal3)

namespace vtkImageData

/-- The general branch of `ComputeTransforms`: on a fresh `vtkMatrix4x4` (the identity)
the nine `m3[3r+c] * Spacing[c]` and the last row `0 0 0 1`. -/
def ComputeTransforms.generalPath (direction : Matrix (Fin 3) (Fin 3) ℚ) (spacing : ℚ × ℚ × ℚ) :
    Matrix (Fin 4) (Fin 4) ℚ :=
  let m4 : Matrix (Fin 4) (Fin 4) ℚ := 1
  let m4 := vtkMatrix4x4.SetElement m4 0 0 (direction 0 0 * spacing.1)
  let m4 := vtkMatrix4x4.SetElement m4 0 1 (direction 0 1 * spacing.2.1)
  let m4 := vtkMatrix4x4.SetElement m4 0 2 (direction 0 2 * spacing.2.2)
  let m4 := vtkMatrix4x4.SetElement m4 1 0 (direction 1 0 * spacing.1)
  let m4 := vtkMatrix4x4.SetElement m4 1 1 (direction 1 1 * spacing.2.1)
  let m4 := vtkMatrix4x4.SetElement m4 1 2 (direction 1 2 * spacing.2.2)
  let m4 := vtkMatrix4x4.SetElement m4 2 0 (direction 2 0 * spacing.1)
  let m4 := vtkMatrix4x4.SetElement m4 2 1 (direction 2 1 * spacing.2.1)
  let m4 := vtkMatrix4x4.SetElement m4 2 2 (direction 2 2 * spacing.2.2)
  let m4 := vtkMatrix4x4.SetElement m4 3 0 0
  let m4 := vtkMatrix4x4.SetElement m4 3 1 0
  let m4 := vtkMatrix4x4.SetElement m4 3 2 0
  vtkMatrix4x4.SetElement m4 3 3 1

/-- The identity-direction branch of `ComputeTransforms`: `m4->Zero()`, then the spacing
on the diagonal and `1` at `(3, 3)`. -/
def ComputeTransforms.identityPath (spacing : ℚ × ℚ × ℚ) : Matrix (Fin 4) (Fin 4) ℚ :=
  let m4 : Matrix (Fin 4) (Fin 4) ℚ := 0
  let m4 := vtkMatrix4x4.SetElement m4 0 0 spacing.1
  let m4 := vtkMatrix4x4.SetElement m4 1 1 spacing.2.1
  let m4 := vtkMatrix4x4.SetElement m4 2 2 spacing.2.2
  vtkMatrix4x4.SetElement m4 3 3 1

/-- `void vtkImageData::ComputeTransforms()`. -/
def ComputeTransforms (self : vtkImageData) : vtkImageData :=
  let m4 :=
    if self.DirectionMatrix.IsIdentity then ComputeTransforms.identityPath self.Spacing
    else ComputeTransforms.generalPath self.DirectionMatrix.Element self.Spacing
  let m4 := vtkMatrix4x4.SetElement m4 0 3 self.Origin.1
  let m4 := vtkMatrix4x4.SetElement m4 1 3 self.Origin.2.1
  let m4 := vtkMatrix4x4.SetElement m4 2 3 self.Origin.2.2
  { self with
    IndexToPhysicalMatrix := m4
    PhysicalToIndexMatrix := vtkMatrix4x4.Invert m4 self.PhysicalToIndexMatrix }

/-- The static `vtkImageData::ComputeIndexToPhysicalMatrix(origin, spacing, direction,
result)`; `direction[3i+c]` is `direction i c` and `result[4i+c]` is entry `(i, c)`. -/
def ComputeIndexToPhysicalMatrix (origin spacing : ℚ × ℚ × ℚ)
    (direction : Matrix (Fin 3) (Fin 3) ℚ) : Matrix (Fin 4) (Fin 4) ℚ :=
  fun r c =>
    match r, c with
    | 0, 0 => direction 0 0 * spacing.1
    | 0, 1 => direction 0 1 * spacing.2.1
    | 0, 2 => direction 0 2 * spacing.2.2
    | 1, 0 => direction 1 0 * spacing.1
    | 1, 1 => direction 1 1 * spacing.2.1
    | 1, 2 => direction 1 2 * spacing.2.2
    | 2, 0 => direction 2 0 * spacing.1
    | 2, 1 => direction 2 1 * spacing.2.1
    | 2, 2 => direction 2 2 * spacing.2.2
    | 0, 3 => origin.1
    | 1, 3 => origin.2.1
    | 2, 3 => origin.2.2
    | 3, 0 => 0
    | 3, 1 => 0
    | 3, 2 => 0
    | 3, 3 => 1

/-- `void vtkImageData::SetSpacing(double i, double j, double k)`; `vtkDebugMacro` prints
only when debugging is switched on and changes nothing. -/
def SetSpacing (self : vtkImageData) (i j k : ℚ) : vtkImageData :=
  if self.Spacing.1 ≠ i ∨ self.Spacing.2.1 ≠ j ∨ self.Spacing.2.2 ≠ k then
    let self1 := { self with Spacing := (i, j, k) }
    self1.ComputeTransforms.Modified
  else self

/-- `void vtkImageData::SetOrigin(double i, double j, double k)`. -/
def SetOrigin (self : vtkImageData) (i j k : ℚ) : vtkImageData :=
  if self.Origin.1 ≠ i ∨ self.Origin.2.1 ≠ j ∨ self.Origin.2.2 ≠ k then
    let self1 := { self with Origin := (i, j, k) }
    self1.ComputeTransforms.Modified
  else self

/-- `void vtkImageData::SetDirectionMatrix(double e00, ..., double e22)`: the nine
`SetElement` calls act on the grid's own matrix object. -/
def SetDirectionMatrix_e00 (self : vtkImageData) (e00 e01 e02 e10 e11 e12 e20 e21 e22 : ℚ) :
    vtkImageData :=
  let m3 := self.DirectionMatrix
  let lastModified := m3.MTime
  let m3 := m3.SetElement 0 0 e00
  let m3 := m3.SetElement 0 1 e01
  let m3 := m3.SetElement 0 2 e02
  let m3 := m3.SetElement 1 0 e10
  let m3 := m3.SetElement 1 1 e11
  let m3 := m3.SetElement 1 2 e12
  let m3 := m3.SetElement 2 0 e20
  let m3 := m3.SetElement 2 1 e21
  let m3 := m3.SetElement 2 2 e22
  let self1 := { self with DirectionMatrix := m3 }
  if lastModified < m3.MTime then self1.ComputeTransforms.Modified else self1

/-- `void vtkImageData::SetDirectionMatrix(const double elements[9])`. -/
def SetDirectionMatrix_elements (self : vtkImageData) (elements : Matrix (Fin 3) (Fin 3) ℚ) :
    vtkImageData :=
  self.SetDirectionMatrix_e00 (elements 0 0) (elements 0 1) (elements 0 2) (elements 1 0)
    (elements 1 1) (elements 1 2) (elements 2 0) (elements 2 1) (elements 2 2)

/-- The constructor `vtkImageData::vtkImageData()`. -/
def New : vtkImageData :=
  let self0 : vtkImageData :=
    { Extent := ⟨0, -1, 0, -1, 0, -1⟩
      Dimensions := (0, 0, 0)
      Scalars := none
      ErrorLog := []
      DataDescription := VTK_EMPTY
      Vertex := false
      Line := false
      Pixel := false
      Voxel := false
      Origin := (0, 0, 0)
      Spacing := (1, 1, 1)
      DirectionMatrix := ⟨1, 0⟩ }
  self0.ComputeTransforms

/-- `void vtkImageData::CopyStructure(vtkDataSet* ds)`. -/
def CopyStructure (structuredSetExtent : Extent6 → Extent6 → Int × Extent6)
    (self sPts : vtkImageData) : vtkImageData :=
  let self1 := self.Initialize structuredSetExtent
  let self2 :=
    { self1 with Dimensions := sPts.Dimensions, Spacing := sPts.Spacing, Origin := sPts.Origin }
  let self3 := { self2 with DirectionMatrix := self2.DirectionMatrix.DeepCopy sPts.DirectionMatrix }
  let self4 := self3.ComputeTransforms
  self4.SetExtent structuredSetExtent sPts.Extent

/-- `void vtkImageData::InternalImageDataCopy(vtkImageData* src)` (the member
`Increments` it also copies is not part of the embedding). -/
def InternalImageDataCopy (structuredSetExtent : Extent6 → Extent6 → Int × Extent6)
    (self src : vtkImageData) : vtkImageData :=
  let self1 :=
    { self with Dimensions := src.Dimensions, Origin := src.Origin, Spacing := src.Spacing }
  let self2 := { self1 with DirectionMatrix := self1.DirectionMatrix.DeepCopy src.DirectionMatrix }
  let self3 := self2.ComputeTransforms
  self3.SetExtent structuredSetExtent src.Extent

/-- `void vtkImageData::TransformContinuousIndexToPhysicalPoint(double i, double j,
double k, double xyz[3])`. -/
def TransformContinuousIndexToPhysicalPoint (self : vtkImageData) (i j k : ℚ) : ℚ × ℚ × ℚ :=
  TransformCoordinates i j k self.IndexToPhysicalMatrix

/-- `void vtkImageData::TransformIndexToPhysicalPoint(int i, int j, int k, double xyz[3])`. -/
def TransformIndexToPhysicalPoint (self : vtkImageData) (i j k : Int) : ℚ × ℚ × ℚ :=
  TransformCoordinates (i : ℚ) (j : ℚ) (k : ℚ) self.IndexToPhysicalMatrix

/-- `void vtkImageData::TransformPhysicalPointToContinuousIndex(double x, double y,
double z, double ijk[3])`. -/
def TransformPhysicalPointToContinuousIndex (self : vtkImageData) (x y z : ℚ) : ℚ × ℚ × ℚ :=
  TransformCoordinates x y z self.PhysicalToIndexMatrix

/-- `void vtkImageData::TransformPhysicalNormalToContinuousIndex(const double xyz[3],
double ijk[3])`. -/
def TransformPhysicalNormalToContinuousIndex (self : vtkImageData) (xyz : ℚ × ℚ × ℚ) :
    ℚ × ℚ × ℚ :=
  TransformNormal xyz.1 xyz.2.1 xyz.2.2 self.IndexToPhysicalMatrix

/-- `void vtkImageData::TransformPhysicalPlaneToContinuousIndex(double const normal[4],
double xnormal[4])`, with the square root of `vtkMath::Normalize` as a parameter. -/
def TransformPhysicalPlaneToContinuousIndex (sqrt : ℚ → ℚ) (self : vtkImageData)
    (normal : ℚ × ℚ × ℚ × ℚ) : ℚ × ℚ × ℚ × ℚ :=
  TransformPhysicalPlaneToContinuousIndex_matrices sqrt self.IndexToPhysicalMatrix
    self.PhysicalToIndexMatrix normal

/-- The C++ quotient `a / b` of two integers: truncated, and a fault when `b` is 0. -/
def cDiv (a b : Int) : Except Fault Int :=
  if b = 0 then .error .DivisionByZero else .ok (a.tdiv b)

/-- The C++ remainder `a % b` of two integers: truncated, and a fault when `b` is 0. -/
def cMod (a b : Int) : Except Fault Int :=
  if b = 0 then .error .DivisionByZero else .ok (a.tmod b)

/-- `bool vtkImageData::GetIJKMinForCellId(vtkIdType cellId, int ijkMin[3])`; the result
is the returned flag with `ijkMin`, and the grid after the call.
Over the mathematical integers;
`Machine.GetIJKMinForCellId` is the same method with the width of the integer types. -/
def GetIJKMinForCellId (self : vtkImageData) (cellId : vtkIdType) :
    Except Fault ((Bool × (Int × Int × Int)) × vtkImageData) :=
  let dims := self.GetDimensions_dims
  if dims.1 = 0 ∨ dims.2.1 = 0 ∨ dims.2.2 = 0 then
    .ok ((false, (0, 0, 0)), self.vtkErrorMacro .RequestingCellFromEmptyImage)
  else if self.DataDescription = VTK_EMPTY then .ok ((false, (0, 0, 0)), self)
  else if self.DataDescription = VTK_SINGLE_POINT then .ok ((true, (0, 0, 0)), self)
  else if self.DataDescription = VTK_X_LINE then .ok ((true, (cellId, 0, 0)), self)
  else if self.DataDescription = VTK_Y_LINE then .ok ((true, (0, cellId, 0)), self)
  else if self.DataDescription = VTK_Z_LINE then .ok ((true, (0, 0, cellId)), self)
  else if self.DataDescription = VTK_XY_PLANE then do
    let ijkMin0 ← cMod cellId (dims.1 - 1)
    let ijkMin1 ← cDiv cellId (dims.1 - 1)
    .ok ((true, (ijkMin0, ijkMin1, 0)), self)
  else if self.DataDescription = VTK_YZ_PLANE then do
    let ijkMin1 ← cMod cellId (dims.2.1 - 1)
    let ijkMin2 ← cDiv cellId (dims.2.1 - 1)
    .ok ((true, (0, ijkMin1, ijkMin2)), self)
  else if self.DataDescription = VTK_XZ_PLANE then do
    let ijkMin0 ← cMod cellId (dims.1 - 1)
    let ijkMin2 ← cDiv cellId (dims.1 - 1)
    .ok ((true, (ijkMin0, 0, ijkMin2)), self)
  else if self.DataDescription = VTK_XYZ_GRID then do
    let ijkMin0 ← cMod cellId (dims.1 - 1)
    let q ← cDiv cellId (dims.1 - 1)
    let ijkMin1 ← cMod q (dims.2.1 - 1)
    let ijkMin2 ← cDiv cellId ((dims.1 - 1) * (dims.2.1 - 1))
    .ok ((true, (ijkMin0, ijkMin1, ijkMin2)), self)
  else .ok ((false, (0, 0, 0)), self.vtkErrorMacro .InvalidDataDescription)

/-- `bool vtkImageData::GetIJKMaxForIJKMin(int ijkMin[3], int ijkMax[3])`; the result is
the returned flag with `ijkMax`, and the grid after the call.
Over the mathematical integers;
`Machine.GetIJKMaxForIJKMin` is the same method with the width of the integer types. -/
def GetIJKMaxForIJKMin (self : vtkImageData) (ijkMin : Int × Int × Int) :
    (Bool × (Int × Int × Int)) × vtkImageData :=
  let dims := self.GetDimensions_dims
  if dims.1 = 0 ∨ dims.2.1 = 0 ∨ dims.2.2 = 0 then
    ((false, (0, 0, 0)), self.vtkErrorMacro .RequestingCellFromEmptyImage)
  else if self.DataDescription = VTK_EMPTY then ((false, (0, 0, 0)), self)
  else if self.DataDescription = VTK_SINGLE_POINT then ((true, (0, 0, 0)), self)
  else if self.DataDescription = VTK_X_LINE then ((true, (ijkMin.1 + 1, 0, 0)), self)
  else if self.DataDescription = VTK_Y_LINE then ((true, (0, ijkMin.2.1 + 1, 0)), self)
  else if self.DataDescription = VTK_Z_LINE then ((true, (0, 0, ijkMin.2.2 + 1)), self)
  else if self.DataDescription = VTK_XY_PLANE then
    ((true, (ijkMin.1 + 1, ijkMin.2.1 + 1, 0)), self)
  else if self.DataDescription = VTK_YZ_PLANE then
    ((true, (0, ijkMin.2.1 + 1, ijkMin.2.2 + 1)), self)
  else if self.DataDescription = VTK_XZ_PLANE then
    ((true, (ijkMin.1 + 1, 0, ijkMin.2.2 + 1)), self)
  else if self.DataDescription = VTK_XYZ_GRID then
    ((true, (ijkMin.1 + 1, ijkMin.2.1 + 1, ijkMin.2.2 + 1)), self)
  else ((false, (0, 0, 0)), self.vtkErrorMacro .InvalidDataDescription)

/-- The values a loop `for (v = lo; v <= hi; v++)` runs through, in order. -/
def forRange (lo hi : Int) : List Int :=
  (List.range (hi + 1 - lo).toNat).map (fun (n : Nat) => lo + (n : Int))

/-- The values of `loc` that the triple loop shared by `AddPointsToCellTemplate` and
`GetCellBounds` runs through, in order: `loc[2]` outermost, `loc[0]` innermost. -/
def forLoc (ijkMin ijkMax : Int × Int × Int) : List (Int × Int × Int) :=
  (forRange ijkMin.2.2 ijkMax.2.2).flatMap fun loc2 =>
    (forRange ijkMin.2.1 ijkMax.2.1).flatMap fun loc1 =>
      (forRange ijkMin.1 ijkMax.1).map fun loc0 => (loc0, loc1, loc2)

/-- `void vtkImageData::AddPointsToCellTemplate(vtkCell* cell, int ijkMin[3], int
ijkMax[3])`: the list of `(idx, xyz)` the loop stores at positions `npts = 0, 1, 2, ...`
of the cell's `PointIds` and `Points`.
Over the mathematical integers;
`Machine.AddPointsToCellTemplate` is the same method with the width of the integer types. -/
def AddPointsToCellTemplate (self : vtkImageData) (ijkMin ijkMax : Int × Int × Int) :
    List (vtkIdType × (ℚ × ℚ × ℚ)) :=
  let extent := self.Extent
  let dims := self.GetDimensions_dims
  let d01 := dims.1 * dims.2.1
  (forLoc ijkMin ijkMax).map fun loc =>
    let k := loc.2.2 + extent.zmin
    let j := loc.2.1 + extent.ymin
    let i := loc.1 + extent.xmin
    let xyz := self.TransformIndexToPhysicalPoint i j k
    let idx := loc.1 + loc.2.1 * dims.1 + loc.2.2 * d01
    (idx, xyz)

/-- The six updates of the loop body of `GetCellBounds`:
`bounds[0] = (xyz[0] < bounds[0] ? xyz[0] : bounds[0]);` and so on. -/
def GetCellBounds.update (bounds : Bounds6) (xyz : ℚ × ℚ × ℚ) : Bounds6 :=
  { xmin := if xyz.1 < bounds.xmin then xyz.1 else bounds.xmin
    xmax := if xyz.1 > bounds.xmax then xyz.1 else bounds.xmax
    ymin := if xyz.2.1 < bounds.ymin then xyz.2.1 else bounds.ymin
    ymax := if xyz.2.1 > bounds.ymax then xyz.2.1 else bounds.ymax
    zmin := if xyz.2.2 < bounds.zmin then xyz.2.2 else bounds.zmin
    zmax := if xyz.2.2 > bounds.zmax then xyz.2.2 else bounds.zmax }

/-- The element `extent[idx]` of an `int extent[6]`. -/
def extentAt (extent : Extent6) (idx : Int) : Int :=
  if idx = 0 then extent.xmin
  else if idx = 1 then extent.xmax
  else if idx = 2 then extent.ymin
  else if idx = 3 then extent.ymax
  else if idx = 4 then extent.zmin
  else extent.zmax

/-- The identity-direction branch of `ComputeBounds`: the bounds from origin, spacing and
extent, with `swapXBounds = (spacing[0] < 0)` and so on. -/
def ComputeBounds.identityPath (self : vtkImageData) : Bounds6 :=
  let extent := self.Extent
  let origin := self.Origin
  let spacing := self.Spacing
  let swapXBounds : Int := if spacing.1 < 0 then 1 else 0
  let swapYBounds : Int := if spacing.2.1 < 0 then 1 else 0
  let swapZBounds : Int := if spacing.2.2 < 0 then 1 else 0
  { xmin := origin.1 + ((extentAt extent (0 + swapXBounds) : Int) : ℚ) * spacing.1
    ymin := origin.2.1 + ((extentAt extent (2 + swapYBounds) : Int) : ℚ) * spacing.2.1
    zmin := origin.2.2 + ((extentAt extent (4 + swapZBounds) : Int) : ℚ) * spacing.2.2
    xmax := origin.1 + ((extentAt extent (1 - swapXBounds) : Int) : ℚ) * spacing.1
    ymax := origin.2.1 + ((extentAt extent (3 - swapYBounds) : Int) : ℚ) * spacing.2.1
    zmax := origin.2.2 + ((extentAt extent (5 - swapZBounds) : Int) : ℚ) * spacing.2.2 }

/-- The array `ijkCorners[8][3]` of `ComputeBounds`. -/
def ComputeBounds.ijkCorners (extent : Extent6) : List (Int × Int × Int) :=
  let iMin := extent.xmin
  let iMax := extent.xmax
  let jMin := extent.ymin
  let jMax := extent.ymax
  let kMin := extent.zmin
  let kMax := extent.zmax
  [(iMin, jMin, kMin), (iMax, jMin, kMin), (iMin, jMax, kMin), (iMax, jMax, kMin),
    (iMin, jMin, kMax), (iMax, jMin, kMax), (iMin, jMax, kMax), (iMax, jMax, kMax)]

/-- The six `if` statements of the corner loop of `ComputeBounds`, on
`(xMin, xMax, yMin, yMax, zMin, zMax)`. -/
def ComputeBounds.update (b : Bounds6) (xyz : ℚ × ℚ × ℚ) : Bounds6 :=
  { xmin := if xyz.1 < b.xmin then xyz.1 else b.xmin
    xmax := if xyz.1 > b.xmax then xyz.1 else b.xmax
    ymin := if xyz.2.1 < b.ymin then xyz.2.1 else b.ymin
    ymax := if xyz.2.1 > b.ymax then xyz.2.1 else b.ymax
    zmin := if xyz.2.2 < b.zmin then xyz.2.2 else b.zmin
    zmax := if xyz.2.2 > b.zmax then xyz.2.2 else b.zmax }

/-- The general branch of `ComputeBounds`: the eight corners go through
`TransformIndexToPhysicalPoint` and the running minima and maxima start from
`VTK_DOUBLE_MAX` and `VTK_DOUBLE_MIN`. -/
def ComputeBounds.generalPath (VTK_DOUBLE_MAX VTK_DOUBLE_MIN : ℚ) (self : vtkImageData) :
    Bounds6 :=
  let init : Bounds6 := ⟨VTK_DOUBLE_MAX, VTK_DOUBLE_MIN, VTK_DOUBLE_MAX, VTK_DOUBLE_MIN,
    VTK_DOUBLE_MAX, VTK_DOUBLE_MIN⟩
  (ComputeBounds.ijkCorners self.Extent).foldl (fun b ijkCorner =>
    let xyz := self.TransformIndexToPhysicalPoint ijkCorner.1 ijkCorner.2.1 ijkCorner.2.2
    ComputeBounds.update b xyz) init

/-- `void vtkImageData::ComputeBounds()`.  Modelled from the spec: `ComputeTime.Modified()`
is the time-stamp primitive; after it the bounds count as computed for the current
modification time (section 4.6: recomputed only when the grid's modification time
exceeds the last bounds computation time). -/
def ComputeBounds (VTK_DOUBLE_MAX VTK_DOUBLE_MIN : ℚ) (self : vtkImageData) : vtkImageData :=
  if self.MTime ≤ self.ComputeTime then self
  else
    let extent := self.Extent
    let bounds :=
      if extent.xmin > extent.xmax ∨ extent.ymin > extent.ymax ∨ extent.zmin > extent.zmax then
        UninitializeBounds
      else if self.DirectionMatrix.IsIdentity then ComputeBounds.identityPath self
      else ComputeBounds.generalPath VTK_DOUBLE_MAX VTK_DOUBLE_MIN self
    { self with Bounds := bounds, ComputeTime := max self.MTime self.ComputeTime + 1 }

/-- Modelled from the spec: the classification `vtkStructuredData::SetExtent` derives
from an extent is outside the sources at hand.  Per section 4.1 it is "a total function
of which axes are degenerate": empty when some axis has `max < min`, else point, line,
plane or grid by the axes with `min < max`. -/
def GetDataDescriptionFromExtent (ext : Extent6) : Int :=
  if ext.xmin > ext.xmax ∨ ext.ymin > ext.ymax ∨ ext.zmin > ext.zmax then VTK_EMPTY
  else
    match decide (ext.xmin < ext.xmax), decide (ext.ymin < ext.ymax),
      decide (ext.zmin < ext.zmax) with
    | false, false, false => VTK_SINGLE_POINT
    | true, false, false => VTK_X_LINE
    | false, true, false => VTK_Y_LINE
    | false, false, true => VTK_Z_LINE
    | true, true, false => VTK_XY_PLANE
    | false, true, true => VTK_YZ_PLANE
    | true, false, true => VTK_XZ_PLANE
    | true, true, true => VTK_XYZ_GRID

/-- The grid with extent `[0,3,0,2,0,1]` as `SetExtent` leaves it after a successful
call: dimensions `4 x 3 x 2`, classified as a 3D grid and holding a voxel. -/
def volume432 : vtkImageData :=
  { ofExtent ⟨0, 3, 0, 2, 0, 1⟩ none with DataDescription := VTK_XYZ_GRID, Voxel := true }

/-- The classifications in which the x axis is not degenerate: x line, xy plane,
xz plane, 3D grid. -/
def SpansX (desc : Int) : Prop :=
  desc = VTK_X_LINE ∨ desc = VTK_XY_PLANE ∨ desc = VTK_XZ_PLANE ∨ desc = VTK_XYZ_GRID

/-- The classifications in which the y axis is not degenerate: y line, xy plane,
yz plane, 3D grid. -/
def SpansY (desc : Int) : Prop :=
  desc = VTK_Y_LINE ∨ desc = VTK_XY_PLANE ∨ desc = VTK_YZ_PLANE ∨ desc = VTK_XYZ_GRID

/-- The classifications in which the z axis is not degenerate: z line, yz plane,
xz plane, 3D grid. -/
def SpansZ (desc : Int) : Prop :=
  desc = VTK_Z_LINE ∨ desc = VTK_YZ_PLANE ∨ desc = VTK_XZ_PLANE ∨ desc = VTK_XYZ_GRID

instance (desc : Int) : Decidable (SpansX desc) := by
  unfold SpansX; infer_instance

instance (desc : Int) : Decidable (SpansY desc) := by
  unfold SpansY; infer_instance

instance (desc : Int) : Decidable (SpansZ desc) := by
  unfold SpansZ; infer_instance

/-- The classifications of a non-empty grid: point, the three lines, the three planes,
3D grid. -/
def IsCellClassification (desc : Int) : Prop :=
  desc = VTK_SINGLE_POINT ∨ desc = VTK_X_LINE ∨ desc = VTK_Y_LINE ∨ desc = VTK_Z_LINE ∨
    desc = VTK_XY_PLANE ∨ desc = VTK_YZ_PLANE ∨ desc = VTK_XZ_PLANE ∨ desc = VTK_XYZ_GRID

instance (desc : Int) : Decidable (IsCellClassification desc) := by
  unfold IsCellClassification; infer_instance

/-- The grid with extent `[0,3,0,0,0,0]` as `SetExtent` leaves it: four samples along x,
classified as an x line and holding a line. -/
def xline4 : vtkImageData :=
  { ofExtent ⟨0, 3, 0, 0, 0, 0⟩ none with DataDescription := VTK_X_LINE, Line := true }

/-- The forward transform as the spec writes it, `T = [D·diag(spacing) | origin; 0 0 0 1]`,
entry by entry. -/
def IndexToPhysicalSpec (origin spacing : ℚ × ℚ × ℚ) (D : Matrix (Fin 3) (Fin 3) ℚ) :
    Matrix (Fin 4) (Fin 4) ℚ :=
  !![D 0 0 * spacing.1, D 0 1 * spacing.2.1, D 0 2 * spacing.2.2, origin.1;
     D 1 0 * spacing.1, D 1 1 * spacing.2.1, D 1 2 * spacing.2.2, origin.2.1;
     D 2 0 * spacing.1, D 2 1 * spacing.2.1, D 2 2 * spacing.2.2, origin.2.2;
     0, 0, 0, 1]

/-- The states reachable from construction by `SetSpacing`, `SetOrigin`, the two
nine-element forms of `SetDirectionMatrix`, `CopyStructure` and `InternalImageDataCopy`
(the grid copied from may be in any state). -/
inductive Reachable (structuredSetExtent : Extent6 → Extent6 → Int × Extent6) :
    vtkImageData → Prop where
  | construction : Reachable structuredSetExtent New
  | setSpacing (g : vtkImageData) (i j k : ℚ) :
      Reachable structuredSetExtent g → Reachable structuredSetExtent (g.SetSpacing i j k)
  | setOrigin (g : vtkImageData) (i j k : ℚ) :
      Reachable structuredSetExtent g → Reachable structuredSetExtent (g.SetOrigin i j k)
  | setDirectionMatrix_e00 (g : vtkImageData) (e00 e01 e02 e10 e11 e12 e20 e21 e22 : ℚ) :
      Reachable structuredSetExtent g →
      Reachable structuredSetExtent
        (g.SetDirectionMatrix_e00 e00 e01 e02 e10 e11 e12 e20 e21 e22)
  | setDirectionMatrix_elements (g : vtkImageData) (elements : Matrix (Fin 3) (Fin 3) ℚ) :
      Reachable structuredSetExtent g →
      Reachable structuredSetExtent (g.SetDirectionMatrix_elements elements)
  | copyStructure (g sPts : vtkImageData) :
      Reachable structuredSetExtent g →
      Reachable structuredSetExtent (g.CopyStructure structuredSetExtent sPts)
  | internalImageDataCopy (g src : vtkImageData) :
      Reachable structuredSetExtent g →
      Reachable structuredSetExtent (g.InternalImageDataCopy structuredSetExtent src)

end vtkImageData

/-- Modelled from the spec: `vtkMath::Floor` is outside the sources at hand; it is the
`floor` of sections 4.5 and 4.6, the greatest integer not above `x`. -/
def vtkMath.Floor (x : ℚ) : Int :=
  Int.floor x

/-- Modelled from the spec: `vtkVoxel::InterpolationFunctions(pcoords, sf)` is outside the
sources at hand (a geometric primitive that "interpolates weights from parametric
coordinates", section 6).  The eight values it writes to `sf[0] .. sf[7]` are the
trilinear weights of the voxel corners in the corner order of `AddPointsToCellTemplate`
(x fastest, then y, then z). -/
def vtkVoxel.InterpolationFunctions (pcoords : ℚ × ℚ × ℚ) : List ℚ :=
  let r := pcoords.1
  let s := pcoords.2.1
  let t := pcoords.2.2
  let rm := 1 - r
  let sm := 1 - s
  let tm := 1 - t
  [rm * sm * tm, r * sm * tm, rm * s * tm, r * s * tm, rm * sm * t, r * sm * t, rm * s * t,
    r * s * t]

/-- The messages the embedded methods pass to `vtkWarningMacro`. -/
inductive WarningMessage where
  /-- FindPoint: "Spacing along the I (J, K) axis is 0." -/
  | SpacingAlongAxisIsZero (ijkLabel : String)
deriving DecidableEq, Repr

namespace vtkImageData

/-- The rest of `vtkIdType vtkImageData::FindPoint(double x[3])` once the spacing test
has passed: the continuous index, `vtkMath::Floor(ijk[a] + 0.5)` on each axis, and the
integer tail. -/
def FindPoint.locate (self : vtkImageData) (x : ℚ × ℚ × ℚ) : vtkIdType :=
  let ijk := self.TransformPhysicalPointToContinuousIndex x.1 x.2.1 x.2.2
  let loc0 := vtkMath.Floor (ijk.1 + 1 / 2)
  let loc1 := vtkMath.Floor (ijk.2.1 + 1 / 2)
  let loc2 := vtkMath.Floor (ijk.2.2 + 1 / 2)
  FindPoint.pointId self (loc0, loc1, loc2)

/-- `vtkIdType vtkImageData::FindPoint(double x[3])`; the result is the returned id with
the warnings issued.  The loop over the three axes returns at the first axis with spacing
0 and more than one sample. -/
def FindPoint (self : vtkImageData) (x : ℚ × ℚ × ℚ) : vtkIdType × List WarningMessage :=
  let spacing := self.Spacing
  let dims := self.GetDimensions_dims
  if spacing.1 = 0 ∧ dims.1 > 1 then (-1, [.SpacingAlongAxisIsZero "I"])
  else if spacing.2.1 = 0 ∧ dims.2.1 > 1 then (-1, [.SpacingAlongAxisIsZero "J"])
  else if spacing.2.2 = 0 ∧ dims.2.2 > 1 then (-1, [.SpacingAlongAxisIsZero "K"])
  else (FindPoint.locate self x, [])

/-- The squared tolerance `const double tol2 = 1e-12;` of `ComputeStructuredCoordinates`. -/
def ComputeStructuredCoordinates.tol2 : ℚ := 1 / 10 ^ 12

/-- What one round of the loop of `ComputeStructuredCoordinates` leaves for its axis. -/
structure ComputeStructuredCoordinates.Axis where
  ijk : Int
  pcoords : ℚ
  tmpInBounds : Int
deriving DecidableEq, Repr

/-- The body of the loop of `ComputeStructuredCoordinates` for one axis, from
`doubleLoc[i]`, `extent[i * 2]` and `extent[i * 2 + 1]`. -/
def ComputeStructuredCoordinates.axis (doubleLoc : ℚ) (minExt maxExt : Int) :
    ComputeStructuredCoordinates.Axis :=
  let ijk := vtkMath.Floor doubleLoc
  let pcoords := doubleLoc - (ijk : ℚ)
  if minExt = maxExt ∨ ijk < minExt then
    let dist := doubleLoc - (minExt : ℚ)
    if dist * dist ≤ ComputeStructuredCoordinates.tol2 then
      { pcoords := 0, ijk := minExt, tmpInBounds := 1 }
    else { pcoords := pcoords, ijk := ijk, tmpInBounds := 0 }
  else if ijk ≥ maxExt then
    let dist := doubleLoc - (maxExt : ℚ)
    if dist * dist ≤ ComputeStructuredCoordinates.tol2 then
      { pcoords := 1, ijk := maxExt - 1, tmpInBounds := 1 }
    else { pcoords := pcoords, ijk := ijk, tmpInBounds := 0 }
  else { pcoords := pcoords, ijk := ijk, tmpInBounds := 1 }

/-- `int vtkImageData::ComputeStructuredCoordinates(const double x[3], int ijk[3], double
pcoords[3])`: the returned flag with `ijk` and `pcoords`.
Over the mathematical integers;
`Machine.ComputeStructuredCoordinates` is the same method with the width of the integer types. -/
def ComputeStructuredCoordinates (self : vtkImageData) (x : ℚ × ℚ × ℚ) :
    Int × (Int × Int × Int) × (ℚ × ℚ × ℚ) :=
  let doubleLoc := self.TransformPhysicalPointToContinuousIndex x.1 x.2.1 x.2.2
  let extent := self.Extent
  let isInBounds : Int := 1
  let a0 := ComputeStructuredCoordinates.axis doubleLoc.1 extent.xmin extent.xmax
  let isInBounds := Int.land isInBounds a0.tmpInBounds
  let a1 := ComputeStructuredCoordinates.axis doubleLoc.2.1 extent.ymin extent.ymax
  let isInBounds := Int.land isInBounds a1.tmpInBounds
  let a2 := ComputeStructuredCoordinates.axis doubleLoc.2.2 extent.zmin extent.zmax
  let isInBounds := Int.land isInBounds a2.tmpInBounds
  (isInBounds, (a0.ijk, a1.ijk, a2.ijk), (a0.pcoords, a1.pcoords, a2.pcoords))

/-- What one round of the distance loop of `FindCell` leaves for its axis: `idx[i]`,
`pcoords[i]` and the running `dist2`. -/
structure FindCell.Axis where
  idx : Int
  pcoords : ℚ
  dist2 : ℚ
deriving DecidableEq, Repr

/-- The body of the distance loop of `FindCell` for one axis. -/
def FindCell.axis (idx : Int) (pcoords : ℚ) (minIdx maxIdx : Int) (spacing dist2 : ℚ) :
    FindCell.Axis :=
  if idx < minIdx then
    let dist := ((idx : ℚ) + pcoords - (minIdx : ℚ)) * spacing
    { idx := minIdx, pcoords := 0, dist2 := dist2 + dist * dist }
  else if idx ≥ maxIdx then
    let dist := ((idx : ℚ) + pcoords - (maxIdx : ℚ)) * spacing
    if maxIdx = minIdx then { idx := minIdx, pcoords := 0, dist2 := dist2 + dist * dist }
    else { idx := maxIdx - 1, pcoords := 1, dist2 := dist2 + dist * dist }
  else { idx := idx, pcoords := pcoords, dist2 := dist2 }

/-- Modelled from the spec: `ComputeCellId(idx)` is declared in the header, outside the
sources at hand.  Per section 4.5 it is the forward-mapped linear cell id, the inverse of
`GetIJKMinForCellId`, by "direct multiplication by cell-count strides"; the cell count of
an axis is `max(dim-1, 1)` (section 4.6) and `idx` is taken relative to the extent
minimum. -/
def ComputeCellId (self : vtkImageData) (idx : Int × Int × Int) : vtkIdType :=
  let dims := self.GetDimensions_dims
  let cellDims0 := max (dims.1 - 1) 1
  let cellDims1 := max (dims.2.1 - 1) 1
  (idx.1 - self.Extent.xmin) + (idx.2.1 - self.Extent.ymin) * cellDims0
    + (idx.2.2 - self.Extent.zmin) * cellDims0 * cellDims1

/-- What `FindCell` hands back: the returned id, `subId`, `pcoords`, and the eight values
written to `weights` (nothing when `weights` is `nullptr` or is not reached). -/
structure FindCell.Result where
  cellId : vtkIdType
  subId : Int
  pcoords : ℚ × ℚ × ℚ
  weights : Option (List ℚ)
deriving DecidableEq, Repr

/-- The shift of the parametric coordinates for the three planes, in the block of
`FindCell` under `if (weights)`. -/
def FindCell.shift (self : vtkImageData) (pcoords : ℚ × ℚ × ℚ) : ℚ × ℚ × ℚ :=
  if self.DataDescription = VTK_XZ_PLANE then (pcoords.1, pcoords.2.2, 0)
  else if self.DataDescription = VTK_YZ_PLANE then (pcoords.2.1, pcoords.2.2, 0)
  else if self.DataDescription = VTK_XY_PLANE then (pcoords.1, pcoords.2.1, 0)
  else pcoords

/-- What `FindCell` holds when it reaches `if (weights)` or leaves through `return -1;`:
whether it goes on (`found`), and `idx` and `pcoords` as they are then. -/
structure FindCell.Located where
  found : Bool
  idx : Int × Int × Int
  pcoords : ℚ × ℚ × ℚ
deriving DecidableEq, Repr

/-- The first block of `FindCell`: `ComputeStructuredCoordinates`, and when it returns 0
the distance loop over the three axes and the test `if (dist2 > tol2) return -1;`. -/
def FindCell.locate (self : vtkImageData) (x : ℚ × ℚ × ℚ) (tol2 : ℚ) : FindCell.Located :=
  let r := self.ComputeStructuredCoordinates x
  if r.1 = 0 then
    let extent := self.Extent
    let spacing := self.Spacing
    let dist2 : ℚ := 0
    let a0 := FindCell.axis r.2.1.1 r.2.2.1 extent.xmin extent.xmax spacing.1 dist2
    let a1 := FindCell.axis r.2.1.2.1 r.2.2.2.1 extent.ymin extent.ymax spacing.2.1 a0.dist2
    let a2 := FindCell.axis r.2.1.2.2 r.2.2.2.2 extent.zmin extent.zmax spacing.2.2 a1.dist2
    { found := !decide (a2.dist2 > tol2), idx := (a0.idx, a1.idx, a2.idx),
      pcoords := (a0.pcoords, a1.pcoords, a2.pcoords) }
  else { found := true, idx := r.2.1, pcoords := r.2.2 }

/-- `vtkIdType vtkImageData::FindCell(double x[3], vtkCell*, vtkIdType, double tol2, int&
subId, double pcoords[3], double* weights)`.  `subId` is the value the caller's variable
holds before the call and `weights` tells whether a buffer is passed (`true`) or `nullptr`
(`false`). -/
def FindCell (self : vtkImageData) (x : ℚ × ℚ × ℚ) (tol2 : ℚ) (subId : Int) (weights : Bool) :
    FindCell.Result :=
  let l := FindCell.locate self x tol2
  if !l.found then { cellId := -1, subId := subId, pcoords := l.pcoords, weights := none }
  else if weights then
    let pcoords := FindCell.shift self l.pcoords
    { cellId := self.ComputeCellId l.idx, subId := 0, pcoords := pcoords,
      weights := some (vtkVoxel.InterpolationFunctions pcoords) }
  else { cellId := self.ComputeCellId l.idx, subId := 0, pcoords := l.pcoords, weights := none }

/-- The first statement of `vtkCell* vtkImageData::FindAndGetCell(...)`:
`vtkIdType cellId = this->FindCell(x, nullptr, 0, tol2, subId, pcoords, nullptr);`. -/
def FindAndGetCell.FindCell (self : vtkImageData) (x : ℚ × ℚ × ℚ) (tol2 : ℚ) (subId : Int) :
    FindCell.Result :=
  self.FindCell x tol2 subId false

/-- The quotient `a / b` of two doubles in exact arithmetic.  With a zero divisor the
behaviour is undefined in C++ (on IEEE machines the result is an infinity or a NaN, which
no rational stands for); that is the fault `DoubleDivisionByZero`. -/
def dDiv (a b : ℚ) : Except Fault ℚ :=
  if b = 0 then .error .DoubleDivisionByZero else .ok (a / b)

/-- What one of the three axis blocks of `GetPointGradient` does: the component `g[a]` it
stores, the tuple ids it passes to `s->GetComponent(_, 0)` in order, and the right
operands of the divisions it evaluates. -/
structure GetPointGradient.Axis where
  g : ℚ
  reads : List vtkIdType
  divisors : List ℚ
deriving DecidableEq, Repr

/-- The block `// i-axis` of `GetPointGradient`; `i`, `j`, `k` are already relative to
the start of the extent and `s tupleIdx` stands for `s->GetComponent(tupleIdx, 0)`. -/
def GetPointGradient.iAxis (self : vtkImageData) (s : vtkIdType → ℚ) (i j k : Int) :
    Except Fault GetPointGradient.Axis :=
  let ar := self.Spacing
  let dims := self.GetDimensions_dims
  let ijsize := dims.1 * dims.2.1
  if dims.1 = 1 then .ok { g := 0, reads := [], divisors := [] }
  else if i = 0 then do
    let sp := s (i + 1 + j * dims.1 + k * ijsize)
    let sm := s (i + j * dims.1 + k * ijsize)
    let g ← dDiv (sm - sp) ar.1
    .ok { g := g, reads := [i + 1 + j * dims.1 + k * ijsize, i + j * dims.1 + k * ijsize],
          divisors := [ar.1] }
  else if i = dims.1 - 1 then do
    let sp := s (i + j * dims.1 + k * ijsize)
    let sm := s (i - 1 + j * dims.1 + k * ijsize)
    let g ← dDiv (sm - sp) ar.1
    .ok { g := g, reads := [i + j * dims.1 + k * ijsize, i - 1 + j * dims.1 + k * ijsize],
          divisors := [ar.1] }
  else do
    let sp := s (i + 1 + j * dims.1 + k * ijsize)
    let sm := s (i - 1 + j * dims.1 + k * ijsize)
    let g ← dDiv (1 / 2 * (sm - sp)) ar.1
    .ok { g := g, reads := [i + 1 + j * dims.1 + k * ijsize, i - 1 + j * dims.1 + k * ijsize],
          divisors := [ar.1] }

/-- The block `// j-axis` of `GetPointGradient`. -/
def GetPointGradient.jAxis (self : vtkImageData) (s : vtkIdType → ℚ) (i j k : Int) :
    Except Fault GetPointGradient.Axis :=
  let ar := self.Spacing
  let dims := self.GetDimensions_dims
  let ijsize := dims.1 * dims.2.1
  if dims.2.1 = 1 then .ok { g := 0, reads := [], divisors := [] }
  else if j = 0 then do
    let sp := s (i + (j + 1) * dims.1 + k * ijsize)
    let sm := s (i + j * dims.1 + k * ijsize)
    let g ← dDiv (sm - sp) ar.2.1
    .ok { g := g, reads := [i + (j + 1) * dims.1 + k * ijsize, i + j * dims.1 + k * ijsize],
          divisors := [ar.2.1] }
  else if j = dims.2.1 - 1 then do
    let sp := s (i + j * dims.1 + k * ijsize)
    let sm := s (i + (j - 1) * dims.1 + k * ijsize)
    let g ← dDiv (sm - sp) ar.2.1
    .ok { g := g, reads := [i + j * dims.1 + k * ijsize, i + (j - 1) * dims.1 + k * ijsize],
          divisors := [ar.2.1] }
  else do
    let sp := s (i + (j + 1) * dims.1 + k * ijsize)
    let sm := s (i + (j - 1) * dims.1 + k * ijsize)
    let g ← dDiv (1 / 2 * (sm - sp)) ar.2.1
    .ok { g := g,
          reads := [i + (j + 1) * dims.1 + k * ijsize, i + (j - 1) * dims.1 + k * ijsize],
          divisors := [ar.2.1] }

/-- The block `// k-axis` of `GetPointGradient`. -/
def GetPointGradient.kAxis (self : vtkImageData) (s : vtkIdType → ℚ) (i j k : Int) :
    Except Fault GetPointGradient.Axis :=
  let ar := self.Spacing
  let dims := self.GetDimensions_dims
  let ijsize := dims.1 * dims.2.1
  if dims.2.2 = 1 then .ok { g := 0, reads := [], divisors := [] }
  else if k = 0 then do
    let sp := s (i + j * dims.1 + (k + 1) * ijsize)
    let sm := s (i + j * dims.1 + k * ijsize)
    let g ← dDiv (sm - sp) ar.2.2
    .ok { g := g, reads := [i + j * dims.1 + (k + 1) * ijsize, i + j * dims.1 + k * ijsize],
          divisors := [ar.2.2] }
  else if k = dims.2.2 - 1 then do
    let sp := s (i + j * dims.1 + k * ijsize)
    let sm := s (i + j * dims.1 + (k - 1) * ijsize)
    let g ← dDiv (sm - sp) ar.2.2
    .ok { g := g, reads := [i + j * dims.1 + k * ijsize, i + j * dims.1 + (k - 1) * ijsize],
          divisors := [ar.2.2] }
  else do
    let sp := s (i + j * dims.1 + (k + 1) * ijsize)
    let sm := s (i + j * dims.1 + (k - 1) * ijsize)
    let g ← dDiv (1 / 2 * (sm - sp)) ar.2.2
    .ok { g := g,
          reads := [i + j * dims.1 + (k + 1) * ijsize, i + j * dims.1 + (k - 1) * ijsize],
          divisors := [ar.2.2] }

/-- Modelled from the spec: `vtkMatrix3x3::MultiplyPoint(in, out)` is a matrix primitive
outside the sources at hand; per section 4.6 the gradient "is rotated by the direction
matrix", the product of the matrix with the vector. -/
def MultiplyPoint (m : Matrix (Fin 3) (Fin 3) ℚ) (v : ℚ × ℚ × ℚ) : ℚ × ℚ × ℚ :=
  (m 0 0 * v.1 + m 0 1 * v.2.1 + m 0 2 * v.2.2,
    m 1 0 * v.1 + m 1 1 * v.2.1 + m 1 2 * v.2.2,
    m 2 0 * v.1 + m 2 1 * v.2.1 + m 2 2 * v.2.2)

/-- `void vtkImageData::GetPointGradient(int i, int j, int k, vtkDataArray* s, double
g[3])`: the gradient `g`, with the tuple ids read from `s` and the divisors used, in
order.  `s tupleIdx` stands for `s->GetComponent(tupleIdx, 0)`. -/
def GetPointGradient (self : vtkImageData) (i j k : Int) (s : vtkIdType → ℚ) :
    Except Fault ((ℚ × ℚ × ℚ) × List vtkIdType × List ℚ) :=
  let extent := self.Extent
  let dims := self.GetDimensions_dims
  let i := i - extent.xmin
  let j := j - extent.ymin
  let k := k - extent.zmin
  if i < 0 ∨ i ≥ dims.1 ∨ j < 0 ∨ j ≥ dims.2.1 ∨ k < 0 ∨ k ≥ dims.2.2 then
    .ok ((0, 0, 0), [], [])
  else do
    let g0 ← GetPointGradient.iAxis self s i j k
    let g1 ← GetPointGradient.jAxis self s i j k
    let g2 ← GetPointGradient.kAxis self s i j k
    .ok (MultiplyPoint self.DirectionMatrix.Element (g0.g, g1.g, g2.g),
      g0.reads ++ g1.reads ++ g2.reads, g0.divisors ++ g1.divisors ++ g2.divisors)

/-- The claim's reading of "axis `a` is in bounds" for a continuous index `c` on an axis
`[min, max]`: on a degenerate axis `(c - min)^2 <= 1e-12`, otherwise
`min - 1e-6 <= c <= max + 1e-6`. -/
def AxisInBoundsSpec (c : ℚ) (minExt maxExt : Int) : Prop :=
  if minExt = maxExt then (c - (minExt : ℚ)) ^ 2 ≤ 1 / 10 ^ 12
  else (minExt : ℚ) - 1 / 10 ^ 6 ≤ c ∧ c ≤ (maxExt : ℚ) + 1 / 10 ^ 6

instance (c : ℚ) (minExt maxExt : Int) : Decidable (AxisInBoundsSpec c minExt maxExt) := by
  unfold AxisInBoundsSpec; infer_instance

/-- The spec's squared physical distance of a continuous index `c` to the range of an axis
`[min, max]` with the given spacing: 0 when the axis is in bounds, else the square of
`(c - bound) * spacing` for the bound on the side where `c` lies. -/
def AxisDist2Spec (c : ℚ) (minExt maxExt : Int) (spacing : ℚ) : ℚ :=
  if AxisInBoundsSpec c minExt maxExt then 0
  else if c < (minExt : ℚ) then ((c - (minExt : ℚ)) * spacing) ^ 2
  else ((c - (maxExt : ℚ)) * spacing) ^ 2

/-- The grid with extent `[0,3,0,0,0,2]` as `SetExtent` leaves it after a successful call:
dimensions `4 x 1 x 3`, classified as a plane in x and z and holding a pixel. -/
def xzplane43 : vtkImageData :=
  { ofExtent ⟨0, 3, 0, 0, 0, 2⟩ none with DataDescription := VTK_XZ_PLANE, Pixel := true }

/-- The grid with extent `[0,3,0,2,0,0]` as `SetExtent` leaves it after a successful call:
dimensions `4 x 3 x 1`, classified as a plane in x and y and holding a pixel. -/
def xyplane43 : vtkImageData :=
  { ofExtent ⟨0, 3, 0, 2, 0, 0⟩ none with DataDescription := VTK_XY_PLANE, Pixel := true }

/-- The grid with extent `[0,0,0,3,0,0]` as `SetExtent` leaves it after a successful call:
dimensions `1 x 4 x 1`, classified as a line along y and holding a line. -/
def yline4 : vtkImageData :=
  { ofExtent ⟨0, 0, 0, 3, 0, 0⟩ none with DataDescription := VTK_Y_LINE, Line := true }

/-- The x line `xline4` with the spacing `(0, 1, 1)`: the x axis has four samples and the
spacing 0. -/
def xline4ZeroXSpacing : vtkImageData :=
  { xline4 with Spacing := (0, 1, 1) }


/-- The switch of `GetPoint` after `case VTK_EMPTY`: the point indices `loc` decoded from
`ptId`.  The switch has no `default` label, so any other classification leaves `loc` at
`(0, 0, 0)`. -/
def GetPoint.loc (self : vtkImageData) (ptId : vtkIdType) : Except Fault (Int × Int × Int) :=
  let dims := self.GetDimensions_dims
  if self.DataDescription = VTK_SINGLE_POINT then .ok (0, 0, 0)
  else if self.DataDescription = VTK_X_LINE then .ok (ptId, 0, 0)
  else if self.DataDescription = VTK_Y_LINE then .ok (0, ptId, 0)
  else if self.DataDescription = VTK_Z_LINE then .ok (0, 0, ptId)
  else if self.DataDescription = VTK_XY_PLANE then do
    let loc0 ← cMod ptId dims.1
    let loc1 ← cDiv ptId dims.1
    .ok (loc0, loc1, 0)
  else if self.DataDescription = VTK_YZ_PLANE then do
    let loc1 ← cMod ptId dims.2.1
    let loc2 ← cDiv ptId dims.2.1
    .ok (0, loc1, loc2)
  else if self.DataDescription = VTK_XZ_PLANE then do
    let loc0 ← cMod ptId dims.1
    let loc2 ← cDiv ptId dims.1
    .ok (loc0, 0, loc2)
  else if self.DataDescription = VTK_XYZ_GRID then do
    let loc0 ← cMod ptId dims.1
    let q ← cDiv ptId dims.1
    let loc1 ← cMod q dims.2.1
    let loc2 ← cDiv ptId (dims.1 * dims.2.1)
    .ok (loc0, loc1, loc2)
  else .ok (0, 0, 0)

/-- `void vtkImageData::GetPoint(vtkIdType ptId, double x[3])`; the result is `x` and the
grid after the call. -/
def GetPoint (self : vtkImageData) (ptId : vtkIdType) :
    Except Fault ((ℚ × ℚ × ℚ) × vtkImageData) :=
  let extent := self.Extent
  let dims := self.GetDimensions_dims
  let x : ℚ × ℚ × ℚ := (0, 0, 0)
  if dims.1 = 0 ∨ dims.2.1 = 0 ∨ dims.2.2 = 0 then
    .ok (x, self.vtkErrorMacro .RequestingPointFromEmptyImage)
  else if self.DataDescription = VTK_EMPTY then .ok (x, self)
  else do
    let loc ← GetPoint.loc self ptId
    let i := loc.1 + extent.xmin
    let j := loc.2.1 + extent.ymin
    let k := loc.2.2 + extent.zmin
    .ok (self.TransformIndexToPhysicalPoint i j k, self)

end vtkImageData

/-- The four cell primitives a grid can hold in its members `Vertex`, `Line`, `Pixel` and
`Voxel`. -/
inductive CellTemplate where
  | Vertex
  | Line
  | Pixel
  | Voxel
deriving DecidableEq, Repr

/-- What `GetCell` hands back when it is not `nullptr`: which member primitive it is, and
the `(idx, xyz)` that `AddPointsToCellTemplate` has stored at the positions
`0, 1, 2, ...` of its `PointIds` and `Points`. -/
structure vtkCell where
  Template : CellTemplate
  Stored : List (vtkIdType × (ℚ × ℚ × ℚ))
deriving DecidableEq, Repr

namespace vtkImageData

/-- `vtkCell* vtkImageData::GetCellTemplateForDataDescription()`; `none` is `nullptr`,
which is also what a member that holds no primitive gives. -/
def GetCellTemplateForDataDescription (self : vtkImageData) :
    Option CellTemplate × vtkImageData :=
  if self.DataDescription = VTK_EMPTY then (none, self)
  else if self.DataDescription = VTK_SINGLE_POINT then
    (if self.Vertex then some .Vertex else none, self)
  else if self.DataDescription = VTK_X_LINE ∨ self.DataDescription = VTK_Y_LINE ∨
      self.DataDescription = VTK_Z_LINE then
    (if self.Line then some .Line else none, self)
  else if self.DataDescription = VTK_XY_PLANE ∨ self.DataDescription = VTK_YZ_PLANE ∨
      self.DataDescription = VTK_XZ_PLANE then
    (if self.Pixel then some .Pixel else none, self)
  else if self.DataDescription = VTK_XYZ_GRID then
    (if self.Voxel then some .Voxel else none, self)
  else (none, self.vtkErrorMacro .InvalidDataDescription)

/-- `vtkCell* vtkImageData::GetCell(int iMin, int jMin, int kMin)`; the result is the cell
(`none` for `nullptr`) and the grid after the call. -/
def GetCell_iMin (self : vtkImageData) (iMin jMin kMin : Int) : Option vtkCell × vtkImageData :=
  let r := self.GetCellTemplateForDataDescription
  match r.1 with
  | none => (none, r.2)
  | some cell =>
    let ijkMin := (iMin, jMin, kMin)
    let m := r.2.GetIJKMaxForIJKMin ijkMin
    if !m.1.1 then (none, m.2)
    else (some { Template := cell, Stored := m.2.AddPointsToCellTemplate ijkMin m.1.2 }, m.2)

/-- `vtkCell* vtkImageData::GetCell(vtkIdType cellId)`. -/
def GetCell_cellId (self : vtkImageData) (cellId : vtkIdType) :
    Except Fault (Option vtkCell × vtkImageData) :=
  match self.GetIJKMinForCellId cellId with
  | .error fault => .error fault
  | .ok ((okMin, ijkMin), self1) =>
    if !okMin then .ok (none, self1)
    else .ok (self1.GetCell_iMin ijkMin.1 ijkMin.2.1 ijkMin.2.2)

/-- The member primitive of the grid's classification is held (is not `nullptr`), as
`SetDataDescription` leaves it. -/
def HoldsCellTemplate (self : vtkImageData) : Prop :=
  (self.DataDescription = VTK_SINGLE_POINT → self.Vertex = true)
    ∧ ((self.DataDescription = VTK_X_LINE ∨ self.DataDescription = VTK_Y_LINE ∨
        self.DataDescription = VTK_Z_LINE) → self.Line = true)
    ∧ ((self.DataDescription = VTK_XY_PLANE ∨ self.DataDescription = VTK_YZ_PLANE ∨
        self.DataDescription = VTK_XZ_PLANE) → self.Pixel = true)
    ∧ (self.DataDescription = VTK_XYZ_GRID → self.Voxel = true)

instance (self : vtkImageData) : Decidable (HoldsCellTemplate self) := by
  unfold HoldsCellTemplate; infer_instance

/-- The number `d` of non-degenerate axes of an extent: the axes with `min < max`. -/
def NonDegenerateAxes (ext : Extent6) : Nat :=
  (if ext.xmin < ext.xmax then 1 else 0) + (if ext.ymin < ext.ymax then 1 else 0)
    + (if ext.zmin < ext.zmax then 1 else 0)


end vtkImageData

/-- Modelled from the spec: the attribute containers (`vtkPointData`, `vtkCellData`) are
external collaborators (section 6, "attribute array store").  A container is observed
through the number of tuples it has room for, the number of tuples it holds, and the tuple
stored under each id (the values of all its arrays for that id; `none` where nothing was
stored). -/
structure vtkDataSetAttributes (α : Type) where
  Allocated : vtkIdType
  NumberOfTuples : vtkIdType
  Tuple : vtkIdType → Option α

/-- Modelled from the spec: the attribute data of a newly constructed image holds nothing. -/
def vtkDataSetAttributes.New {α : Type} : vtkDataSetAttributes α :=
  { Allocated := 0, NumberOfTuples := 0, Tuple := fun _ => none }

/-- Modelled from the spec: `CopyAllocate(pd, sze)` prepares the container to receive
tuples of `pd`: room for `sze` tuples ("allocates a new backing region", section 4.6),
none stored yet. -/
def vtkDataSetAttributes.CopyAllocate {α : Type} (_self _pd : vtkDataSetAttributes α)
    (sze : vtkIdType) : vtkDataSetAttributes α :=
  { Allocated := sze, NumberOfTuples := 0, Tuple := fun _ => none }

/-- Modelled from the spec: `CopyData(fromPd, fromId, toId)` stores tuple `fromId` of
`fromPd` under `toId` (section 4.6: the tuple at the old linear offset lands at the new
linear offset), making room when `toId` is beyond what the container holds. -/
def vtkDataSetAttributes.CopyData {α : Type} (self fromPd : vtkDataSetAttributes α)
    (fromId toId : vtkIdType) : vtkDataSetAttributes α :=
  { Allocated := max self.Allocated (toId + 1)
    NumberOfTuples := max self.NumberOfTuples (toId + 1)
    Tuple := fun id => if id = toId then fromPd.Tuple fromId else self.Tuple id }

/-- Modelled from the spec: `ShallowCopy(ad)` makes the container share the arrays of
`ad`: afterwards it shows what `ad` shows (section 4.6: "replaces the grid's ... data in
place"). -/
def vtkDataSetAttributes.ShallowCopy {α : Type} (_self ad : vtkDataSetAttributes α) :
    vtkDataSetAttributes α :=
  ad

/-- The result of an expression of C++ type `int` whose exact value is `x`, on a machine
with 32-bit two's complement `int`: `x` itself inside `-2^31 .. 2^31 - 1`, and the wrapped
value outside (where the C++ standard leaves the behaviour undefined). -/
def wrapInt32 (x : Int) : Int :=
  (x + 2 ^ 31) % 2 ^ 32 - 2 ^ 31

/-- The intersection of two extents as the spec words it: the larger minimum and the
smaller maximum on every axis. -/
def IntersectExtents (a b : Extent6) : Extent6 :=
  { xmin := max a.xmin b.xmin, xmax := min a.xmax b.xmax
    ymin := max a.ymin b.ymin, ymax := min a.ymax b.ymax
    zmin := max a.zmin b.zmin, zmax := min a.zmax b.zmax }

/-- A validation step that accepts every extent: it stores the requested extent and
returns its classification, or `VTK_UNCHANGED` when the stored extent is the same. -/
def storingSetExtent : Extent6 → Extent6 → Int × Extent6 :=
  fun extent stored =>
    (if extent = stored then VTK_UNCHANGED else vtkImageData.GetDataDescriptionFromExtent extent,
      extent)

namespace vtkImageData

/-- The block of `Crop` that clamps `nExt` (a copy of `updateExtent`) to the extent:
`if (nExt[0] < extent[0]) nExt[0] = extent[0]; if (nExt[1] > extent[1]) nExt[1] = extent[1];`
and so on. -/
def Crop.nExt (extent updateExtent : Extent6) : Extent6 :=
  { xmin := if updateExtent.xmin < extent.xmin then extent.xmin else updateExtent.xmin
    xmax := if updateExtent.xmax > extent.xmax then extent.xmax else updateExtent.xmax
    ymin := if updateExtent.ymin < extent.ymin then extent.ymin else updateExtent.ymin
    ymax := if updateExtent.ymax > extent.ymax then extent.ymax else updateExtent.ymax
    zmin := if updateExtent.zmin < extent.zmin then extent.zmin else updateExtent.zmin
    zmax := if updateExtent.zmax > extent.zmax then extent.zmax else updateExtent.zmax }

/-- The statement of `Crop`
`numPts = (nExt[1] - nExt[0] + 1) * (nExt[3] - nExt[2] + 1) * (nExt[5] - nExt[4] + 1);`.
`nExt` is an `int[6]`, so every operation on the right is an `int` operation and the
result is converted to `vtkIdType` only by the assignment. -/
def Crop.numPts (nExt : Extent6) : vtkIdType :=
  let d0 := wrapInt32 (wrapInt32 (nExt.xmax - nExt.xmin) + 1)
  let d1 := wrapInt32 (wrapInt32 (nExt.ymax - nExt.ymin) + 1)
  let d2 := wrapInt32 (wrapInt32 (nExt.zmax - nExt.zmin) + 1)
  wrapInt32 (wrapInt32 (d0 * d1) * d2)

/-- The statements of `Crop` that compute `numCells`, with `vtkIdType tmp`:
`tmp = nExt[1] - nExt[0]; if (tmp <= 0) tmp = 1; numCells = tmp;` and so on with `*=`. -/
def Crop.numCells (nExt : Extent6) : vtkIdType :=
  let tmp : vtkIdType := nExt.xmax - nExt.xmin
  let tmp := if tmp ≤ 0 then 1 else tmp
  let numCells := tmp
  let tmp : vtkIdType := nExt.ymax - nExt.ymin
  let tmp := if tmp ≤ 0 then 1 else tmp
  let numCells := numCells * tmp
  let tmp : vtkIdType := nExt.zmax - nExt.zmin
  let tmp := if tmp ≤ 0 then 1 else tmp
  numCells * tmp

/-- What the copy loops of `Crop` carry: the container being filled, the running input id
(`inId`, `inIdY` or `inIdZ`, by the loop) and `outId`. -/
structure Crop.Cursor (α : Type) where
  data : vtkDataSetAttributes α
  inId : vtkIdType
  outId : vtkIdType

/-- The innermost loop of the two copy loops of `Crop`, over the values `xs` of `idxX`:
`data->CopyData(src, inId, outId); ++inId; ++outId;`. -/
def Crop.xLoop {α : Type} (src : vtkDataSetAttributes α) (xs : List Int) (c : Crop.Cursor α) :
    Crop.Cursor α :=
  xs.foldl (fun c _ =>
    { data := c.data.CopyData src c.inId c.outId, inId := c.inId + 1, outId := c.outId + 1 }) c

/-- The middle loop of the two copy loops of `Crop`, over the values `ys` of `idxY`; the
cursor's `inId` is `inIdY`: `inId = inIdY;`, the inner loop, `inIdY += incY;`. -/
def Crop.yLoop {α : Type} (src : vtkDataSetAttributes α) (xs ys : List Int) (incY : vtkIdType)
    (c : Crop.Cursor α) : Crop.Cursor α :=
  ys.foldl (fun c _ =>
    let r := Crop.xLoop src xs c
    { data := r.data, inId := c.inId + incY, outId := r.outId }) c

/-- The outer loop of the two copy loops of `Crop`, over the values `zs` of `idxZ`; the
cursor's `inId` is `inIdZ`: `inIdY = inIdZ;`, the middle loop, `inIdZ += incZ;`. -/
def Crop.zLoop {α : Type} (src : vtkDataSetAttributes α) (xs ys zs : List Int)
    (incY incZ : vtkIdType) (c : Crop.Cursor α) : Crop.Cursor α :=
  zs.foldl (fun c _ =>
    let r := Crop.yLoop src xs ys incY c
    { data := r.data, inId := c.inId + incZ, outId := r.outId }) c

/-- The block `// Loop through outData points` of `Crop`: the point data `npd` after it. -/
def Crop.copyPoints {α : Type} (extent nExt : Extent6) (PointData npd : vtkDataSetAttributes α) :
    vtkDataSetAttributes α :=
  let incY : vtkIdType := extent.xmax - extent.xmin + 1
  let incZ : vtkIdType := (extent.ymax - extent.ymin + 1) * incY
  let outId : vtkIdType := 0
  let inIdZ : vtkIdType := incZ * (nExt.zmin - extent.zmin) + incY * (nExt.ymin - extent.ymin)
    + (nExt.xmin - extent.xmin)
  (Crop.zLoop PointData (forRange nExt.xmin nExt.xmax) (forRange nExt.ymin nExt.ymax)
    (forRange nExt.zmin nExt.zmax) incY incZ { data := npd, inId := inIdZ, outId := outId }).data

/-- The block `// Loop through outData cells` of `Crop`: the cell data `ncd` after it.  The
loops `for (idxX = nExt[0]; idxX < maxX; idxX++)` run over `nExt[0] .. maxX - 1`. -/
def Crop.copyCells {α : Type} (extent nExt : Extent6) (CellData ncd : vtkDataSetAttributes α) :
    vtkDataSetAttributes α :=
  let maxX := nExt.xmax
  let maxY := nExt.ymax
  let maxZ := nExt.zmax
  let maxX := if maxX = nExt.xmin then maxX + 1 else maxX
  let maxY := if maxY = nExt.ymin then maxY + 1 else maxY
  let maxZ := if maxZ = nExt.zmin then maxZ + 1 else maxZ
  let incY : vtkIdType := extent.xmax - extent.xmin
  let incZ : vtkIdType := (extent.ymax - extent.ymin) * incY
  let outId : vtkIdType := 0
  let inIdZ : vtkIdType := incZ * (nExt.zmin - extent.zmin) + incY * (nExt.ymin - extent.ymin)
    + (nExt.xmin - extent.xmin)
  (Crop.zLoop CellData (forRange nExt.xmin (maxX - 1)) (forRange nExt.ymin (maxY - 1))
    (forRange nExt.zmin (maxZ - 1)) incY incZ { data := ncd, inId := inIdZ, outId := outId }).data

/-- What `Crop` leaves: the grid, and its point data and cell data. -/
structure Crop.Result (α β : Type) where
  grid : vtkImageData
  PointData : vtkDataSetAttributes α
  CellData : vtkDataSetAttributes β

/-- `void vtkImageData::Crop(const int* updateExtent)`, on a grid with the given point data
and cell data.  `vtkDebugMacro` prints only when debugging is switched on; the temporary
`newImage` is represented by its point data `npd` and cell data `ncd` (its own extent is
not read again before it is deleted).  The member `Scalars` of the grid is the observation
made before the call. -/
def Crop {α β : Type} (structuredSetExtent : Extent6 → Extent6 → Int × Extent6)
    (self : vtkImageData) (PointData : vtkDataSetAttributes α)
    (CellData : vtkDataSetAttributes β) (updateExtent : Extent6) : Crop.Result α β :=
  let extent := self.Extent
  if extent.xmin > extent.xmax ∨ extent.ymin > extent.ymax ∨ extent.zmin > extent.zmax then
    { grid := self, PointData := PointData, CellData := CellData }
  else if extent.xmin = updateExtent.xmin ∧ extent.xmax = updateExtent.xmax ∧
      extent.ymin = updateExtent.ymin ∧ extent.ymax = updateExtent.ymax ∧
      extent.zmin = updateExtent.zmin ∧ extent.zmax = updateExtent.zmax then
    { grid := self, PointData := PointData, CellData := CellData }
  else
    let nExt := Crop.nExt extent updateExtent
    if extent.xmin = nExt.xmin ∧ extent.xmax = nExt.xmax ∧ extent.ymin = nExt.ymin ∧
        extent.ymax = nExt.ymax ∧ extent.zmin = nExt.zmin ∧ extent.zmax = nExt.zmax then
      { grid := self, PointData := PointData, CellData := CellData }
    else
      let numPts := Crop.numPts nExt
      let numCells := Crop.numCells nExt
      let npd := (vtkDataSetAttributes.New).CopyAllocate PointData numPts
      let ncd := (vtkDataSetAttributes.New).CopyAllocate CellData numCells
      let npd := Crop.copyPoints extent nExt PointData npd
      let ncd := Crop.copyCells extent nExt CellData ncd
      { grid := self.SetExtent structuredSetExtent nExt
        PointData := PointData.ShallowCopy npd
        CellData := CellData.ShallowCopy ncd }

/-- The statements of `AllocateScalars` that compute `imageSize`, with `vtkIdType dims[3]`
("Use vtkIdType to avoid overflow on large images"): the three dimensions are converted to
`vtkIdType` before they are multiplied. -/
def AllocateScalars.imageSize (extent : Extent6) : vtkIdType :=
  let dims0 : vtkIdType := wrapInt32 (wrapInt32 (extent.xmax - extent.xmin) + 1)
  let dims1 : vtkIdType := wrapInt32 (wrapInt32 (extent.ymax - extent.ymin) + 1)
  let dims2 : vtkIdType := wrapInt32 (wrapInt32 (extent.zmax - extent.zmin) + 1)
  dims0 * dims1 * dims2

/-- The cell data and point data used in the examples: under each id not below 0 and
below `n`, the id itself. -/
def identityTuples (n : vtkIdType) : vtkDataSetAttributes vtkIdType :=
  { Allocated := n, NumberOfTuples := n
    Tuple := fun id => if 0 ≤ id ∧ id < n then some id else none }


/-- `int vtkImageData::GetNumberOfScalarComponents()`. -/
def GetNumberOfScalarComponents (self : vtkImageData) : Int :=
  match self.Scalars with
  | some scalars => scalars.NumberOfComponents
  | none => 1

/-- `void* vtkImageData::GetScalarPointerForExtent(int extent[6])`. -/
def GetScalarPointerForExtent (self : vtkImageData) (extent : Extent6) :
    Except Fault (VoidPointer × vtkImageData) :=
  let tmp := (extent.xmin, extent.ymin, extent.zmin)
  self.GetScalarPointer tmp

end vtkImageData

/-- What the loops of `vtkImageDataCastExecute` carry: the values of the output array, the
assignments `*outPtr = static_cast<OT>(*inPtr)` made so far, each as the pair of value
offsets `(inPtr, outPtr)`, and the two pointers.  A pointer is the offset of the value it
points to from the start of its scalar array. -/
structure vtkImageDataCastExecute.Cursor (OT : Type) where
  out : vtkIdType → OT
  copies : List (vtkIdType × vtkIdType)
  inPtr : vtkIdType
  outPtr : vtkIdType

/-- The innermost loop of `vtkImageDataCastExecute`, over the values `rs` of `idxR`:
`*outPtr = static_cast<OT>(*inPtr); outPtr++; inPtr++;`. -/
def vtkImageDataCastExecute.rowLoop {IT OT : Type} (cast : IT → OT) (inMem : vtkIdType → IT)
    (rs : List Int) (c : vtkImageDataCastExecute.Cursor OT) :
    vtkImageDataCastExecute.Cursor OT :=
  rs.foldl (fun c _ =>
    { out := fun p => if p = c.outPtr then cast (inMem c.inPtr) else c.out p
      copies := c.copies ++ [(c.inPtr, c.outPtr)]
      inPtr := c.inPtr + 1
      outPtr := c.outPtr + 1 }) c

/-- The middle loop of `vtkImageDataCastExecute`, over the values `ys` of `idxY`: the row
loop, then `outPtr += outIncY; inPtr += inIncY;`. -/
def vtkImageDataCastExecute.yLoop {IT OT : Type} (cast : IT → OT) (inMem : vtkIdType → IT)
    (rs ys : List Int) (inIncY outIncY : vtkIdType) (c : vtkImageDataCastExecute.Cursor OT) :
    vtkImageDataCastExecute.Cursor OT :=
  ys.foldl (fun c _ =>
    let r := vtkImageDataCastExecute.rowLoop cast inMem rs c
    { out := r.out, copies := r.copies, inPtr := r.inPtr + inIncY,
      outPtr := r.outPtr + outIncY }) c

/-- The outer loop of `vtkImageDataCastExecute`, over the values `zs` of `idxZ`: the
middle loop, then `outPtr += outIncZ; inPtr += inIncZ;`. -/
def vtkImageDataCastExecute.zLoop {IT OT : Type} (cast : IT → OT) (inMem : vtkIdType → IT)
    (rs ys zs : List Int) (inIncY outIncY inIncZ outIncZ : vtkIdType)
    (c : vtkImageDataCastExecute.Cursor OT) : vtkImageDataCastExecute.Cursor OT :=
  zs.foldl (fun c _ =>
    let r := vtkImageDataCastExecute.yLoop cast inMem rs ys inIncY outIncY c
    { out := r.out, copies := r.copies, inPtr := r.inPtr + inIncZ,
      outPtr := r.outPtr + outIncZ }) c

/-- What `vtkImageDataCastExecute` leaves: the values of the output array, the assignments
made, in order, and the two grids after the calls of `GetContinuousIncrements`. -/
structure vtkImageDataCastExecute.Result (OT : Type) where
  out : vtkIdType → OT
  copies : List (vtkIdType × vtkIdType)
  inData : vtkImageData
  outData : vtkImageData

/-- The template `void vtkImageDataCastExecute(vtkImageData* inData, IT* inPtr,
vtkImageData* outData, OT* outPtr, int outExt[6])`.  `cast` is `static_cast<OT>`, `inMem`
the values of the input array and `outMem` those of the output array before the call;
`inPtr` and `outPtr` are value offsets into the two arrays. -/
def vtkImageDataCastExecute {IT OT : Type} (cast : IT → OT) (inMem : vtkIdType → IT)
    (outMem : vtkIdType → OT) (inData : vtkImageData) (inPtr : vtkIdType)
    (outData : vtkImageData) (outPtr : vtkIdType) (outExt : Extent6) :
    vtkImageDataCastExecute.Result OT :=
  let rowLength := (outExt.xmax - outExt.xmin + 1) * inData.GetNumberOfScalarComponents
  let maxY := outExt.ymax - outExt.ymin
  let maxZ := outExt.zmax - outExt.zmin
  let rIn := inData.GetContinuousIncrements outExt
  let rOut := outData.GetContinuousIncrements outExt
  let inIncY := rIn.1.2.1
  let inIncZ := rIn.1.2.2
  let outIncY := rOut.1.2.1
  let outIncZ := rOut.1.2.2
  let c := vtkImageDataCastExecute.zLoop cast inMem (vtkImageData.forRange 0 (rowLength - 1))
    (vtkImageData.forRange 0 maxY) (vtkImageData.forRange 0 maxZ) inIncY outIncY inIncZ outIncZ
    { out := outMem, copies := [], inPtr := inPtr, outPtr := outPtr }
  { out := c.out, copies := c.copies, inData := rIn.2, outData := rOut.2 }

namespace vtkImageData

/-- The claim's offset of the value `(x, y, z, c)` in the scalar array of a grid with the
increments `inc`: `(x-xmin)*inc[0] + (y-ymin)*inc[1] + (z-zmin)*inc[2] + c`. -/
def ScalarOffsetSpec (self : vtkImageData) (inc : vtkIdType × vtkIdType × vtkIdType)
    (x y z c : Int) : vtkIdType :=
  (x - self.Extent.xmin) * inc.1 + (y - self.Extent.ymin) * inc.2.1
    + (z - self.Extent.zmin) * inc.2.2 + c

/-- The claim's list of the copies that belong to a sub-extent `E`: for every `(x, y, z)`
in `E` and every component `c` in `0 .. nC - 1`, once, the offset of `(x, y, z, c)` in the
input grid paired with its offset in the output grid; x and the component run fastest,
then y, then z. -/
def CastCopiesSpec (inData outData : vtkImageData) (E : Extent6) (nC : Int) :
    List (vtkIdType × vtkIdType) :=
  (forRange E.zmin E.zmax).flatMap fun z =>
    (forRange E.ymin E.ymax).flatMap fun y =>
      (forRange E.xmin E.xmax).flatMap fun x =>
        (forRange 0 (nC - 1)).map fun c =>
          (inData.ScalarOffsetSpec inData.ComputeIncrements.1 x y z c,
            outData.ScalarOffsetSpec outData.ComputeIncrements.1 x y z c)

/-- The grid `[0,3,0,2,0,1]` with scalars of two components. -/
def volume432TwoComponents : vtkImageData :=
  { volume432 with Scalars := some { NumberOfComponents := 2, NumberOfTuples := 24, MaxId := 47 } }

/-- The grid `[1,3,0,2,0,1]` (dimensions `3 x 3 x 2`) with scalars of two components. -/
def volume332TwoComponents : vtkImageData :=
  { ofExtent ⟨1, 3, 0, 2, 0, 1⟩
      (some { NumberOfComponents := 2, NumberOfTuples := 18, MaxId := 35 }) with
    DataDescription := VTK_XYZ_GRID, Voxel := true }

/-- The values of the output array after the assignments `copies` have been made in order,
starting from `out`. -/
def CastReplay {IT OT : Type} (cast : IT → OT) (inMem : vtkIdType → IT)
    (copies : List (vtkIdType × vtkIdType)) (out : vtkIdType → OT) : vtkIdType → OT :=
  copies.foldl (fun m a => fun p => if p = a.2 then cast (inMem a.1) else m p) out


end vtkImageData

/-- The values of a 32-bit `int`: `-2^31 .. 2^31 - 1`. -/
def IsInt32 (x : Int) : Prop :=
  -2 ^ 31 ≤ x ∧ x < 2 ^ 31

instance (x : Int) : Decidable (IsInt32 x) := by
  unfold IsInt32; infer_instance

/-- The values of a 64-bit `vtkIdType`: `-2^63 .. 2^63 - 1`. -/
def IsInt64 (x : Int) : Prop :=
  -2 ^ 63 ≤ x ∧ x < 2 ^ 63

instance (x : Int) : Decidable (IsInt64 x) := by
  unfold IsInt64; infer_instance

/-- The result of a `vtkIdType` operation whose mathematical value is `x`, with `vtkIdType`
the 64-bit two's complement `long long`: `x` itself inside `-2^63 .. 2^63 - 1`, and the
wrapped value outside (where the C++ standard leaves the behaviour undefined). -/
def wrapInt64 (x : Int) : Int :=
  (x + 2 ^ 63) % 2 ^ 64 - 2 ^ 63

namespace vtkImageData

namespace Machine

/-- The `int` expression `extent[2a+1] - extent[2a] + 1` that every method forms for the
dimension of an axis, with `lo = extent[2a]` and `hi = extent[2a+1]`. -/
def extentDim (lo hi : Int) : Int :=
  wrapInt32 (wrapInt32 (hi - lo) + 1)

/-- `void vtkImageData::GetDimensions(int* dOut)`. -/
def GetDimensions_dOut (self : vtkImageData) : Int × Int × Int :=
  let extent := self.Extent
  (extentDim extent.xmin extent.xmax, extentDim extent.ymin extent.ymax,
    extentDim extent.zmin extent.zmax)

/-- `void vtkImageData::GetDimensions(vtkIdType dims[3])`: each right-hand side is the
`int` expression, converted to `vtkIdType` by the assignment. -/
def GetDimensions_dims (self : vtkImageData) : vtkIdType × vtkIdType × vtkIdType :=
  let extent := self.Extent
  (extentDim extent.xmin extent.xmax, extentDim extent.ymin extent.ymax,
    extentDim extent.zmin extent.zmax)

/-- `int* vtkImageData::GetDimensions()`:
`this->GetDimensions(this->Dimensions); return this->Dimensions;`. -/
def GetDimensions (self : vtkImageData) : (Int × Int × Int) × vtkImageData :=
  let self1 := { self with Dimensions := GetDimensions_dOut self }
  (self1.Dimensions, self1)

/-- `void vtkImageData::GetCellDims(int cellDims[3])`, reading the member `Dimensions`:
`cellDims[i] = ((Dimensions[i] - 1) < 1) ? 1 : Dimensions[i] - 1`. -/
def GetCellDims (self : vtkImageData) : Int × Int × Int :=
  let cellDim (d : Int) : Int := if wrapInt32 (d - 1) < 1 then 1 else wrapInt32 (d - 1)
  (cellDim self.Dimensions.1, cellDim self.Dimensions.2.1, cellDim self.Dimensions.2.2)

/-- The loop of `GetNumberOfCells` over the remaining `dims[i]`, carrying `nCells`:
`if (dims[i] == 0) return 0; if (dims[i] > 1) nCells *= (dims[i] - 1);`, the product
being a `vtkIdType` product. -/
def GetNumberOfCells.loop : List vtkIdType → vtkIdType → vtkIdType
  | [], nCells => nCells
  | d :: rest, nCells =>
    if d = 0 then 0
    else GetNumberOfCells.loop rest (if d > 1 then wrapInt64 (nCells * (d - 1)) else nCells)

/-- `vtkIdType vtkImageData::GetNumberOfCells()`: `dims[i]` is assigned the `int`
expression `extent[2i+1] - extent[2i] + 1`. -/
def GetNumberOfCells (self : vtkImageData) : vtkIdType :=
  let nCells : vtkIdType := 1
  let extent := self.Extent
  let dims0 : vtkIdType := extentDim extent.xmin extent.xmax
  let dims1 : vtkIdType := extentDim extent.ymin extent.ymax
  let dims2 : vtkIdType := extentDim extent.zmin extent.zmax
  GetNumberOfCells.loop [dims0, dims1, dims2] nCells

/-- `void vtkImageData::ComputeIncrements(int numberOfComponents, vtkIdType inc[3])`:
`incr = numberOfComponents; for idx: inc[idx] = incr; incr *= extent[idx*2+1]-extent[idx*2]+1`,
the factor being the `int` expression and the product a `vtkIdType` product. -/
def ComputeIncrements_numberOfComponents (self : vtkImageData) (numberOfComponents : Int) :
    vtkIdType × vtkIdType × vtkIdType :=
  let extent := self.Extent
  let incr0 : vtkIdType := numberOfComponents
  let inc0 := incr0
  let incr1 := wrapInt64 (incr0 * extentDim extent.xmin extent.xmax)
  let inc1 := incr1
  let incr2 := wrapInt64 (incr1 * extentDim extent.ymin extent.ymax)
  let inc2 := incr2
  (inc0, inc1, inc2)

/-- `bool vtkImageData::GetIJKMinForCellId(vtkIdType cellId, int ijkMin[3])`; the result
is the returned flag with `ijkMin`, and the grid after the call.  The quotients and
remainders are `vtkIdType` operations on values that cannot leave its range; each
assignment to `ijkMin[a]` converts the `vtkIdType` value to `int`. -/
def GetIJKMinForCellId (self : vtkImageData) (cellId : vtkIdType) :
    Except Fault ((Bool × (Int × Int × Int)) × vtkImageData) :=
  let dims := GetDimensions_dims self
  if dims.1 = 0 ∨ dims.2.1 = 0 ∨ dims.2.2 = 0 then
    .ok ((false, (0, 0, 0)), self.vtkErrorMacro .RequestingCellFromEmptyImage)
  else if self.DataDescription = VTK_EMPTY then .ok ((false, (0, 0, 0)), self)
  else if self.DataDescription = VTK_SINGLE_POINT then .ok ((true, (0, 0, 0)), self)
  else if self.DataDescription = VTK_X_LINE then .ok ((true, (wrapInt32 cellId, 0, 0)), self)
  else if self.DataDescription = VTK_Y_LINE then .ok ((true, (0, wrapInt32 cellId, 0)), self)
  else if self.DataDescription = VTK_Z_LINE then .ok ((true, (0, 0, wrapInt32 cellId)), self)
  else if self.DataDescription = VTK_XY_PLANE then do
    let ijkMin0 ← cMod cellId (dims.1 - 1)
    let ijkMin1 ← cDiv cellId (dims.1 - 1)
    .ok ((true, (wrapInt32 ijkMin0, wrapInt32 ijkMin1, 0)), self)
  else if self.DataDescription = VTK_YZ_PLANE then do
    let ijkMin1 ← cMod cellId (dims.2.1 - 1)
    let ijkMin2 ← cDiv cellId (dims.2.1 - 1)
    .ok ((true, (0, wrapInt32 ijkMin1, wrapInt32 ijkMin2)), self)
  else if self.DataDescription = VTK_XZ_PLANE then do
    let ijkMin0 ← cMod cellId (dims.1 - 1)
    let ijkMin2 ← cDiv cellId (dims.1 - 1)
    .ok ((true, (wrapInt32 ijkMin0, 0, wrapInt32 ijkMin2)), self)
  else if self.DataDescription = VTK_XYZ_GRID then do
    let ijkMin0 ← cMod cellId (dims.1 - 1)
    let q ← cDiv cellId (dims.1 - 1)
    let ijkMin1 ← cMod q (dims.2.1 - 1)
    let ijkMin2 ← cDiv cellId ((dims.1 - 1) * (dims.2.1 - 1))
    .ok ((true, (wrapInt32 ijkMin0, wrapInt32 ijkMin1, wrapInt32 ijkMin2)), self)
  else .ok ((false, (0, 0, 0)), self.vtkErrorMacro .InvalidDataDescription)

/-- `bool vtkImageData::GetIJKMaxForIJKMin(int ijkMin[3], int ijkMax[3])`; the result is
the returned flag with `ijkMax`, and the grid after the call.  `ijkMin[a] + 1` is an `int`
sum. -/
def GetIJKMaxForIJKMin (self : vtkImageData) (ijkMin : Int × Int × Int) :
    (Bool × (Int × Int × Int)) × vtkImageData :=
  let dims := GetDimensions_dims self
  if dims.1 = 0 ∨ dims.2.1 = 0 ∨ dims.2.2 = 0 then
    ((false, (0, 0, 0)), self.vtkErrorMacro .RequestingCellFromEmptyImage)
  else if self.DataDescription = VTK_EMPTY then ((false, (0, 0, 0)), self)
  else if self.DataDescription = VTK_SINGLE_POINT then ((true, (0, 0, 0)), self)
  else if self.DataDescription = VTK_X_LINE then ((true, (wrapInt32 (ijkMin.1 + 1), 0, 0)), self)
  else if self.DataDescription = VTK_Y_LINE then
    ((true, (0, wrapInt32 (ijkMin.2.1 + 1), 0)), self)
  else if self.DataDescription = VTK_Z_LINE then
    ((true, (0, 0, wrapInt32 (ijkMin.2.2 + 1))), self)
  else if self.DataDescription = VTK_XY_PLANE then
    ((true, (wrapInt32 (ijkMin.1 + 1), wrapInt32 (ijkMin.2.1 + 1), 0)), self)
  else if self.DataDescription = VTK_YZ_PLANE then
    ((true, (0, wrapInt32 (ijkMin.2.1 + 1), wrapInt32 (ijkMin.2.2 + 1))), self)
  else if self.DataDescription = VTK_XZ_PLANE then
    ((true, (wrapInt32 (ijkMin.1 + 1), 0, wrapInt32 (ijkMin.2.2 + 1))), self)
  else if self.DataDescription = VTK_XYZ_GRID then
    ((true, (wrapInt32 (ijkMin.1 + 1), wrapInt32 (ijkMin.2.1 + 1), wrapInt32 (ijkMin.2.2 + 1))),
      self)
  else ((false, (0, 0, 0)), self.vtkErrorMacro .InvalidDataDescription)

/-- The values an `int` loop `for (v = lo; v <= hi; v++)` runs through, in order.  With
`hi = INT_MAX` and `lo <= hi` the test can never fail and the increment leaves the range
of `int`: the loop does not come to an end. -/
def forRange (lo hi : Int) : Except Fault (List Int) :=
  if lo ≤ hi ∧ hi = 2 ^ 31 - 1 then .error .LoopCounterOverflow
  else .ok (vtkImageData.forRange lo hi)

/-- The values of `loc` that the triple loop shared by `AddPointsToCellTemplate` and
`GetCellBounds` runs through, in order: `loc[2]` outermost, `loc[0]` innermost.  An inner
loop is entered only when the loops around it have a value to run through. -/
def forLoc (ijkMin ijkMax : Int × Int × Int) : Except Fault (List (Int × Int × Int)) := do
  let zs ← forRange ijkMin.2.2 ijkMax.2.2
  if zs = [] then .ok []
  else do
    let ys ← forRange ijkMin.2.1 ijkMax.2.1
    if ys = [] then .ok []
    else do
      let xs ← forRange ijkMin.1 ijkMax.1
      .ok (zs.flatMap fun loc2 => ys.flatMap fun loc1 => xs.map fun loc0 => (loc0, loc1, loc2))

/-- `void vtkImageData::AddPointsToCellTemplate(vtkCell* cell, int ijkMin[3], int
ijkMax[3])`: the list of `(idx, xyz)` the loop stores at positions `npts = 0, 1, 2, ...`
of the cell's `PointIds` and `Points`.  `i`, `j`, `k` are `int` sums, `d01` and `idx` are
`vtkIdType` values. -/
def AddPointsToCellTemplate (self : vtkImageData) (ijkMin ijkMax : Int × Int × Int) :
    Except Fault (List (vtkIdType × (ℚ × ℚ × ℚ))) := do
  let extent := self.Extent
  let dims := GetDimensions_dims self
  let d01 := wrapInt64 (dims.1 * dims.2.1)
  let locs ← forLoc ijkMin ijkMax
  .ok (locs.map fun loc =>
    let k := wrapInt32 (loc.2.2 + extent.zmin)
    let j := wrapInt32 (loc.2.1 + extent.ymin)
    let i := wrapInt32 (loc.1 + extent.xmin)
    let xyz := self.TransformIndexToPhysicalPoint i j k
    let idx := wrapInt64 (wrapInt64 (loc.1 + wrapInt64 (loc.2.1 * dims.1))
      + wrapInt64 (loc.2.2 * d01))
    (idx, xyz))

/-- `void vtkImageData::GetCellBounds(vtkIdType cellId, double bounds[6])`.  The constants
`VTK_DOUBLE_MAX` and `VTK_DOUBLE_MIN` are declared outside the sources at hand and are
parameters. -/
def GetCellBounds (VTK_DOUBLE_MAX VTK_DOUBLE_MIN : ℚ) (self : vtkImageData)
    (cellId : vtkIdType) : Except Fault (Bounds6 × vtkImageData) :=
  match GetIJKMinForCellId self cellId with
  | .error fault => .error fault
  | .ok ((okMin, ijkMin), self1) =>
    if !okMin then .ok (⟨0, 0, 0, 0, 0, 0⟩, self1)
    else
      let r := GetIJKMaxForIJKMin self1 ijkMin
      let ijkMax := r.1.2
      let self2 := r.2
      if !r.1.1 then .ok (⟨0, 0, 0, 0, 0, 0⟩, self2)
      else
        let extent := self2.Extent
        if ijkMax.2.2 ≥ ijkMin.2.2 ∧ ijkMax.2.1 ≥ ijkMin.2.1 ∧ ijkMax.1 ≥ ijkMin.1 then
          let bounds : Bounds6 := ⟨VTK_DOUBLE_MAX, VTK_DOUBLE_MIN, VTK_DOUBLE_MAX, VTK_DOUBLE_MIN,
            VTK_DOUBLE_MAX, VTK_DOUBLE_MIN⟩
          match forLoc ijkMin ijkMax with
          | .error fault => .error fault
          | .ok locs =>
            .ok (locs.foldl (fun bounds loc =>
                let k := wrapInt32 (loc.2.2 + extent.zmin)
                let j := wrapInt32 (loc.2.1 + extent.ymin)
                let i := wrapInt32 (loc.1 + extent.xmin)
                let xyz := self2.TransformIndexToPhysicalPoint i j k
                GetCellBounds.update bounds xyz) bounds, self2)
        else .ok (UninitializeBounds, self2)

/-- The body of the loop of `ComputeStructuredCoordinates` for one axis, from
`doubleLoc[i]`, `extent[i * 2]` and `extent[i * 2 + 1]`.  `vtkMath::Floor`, which returns
an `int`, is outside the sources at hand and is the parameter `Floor`. -/
def ComputeStructuredCoordinates.axis (Floor : ℚ → Int) (doubleLoc : ℚ) (minExt maxExt : Int) :
    ComputeStructuredCoordinates.Axis :=
  let ijk := Floor doubleLoc
  let pcoords := doubleLoc - (ijk : ℚ)
  if minExt = maxExt ∨ ijk < minExt then
    let dist := doubleLoc - (minExt : ℚ)
    if dist * dist ≤ ComputeStructuredCoordinates.tol2 then
      { pcoords := 0, ijk := minExt, tmpInBounds := 1 }
    else { pcoords := pcoords, ijk := ijk, tmpInBounds := 0 }
  else if ijk ≥ maxExt then
    let dist := doubleLoc - (maxExt : ℚ)
    if dist * dist ≤ ComputeStructuredCoordinates.tol2 then
      { pcoords := 1, ijk := wrapInt32 (maxExt - 1), tmpInBounds := 1 }
    else { pcoords := pcoords, ijk := ijk, tmpInBounds := 0 }
  else { pcoords := pcoords, ijk := ijk, tmpInBounds := 1 }

/-- `int vtkImageData::ComputeStructuredCoordinates(const double x[3], int ijk[3], double
pcoords[3])`: the returned flag with `ijk` and `pcoords`. -/
def ComputeStructuredCoordinates (Floor : ℚ → Int) (self : vtkImageData) (x : ℚ × ℚ × ℚ) :
    Int × (Int × Int × Int) × (ℚ × ℚ × ℚ) :=
  let doubleLoc := self.TransformPhysicalPointToContinuousIndex x.1 x.2.1 x.2.2
  let extent := self.Extent
  let isInBounds : Int := 1
  let a0 := ComputeStructuredCoordinates.axis Floor doubleLoc.1 extent.xmin extent.xmax
  let isInBounds := Int.land isInBounds a0.tmpInBounds
  let a1 := ComputeStructuredCoordinates.axis Floor doubleLoc.2.1 extent.ymin extent.ymax
  let isInBounds := Int.land isInBounds a1.tmpInBounds
  let a2 := ComputeStructuredCoordinates.axis Floor doubleLoc.2.2 extent.zmin extent.zmax
  let isInBounds := Int.land isInBounds a2.tmpInBounds
  (isInBounds, (a0.ijk, a1.ijk, a2.ijk), (a0.pcoords, a1.pcoords, a2.pcoords))

end Machine

/-- An `int` conversion of the floor for the examples: the floor where it is a value of
`int`, and `INT_MIN` where it is not (what the conversion instruction of the common 64-bit
processors yields there; the C++ standard leaves the conversion undefined). -/
def convertingFloor (x : ℚ) : Int :=
  if IsInt32 ⌊x⌋ then ⌊x⌋ else -2 ^ 31

end vtkImageData

namespace vtkImageData

/-! ## Theorems -/

/-- Inside the extent the loop test of the pointer/index methods fails on every axis. -/
theorem not_outOfExtent_of_inside (extent : Extent6) (x y z : Int)
    (hx : extent.xmin ≤ x ∧ x ≤ extent.xmax) (hy : extent.ymin ≤ y ∧ y ≤ extent.ymax)
    (hz : extent.zmin ≤ z ∧ z ≤ extent.zmax) : ¬ OutOfExtent extent (x, y, z) := by
  simp only [OutOfExtent]
  omega

/-- The index expression of `GetTupleIndex`, written out. -/
theorem GetTupleIndex_idx_eq (extent : Extent6) (x y z : Int) :
    GetTupleIndex.idx extent (x, y, z) =
      (x - extent.xmin) + (y - extent.ymin) * (extent.xmax - extent.xmin + 1) +
        (z - extent.zmin) * (extent.xmax - extent.xmin + 1) * (extent.ymax - extent.ymin + 1) := by
  simp only [GetTupleIndex.idx, GetTupleIndex.incs]
  ring

/-- Inside the extent the index expression of `GetTupleIndex` is not negative. -/
theorem GetTupleIndex_idx_nonneg (extent : Extent6) (x y z : Int)
    (hx : extent.xmin ≤ x ∧ x ≤ extent.xmax) (hy : extent.ymin ≤ y ∧ y ≤ extent.ymax)
    (hz : extent.zmin ≤ z ∧ z ≤ extent.zmax) : 0 ≤ GetTupleIndex.idx extent (x, y, z) := by
  rw [GetTupleIndex_idx_eq]
  have h1 : 0 ≤ x - extent.xmin := by omega
  have h2 : 0 ≤ y - extent.ymin := by omega
  have h3 : 0 ≤ z - extent.zmin := by omega
  have d1 : 0 ≤ extent.xmax - extent.xmin + 1 := by omega
  have d2 : 0 ≤ extent.ymax - extent.ymin + 1 := by omega
  have p1 := mul_nonneg h2 d1
  have p2 := mul_nonneg (mul_nonneg h3 d1) d2
  linarith

/-- C3: for every array (present or absent) and every coordinate with at least one axis
value outside `[min, max]` of the extent, `GetTupleIndex` and `GetScalarIndex` return -1
and `GetScalarPointer` returns the null pointer; after each call the grid's extent, its
cached dimensions and its scalar array are what they were before. -/
theorem out_of_extent_sentinels (self : vtkImageData) (array : Option vtkDataArray)
    (x y z : Int)
    (hout : (x < self.Extent.xmin ∨ self.Extent.xmax < x) ∨
      (y < self.Extent.ymin ∨ self.Extent.ymax < y) ∨
      (z < self.Extent.zmin ∨ self.Extent.zmax < z)) :
    ((self.GetTupleIndex array (x, y, z)).1 = -1 ∧
      (self.GetTupleIndex array (x, y, z)).2.Extent = self.Extent ∧
      (self.GetTupleIndex array (x, y, z)).2.Dimensions = self.Dimensions ∧
      (self.GetTupleIndex array (x, y, z)).2.Scalars = self.Scalars) ∧
    ((self.GetScalarIndex (x, y, z)).1 = -1 ∧
      (self.GetScalarIndex (x, y, z)).2.Extent = self.Extent ∧
      (self.GetScalarIndex (x, y, z)).2.Dimensions = self.Dimensions ∧
      (self.GetScalarIndex (x, y, z)).2.Scalars = self.Scalars) ∧
    (∃ after : vtkImageData, self.GetScalarPointer (x, y, z) = .ok (.nullptr, after) ∧
      after.Extent = self.Extent ∧ after.Dimensions = self.Dimensions ∧
      after.Scalars = self.Scalars) := by
  have ho : OutOfExtent self.Extent (x, y, z) := by
    simp only [OutOfExtent]
    omega
  refine ⟨?_, ?_, ?_⟩
  · cases array with
    | none => simp [GetTupleIndex]
    | some a => simp [GetTupleIndex, ho, vtkErrorMacro]
  · cases hs : self.Scalars with
    | none => simp [GetScalarIndex, hs]
    | some a => simp [GetScalarIndex, hs, ho, vtkErrorMacro]
  · cases hs : self.Scalars with
    | none => exact ⟨self, by simp [GetScalarPointer, hs], rfl, rfl, hs⟩
    | some a =>
      exact ⟨self.vtkErrorMacro (.ScalarPointerNotInMemory (x, y, z) self.Extent),
        by simp [GetScalarPointer, hs, ho], rfl, rfl, by simp [vtkErrorMacro, hs]⟩

/-- A use of C3: extent `[0,3,0,2,0,1]`, coordinate `(4,0,0)` lies beyond `xmax`. -/
theorem out_of_extent_sentinels_witness :
    ((ofExtent ⟨0, 3, 0, 2, 0, 1⟩ (some ⟨1, 24, 23⟩)).GetTupleIndex (some ⟨1, 24, 23⟩) (4, 0, 0)).1
        = -1 ∧
      ((ofExtent ⟨0, 3, 0, 2, 0, 1⟩ (some ⟨1, 24, 23⟩)).GetScalarIndex (4, 0, 0)).1 = -1 :=
  have h := out_of_extent_sentinels (ofExtent ⟨0, 3, 0, 2, 0, 1⟩ (some ⟨1, 24, 23⟩))
    (some ⟨1, 24, 23⟩) 4 0 0 (by decide)
  ⟨h.1.1, h.2.1.1⟩

/-- C4 (the code at the failing input): extent `[0,3,0,2,0,1]`, an array of 2 tuples with
3 components (values 0..5, so max id 5) and the in-extent coordinate `(3,0,0)`.  The
computed tuple index 3 is not below the number of tuples 2, yet `GetTupleIndex` compares it
with the max id 5 and returns 3 rather than -1, and reports nothing. -/
theorem GetTupleIndex_short_array_accepted :
    GetTupleIndex.idx (Extent6.mk 0 3 0 2 0 1) (3, 0, 0) = 3 ∧
      (vtkDataArray.mk 3 2 5).NumberOfTuples ≤ GetTupleIndex.idx (Extent6.mk 0 3 0 2 0 1) (3, 0, 0) ∧
      (vtkDataArray.mk 3 2 5).MaxId =
        (vtkDataArray.mk 3 2 5).NumberOfComponents * (vtkDataArray.mk 3 2 5).NumberOfTuples - 1 ∧
      (ofExtent ⟨0, 3, 0, 2, 0, 1⟩ none).GetTupleIndex (some ⟨3, 2, 5⟩) (3, 0, 0)
        = (3, ofExtent ⟨0, 3, 0, 2, 0, 1⟩ none) := by
  decide

/-- C5 (the code at the failing inputs): with the array absent `GetArrayPointer` invokes
members of the null array instead of returning the null pointer; and for extent
`[0,3,0,2,0,1]`, a 24-tuple 3-component array and the coordinate `(4,0,0)` beyond `xmax`,
`GetTupleIndex` returns -1 and `GetArrayPointer` asks the array for value index
`3 * -1 = -3` instead of returning the null pointer. -/
theorem GetArrayPointer_unguarded :
    (ofExtent ⟨0, 3, 0, 2, 0, 1⟩ none).GetArrayPointer none (0, 0, 0)
        = .error .NullArrayDereference ∧
      ((ofExtent ⟨0, 3, 0, 2, 0, 1⟩ none).GetTupleIndex (some ⟨3, 24, 71⟩) (4, 0, 0)).1 = -1 ∧
      (ofExtent ⟨0, 3, 0, 2, 0, 1⟩ none).GetArrayPointer (some ⟨3, 24, 71⟩) (4, 0, 0)
        = .ok (.GetVoidPointer ⟨3, 24, 71⟩ (-3),
            (ofExtent ⟨0, 3, 0, 2, 0, 1⟩ none).vtkErrorMacro
              (.PixelNotInCurrentExtent (4, 0, 0) ⟨0, 3, 0, 2, 0, 1⟩)) :=
  ⟨rfl, by decide, rfl⟩

/-- The increments `ComputeIncrements(scalars, inc)` computes are those of the array's
component count, or of 1 component when there is no array. -/
theorem ComputeIncrements_scalars_eq (self : vtkImageData) (scalars : Option vtkDataArray) :
    (self.ComputeIncrements_scalars scalars).1 =
      self.ComputeIncrements_numberOfComponents
        (match scalars with
          | none => 1
          | some a => a.NumberOfComponents) := by
  cases scalars <;> rfl

/-- C8 (the code at the failing input): the extent `[0,-2,0,0,0,0]` has `xmax < xmin`, so it
is empty, but its x dimension is -1, not 0, and `GetNumberOfCells` returns 1. -/
theorem GetNumberOfCells_inverted_extent :
    (Extent6.mk 0 (-2) 0 0 0 0).xmax < (Extent6.mk 0 (-2) 0 0 0 0).xmin ∧
      (ofExtent ⟨0, -2, 0, 0, 0, 0⟩ none).GetDimensions_dims = (-1, 1, 1) ∧
      (ofExtent ⟨0, -2, 0, 0, 0, 0⟩ none).GetNumberOfCells = 1 := by
  decide

/-- The factor `GetNumberOfCells` multiplies in for a dimension of at least 1. -/
theorem cellFactor_eq_max (d : Int) (hd : 1 ≤ d) (n : Int) :
    (if d > 1 then n * (d - 1) else n) = n * max (d - 1) 1 := by
  split_ifs with h
  · rw [max_eq_left (by omega)]
  · have : d = 1 := by omega
    subst this
    simp

/-- Row-major ids of in-range offsets lie between 0 and the number of points minus 1. -/
theorem rowMajor_range (a b c dx dy dz : Int) (ha : 0 ≤ a ∧ a < dx) (hb : 0 ≤ b ∧ b < dy)
    (hc : 0 ≤ c ∧ c < dz) :
    0 ≤ a + b * dx + c * dx * dy ∧ a + b * dx + c * dx * dy ≤ dx * dy * dz - 1 := by
  have hdx : 0 ≤ dx := by omega
  have hdy : 0 ≤ dy := by omega
  have p1 : 0 ≤ b * dx := mul_nonneg hb.1 hdx
  have p2 : 0 ≤ c * dx * dy := mul_nonneg (mul_nonneg hc.1 hdx) hdy
  have q1 : b * dx ≤ (dy - 1) * dx := mul_le_mul_of_nonneg_right (by omega) hdx
  have q2 : c * dx * dy ≤ (dz - 1) * dx * dy :=
    mul_le_mul_of_nonneg_right (mul_le_mul_of_nonneg_right (by omega) hdx) hdy
  constructor
  · linarith
  · nlinarith

/-- Dividing by a product of positive integers is dividing twice. -/
theorem ediv_mul_eq_ediv_ediv (n dx dy : Int) (hdx : 0 < dx) (hdy : 0 < dy) :
    n / (dx * dy) = n / dx / dy := by
  have s1 := Int.emod_add_ediv n dx
  have s2 := Int.emod_add_ediv (n / dx) dy
  have r1 := Int.emod_nonneg n (ne_of_gt hdx)
  have r2 := Int.emod_lt_of_pos n hdx
  have r3 := Int.emod_nonneg (n / dx) (ne_of_gt hdy)
  have r4 := Int.emod_lt_of_pos (n / dx) hdy
  have key : n / (dx * dy) = n / dx / dy ∧ n % (dx * dy) = n % dx + dx * (n / dx % dy) := by
    rw [Int.ediv_emod_unique (mul_pos hdx hdy)]
    refine ⟨by linear_combination s1 + dx * s2, by positivity, ?_⟩
    have : dx * (n / dx % dy) ≤ dx * (dy - 1) := mul_le_mul_of_nonneg_left (by omega) (le_of_lt hdx)
    nlinarith
  exact key.1

/-- The offsets are recovered from a row-major id by remainder and quotient. -/
theorem rowMajor_decode (a b c dx dy : Int) (ha : 0 ≤ a ∧ a < dx) (hb : 0 ≤ b ∧ b < dy) :
    (a + b * dx + c * dx * dy) % dx = a ∧ (a + b * dx + c * dx * dy) / dx % dy = b ∧
      (a + b * dx + c * dx * dy) / (dx * dy) = c := by
  have hdx : 0 < dx := by omega
  have hdy : 0 < dy := by omega
  have e : a + b * dx + c * dx * dy = a + dx * (b + c * dy) := by ring
  have hq : (a + b * dx + c * dx * dy) / dx = b + c * dy := by
    rw [e, Int.add_mul_ediv_left a (b + c * dy) (ne_of_gt hdx), Int.ediv_eq_zero_of_lt ha.1 ha.2,
      zero_add]
  refine ⟨?_, ?_, ?_⟩
  · rw [e, Int.add_mul_emod_self_left, Int.emod_eq_of_lt ha.1 ha.2]
  · rw [hq, Int.add_mul_emod_self, Int.emod_eq_of_lt hb.1 hb.2]
  · rw [ediv_mul_eq_ediv_ediv _ _ _ hdx hdy, hq,
      Int.add_mul_ediv_right b c (ne_of_gt hdy), Int.ediv_eq_zero_of_lt hb.1 hb.2, zero_add]

/-- Every id below the number of points is the row-major id of in-range offsets. -/
theorem rowMajor_encode (n dx dy dz : Int) (hdx : 0 < dx) (hdy : 0 < dy)
    (hn : 0 ≤ n ∧ n ≤ dx * dy * dz - 1) :
    (0 ≤ n % dx ∧ n % dx < dx) ∧ (0 ≤ n / dx % dy ∧ n / dx % dy < dy) ∧
      (0 ≤ n / (dx * dy) ∧ n / (dx * dy) < dz) ∧
      n % dx + (n / dx % dy) * dx + (n / (dx * dy)) * dx * dy = n := by
  have hq0 : 0 ≤ n / dx := Int.ediv_nonneg hn.1 (le_of_lt hdx)
  have hqlt : n / dx < dz * dy := Int.ediv_lt_of_lt_mul hdx (by nlinarith)
  have hr : n / (dx * dy) = n / dx / dy := ediv_mul_eq_ediv_ediv n dx dy hdx hdy
  have s1 := Int.emod_add_ediv n dx
  have s2 := Int.emod_add_ediv (n / dx) dy
  refine ⟨⟨Int.emod_nonneg _ (ne_of_gt hdx), Int.emod_lt_of_pos _ hdx⟩,
    ⟨Int.emod_nonneg _ (ne_of_gt hdy), Int.emod_lt_of_pos _ hdy⟩, ⟨?_, ?_⟩, ?_⟩
  · rw [hr]
    exact Int.ediv_nonneg hq0 (le_of_lt hdy)
  · rw [hr]
    exact Int.ediv_lt_of_lt_mul hdy hqlt
  · rw [hr]
    linear_combination s1 + dx * s2

/-- Inside the extent `FindPoint` passes its extent test and returns the row-major id. -/
theorem FindPoint_pointId_eq (self : vtkImageData) (x y z : Int)
    (hx : self.Extent.xmin ≤ x ∧ x ≤ self.Extent.xmax)
    (hy : self.Extent.ymin ≤ y ∧ y ≤ self.Extent.ymax)
    (hz : self.Extent.zmin ≤ z ∧ z ≤ self.Extent.zmax) :
    FindPoint.pointId self (x, y, z) =
      (x - self.Extent.xmin) + (y - self.Extent.ymin) * (self.Extent.xmax - self.Extent.xmin + 1) +
        (z - self.Extent.zmin) * (self.Extent.xmax - self.Extent.xmin + 1)
          * (self.Extent.ymax - self.Extent.ymin + 1) := by
  have hc : ¬ (x < self.Extent.xmin ∨ x > self.Extent.xmax ∨ y < self.Extent.ymin ∨
      y > self.Extent.ymax ∨ z < self.Extent.zmin ∨ z > self.Extent.zmax) := by omega
  simp only [FindPoint.pointId, hc, if_false, GetDimensions_dims]
  ring

/-- For a dividend that is not negative and a positive divisor the C++ quotient is the
floor quotient, and no fault occurs. -/
theorem cDiv_of_pos (a b : Int) (ha : 0 ≤ a) (hb : 0 < b) : cDiv a b = .ok (a / b) := by
  simp only [cDiv, ne_of_gt hb, if_false, Int.tdiv_eq_ediv ha (le_of_lt hb)]

/-- For a dividend that is not negative and a positive divisor the C++ remainder is the
floor remainder, and no fault occurs. -/
theorem cMod_of_pos (a b : Int) (ha : 0 ≤ a) (hb : 0 < b) : cMod a b = .ok (a % b) := by
  simp only [cMod, ne_of_gt hb, if_false, Int.tmod_eq_emod ha (le_of_lt hb)]

/-- On an extent with `min <= max` on every axis, `GetNumberOfCells` is the product of
`max(dimension-1, 1)` over the axes. -/
theorem GetNumberOfCells_eq_product (self : vtkImageData)
    (hx : self.Extent.xmin ≤ self.Extent.xmax) (hy : self.Extent.ymin ≤ self.Extent.ymax)
    (hz : self.Extent.zmin ≤ self.Extent.zmax) :
    self.GetNumberOfCells = max (self.Extent.xmax - self.Extent.xmin + 1 - 1) 1
      * max (self.Extent.ymax - self.Extent.ymin + 1 - 1) 1
      * max (self.Extent.zmax - self.Extent.zmin + 1 - 1) 1 := by
  have h1 : 1 ≤ self.Extent.xmax - self.Extent.xmin + 1 := by omega
  have h2 : 1 ≤ self.Extent.ymax - self.Extent.ymin + 1 := by omega
  have h3 : 1 ≤ self.Extent.zmax - self.Extent.zmin + 1 := by omega
  have n1 : ¬ self.Extent.xmax - self.Extent.xmin + 1 = 0 := by omega
  have n2 : ¬ self.Extent.ymax - self.Extent.ymin + 1 = 0 := by omega
  have n3 : ¬ self.Extent.zmax - self.Extent.zmin + 1 = 0 := by omega
  simp only [GetNumberOfCells, GetNumberOfCells.loop, n1, n2, n3, if_false]
  rw [cellFactor_eq_max _ h1, cellFactor_eq_max _ h2, cellFactor_eq_max _ h3, one_mul]

/-- `GetIJKMinForCellId` on a grid classified as a 3D grid with at least two samples on
x and y and a z dimension other than 0. -/
theorem GetIJKMinForCellId_xyz (self : vtkImageData) (cellId : vtkIdType)
    (hd : self.DataDescription = VTK_XYZ_GRID) (h0 : 0 ≤ cellId)
    (hx : self.Extent.xmin < self.Extent.xmax) (hy : self.Extent.ymin < self.Extent.ymax)
    (hz : self.Extent.zmax - self.Extent.zmin + 1 ≠ 0) :
    self.GetIJKMinForCellId cellId = .ok ((true,
      (cellId % (self.Extent.xmax - self.Extent.xmin + 1 - 1),
        cellId / (self.Extent.xmax - self.Extent.xmin + 1 - 1)
          % (self.Extent.ymax - self.Extent.ymin + 1 - 1),
        cellId / ((self.Extent.xmax - self.Extent.xmin + 1 - 1)
          * (self.Extent.ymax - self.Extent.ymin + 1 - 1)))), self) := by
  have px : 0 < self.Extent.xmax - self.Extent.xmin + 1 - 1 := by omega
  have py : 0 < self.Extent.ymax - self.Extent.ymin + 1 - 1 := by omega
  have nx : ¬ self.Extent.xmax - self.Extent.xmin + 1 = 0 := by omega
  have ny : ¬ self.Extent.ymax - self.Extent.ymin + 1 = 0 := by omega
  have hq : 0 ≤ cellId / (self.Extent.xmax - self.Extent.xmin + 1 - 1) :=
    Int.ediv_nonneg h0 (le_of_lt px)
  simp only [GetIJKMinForCellId, GetDimensions_dims, hd, nx, ny, hz, or_self, if_false,
    cMod_of_pos _ _ h0 px, cDiv_of_pos _ _ h0 px, cMod_of_pos _ _ hq py,
    cDiv_of_pos _ _ h0 (mul_pos px py), bind, Except.bind]
  simp [VTK_XYZ_GRID, VTK_EMPTY, VTK_SINGLE_POINT, VTK_X_LINE, VTK_Y_LINE, VTK_Z_LINE, VTK_XY_PLANE,
    VTK_YZ_PLANE, VTK_XZ_PLANE]

/-- `GetIJKMinForCellId` on a grid classified as a single point, with no dimension equal to 0. -/
theorem GetIJKMinForCellId_point (self : vtkImageData) (cellId : vtkIdType)
    (hd : self.DataDescription = VTK_SINGLE_POINT)
    (hx : self.Extent.xmax - self.Extent.xmin + 1 ≠ 0)
    (hy : self.Extent.ymax - self.Extent.ymin + 1 ≠ 0)
    (hz : self.Extent.zmax - self.Extent.zmin + 1 ≠ 0) :
    self.GetIJKMinForCellId cellId = .ok ((true, (0, 0, 0)), self) := by
  simp only [GetIJKMinForCellId, GetDimensions_dims, hd, hx, hy, hz, or_self, if_false]
  simp [VTK_XYZ_GRID, VTK_EMPTY, VTK_SINGLE_POINT, VTK_X_LINE, VTK_Y_LINE, VTK_Z_LINE, VTK_XY_PLANE,
    VTK_YZ_PLANE, VTK_XZ_PLANE]

/-- `GetIJKMinForCellId` on a grid classified as a line along x, with no dimension equal to 0. -/
theorem GetIJKMinForCellId_xline (self : vtkImageData) (cellId : vtkIdType)
    (hd : self.DataDescription = VTK_X_LINE)
    (hx : self.Extent.xmax - self.Extent.xmin + 1 ≠ 0)
    (hy : self.Extent.ymax - self.Extent.ymin + 1 ≠ 0)
    (hz : self.Extent.zmax - self.Extent.zmin + 1 ≠ 0) :
    self.GetIJKMinForCellId cellId = .ok ((true, (cellId, 0, 0)), self) := by
  simp only [GetIJKMinForCellId, GetDimensions_dims, hd, hx, hy, hz, or_self, if_false]
  simp [VTK_XYZ_GRID, VTK_EMPTY, VTK_SINGLE_POINT, VTK_X_LINE, VTK_Y_LINE, VTK_Z_LINE, VTK_XY_PLANE,
    VTK_YZ_PLANE, VTK_XZ_PLANE]

/-- `GetIJKMinForCellId` on a grid classified as a line along y, with no dimension equal to 0. -/
theorem GetIJKMinForCellId_yline (self : vtkImageData) (cellId : vtkIdType)
    (hd : self.DataDescription = VTK_Y_LINE)
    (hx : self.Extent.xmax - self.Extent.xmin + 1 ≠ 0)
    (hy : self.Extent.ymax - self.Extent.ymin + 1 ≠ 0)
    (hz : self.Extent.zmax - self.Extent.zmin + 1 ≠ 0) :
    self.GetIJKMinForCellId cellId = .ok ((true, (0, cellId, 0)), self) := by
  simp only [GetIJKMinForCellId, GetDimensions_dims, hd, hx, hy, hz, or_self, if_false]
  simp [VTK_XYZ_GRID, VTK_EMPTY, VTK_SINGLE_POINT, VTK_X_LINE, VTK_Y_LINE, VTK_Z_LINE, VTK_XY_PLANE,
    VTK_YZ_PLANE, VTK_XZ_PLANE]

/-- `GetIJKMinForCellId` on a grid classified as a line along z, with no dimension equal to 0. -/
theorem GetIJKMinForCellId_zline (self : vtkImageData) (cellId : vtkIdType)
    (hd : self.DataDescription = VTK_Z_LINE)
    (hx : self.Extent.xmax - self.Extent.xmin + 1 ≠ 0)
    (hy : self.Extent.ymax - self.Extent.ymin + 1 ≠ 0)
    (hz : self.Extent.zmax - self.Extent.zmin + 1 ≠ 0) :
    self.GetIJKMinForCellId cellId = .ok ((true, (0, 0, cellId)), self) := by
  simp only [GetIJKMinForCellId, GetDimensions_dims, hd, hx, hy, hz, or_self, if_false]
  simp [VTK_XYZ_GRID, VTK_EMPTY, VTK_SINGLE_POINT, VTK_X_LINE, VTK_Y_LINE, VTK_Z_LINE, VTK_XY_PLANE,
    VTK_YZ_PLANE, VTK_XZ_PLANE]

/-- `GetIJKMinForCellId` on a grid classified as a plane in x and y, with at least two samples
along x and no dimension equal to 0. -/
theorem GetIJKMinForCellId_xyplane (self : vtkImageData) (cellId : vtkIdType)
    (hd : self.DataDescription = VTK_XY_PLANE) (h0 : 0 ≤ cellId)
    (hx : self.Extent.xmin < self.Extent.xmax)
    (hy : self.Extent.ymax - self.Extent.ymin + 1 ≠ 0)
    (hz : self.Extent.zmax - self.Extent.zmin + 1 ≠ 0) :
    self.GetIJKMinForCellId cellId = .ok ((true, (cellId % (self.Extent.xmax - self.Extent.xmin + 1 - 1), cellId / (self.Extent.xmax - self.Extent.xmin + 1 - 1), 0)), self) := by
  have p : 0 < self.Extent.xmax - self.Extent.xmin + 1 - 1 := by omega
  have nx : ¬ self.Extent.xmax - self.Extent.xmin + 1 = 0 := by omega
  simp only [GetIJKMinForCellId, GetDimensions_dims, hd, nx, hy, hz, or_self, if_false,
    cMod_of_pos _ _ h0 p, cDiv_of_pos _ _ h0 p, bind, Except.bind]
  simp [VTK_XYZ_GRID, VTK_EMPTY, VTK_SINGLE_POINT, VTK_X_LINE, VTK_Y_LINE, VTK_Z_LINE, VTK_XY_PLANE,
    VTK_YZ_PLANE, VTK_XZ_PLANE]

/-- `GetIJKMinForCellId` on a grid classified as a plane in y and z, with at least two samples
along y and no dimension equal to 0. -/
theorem GetIJKMinForCellId_yzplane (self : vtkImageData) (cellId : vtkIdType)
    (hd : self.DataDescription = VTK_YZ_PLANE) (h0 : 0 ≤ cellId)
    (hx : self.Extent.xmax - self.Extent.xmin + 1 ≠ 0)
    (hy : self.Extent.ymin < self.Extent.ymax)
    (hz : self.Extent.zmax - self.Extent.zmin + 1 ≠ 0) :
    self.GetIJKMinForCellId cellId = .ok ((true, (0, cellId % (self.Extent.ymax - self.Extent.ymin + 1 - 1), cellId / (self.Extent.ymax - self.Extent.ymin + 1 - 1))), self) := by
  have p : 0 < self.Extent.ymax - self.Extent.ymin + 1 - 1 := by omega
  have ny : ¬ self.Extent.ymax - self.Extent.ymin + 1 = 0 := by omega
  simp only [GetIJKMinForCellId, GetDimensions_dims, hd, hx, ny, hz, or_self, if_false,
    cMod_of_pos _ _ h0 p, cDiv_of_pos _ _ h0 p, bind, Except.bind]
  simp [VTK_XYZ_GRID, VTK_EMPTY, VTK_SINGLE_POINT, VTK_X_LINE, VTK_Y_LINE, VTK_Z_LINE, VTK_XY_PLANE,
    VTK_YZ_PLANE, VTK_XZ_PLANE]

/-- `GetIJKMinForCellId` on a grid classified as a plane in x and z, with at least two samples
along x and no dimension equal to 0. -/
theorem GetIJKMinForCellId_xzplane (self : vtkImageData) (cellId : vtkIdType)
    (hd : self.DataDescription = VTK_XZ_PLANE) (h0 : 0 ≤ cellId)
    (hx : self.Extent.xmin < self.Extent.xmax)
    (hy : self.Extent.ymax - self.Extent.ymin + 1 ≠ 0)
    (hz : self.Extent.zmax - self.Extent.zmin + 1 ≠ 0) :
    self.GetIJKMinForCellId cellId = .ok ((true, (cellId % (self.Extent.xmax - self.Extent.xmin + 1 - 1), 0, cellId / (self.Extent.xmax - self.Extent.xmin + 1 - 1))), self) := by
  have p : 0 < self.Extent.xmax - self.Extent.xmin + 1 - 1 := by omega
  have nx : ¬ self.Extent.xmax - self.Extent.xmin + 1 = 0 := by omega
  simp only [GetIJKMinForCellId, GetDimensions_dims, hd, nx, hy, hz, or_self, if_false,
    cMod_of_pos _ _ h0 p, cDiv_of_pos _ _ h0 p, bind, Except.bind]
  simp [VTK_XYZ_GRID, VTK_EMPTY, VTK_SINGLE_POINT, VTK_X_LINE, VTK_Y_LINE, VTK_Z_LINE, VTK_XY_PLANE,
    VTK_YZ_PLANE, VTK_XZ_PLANE]

/-- A running minimum `m = (f p < m ? f p : m)` over a list ends at most at its initial
value, at most at every `f p`, and at the initial value or at some `f p`. -/
theorem foldl_running_min {α : Type} (f : α → ℚ) (l : List α) (m0 : ℚ) :
    l.foldl (fun m p => if f p < m then f p else m) m0 ≤ m0 ∧
      (∀ p ∈ l, l.foldl (fun m p => if f p < m then f p else m) m0 ≤ f p) ∧
      (l.foldl (fun m p => if f p < m then f p else m) m0 = m0 ∨
        ∃ p ∈ l, l.foldl (fun m p => if f p < m then f p else m) m0 = f p) := by
  induction l generalizing m0 with
  | nil => simp
  | cons a t ih =>
    simp only [List.foldl_cons, List.mem_cons, forall_eq_or_imp, exists_eq_or_imp]
    obtain ⟨h1, h2, h3⟩ := ih (if f a < m0 then f a else m0)
    have hle0 : (if f a < m0 then f a else m0) ≤ m0 := by
      split_ifs with h
      · exact le_of_lt h
      · exact le_refl _
    have hlea : (if f a < m0 then f a else m0) ≤ f a := by
      split_ifs with h
      · exact le_refl _
      · exact not_lt.mp h
    refine ⟨le_trans h1 hle0, ⟨le_trans h1 hlea, h2⟩, ?_⟩
    rcases h3 with h3 | h3
    · by_cases h : f a < m0
      · right; left; rw [h3, if_pos h]
      · left; rw [h3, if_neg h]
    · right; right; exact h3

/-- A running maximum `m = (f p > m ? f p : m)` over a list ends at least at its initial
value, at least at every `f p`, and at the initial value or at some `f p`. -/
theorem foldl_running_max {α : Type} (f : α → ℚ) (l : List α) (m0 : ℚ) :
    m0 ≤ l.foldl (fun m p => if f p > m then f p else m) m0 ∧
      (∀ p ∈ l, f p ≤ l.foldl (fun m p => if f p > m then f p else m) m0) ∧
      (l.foldl (fun m p => if f p > m then f p else m) m0 = m0 ∨
        ∃ p ∈ l, l.foldl (fun m p => if f p > m then f p else m) m0 = f p) := by
  induction l generalizing m0 with
  | nil => simp
  | cons a t ih =>
    simp only [List.foldl_cons, List.mem_cons, forall_eq_or_imp, exists_eq_or_imp]
    obtain ⟨h1, h2, h3⟩ := ih (if f a > m0 then f a else m0)
    have hle0 : m0 ≤ (if f a > m0 then f a else m0) := by
      split_ifs with h
      · exact le_of_lt h
      · exact le_refl _
    have hlea : f a ≤ (if f a > m0 then f a else m0) := by
      split_ifs with h
      · exact le_refl _
      · exact not_lt.mp h
    refine ⟨le_trans hle0 h1, ⟨le_trans hlea h1, h2⟩, ?_⟩
    rcases h3 with h3 | h3
    · by_cases h : f a > m0
      · right; left; rw [h3, if_pos h]
      · left; rw [h3, if_neg h]
    · right; right; exact h3

/-- The loop body of `GetCellBounds` keeps six independent running extrema. -/
theorem foldl_update_components (l : List (ℚ × ℚ × ℚ)) (b : Bounds6) :
    (l.foldl GetCellBounds.update b).xmin
        = l.foldl (fun m p => if p.1 < m then p.1 else m) b.xmin ∧
      (l.foldl GetCellBounds.update b).xmax
        = l.foldl (fun m p => if p.1 > m then p.1 else m) b.xmax ∧
      (l.foldl GetCellBounds.update b).ymin
        = l.foldl (fun m p => if p.2.1 < m then p.2.1 else m) b.ymin ∧
      (l.foldl GetCellBounds.update b).ymax
        = l.foldl (fun m p => if p.2.1 > m then p.2.1 else m) b.ymax ∧
      (l.foldl GetCellBounds.update b).zmin
        = l.foldl (fun m p => if p.2.2 < m then p.2.2 else m) b.zmin ∧
      (l.foldl GetCellBounds.update b).zmax
        = l.foldl (fun m p => if p.2.2 > m then p.2.2 else m) b.zmax := by
  induction l generalizing b with
  | nil => simp
  | cons a t ih =>
    simp only [List.foldl_cons]
    obtain ⟨h1, h2, h3, h4, h5, h6⟩ := ih (GetCellBounds.update b a)
    exact ⟨h1, h2, h3, h4, h5, h6⟩

/-- The values of a loop `for (v = lo; v <= hi; v++)` are the integers from `lo` to `hi`. -/
theorem mem_forRange (lo hi v : Int) : v ∈ forRange lo hi ↔ lo ≤ v ∧ v ≤ hi := by
  simp only [forRange, List.mem_map, List.mem_range]
  constructor
  · rintro ⟨n, hn, rfl⟩
    omega
  · rintro ⟨h1, h2⟩
    exact ⟨(v - lo).toNat, by omega, by omega⟩

/-- The triple loop of `AddPointsToCellTemplate` and `GetCellBounds` visits the `loc` with
`ijkMin[a] <= loc[a] <= ijkMax[a]` on every axis. -/
theorem mem_forLoc (ijkMin ijkMax loc : Int × Int × Int) :
    loc ∈ forLoc ijkMin ijkMax ↔
      (ijkMin.1 ≤ loc.1 ∧ loc.1 ≤ ijkMax.1) ∧ (ijkMin.2.1 ≤ loc.2.1 ∧ loc.2.1 ≤ ijkMax.2.1) ∧
        (ijkMin.2.2 ≤ loc.2.2 ∧ loc.2.2 ≤ ijkMax.2.2) := by
  obtain ⟨l0, l1, l2⟩ := loc
  simp only [forLoc, List.mem_flatMap, List.mem_map, mem_forRange, Prod.mk.injEq]
  constructor
  · rintro ⟨c, hc, b, hb, a, ha, rfl, rfl, rfl⟩
    exact ⟨ha, hb, hc⟩
  · rintro ⟨ha, hb, hc⟩
    exact ⟨l2, hc, l1, hb, l0, ha, rfl, rfl, rfl⟩

/-- `GetIJKMaxForIJKMin` on a grid with no dimension equal to 0, classification by
classification. -/
theorem GetIJKMaxForIJKMin_cases (self : vtkImageData) (ijkMin : Int × Int × Int)
    (hx : self.Extent.xmax - self.Extent.xmin + 1 ≠ 0)
    (hy : self.Extent.ymax - self.Extent.ymin + 1 ≠ 0)
    (hz : self.Extent.zmax - self.Extent.zmin + 1 ≠ 0) :
    (self.DataDescription = VTK_SINGLE_POINT →
        self.GetIJKMaxForIJKMin ijkMin = ((true, (0, 0, 0)), self)) ∧
      (self.DataDescription = VTK_X_LINE →
        self.GetIJKMaxForIJKMin ijkMin = ((true, (ijkMin.1 + 1, 0, 0)), self)) ∧
      (self.DataDescription = VTK_Y_LINE →
        self.GetIJKMaxForIJKMin ijkMin = ((true, (0, ijkMin.2.1 + 1, 0)), self)) ∧
      (self.DataDescription = VTK_Z_LINE →
        self.GetIJKMaxForIJKMin ijkMin = ((true, (0, 0, ijkMin.2.2 + 1)), self)) ∧
      (self.DataDescription = VTK_XY_PLANE →
        self.GetIJKMaxForIJKMin ijkMin = ((true, (ijkMin.1 + 1, ijkMin.2.1 + 1, 0)), self)) ∧
      (self.DataDescription = VTK_YZ_PLANE →
        self.GetIJKMaxForIJKMin ijkMin = ((true, (0, ijkMin.2.1 + 1, ijkMin.2.2 + 1)), self)) ∧
      (self.DataDescription = VTK_XZ_PLANE →
        self.GetIJKMaxForIJKMin ijkMin = ((true, (ijkMin.1 + 1, 0, ijkMin.2.2 + 1)), self)) ∧
      (self.DataDescription = VTK_XYZ_GRID →
        self.GetIJKMaxForIJKMin ijkMin
          = ((true, (ijkMin.1 + 1, ijkMin.2.1 + 1, ijkMin.2.2 + 1)), self)) := by
  refine ⟨?_, ?_, ?_, ?_, ?_, ?_, ?_, ?_⟩ <;> intro hd <;>
    simp only [GetIJKMaxForIJKMin, GetDimensions_dims, hd, hx, hy, hz, or_self, if_false] <;>
    simp [VTK_XYZ_GRID, VTK_EMPTY, VTK_SINGLE_POINT, VTK_X_LINE, VTK_Y_LINE, VTK_Z_LINE,
      VTK_XY_PLANE, VTK_YZ_PLANE, VTK_XZ_PLANE]

/-- The two branches of `ComputeTransforms` fill the matrix the spec writes. -/
theorem ComputeTransforms_IndexToPhysicalMatrix (self : vtkImageData) :
    self.ComputeTransforms.IndexToPhysicalMatrix
      = IndexToPhysicalSpec self.Origin self.Spacing self.DirectionMatrix.Element := by
  by_cases h : self.DirectionMatrix.Element = 1
  · have hi : self.DirectionMatrix.IsIdentity = true := by simp [vtkMatrix3x3.IsIdentity, h]
    ext i j
    fin_cases i <;> fin_cases j <;>
      simp [ComputeTransforms, ComputeTransforms.identityPath, vtkMatrix4x4.SetElement, hi,
        IndexToPhysicalSpec, h, Matrix.one_apply] <;> rfl
  · have hi : self.DirectionMatrix.IsIdentity = false := by simp [vtkMatrix3x3.IsIdentity, h]
    ext i j
    fin_cases i <;> fin_cases j <;>
      simp [ComputeTransforms, ComputeTransforms.generalPath, vtkMatrix4x4.SetElement, hi,
        IndexToPhysicalSpec]

/-- `SetExtent` leaves origin, spacing, direction and the cached forward matrix alone. -/
theorem SetExtent_transform_members (structuredSetExtent : Extent6 → Extent6 → Int × Extent6)
    (self : vtkImageData) (extent : Extent6) :
    (self.SetExtent structuredSetExtent extent).Origin = self.Origin ∧
      (self.SetExtent structuredSetExtent extent).Spacing = self.Spacing ∧
      (self.SetExtent structuredSetExtent extent).DirectionMatrix = self.DirectionMatrix ∧
      (self.SetExtent structuredSetExtent extent).IndexToPhysicalMatrix
        = self.IndexToPhysicalMatrix := by
  simp only [SetExtent, SetDataDescription, Modified, vtkErrorMacro]
  split_ifs <;> exact ⟨rfl, rfl, rfl, rfl⟩

/-- `vtkMatrix3x3::SetElement` never moves the matrix's modification time back, and
leaves the matrix as it was when the time did not advance. -/
theorem SetElement_MTime (m : vtkMatrix3x3) (i j : Fin 3) (value : ℚ) :
    m.MTime ≤ (m.SetElement i j value).MTime ∧
      ((m.SetElement i j value).MTime ≤ m.MTime → m.SetElement i j value = m) := by
  by_cases h : m.Element i j ≠ value
  · rw [vtkMatrix3x3.SetElement, if_pos h]
    exact ⟨Nat.le_succ _, fun hle => absurd hle (Nat.not_succ_le_self _)⟩
  · rw [vtkMatrix3x3.SetElement, if_neg h]
    exact ⟨le_refl _, fun _ => rfl⟩

/-- After the nine `SetElement` calls of `SetDirectionMatrix` the matrix holds the nine
values; if its modification time did not advance, it is the matrix it was. -/
theorem SetDirectionMatrix_e00_cases (self : vtkImageData)
    (e00 e01 e02 e10 e11 e12 e20 e21 e22 : ℚ) :
    self.SetDirectionMatrix_e00 e00 e01 e02 e10 e11 e12 e20 e21 e22 = self ∨
      ∃ m3 : vtkMatrix3x3,
        self.SetDirectionMatrix_e00 e00 e01 e02 e10 e11 e12 e20 e21 e22
          = ({ self with DirectionMatrix := m3 }).ComputeTransforms.Modified := by
  have s1 := SetElement_MTime self.DirectionMatrix 0 0 e00
  have s2 := SetElement_MTime (self.DirectionMatrix.SetElement 0 0 e00) 0 1 e01
  have s3 := SetElement_MTime ((self.DirectionMatrix.SetElement 0 0 e00).SetElement 0 1 e01) 0 2 e02
  have s4 := SetElement_MTime (((self.DirectionMatrix.SetElement 0 0 e00).SetElement 0 1
    e01).SetElement 0 2 e02) 1 0 e10
  have s5 := SetElement_MTime ((((self.DirectionMatrix.SetElement 0 0 e00).SetElement 0 1
    e01).SetElement 0 2 e02).SetElement 1 0 e10) 1 1 e11
  have s6 := SetElement_MTime (((((self.DirectionMatrix.SetElement 0 0 e00).SetElement 0 1
    e01).SetElement 0 2 e02).SetElement 1 0 e10).SetElement 1 1 e11) 1 2 e12
  have s7 := SetElement_MTime ((((((self.DirectionMatrix.SetElement 0 0 e00).SetElement 0 1
    e01).SetElement 0 2 e02).SetElement 1 0 e10).SetElement 1 1 e11).SetElement 1 2 e12) 2 0 e20
  have s8 := SetElement_MTime (((((((self.DirectionMatrix.SetElement 0 0 e00).SetElement 0 1
    e01).SetElement 0 2 e02).SetElement 1 0 e10).SetElement 1 1 e11).SetElement 1 2
    e12).SetElement 2 0 e20) 2 1 e21
  have s9 := SetElement_MTime ((((((((self.DirectionMatrix.SetElement 0 0 e00).SetElement 0 1
    e01).SetElement 0 2 e02).SetElement 1 0 e10).SetElement 1 1 e11).SetElement 1 2
    e12).SetElement 2 0 e20).SetElement 2 1 e21) 2 2 e22
  simp only [SetDirectionMatrix_e00]
  split_ifs with h
  · exact Or.inr ⟨_, rfl⟩
  · left
    have e1 := s1.2 (by omega)
    rw [e1] at s2 s3 s4 s5 s6 s7 s8 s9 h ⊢
    have e2 := s2.2 (by omega)
    rw [e2] at s3 s4 s5 s6 s7 s8 s9 h ⊢
    have e3 := s3.2 (by omega)
    rw [e3] at s4 s5 s6 s7 s8 s9 h ⊢
    have e4 := s4.2 (by omega)
    rw [e4] at s5 s6 s7 s8 s9 h ⊢
    have e5 := s5.2 (by omega)
    rw [e5] at s6 s7 s8 s9 h ⊢
    have e6 := s6.2 (by omega)
    rw [e6] at s7 s8 s9 h ⊢
    have e7 := s7.2 (by omega)
    rw [e7] at s8 s9 h ⊢
    have e8 := s8.2 (by omega)
    rw [e8] at s9 h ⊢
    have e9 := s9.2 (by omega)
    rw [e9]

/-- A state just recomputed by `ComputeTransforms` and then marked modified holds the
matrix the spec writes for its own origin, spacing and direction. -/
theorem ComputeTransforms_Modified_spec (self : vtkImageData) :
    self.ComputeTransforms.Modified.IndexToPhysicalMatrix
      = IndexToPhysicalSpec self.ComputeTransforms.Modified.Origin
          self.ComputeTransforms.Modified.Spacing
          self.ComputeTransforms.Modified.DirectionMatrix.Element :=
  ComputeTransforms_IndexToPhysicalMatrix self

/-- The static `ComputeIndexToPhysicalMatrix` fills the matrix the spec writes. -/
theorem ComputeIndexToPhysicalMatrix_spec (origin spacing : ℚ × ℚ × ℚ)
    (D : Matrix (Fin 3) (Fin 3) ℚ) :
    ComputeIndexToPhysicalMatrix origin spacing D = IndexToPhysicalSpec origin spacing D := by
  ext i j
  fin_cases i <;> fin_cases j <;> rfl

/-- C19: in every state reachable from construction by `SetSpacing`, `SetOrigin`,
`SetDirectionMatrix` (nine-element forms), `CopyStructure` and `InternalImageDataCopy`,
the cached `IndexToPhysicalMatrix` equals `T = [D·diag(spacing) | origin; 0 0 0 1]` for
the current origin, spacing and direction `D` (its upper-left block being
`D * diag(spacing)`); the identity-direction branch of `ComputeTransforms` fills the same
matrix as the general branch, and `ComputeTransforms` the same matrix as the static
`ComputeIndexToPhysicalMatrix`. -/
theorem IndexToPhysicalMatrix_invariant
    (structuredSetExtent : Extent6 → Extent6 → Int × Extent6) (g : vtkImageData)
    (hr : Reachable structuredSetExtent g) :
    g.IndexToPhysicalMatrix = IndexToPhysicalSpec g.Origin g.Spacing g.DirectionMatrix.Element
      ∧ (∀ i j : Fin 3,
          IndexToPhysicalSpec g.Origin g.Spacing g.DirectionMatrix.Element i.castSucc j.castSucc
            = (g.DirectionMatrix.Element
                * Matrix.diagonal ![g.Spacing.1, g.Spacing.2.1, g.Spacing.2.2]) i j)
      ∧ (∀ spacing : ℚ × ℚ × ℚ,
          ComputeTransforms.identityPath spacing = ComputeTransforms.generalPath 1 spacing)
      ∧ (∀ self : vtkImageData,
          self.ComputeTransforms.IndexToPhysicalMatrix
            = ComputeIndexToPhysicalMatrix self.Origin self.Spacing
                self.DirectionMatrix.Element) := by
  refine ⟨?_, ?_, ?_, ?_⟩
  · induction hr with
    | construction => exact ComputeTransforms_IndexToPhysicalMatrix _
    | setSpacing g i j k _ ih =>
      simp only [SetSpacing]
      split_ifs
      · exact ComputeTransforms_Modified_spec _
      · exact ih
    | setOrigin g i j k _ ih =>
      simp only [SetOrigin]
      split_ifs
      · exact ComputeTransforms_Modified_spec _
      · exact ih
    | setDirectionMatrix_e00 g e00 e01 e02 e10 e11 e12 e20 e21 e22 _ ih =>
      rcases SetDirectionMatrix_e00_cases g e00 e01 e02 e10 e11 e12 e20 e21 e22 with h | ⟨m3, h⟩
      · rw [h]; exact ih
      · rw [h]; exact ComputeTransforms_Modified_spec _
    | setDirectionMatrix_elements g elements _ ih =>
      simp only [SetDirectionMatrix_elements]
      rcases SetDirectionMatrix_e00_cases g (elements 0 0) (elements 0 1) (elements 0 2)
        (elements 1 0) (elements 1 1) (elements 1 2) (elements 2 0) (elements 2 1)
        (elements 2 2) with h | ⟨m3, h⟩
      · rw [h]; exact ih
      · rw [h]; exact ComputeTransforms_Modified_spec _
    | copyStructure g sPts _ _ =>
      simp only [CopyStructure]
      rw [(SetExtent_transform_members _ _ _).1, (SetExtent_transform_members _ _ _).2.1,
        (SetExtent_transform_members _ _ _).2.2.1, (SetExtent_transform_members _ _ _).2.2.2]
      exact ComputeTransforms_IndexToPhysicalMatrix _
    | internalImageDataCopy g src _ _ =>
      simp only [InternalImageDataCopy]
      rw [(SetExtent_transform_members _ _ _).1, (SetExtent_transform_members _ _ _).2.1,
        (SetExtent_transform_members _ _ _).2.2.1, (SetExtent_transform_members _ _ _).2.2.2]
      exact ComputeTransforms_IndexToPhysicalMatrix _
  · intro i j
    rw [Matrix.mul_diagonal]
    fin_cases i <;> fin_cases j <;> rfl
  · intro spacing
    ext i j
    fin_cases i <;> fin_cases j <;>
      simp [ComputeTransforms.identityPath, ComputeTransforms.generalPath,
        vtkMatrix4x4.SetElement, Matrix.one_apply]
  · intro self
    rw [ComputeTransforms_IndexToPhysicalMatrix, ComputeIndexToPhysicalMatrix_spec]

/-- A use of C19: the state reached from construction by `SetSpacing(2, 3, 4)` and then
`SetOrigin(-5, 0, 1)`. -/
theorem IndexToPhysicalMatrix_invariant_witness :
    ((New.SetSpacing 2 3 4).SetOrigin (-5) 0 1).IndexToPhysicalMatrix
      = IndexToPhysicalSpec ((New.SetSpacing 2 3 4).SetOrigin (-5) 0 1).Origin
          ((New.SetSpacing 2 3 4).SetOrigin (-5) 0 1).Spacing
          ((New.SetSpacing 2 3 4).SetOrigin (-5) 0 1).DirectionMatrix.Element :=
  (IndexToPhysicalMatrix_invariant storingSetExtent _
    (Reachable.setOrigin _ _ _ _ (Reachable.setSpacing _ _ _ _ Reachable.construction))).1

/-- The determinant of the forward transform is the determinant of the direction times
the three spacings. -/
theorem det_IndexToPhysicalSpec (origin spacing : ℚ × ℚ × ℚ) (D : Matrix (Fin 3) (Fin 3) ℚ) :
    (IndexToPhysicalSpec origin spacing D).det = spacing.1 * spacing.2.1 * spacing.2.2 * D.det := by
  have e0 : (3 : Fin 4).succAbove (0 : Fin 3) = 0 := by decide
  have e1 : (3 : Fin 4).succAbove (1 : Fin 3) = 1 := by decide
  have e2 : (3 : Fin 4).succAbove (2 : Fin 3) = 2 := by decide
  have r0 : IndexToPhysicalSpec origin spacing D 3 0 = 0 := rfl
  have r1 : IndexToPhysicalSpec origin spacing D 3 1 = 0 := rfl
  have r2 : IndexToPhysicalSpec origin spacing D 3 2 = 0 := rfl
  have r3 : IndexToPhysicalSpec origin spacing D 3 3 = 1 := rfl
  have a00 : IndexToPhysicalSpec origin spacing D 0 0 = D 0 0 * spacing.1 := rfl
  have a01 : IndexToPhysicalSpec origin spacing D 0 1 = D 0 1 * spacing.2.1 := rfl
  have a02 : IndexToPhysicalSpec origin spacing D 0 2 = D 0 2 * spacing.2.2 := rfl
  have a10 : IndexToPhysicalSpec origin spacing D 1 0 = D 1 0 * spacing.1 := rfl
  have a11 : IndexToPhysicalSpec origin spacing D 1 1 = D 1 1 * spacing.2.1 := rfl
  have a12 : IndexToPhysicalSpec origin spacing D 1 2 = D 1 2 * spacing.2.2 := rfl
  have a20 : IndexToPhysicalSpec origin spacing D 2 0 = D 2 0 * spacing.1 := rfl
  have a21 : IndexToPhysicalSpec origin spacing D 2 1 = D 2 1 * spacing.2.1 := rfl
  have a22 : IndexToPhysicalSpec origin spacing D 2 2 = D 2 2 * spacing.2.2 := rfl
  rw [Matrix.det_succ_row _ (3 : Fin 4), Fin.sum_univ_four, r0, r1, r2, r3,
    Matrix.det_fin_three D, Matrix.det_fin_three
      ((IndexToPhysicalSpec origin spacing D).submatrix (Fin.succAbove 3) (Fin.succAbove 3))]
  simp only [Matrix.submatrix_apply, e0, e1, e2, a00, a01, a02, a10, a11, a12, a20, a21, a22]
  norm_num
  ring

/-- For a matrix with determinant other than 0, `vtkMatrix4x4::Invert` yields a left
inverse. -/
theorem Invert_mul_self (m out : Matrix (Fin 4) (Fin 4) ℚ) (h : m.det ≠ 0) :
    vtkMatrix4x4.Invert m out * m = 1 := by
  rw [vtkMatrix4x4.Invert, if_neg h, Matrix.smul_mul, Matrix.adjugate_mul, smul_smul,
    inv_mul_cancel₀ h, one_smul]

/-- `TransformCoordinates` with a matrix `N` undoes `TransformCoordinates` with a matrix `M`
whose last row is `0 0 0 1`, when `N * M = 1`. -/
theorem TransformCoordinates_left_inverse {K : Type} [Field K] (M N : Matrix (Fin 4) (Fin 4) K)
    (hNM : N * M = 1) (hrow : M 3 0 = 0 ∧ M 3 1 = 0 ∧ M 3 2 = 0 ∧ M 3 3 = 1) (p0 p1 p2 : K) :
    TransformCoordinates (TransformCoordinates p0 p1 p2 M).1 (TransformCoordinates p0 p1 p2 M).2.1
      (TransformCoordinates p0 p1 p2 M).2.2 N = (p0, p1, p2) := by
  obtain ⟨r0, r1, r2, r3⟩ := hrow
  have e : ∀ i j : Fin 4, N i 0 * M 0 j + N i 1 * M 1 j + N i 2 * M 2 j + N i 3 * M 3 j
      = (1 : Matrix (Fin 4) (Fin 4) K) i j := by
    intro i j
    rw [← hNM, Matrix.mul_apply, Fin.sum_univ_four]
  have e00 := e 0 0
  have e01 := e 0 1
  have e02 := e 0 2
  have e03 := e 0 3
  have e10 := e 1 0
  have e11 := e 1 1
  have e12 := e 1 2
  have e13 := e 1 3
  have e20 := e 2 0
  have e21 := e 2 1
  have e22 := e 2 2
  have e23 := e 2 3
  simp only [r0, r1, r2, r3, mul_zero, mul_one, add_zero, Matrix.one_apply_eq,
    Matrix.one_apply_ne, ne_eq, Fin.reduceEq, not_false_eq_true] at e00 e01 e02 e03 e10 e11
  simp only [r0, r1, r2, r3, mul_zero, mul_one, add_zero, Matrix.one_apply_eq,
    Matrix.one_apply_ne, ne_eq, Fin.reduceEq, not_false_eq_true] at e12 e13 e20 e21 e22 e23
  simp only [TransformCoordinates, Prod.mk.injEq]
  refine ⟨?_, ?_, ?_⟩
  · linear_combination p0 * e00 + p1 * e01 + p2 * e02 + e03
  · linear_combination p0 * e10 + p1 * e11 + p2 * e12 + e13
  · linear_combination p0 * e20 + p1 * e21 + p2 * e22 + e23

/-- `ComputeTransforms` caches as `PhysicalToIndexMatrix` what `vtkMatrix4x4::Invert` makes
of the forward matrix it has just cached. -/
theorem ComputeTransforms_PhysicalToIndexMatrix (self : vtkImageData) :
    self.ComputeTransforms.PhysicalToIndexMatrix
      = vtkMatrix4x4.Invert self.ComputeTransforms.IndexToPhysicalMatrix
          self.PhysicalToIndexMatrix := by
  simp only [ComputeTransforms]

/-- C18: for every origin, every spacing with no zero component, every direction matrix
with determinant other than 0 and every continuous index `(i, j, k)`, on the grid whose
transforms `ComputeTransforms` has cached (the inverse matrix being a left inverse of the
forward matrix), `TransformPhysicalPointToContinuousIndex` applied to
`TransformContinuousIndexToPhysicalPoint(i, j, k)` gives back `(i, j, k)`, exactly. -/
theorem transform_round_trip (self : vtkImageData) (i j k : ℚ)
    (hs : self.Spacing.1 ≠ 0 ∧ self.Spacing.2.1 ≠ 0 ∧ self.Spacing.2.2 ≠ 0)
    (hD : self.DirectionMatrix.Element.det ≠ 0) :
    self.ComputeTransforms.PhysicalToIndexMatrix * self.ComputeTransforms.IndexToPhysicalMatrix = 1
      ∧ self.ComputeTransforms.TransformPhysicalPointToContinuousIndex
          (self.ComputeTransforms.TransformContinuousIndexToPhysicalPoint i j k).1
          (self.ComputeTransforms.TransformContinuousIndexToPhysicalPoint i j k).2.1
          (self.ComputeTransforms.TransformContinuousIndexToPhysicalPoint i j k).2.2
        = (i, j, k) := by
  have hM := ComputeTransforms_IndexToPhysicalMatrix self
  have hdet : self.ComputeTransforms.IndexToPhysicalMatrix.det ≠ 0 := by
    rw [hM, det_IndexToPhysicalSpec]
    exact mul_ne_zero (mul_ne_zero (mul_ne_zero hs.1 hs.2.1) hs.2.2) hD
  have hinv : self.ComputeTransforms.PhysicalToIndexMatrix
      * self.ComputeTransforms.IndexToPhysicalMatrix = 1 := by
    rw [ComputeTransforms_PhysicalToIndexMatrix]
    exact Invert_mul_self _ _ hdet
  refine ⟨hinv, ?_⟩
  have hrow : self.ComputeTransforms.IndexToPhysicalMatrix 3 0 = 0 ∧
      self.ComputeTransforms.IndexToPhysicalMatrix 3 1 = 0 ∧
      self.ComputeTransforms.IndexToPhysicalMatrix 3 2 = 0 ∧
      self.ComputeTransforms.IndexToPhysicalMatrix 3 3 = 1 := by
    rw [hM]
    exact ⟨rfl, rfl, rfl, rfl⟩
  exact TransformCoordinates_left_inverse _ _ hinv hrow i j k

/-- A use of C18: origin `(-5, 0, 1)`, spacing `(2, 3, 4)`, identity direction and the
continuous index `(1/2, 7, -3)`. -/
theorem transform_round_trip_witness :
    ({ volume432 with Origin := (-5, 0, 1), Spacing := (2, 3, 4) }
        ).ComputeTransforms.TransformPhysicalPointToContinuousIndex
        (({ volume432 with Origin := (-5, 0, 1), Spacing := (2, 3, 4) }
          ).ComputeTransforms.TransformContinuousIndexToPhysicalPoint (1 / 2) 7 (-3)).1
        (({ volume432 with Origin := (-5, 0, 1), Spacing := (2, 3, 4) }
          ).ComputeTransforms.TransformContinuousIndexToPhysicalPoint (1 / 2) 7 (-3)).2.1
        (({ volume432 with Origin := (-5, 0, 1), Spacing := (2, 3, 4) }
          ).ComputeTransforms.TransformContinuousIndexToPhysicalPoint (1 / 2) 7 (-3)).2.2
      = (1 / 2, 7, -3) :=
  (transform_round_trip { volume432 with Origin := (-5, 0, 1), Spacing := (2, 3, 4) } (1 / 2) 7
    (-3) (by decide) (by simp [volume432, ofExtent])).2

/-- In an ordered field, the transpose of the 3x3 part of an invertible affine matrix
does not send a unit normal to a vector of squared length 0. -/
theorem TransformNormal_sq_ne_zero {K : Type} [LinearOrderedField K]
    (M Minv : Matrix (Fin 4) (Fin 4) K) (hMN : M * Minv = 1)
    (hrow : Minv 3 0 = 0 ∧ Minv 3 1 = 0 ∧ Minv 3 2 = 0 ∧ Minv 3 3 = 1) (n0 n1 n2 : K)
    (hunit : n0 * n0 + n1 * n1 + n2 * n2 = 1) :
    (TransformNormal n0 n1 n2 M).1 * (TransformNormal n0 n1 n2 M).1
      + (TransformNormal n0 n1 n2 M).2.1 * (TransformNormal n0 n1 n2 M).2.1
      + (TransformNormal n0 n1 n2 M).2.2 * (TransformNormal n0 n1 n2 M).2.2 ≠ 0 := by
  intro hq
  simp only [TransformNormal] at hq
  have s0 := mul_self_nonneg (M 0 0 * n0 + M 1 0 * n1 + M 2 0 * n2)
  have s1 := mul_self_nonneg (M 0 1 * n0 + M 1 1 * n1 + M 2 1 * n2)
  have s2 := mul_self_nonneg (M 0 2 * n0 + M 1 2 * n1 + M 2 2 * n2)
  have ht0 : M 0 0 * n0 + M 1 0 * n1 + M 2 0 * n2 = 0 :=
    mul_self_eq_zero.mp (le_antisymm (by linarith) s0)
  have ht1 : M 0 1 * n0 + M 1 1 * n1 + M 2 1 * n2 = 0 :=
    mul_self_eq_zero.mp (le_antisymm (by linarith) s1)
  have ht2 : M 0 2 * n0 + M 1 2 * n1 + M 2 2 * n2 = 0 :=
    mul_self_eq_zero.mp (le_antisymm (by linarith) s2)
  obtain ⟨r0, r1, r2, -⟩ := hrow
  have e : ∀ i j : Fin 4, M i 0 * Minv 0 j + M i 1 * Minv 1 j + M i 2 * Minv 2 j + M i 3 * Minv 3 j
      = (1 : Matrix (Fin 4) (Fin 4) K) i j := by
    intro i j
    rw [← hMN, Matrix.mul_apply, Fin.sum_univ_four]
  have e00 := e 0 0
  have e10 := e 1 0
  have e20 := e 2 0
  have e01 := e 0 1
  have e11 := e 1 1
  have e21 := e 2 1
  have e02 := e 0 2
  have e12 := e 1 2
  have e22 := e 2 2
  simp only [r0, r1, r2, mul_zero, add_zero, Matrix.one_apply_eq, Matrix.one_apply_ne, ne_eq,
    Fin.reduceEq, not_false_eq_true] at e00 e10 e20 e01 e11 e21 e02 e12 e22
  have z0 : n0 = 0 := by
    linear_combination (-n0) * e00 - n1 * e10 - n2 * e20 + Minv 0 0 * ht0 + Minv 1 0 * ht1
      + Minv 2 0 * ht2
  have z1 : n1 = 0 := by
    linear_combination (-n0) * e01 - n1 * e11 - n2 * e21 + Minv 0 1 * ht0 + Minv 1 1 * ht1
      + Minv 2 1 * ht2
  have z2 : n2 = 0 := by
    linear_combination (-n0) * e02 - n1 * e12 - n2 * e22 + Minv 0 2 * ht0 + Minv 1 2 * ht1
      + Minv 2 2 * ht2
  rw [z0, z1, z2] at hunit
  simp at hunit

/-- The last row of the inverse of a matrix with last row `0 0 0 1` is `0 0 0 1`. -/
theorem last_row_of_inverse {K : Type} [Field K] (M Minv : Matrix (Fin 4) (Fin 4) K)
    (hMN : M * Minv = 1) (hrow : M 3 0 = 0 ∧ M 3 1 = 0 ∧ M 3 2 = 0 ∧ M 3 3 = 1) :
    Minv 3 0 = 0 ∧ Minv 3 1 = 0 ∧ Minv 3 2 = 0 ∧ Minv 3 3 = 1 := by
  obtain ⟨r0, r1, r2, r3⟩ := hrow
  have e : ∀ j : Fin 4, M 3 0 * Minv 0 j + M 3 1 * Minv 1 j + M 3 2 * Minv 2 j + M 3 3 * Minv 3 j
      = (1 : Matrix (Fin 4) (Fin 4) K) 3 j := by
    intro j
    rw [← hMN, Matrix.mul_apply, Fin.sum_univ_four]
  have e0 := e 0
  have e1 := e 1
  have e2 := e 2
  have e3 := e 3
  simp only [r0, r1, r2, r3, zero_mul, one_mul, zero_add, Matrix.one_apply_eq,
    Matrix.one_apply_ne, ne_eq, Fin.reduceEq, not_false_eq_true] at e0 e1 e2 e3
  exact ⟨e0, e1, e2, e3⟩

/-- C20: for every pair of cached matrices of a grid with an invertible forward transform
(the inverse matrix times the forward matrix is 1, the forward matrix has last row
`0 0 0 1`) and every physical plane `(n, d)` with unit normal `n`, over any ordered field
with a square root that is exact at the squared length in question: the normal returned
by `TransformPhysicalPlaneToContinuousIndex` is the transpose of the forward matrix's 3x3
part applied to `n` (no translation) divided by its length, so it has length 1; and a
physical point `x` satisfies `n.x + d = 0` exactly when its continuous index
`u = TransformCoordinates(x, PhysicalToIndexMatrix)` satisfies `xn.u + xn[3] = 0`. -/
theorem plane_to_continuous_index {K : Type} [LinearOrderedField K] [DecidableEq K]
    (sqrt : K → K) (M Minv : Matrix (Fin 4) (Fin 4) K) (n0 n1 n2 d t0 t1 t2 : K)
    (hinv : Minv * M = 1) (hrow : M 3 0 = 0 ∧ M 3 1 = 0 ∧ M 3 2 = 0 ∧ M 3 3 = 1)
    (hunit : n0 * n0 + n1 * n1 + n2 * n2 = 1)
    (ht0 : t0 = M 0 0 * n0 + M 1 0 * n1 + M 2 0 * n2)
    (ht1 : t1 = M 0 1 * n0 + M 1 1 * n1 + M 2 1 * n2)
    (ht2 : t2 = M 0 2 * n0 + M 1 2 * n1 + M 2 2 * n2)
    (hsqrt : sqrt (t0 * t0 + t1 * t1 + t2 * t2) * sqrt (t0 * t0 + t1 * t1 + t2 * t2)
      = t0 * t0 + t1 * t1 + t2 * t2) :
    sqrt (t0 * t0 + t1 * t1 + t2 * t2) ≠ 0
      ∧ (TransformPhysicalPlaneToContinuousIndex_matrices sqrt M Minv (n0, n1, n2, d)).1
          = t0 / sqrt (t0 * t0 + t1 * t1 + t2 * t2)
      ∧ (TransformPhysicalPlaneToContinuousIndex_matrices sqrt M Minv (n0, n1, n2, d)).2.1
          = t1 / sqrt (t0 * t0 + t1 * t1 + t2 * t2)
      ∧ (TransformPhysicalPlaneToContinuousIndex_matrices sqrt M Minv (n0, n1, n2, d)).2.2.1
          = t2 / sqrt (t0 * t0 + t1 * t1 + t2 * t2)
      ∧ (TransformPhysicalPlaneToContinuousIndex_matrices sqrt M Minv (n0, n1, n2, d)).1
            * (TransformPhysicalPlaneToContinuousIndex_matrices sqrt M Minv (n0, n1, n2, d)).1
          + (TransformPhysicalPlaneToContinuousIndex_matrices sqrt M Minv (n0, n1, n2, d)).2.1
            * (TransformPhysicalPlaneToContinuousIndex_matrices sqrt M Minv (n0, n1, n2, d)).2.1
          + (TransformPhysicalPlaneToContinuousIndex_matrices sqrt M Minv (n0, n1, n2, d)).2.2.1
            * (TransformPhysicalPlaneToContinuousIndex_matrices sqrt M Minv (n0, n1, n2, d)).2.2.1
          = 1
      ∧ ∀ x0 x1 x2 : K,
          n0 * x0 + n1 * x1 + n2 * x2 + d = 0 ↔
          (TransformPhysicalPlaneToContinuousIndex_matrices sqrt M Minv (n0, n1, n2, d)).1
              * (TransformCoordinates x0 x1 x2 Minv).1
            + (TransformPhysicalPlaneToContinuousIndex_matrices sqrt M Minv (n0, n1, n2, d)).2.1
              * (TransformCoordinates x0 x1 x2 Minv).2.1
            + (TransformPhysicalPlaneToContinuousIndex_matrices sqrt M Minv (n0, n1, n2, d)).2.2.1
              * (TransformCoordinates x0 x1 x2 Minv).2.2
            + (TransformPhysicalPlaneToContinuousIndex_matrices sqrt M Minv (n0, n1, n2, d)).2.2.2
            = 0 := by
  have hMN : M * Minv = 1 := Matrix.mul_eq_one_comm.mp hinv
  have hrowInv := last_row_of_inverse M Minv hMN hrow
  have hq : t0 * t0 + t1 * t1 + t2 * t2 ≠ 0 := by
    have := TransformNormal_sq_ne_zero M Minv hMN hrowInv n0 n1 n2 hunit
    simp only [TransformNormal, ← ht0, ← ht1, ← ht2] at this
    exact this
  have hL : sqrt (t0 * t0 + t1 * t1 + t2 * t2) ≠ 0 := by
    intro h0
    rw [h0, mul_zero] at hsqrt
    exact hq hsqrt.symm
  -- the point on the plane that the method transforms
  have hp := TransformCoordinates_left_inverse Minv M hMN hrowInv (-d * n0) (-d * n1) (-d * n2)
  generalize hnew : TransformCoordinates (-d * n0) (-d * n1) (-d * n2) Minv = newPt at hp
  obtain ⟨p0, p1, p2⟩ := newPt
  simp only [TransformCoordinates, Prod.mk.injEq] at hp
  obtain ⟨hp0, hp1, hp2⟩ := hp
  have hxn : TransformPhysicalPlaneToContinuousIndex_matrices sqrt M Minv (n0, n1, n2, d)
      = (t0 / sqrt (t0 * t0 + t1 * t1 + t2 * t2), t1 / sqrt (t0 * t0 + t1 * t1 + t2 * t2),
          t2 / sqrt (t0 * t0 + t1 * t1 + t2 * t2),
          -(t0 / sqrt (t0 * t0 + t1 * t1 + t2 * t2)) * p0
            - t1 / sqrt (t0 * t0 + t1 * t1 + t2 * t2) * p1
            - t2 / sqrt (t0 * t0 + t1 * t1 + t2 * t2) * p2) := by
    simp only [TransformPhysicalPlaneToContinuousIndex_matrices, vtkMath.Normalize,
      TransformNormal, ← ht0, ← ht1, ← ht2, hL, ne_eq, not_false_eq_true, if_true, hnew]
  rw [hxn]
  refine ⟨hL, rfl, rfl, rfl, ?_, ?_⟩
  · simp only
    field_simp
    exact hsqrt.symm
  · intro x0 x1 x2
    have hu := TransformCoordinates_left_inverse Minv M hMN hrowInv x0 x1 x2
    generalize TransformCoordinates x0 x1 x2 Minv = u at hu ⊢
    obtain ⟨u0, u1, u2⟩ := u
    simp only [TransformCoordinates, Prod.mk.injEq] at hu
    obtain ⟨hu0, hu1, hu2⟩ := hu
    have key : t0 / sqrt (t0 * t0 + t1 * t1 + t2 * t2) * u0
        + t1 / sqrt (t0 * t0 + t1 * t1 + t2 * t2) * u1
        + t2 / sqrt (t0 * t0 + t1 * t1 + t2 * t2) * u2
        + (-(t0 / sqrt (t0 * t0 + t1 * t1 + t2 * t2)) * p0
            - t1 / sqrt (t0 * t0 + t1 * t1 + t2 * t2) * p1
            - t2 / sqrt (t0 * t0 + t1 * t1 + t2 * t2) * p2)
        = (n0 * x0 + n1 * x1 + n2 * x2 + d) / sqrt (t0 * t0 + t1 * t1 + t2 * t2) := by
      have hnum : t0 * u0 + t1 * u1 + t2 * u2 - t0 * p0 - t1 * p1 - t2 * p2
          = n0 * x0 + n1 * x1 + n2 * x2 + d := by
        rw [ht0, ht1, ht2]
        linear_combination n0 * hu0 + n1 * hu1 + n2 * hu2 - n0 * hp0 - n1 * hp1 - n2 * hp2
          + d * hunit
      rw [← hnum]
      field_simp
      ring
    simp only
    rw [key, div_eq_zero_iff]
    constructor
    · intro h
      exact Or.inl h
    · rintro (h | h)
      · exact h
      · exact absurd h hL

/-- A use of C20: forward matrix with spacing `(2, 3, 4)` and origin `(-5, 0, 1)`, the
plane `x + 2 = 0` with normal `(1, 0, 0)`, whose transformed normal has squared length 4,
with square root 2. -/
theorem plane_to_continuous_index_witness :
    (TransformPhysicalPlaneToContinuousIndex_matrices (fun _ : ℚ => 2)
        !![2, 0, 0, -5; 0, 3, 0, 0; 0, 0, 4, 1; 0, 0, 0, 1]
        !![1 / 2, 0, 0, 5 / 2; 0, 1 / 3, 0, 0; 0, 0, 1 / 4, -1 / 4; 0, 0, 0, 1]
        (1, 0, 0, 2)).1 = 2 / 2 :=
  (plane_to_continuous_index (fun _ : ℚ => 2)
    !![2, 0, 0, -5; 0, 3, 0, 0; 0, 0, 4, 1; 0, 0, 0, 1]
    !![1 / 2, 0, 0, 5 / 2; 0, 1 / 3, 0, 0; 0, 0, 1 / 4, -1 / 4; 0, 0, 0, 1]
    1 0 0 2 2 0 0
    (by
      rw [← Matrix.ext_iff]
      intro i j
      fin_cases i <;> fin_cases j <;>
        norm_num [Matrix.mul_apply, Fin.sum_univ_four, Matrix.one_apply, Matrix.vecHead,
          Matrix.vecTail] <;> rfl)
    ⟨rfl, rfl, rfl, rfl⟩ (by norm_num) (by simp) (by simp) (by simp) (by norm_num)).2.1

/-- One axis of the identity-direction branch of `ComputeBounds`: with the swap flag taken
from the sign of the spacing, the lower slot holds the smaller and the upper slot the
larger of the two end values. -/
theorem identityPath_axis (o s : ℚ) (lo hi : Int) (h : lo ≤ hi) :
    (if s < 0 then o + (hi : ℚ) * s else o + (lo : ℚ) * s)
        = min (o + (lo : ℚ) * s) (o + (hi : ℚ) * s)
      ∧ (if s < 0 then o + (lo : ℚ) * s else o + (hi : ℚ) * s)
        = max (o + (lo : ℚ) * s) (o + (hi : ℚ) * s) := by
  have hq : (lo : ℚ) ≤ (hi : ℚ) := by exact_mod_cast h
  by_cases hs : s < 0
  · have h1 : (hi : ℚ) * s ≤ (lo : ℚ) * s := mul_le_mul_of_nonpos_right hq hs.le
    rw [if_pos hs, if_pos hs, min_eq_right (by linarith), max_eq_left (by linarith)]
    exact ⟨rfl, rfl⟩
  · have h1 : (lo : ℚ) * s ≤ (hi : ℚ) * s := mul_le_mul_of_nonneg_right hq (not_lt.mp hs)
    rw [if_neg hs, if_neg hs, min_eq_left (by linarith), max_eq_right (by linarith)]
    exact ⟨rfl, rfl⟩

/-- The six values of the identity-direction branch of `ComputeBounds`, with the indexing
`extent[0 + swap]`, `extent[1 - swap]` resolved. -/
theorem identityPath_values (self : vtkImageData) :
    ComputeBounds.identityPath self =
      { xmin := if self.Spacing.1 < 0 then self.Origin.1 + (self.Extent.xmax : ℚ) * self.Spacing.1
          else self.Origin.1 + (self.Extent.xmin : ℚ) * self.Spacing.1
        xmax := if self.Spacing.1 < 0 then self.Origin.1 + (self.Extent.xmin : ℚ) * self.Spacing.1
          else self.Origin.1 + (self.Extent.xmax : ℚ) * self.Spacing.1
        ymin := if self.Spacing.2.1 < 0
          then self.Origin.2.1 + (self.Extent.ymax : ℚ) * self.Spacing.2.1
          else self.Origin.2.1 + (self.Extent.ymin : ℚ) * self.Spacing.2.1
        ymax := if self.Spacing.2.1 < 0
          then self.Origin.2.1 + (self.Extent.ymin : ℚ) * self.Spacing.2.1
          else self.Origin.2.1 + (self.Extent.ymax : ℚ) * self.Spacing.2.1
        zmin := if self.Spacing.2.2 < 0
          then self.Origin.2.2 + (self.Extent.zmax : ℚ) * self.Spacing.2.2
          else self.Origin.2.2 + (self.Extent.zmin : ℚ) * self.Spacing.2.2
        zmax := if self.Spacing.2.2 < 0
          then self.Origin.2.2 + (self.Extent.zmin : ℚ) * self.Spacing.2.2
          else self.Origin.2.2 + (self.Extent.zmax : ℚ) * self.Spacing.2.2 } := by
  unfold ComputeBounds.identityPath
  by_cases hx : self.Spacing.1 < 0 <;> by_cases hy : self.Spacing.2.1 < 0 <;>
    by_cases hz : self.Spacing.2.2 < 0 <;> simp [hx, hy, hz, extentAt]

/-- With a non-empty extent, an identity direction matrix and bounds older than the last
modification, `ComputeBounds` stores the result of its identity-direction branch. -/
theorem ComputeBounds_identity_branch (VTK_DOUBLE_MAX VTK_DOUBLE_MIN : ℚ)
    (self : vtkImageData)
    (hx : self.Extent.xmin ≤ self.Extent.xmax) (hy : self.Extent.ymin ≤ self.Extent.ymax)
    (hz : self.Extent.zmin ≤ self.Extent.zmax)
    (hid : self.DirectionMatrix.IsIdentity = true) (hstale : self.ComputeTime < self.MTime) :
    (self.ComputeBounds VTK_DOUBLE_MAX VTK_DOUBLE_MIN).Bounds
      = ComputeBounds.identityPath self := by
  unfold ComputeBounds
  rw [if_neg (not_le.mpr hstale)]
  have hne : ¬ (self.Extent.xmin > self.Extent.xmax ∨ self.Extent.ymin > self.Extent.ymax
      ∨ self.Extent.zmin > self.Extent.zmax) := by
    rintro (h | h | h)
    · exact absurd hx (not_le.mpr h)
    · exact absurd hy (not_le.mpr h)
    · exact absurd hz (not_le.mpr h)
  simp only [if_neg hne, hid, if_true]

/-- C16: for every non-empty extent with an identity direction matrix (and bounds older
than the last modification, so that `ComputeBounds` recomputes them), `ComputeBounds` sets
on each axis `a` `Bounds[2a]` to the smaller and `Bounds[2a+1]` to the larger of
`origin[a] + min_a*spacing[a]` and `origin[a] + max_a*spacing[a]`, so
`Bounds[2a] <= Bounds[2a+1]` for every sign of the spacing; with spacing `(-1, 1, 1)`,
`Bounds[0]` is computed from the extent's xmax and `Bounds[1]` from its xmin. -/
theorem ComputeBounds_identity_direction (VTK_DOUBLE_MAX VTK_DOUBLE_MIN : ℚ)
    (self : vtkImageData)
    (hx : self.Extent.xmin ≤ self.Extent.xmax) (hy : self.Extent.ymin ≤ self.Extent.ymax)
    (hz : self.Extent.zmin ≤ self.Extent.zmax)
    (hid : self.DirectionMatrix.IsIdentity = true) (hstale : self.ComputeTime < self.MTime) :
    (self.ComputeBounds VTK_DOUBLE_MAX VTK_DOUBLE_MIN).Bounds.xmin
        = min (self.Origin.1 + (self.Extent.xmin : ℚ) * self.Spacing.1)
            (self.Origin.1 + (self.Extent.xmax : ℚ) * self.Spacing.1)
      ∧ (self.ComputeBounds VTK_DOUBLE_MAX VTK_DOUBLE_MIN).Bounds.xmax
        = max (self.Origin.1 + (self.Extent.xmin : ℚ) * self.Spacing.1)
            (self.Origin.1 + (self.Extent.xmax : ℚ) * self.Spacing.1)
      ∧ (self.ComputeBounds VTK_DOUBLE_MAX VTK_DOUBLE_MIN).Bounds.ymin
        = min (self.Origin.2.1 + (self.Extent.ymin : ℚ) * self.Spacing.2.1)
            (self.Origin.2.1 + (self.Extent.ymax : ℚ) * self.Spacing.2.1)
      ∧ (self.ComputeBounds VTK_DOUBLE_MAX VTK_DOUBLE_MIN).Bounds.ymax
        = max (self.Origin.2.1 + (self.Extent.ymin : ℚ) * self.Spacing.2.1)
            (self.Origin.2.1 + (self.Extent.ymax : ℚ) * self.Spacing.2.1)
      ∧ (self.ComputeBounds VTK_DOUBLE_MAX VTK_DOUBLE_MIN).Bounds.zmin
        = min (self.Origin.2.2 + (self.Extent.zmin : ℚ) * self.Spacing.2.2)
            (self.Origin.2.2 + (self.Extent.zmax : ℚ) * self.Spacing.2.2)
      ∧ (self.ComputeBounds VTK_DOUBLE_MAX VTK_DOUBLE_MIN).Bounds.zmax
        = max (self.Origin.2.2 + (self.Extent.zmin : ℚ) * self.Spacing.2.2)
            (self.Origin.2.2 + (self.Extent.zmax : ℚ) * self.Spacing.2.2)
      ∧ (self.ComputeBounds VTK_DOUBLE_MAX VTK_DOUBLE_MIN).Bounds.xmin
        ≤ (self.ComputeBounds VTK_DOUBLE_MAX VTK_DOUBLE_MIN).Bounds.xmax
      ∧ (self.ComputeBounds VTK_DOUBLE_MAX VTK_DOUBLE_MIN).Bounds.ymin
        ≤ (self.ComputeBounds VTK_DOUBLE_MAX VTK_DOUBLE_MIN).Bounds.ymax
      ∧ (self.ComputeBounds VTK_DOUBLE_MAX VTK_DOUBLE_MIN).Bounds.zmin
        ≤ (self.ComputeBounds VTK_DOUBLE_MAX VTK_DOUBLE_MIN).Bounds.zmax
      ∧ (self.Spacing = (-1, 1, 1) →
          (self.ComputeBounds VTK_DOUBLE_MAX VTK_DOUBLE_MIN).Bounds.xmin
              = self.Origin.1 + (self.Extent.xmax : ℚ) * (-1)
            ∧ (self.ComputeBounds VTK_DOUBLE_MAX VTK_DOUBLE_MIN).Bounds.xmax
              = self.Origin.1 + (self.Extent.xmin : ℚ) * (-1)) := by
  rw [ComputeBounds_identity_branch VTK_DOUBLE_MAX VTK_DOUBLE_MIN self hx hy hz hid hstale,
    identityPath_values]
  have ax := identityPath_axis self.Origin.1 self.Spacing.1 _ _ hx
  have ay := identityPath_axis self.Origin.2.1 self.Spacing.2.1 _ _ hy
  have az := identityPath_axis self.Origin.2.2 self.Spacing.2.2 _ _ hz
  refine ⟨ax.1, ax.2, ay.1, ay.2, az.1, az.2, ?_, ?_, ?_, ?_⟩
  · show (if _ then _ else _) ≤ (if _ then _ else _)
    rw [ax.1, ax.2]
    exact min_le_max
  · show (if _ then _ else _) ≤ (if _ then _ else _)
    rw [ay.1, ay.2]
    exact min_le_max
  · show (if _ then _ else _) ≤ (if _ then _ else _)
    rw [az.1, az.2]
    exact min_le_max
  · intro hs
    have h1 : self.Spacing.1 = -1 := by rw [hs]
    have hneg : self.Spacing.1 < 0 := by rw [h1]; norm_num
    constructor
    · show (if _ then _ else _) = _
      rw [if_pos hneg, h1]
    · show (if _ then _ else _) = _
      rw [if_pos hneg, h1]

/-- A use of C16: the grid `[0,3,0,2,0,1]` with origin `(10, 0, 0)` and spacing
`(-1, 1, 1)`, modified once since its bounds were computed; `Bounds[0]` is
`10 + 3 * (-1) = 7`. -/
theorem ComputeBounds_identity_direction_witness :
    (({ volume432 with Origin := (10, 0, 0), Spacing := (-1, 1, 1), MTime := 1 }
        : vtkImageData).ComputeBounds 1000 (-1000)).Bounds.xmin = min (10 + 0 * (-1)) (10 + 3 * (-1)) := by
  have h := (ComputeBounds_identity_direction 1000 (-1000)
    ({ volume432 with Origin := (10, 0, 0), Spacing := (-1, 1, 1), MTime := 1 } : vtkImageData)
    (by decide) (by decide) (by decide) (by decide) (by decide)).1
  simpa [volume432, ofExtent] using h
/-- The loop bodies of `ComputeBounds` and `GetCellBounds` update the six running extrema
in the same way. -/
theorem ComputeBounds_update_eq : ComputeBounds.update = GetCellBounds.update := rfl

/-- A running minimum over values that are all `a` or `b`, both of which occur, ends at
the least of the initial value, `a` and `b`. -/
theorem foldl_running_min_two {α : Type} (f : α → ℚ) (l : List α) (m0 a b : ℚ)
    (hmem : ∀ p ∈ l, f p = a ∨ f p = b) (ha : ∃ p ∈ l, f p = a) (hb : ∃ p ∈ l, f p = b) :
    l.foldl (fun m p => if f p < m then f p else m) m0 = min m0 (min a b) := by
  obtain ⟨h1, h2, h3⟩ := foldl_running_min f l m0
  apply le_antisymm
  · refine le_min h1 (le_min ?_ ?_)
    · obtain ⟨p, hp, e⟩ := ha
      rw [← e]
      exact h2 p hp
    · obtain ⟨p, hp, e⟩ := hb
      rw [← e]
      exact h2 p hp
  · rcases h3 with h | ⟨p, hp, h⟩
    · rw [h]
      exact min_le_left _ _
    · rw [h]
      rcases hmem p hp with e | e
      · rw [e]
        exact (min_le_right _ _).trans (min_le_left _ _)
      · rw [e]
        exact (min_le_right _ _).trans (min_le_right _ _)

/-- A running maximum over values that are all `a` or `b`, both of which occur, ends at
the greatest of the initial value, `a` and `b`. -/
theorem foldl_running_max_two {α : Type} (f : α → ℚ) (l : List α) (m0 a b : ℚ)
    (hmem : ∀ p ∈ l, f p = a ∨ f p = b) (ha : ∃ p ∈ l, f p = a) (hb : ∃ p ∈ l, f p = b) :
    l.foldl (fun m p => if f p > m then f p else m) m0 = max m0 (max a b) := by
  obtain ⟨h1, h2, h3⟩ := foldl_running_max f l m0
  apply le_antisymm
  · rcases h3 with h | ⟨p, hp, h⟩
    · rw [h]
      exact le_max_left _ _
    · rw [h]
      rcases hmem p hp with e | e
      · rw [e]
        exact (le_max_left _ _).trans (le_max_right _ _)
      · rw [e]
        exact (le_max_right _ _).trans (le_max_right _ _)
  · refine max_le h1 (max_le ?_ ?_)
    · obtain ⟨p, hp, e⟩ := ha
      rw [← e]
      exact h2 p hp
    · obtain ⟨p, hp, e⟩ := hb
      rw [← e]
      exact h2 p hp

/-- After `ComputeTransforms` on a grid with the identity direction, an index point
`(i, j, k)` maps to `origin + (i, j, k) * spacing`, axis by axis. -/
theorem TransformIndexToPhysicalPoint_identity (self : vtkImageData)
    (hid : self.DirectionMatrix.IsIdentity = true) (i j k : Int) :
    self.ComputeTransforms.TransformIndexToPhysicalPoint i j k
      = (self.Origin.1 + (i : ℚ) * self.Spacing.1, self.Origin.2.1 + (j : ℚ) * self.Spacing.2.1,
          self.Origin.2.2 + (k : ℚ) * self.Spacing.2.2) := by
  have hD : self.DirectionMatrix.Element = 1 := by
    simpa [vtkMatrix3x3.IsIdentity] using hid
  unfold TransformIndexToPhysicalPoint TransformCoordinates
  rw [ComputeTransforms_IndexToPhysicalMatrix, hD]
  have e00 : IndexToPhysicalSpec self.Origin self.Spacing 1 0 0 = (1 : Matrix (Fin 3) (Fin 3) ℚ) 0 0 * self.Spacing.1 := rfl
  have e01 : IndexToPhysicalSpec self.Origin self.Spacing 1 0 1 = (1 : Matrix (Fin 3) (Fin 3) ℚ) 0 1 * self.Spacing.2.1 := rfl
  have e02 : IndexToPhysicalSpec self.Origin self.Spacing 1 0 2 = (1 : Matrix (Fin 3) (Fin 3) ℚ) 0 2 * self.Spacing.2.2 := rfl
  have e03 : IndexToPhysicalSpec self.Origin self.Spacing 1 0 3 = self.Origin.1 := rfl
  have e10 : IndexToPhysicalSpec self.Origin self.Spacing 1 1 0 = (1 : Matrix (Fin 3) (Fin 3) ℚ) 1 0 * self.Spacing.1 := rfl
  have e11 : IndexToPhysicalSpec self.Origin self.Spacing 1 1 1 = (1 : Matrix (Fin 3) (Fin 3) ℚ) 1 1 * self.Spacing.2.1 := rfl
  have e12 : IndexToPhysicalSpec self.Origin self.Spacing 1 1 2 = (1 : Matrix (Fin 3) (Fin 3) ℚ) 1 2 * self.Spacing.2.2 := rfl
  have e13 : IndexToPhysicalSpec self.Origin self.Spacing 1 1 3 = self.Origin.2.1 := rfl
  have e20 : IndexToPhysicalSpec self.Origin self.Spacing 1 2 0 = (1 : Matrix (Fin 3) (Fin 3) ℚ) 2 0 * self.Spacing.1 := rfl
  have e21 : IndexToPhysicalSpec self.Origin self.Spacing 1 2 1 = (1 : Matrix (Fin 3) (Fin 3) ℚ) 2 1 * self.Spacing.2.1 := rfl
  have e22 : IndexToPhysicalSpec self.Origin self.Spacing 1 2 2 = (1 : Matrix (Fin 3) (Fin 3) ℚ) 2 2 * self.Spacing.2.2 := rfl
  have e23 : IndexToPhysicalSpec self.Origin self.Spacing 1 2 3 = self.Origin.2.2 := rfl
  have o00 : (1 : Matrix (Fin 3) (Fin 3) ℚ) 0 0 = 1 := rfl
  have o01 : (1 : Matrix (Fin 3) (Fin 3) ℚ) 0 1 = 0 := rfl
  have o02 : (1 : Matrix (Fin 3) (Fin 3) ℚ) 0 2 = 0 := rfl
  have o10 : (1 : Matrix (Fin 3) (Fin 3) ℚ) 1 0 = 0 := rfl
  have o11 : (1 : Matrix (Fin 3) (Fin 3) ℚ) 1 1 = 1 := rfl
  have o12 : (1 : Matrix (Fin 3) (Fin 3) ℚ) 1 2 = 0 := rfl
  have o20 : (1 : Matrix (Fin 3) (Fin 3) ℚ) 2 0 = 0 := rfl
  have o21 : (1 : Matrix (Fin 3) (Fin 3) ℚ) 2 1 = 0 := rfl
  have o22 : (1 : Matrix (Fin 3) (Fin 3) ℚ) 2 2 = 1 := rfl
  rw [e00, e01, e02, e03, e10, e11, e12, e13, e20, e21, e22, e23, o00, o01, o02, o10, o11,
    o12, o20, o21, o22]
  refine Prod.ext ?_ (Prod.ext ?_ ?_) <;> simp only <;> ring

/-- The general branch of `ComputeBounds` on a grid with a non-empty extent and the
identity direction, after `ComputeTransforms`: each running minimum ends at the least of
`VTK_DOUBLE_MAX` and the two end values of its axis, each running maximum at the greatest
of `VTK_DOUBLE_MIN` and the two end values. -/
theorem generalPath_identity_direction (VTK_DOUBLE_MAX VTK_DOUBLE_MIN : ℚ)
    (self : vtkImageData) (hid : self.DirectionMatrix.IsIdentity = true) :
    ComputeBounds.generalPath VTK_DOUBLE_MAX VTK_DOUBLE_MIN self.ComputeTransforms =
      { xmin := min VTK_DOUBLE_MAX
          (min (self.Origin.1 + (self.Extent.xmin : ℚ) * self.Spacing.1)
            (self.Origin.1 + (self.Extent.xmax : ℚ) * self.Spacing.1))
        xmax := max VTK_DOUBLE_MIN
          (max (self.Origin.1 + (self.Extent.xmin : ℚ) * self.Spacing.1)
            (self.Origin.1 + (self.Extent.xmax : ℚ) * self.Spacing.1))
        ymin := min VTK_DOUBLE_MAX
          (min (self.Origin.2.1 + (self.Extent.ymin : ℚ) * self.Spacing.2.1)
            (self.Origin.2.1 + (self.Extent.ymax : ℚ) * self.Spacing.2.1))
        ymax := max VTK_DOUBLE_MIN
          (max (self.Origin.2.1 + (self.Extent.ymin : ℚ) * self.Spacing.2.1)
            (self.Origin.2.1 + (self.Extent.ymax : ℚ) * self.Spacing.2.1))
        zmin := min VTK_DOUBLE_MAX
          (min (self.Origin.2.2 + (self.Extent.zmin : ℚ) * self.Spacing.2.2)
            (self.Origin.2.2 + (self.Extent.zmax : ℚ) * self.Spacing.2.2))
        zmax := max VTK_DOUBLE_MIN
          (max (self.Origin.2.2 + (self.Extent.zmin : ℚ) * self.Spacing.2.2)
            (self.Origin.2.2 + (self.Extent.zmax : ℚ) * self.Spacing.2.2)) } := by
  have hfold : ComputeBounds.generalPath VTK_DOUBLE_MAX VTK_DOUBLE_MIN self.ComputeTransforms
      = ((ComputeBounds.ijkCorners self.Extent).map (fun c =>
          (self.Origin.1 + (c.1 : ℚ) * self.Spacing.1,
            self.Origin.2.1 + (c.2.1 : ℚ) * self.Spacing.2.1,
            self.Origin.2.2 + (c.2.2 : ℚ) * self.Spacing.2.2))).foldl GetCellBounds.update
          ⟨VTK_DOUBLE_MAX, VTK_DOUBLE_MIN, VTK_DOUBLE_MAX, VTK_DOUBLE_MIN, VTK_DOUBLE_MAX,
            VTK_DOUBLE_MIN⟩ := by
    unfold ComputeBounds.generalPath
    rw [List.foldl_map]
    simp only [TransformIndexToPhysicalPoint_identity self hid, ComputeBounds_update_eq]
    rfl
  rw [hfold]
  obtain ⟨c1, c2, c3, c4, c5, c6⟩ := foldl_update_components
    ((ComputeBounds.ijkCorners self.Extent).map (fun c =>
          (self.Origin.1 + (c.1 : ℚ) * self.Spacing.1,
            self.Origin.2.1 + (c.2.1 : ℚ) * self.Spacing.2.1,
            self.Origin.2.2 + (c.2.2 : ℚ) * self.Spacing.2.2)))
    ⟨VTK_DOUBLE_MAX, VTK_DOUBLE_MIN, VTK_DOUBLE_MAX, VTK_DOUBLE_MIN, VTK_DOUBLE_MAX,
            VTK_DOUBLE_MIN⟩
  have hext : ∀ b c : Bounds6, b.xmin = c.xmin → b.xmax = c.xmax → b.ymin = c.ymin →
      b.ymax = c.ymax → b.zmin = c.zmin → b.zmax = c.zmax → b = c := by
    intro b c h1 h2 h3 h4 h5 h6
    cases b
    cases c
    simp only at h1 h2 h3 h4 h5 h6
    simp only [h1, h2, h3, h4, h5, h6]
  refine hext _ _ ?_ ?_ ?_ ?_ ?_ ?_
  · rw [c1]
    exact foldl_running_min_two (fun p : ℚ × ℚ × ℚ => p.1) _ _ _ _
      (by simp [ComputeBounds.ijkCorners]) (by simp [ComputeBounds.ijkCorners])
      (by simp [ComputeBounds.ijkCorners])
  · rw [c2]
    exact foldl_running_max_two (fun p : ℚ × ℚ × ℚ => p.1) _ _ _ _
      (by simp [ComputeBounds.ijkCorners]) (by simp [ComputeBounds.ijkCorners])
      (by simp [ComputeBounds.ijkCorners])
  · rw [c3]
    exact foldl_running_min_two (fun p : ℚ × ℚ × ℚ => p.2.1) _ _ _ _
      (by simp [ComputeBounds.ijkCorners]) (by simp [ComputeBounds.ijkCorners])
      (by simp [ComputeBounds.ijkCorners])
  · rw [c4]
    exact foldl_running_max_two (fun p : ℚ × ℚ × ℚ => p.2.1) _ _ _ _
      (by simp [ComputeBounds.ijkCorners]) (by simp [ComputeBounds.ijkCorners])
      (by simp [ComputeBounds.ijkCorners])
  · rw [c5]
    exact foldl_running_min_two (fun p : ℚ × ℚ × ℚ => p.2.2) _ _ _ _
      (by simp [ComputeBounds.ijkCorners]) (by simp [ComputeBounds.ijkCorners])
      (by simp [ComputeBounds.ijkCorners])
  · rw [c6]
    exact foldl_running_max_two (fun p : ℚ × ℚ × ℚ => p.2.2) _ _ _ _
      (by simp [ComputeBounds.ijkCorners]) (by simp [ComputeBounds.ijkCorners])
      (by simp [ComputeBounds.ijkCorners])
/-- The identity-direction branch of `ComputeBounds` on a grid with a non-empty extent: on
each axis the smaller and the larger of the two end values. -/
theorem identityPath_min_max (self : vtkImageData)
    (hx : self.Extent.xmin ≤ self.Extent.xmax) (hy : self.Extent.ymin ≤ self.Extent.ymax)
    (hz : self.Extent.zmin ≤ self.Extent.zmax) :
    ComputeBounds.identityPath self =
      { xmin := min (self.Origin.1 + (self.Extent.xmin : ℚ) * self.Spacing.1)
          (self.Origin.1 + (self.Extent.xmax : ℚ) * self.Spacing.1)
        xmax := max (self.Origin.1 + (self.Extent.xmin : ℚ) * self.Spacing.1)
          (self.Origin.1 + (self.Extent.xmax : ℚ) * self.Spacing.1)
        ymin := min (self.Origin.2.1 + (self.Extent.ymin : ℚ) * self.Spacing.2.1)
          (self.Origin.2.1 + (self.Extent.ymax : ℚ) * self.Spacing.2.1)
        ymax := max (self.Origin.2.1 + (self.Extent.ymin : ℚ) * self.Spacing.2.1)
          (self.Origin.2.1 + (self.Extent.ymax : ℚ) * self.Spacing.2.1)
        zmin := min (self.Origin.2.2 + (self.Extent.zmin : ℚ) * self.Spacing.2.2)
          (self.Origin.2.2 + (self.Extent.zmax : ℚ) * self.Spacing.2.2)
        zmax := max (self.Origin.2.2 + (self.Extent.zmin : ℚ) * self.Spacing.2.2)
          (self.Origin.2.2 + (self.Extent.zmax : ℚ) * self.Spacing.2.2) } := by
  rw [identityPath_values]
  have ax := identityPath_axis self.Origin.1 self.Spacing.1 _ _ hx
  have ay := identityPath_axis self.Origin.2.1 self.Spacing.2.1 _ _ hy
  have az := identityPath_axis self.Origin.2.2 self.Spacing.2.2 _ _ hz
  rw [ax.1, ax.2, ay.1, ay.2, az.1, az.2]

/-- C17, counterexample: whatever the values of `VTK_DOUBLE_MAX` and `VTK_DOUBLE_MIN`, the
grid `[0,3,0,2,0,1]` with unit spacing, the identity direction and the origin
`(VTK_DOUBLE_MAX + |VTK_DOUBLE_MAX| + 1, 0, 0)` has a non-empty extent, its fast path gives
`Bounds[0] = origin[0]`, and its general path gives `Bounds[0] = VTK_DOUBLE_MAX`, the
initial value of the running minimum, which no corner is below; so the two paths differ.
With `VTK_DOUBLE_MAX = 1.0e+299`, `VTK_DOUBLE_MIN = -1.0e+299` and the origin
`(2.0e+299, 0, 0)` the fast path gives `2.0e+299` and the general path `1.0e+299`. -/
theorem ComputeBounds_paths_differ :
    (∀ VTK_DOUBLE_MAX VTK_DOUBLE_MIN : ℚ,
      ({ volume432 with Origin := (VTK_DOUBLE_MAX + |VTK_DOUBLE_MAX| + 1, 0, 0) }
          : vtkImageData).DirectionMatrix.IsIdentity = true
        ∧ (ComputeBounds.identityPath
            ({ volume432 with Origin := (VTK_DOUBLE_MAX + |VTK_DOUBLE_MAX| + 1, 0, 0) }
              : vtkImageData).ComputeTransforms).xmin = VTK_DOUBLE_MAX + |VTK_DOUBLE_MAX| + 1
        ∧ (ComputeBounds.generalPath VTK_DOUBLE_MAX VTK_DOUBLE_MIN
            ({ volume432 with Origin := (VTK_DOUBLE_MAX + |VTK_DOUBLE_MAX| + 1, 0, 0) }
              : vtkImageData).ComputeTransforms).xmin = VTK_DOUBLE_MAX
        ∧ ComputeBounds.generalPath VTK_DOUBLE_MAX VTK_DOUBLE_MIN
            ({ volume432 with Origin := (VTK_DOUBLE_MAX + |VTK_DOUBLE_MAX| + 1, 0, 0) }
              : vtkImageData).ComputeTransforms
          ≠ ComputeBounds.identityPath
            ({ volume432 with Origin := (VTK_DOUBLE_MAX + |VTK_DOUBLE_MAX| + 1, 0, 0) }
              : vtkImageData).ComputeTransforms)
      ∧ (ComputeBounds.identityPath
          ({ volume432 with Origin := (2 * 10 ^ 299, 0, 0) }
            : vtkImageData).ComputeTransforms).xmin = 2 * 10 ^ 299
      ∧ (ComputeBounds.generalPath (10 ^ 299) (-10 ^ 299)
          ({ volume432 with Origin := (2 * 10 ^ 299, 0, 0) }
            : vtkImageData).ComputeTransforms).xmin = 10 ^ 299 := by
  have hgen : ∀ dmax dmin o : ℚ, dmax < o →
      ({ volume432 with Origin := (o, 0, 0) } : vtkImageData).DirectionMatrix.IsIdentity = true
        ∧ (ComputeBounds.identityPath
            ({ volume432 with Origin := (o, 0, 0) } : vtkImageData).ComputeTransforms).xmin = o
        ∧ (ComputeBounds.generalPath dmax dmin
            ({ volume432 with Origin := (o, 0, 0) } : vtkImageData).ComputeTransforms).xmin
            = dmax := by
    intro dmax dmin o ho
    have hid : ({ volume432 with Origin := (o, 0, 0) }
        : vtkImageData).DirectionMatrix.IsIdentity = true := by
      simp [vtkMatrix3x3.IsIdentity, volume432, ofExtent]
    refine ⟨hid, ?_, ?_⟩
    · have h : ComputeBounds.identityPath
          ({ volume432 with Origin := (o, 0, 0) } : vtkImageData).ComputeTransforms
          = ComputeBounds.identityPath ({ volume432 with Origin := (o, 0, 0) } : vtkImageData) :=
        rfl
      rw [h, identityPath_values]
      simp [volume432, ofExtent]
    · rw [generalPath_identity_direction dmax dmin _ hid]
      simp only [volume432, ofExtent]
      rw [min_eq_left]
      refine le_min ?_ ?_ <;> norm_num <;> linarith
  refine ⟨?_, ?_, ?_⟩
  · intro dmax dmin
    have ho : dmax < dmax + |dmax| + 1 := by
      have := abs_nonneg dmax
      linarith
    obtain ⟨h1, h2, h3⟩ := hgen dmax dmin _ ho
    refine ⟨h1, h2, h3, ?_⟩
    intro heq
    rw [heq, h2] at h3
    linarith
  · exact (hgen (10 ^ 299) (-10 ^ 299) (2 * 10 ^ 299) (by norm_num)).2.1
  · exact (hgen (10 ^ 299) (-10 ^ 299) (2 * 10 ^ 299) (by norm_num)).2.2

/-- C17, amended: for every grid with a non-empty extent and the identity direction,
whatever its origin and spacing, the general path of `ComputeBounds` (evaluated on the
forward transform that `ComputeTransforms` builds for that origin, spacing and direction)
gives the same six bounds as the identity-direction fast path exactly when on every axis
the fast path's lower bound is at most `VTK_DOUBLE_MAX` and its upper bound is at least
`VTK_DOUBLE_MIN`, the initial values of the general path's running minima and maxima. -/
theorem ComputeBounds_paths_agree_iff (VTK_DOUBLE_MAX VTK_DOUBLE_MIN : ℚ)
    (self : vtkImageData)
    (hx : self.Extent.xmin ≤ self.Extent.xmax) (hy : self.Extent.ymin ≤ self.Extent.ymax)
    (hz : self.Extent.zmin ≤ self.Extent.zmax)
    (hid : self.DirectionMatrix.IsIdentity = true) :
    ComputeBounds.generalPath VTK_DOUBLE_MAX VTK_DOUBLE_MIN self.ComputeTransforms
        = ComputeBounds.identityPath self.ComputeTransforms
      ↔ ((ComputeBounds.identityPath self.ComputeTransforms).xmin ≤ VTK_DOUBLE_MAX
          ∧ VTK_DOUBLE_MIN ≤ (ComputeBounds.identityPath self.ComputeTransforms).xmax
          ∧ (ComputeBounds.identityPath self.ComputeTransforms).ymin ≤ VTK_DOUBLE_MAX
          ∧ VTK_DOUBLE_MIN ≤ (ComputeBounds.identityPath self.ComputeTransforms).ymax
          ∧ (ComputeBounds.identityPath self.ComputeTransforms).zmin ≤ VTK_DOUBLE_MAX
          ∧ VTK_DOUBLE_MIN ≤ (ComputeBounds.identityPath self.ComputeTransforms).zmax) := by
  have h : ComputeBounds.identityPath self.ComputeTransforms
      = ComputeBounds.identityPath self := rfl
  rw [h, generalPath_identity_direction VTK_DOUBLE_MAX VTK_DOUBLE_MIN self hid,
    identityPath_min_max self hx hy hz]
  simp only [Bounds6.mk.injEq, min_eq_right_iff, max_eq_right_iff]

/-- A use of C17: the grid `[0,3,0,2,0,1]` with origin `(10, 0, 0)` and spacing
`(-1, 1, 1)`, with `VTK_DOUBLE_MAX = 1.0e+299` and `VTK_DOUBLE_MIN = -1.0e+299`: both
paths give the same bounds. -/
theorem ComputeBounds_paths_agree_iff_witness :
    ComputeBounds.generalPath (10 ^ 299) (-10 ^ 299)
        ({ volume432 with Origin := (10, 0, 0), Spacing := (-1, 1, 1) }
          : vtkImageData).ComputeTransforms
      = ComputeBounds.identityPath
        ({ volume432 with Origin := (10, 0, 0), Spacing := (-1, 1, 1) }
          : vtkImageData).ComputeTransforms :=
  (ComputeBounds_paths_agree_iff (10 ^ 299) (-10 ^ 299)
    ({ volume432 with Origin := (10, 0, 0), Spacing := (-1, 1, 1) } : vtkImageData)
    (by decide) (by decide) (by decide) (by decide)).mpr (by
      have h : ComputeBounds.identityPath
          ({ volume432 with Origin := (10, 0, 0), Spacing := (-1, 1, 1) }
            : vtkImageData).ComputeTransforms
          = ⟨7, 10, 0, 2, 0, 1⟩ := by
        rw [identityPath_values]
        norm_num [volume432, ofExtent, ComputeTransforms]
      rw [h]
      norm_num)
/-- The corner loop of `GetCellBounds` over a list of points that is not empty ends with
`bounds[2a] <= bounds[2a+1]` on every axis, whatever the initial values. -/
theorem foldl_update_min_le_max (l : List (ℚ × ℚ × ℚ)) (b : Bounds6) (p : ℚ × ℚ × ℚ)
    (hp : p ∈ l) :
    (l.foldl GetCellBounds.update b).xmin ≤ (l.foldl GetCellBounds.update b).xmax
      ∧ (l.foldl GetCellBounds.update b).ymin ≤ (l.foldl GetCellBounds.update b).ymax
      ∧ (l.foldl GetCellBounds.update b).zmin ≤ (l.foldl GetCellBounds.update b).zmax := by
  obtain ⟨c1, c2, c3, c4, c5, c6⟩ := foldl_update_components l b
  rw [c1, c2, c3, c4, c5, c6]
  exact ⟨((foldl_running_min (fun q : ℚ × ℚ × ℚ => q.1) l b.xmin).2.1 p hp).trans
      ((foldl_running_max (fun q : ℚ × ℚ × ℚ => q.1) l b.xmax).2.1 p hp),
    ((foldl_running_min (fun q : ℚ × ℚ × ℚ => q.2.1) l b.ymin).2.1 p hp).trans
      ((foldl_running_max (fun q : ℚ × ℚ × ℚ => q.2.1) l b.ymax).2.1 p hp),
    ((foldl_running_min (fun q : ℚ × ℚ × ℚ => q.2.2) l b.zmin).2.1 p hp).trans
      ((foldl_running_max (fun q : ℚ × ℚ × ℚ => q.2.2) l b.zmax).2.1 p hp)⟩

/-- A running minimum that starts at or above some value of the list ends at a value of
the list. -/
theorem foldl_running_min_attained {α : Type} (f : α → ℚ) (l : List α) (m0 : ℚ)
    (h : ∃ p ∈ l, f p ≤ m0) :
    ∃ p ∈ l, l.foldl (fun m p => if f p < m then f p else m) m0 = f p := by
  obtain ⟨h1, h2, h3⟩ := foldl_running_min f l m0
  rcases h3 with h0 | h0
  · obtain ⟨p, hp, hle⟩ := h
    exact ⟨p, hp, le_antisymm (h2 p hp) (by rw [h0]; exact hle)⟩
  · exact h0

/-- A running maximum that starts at or below some value of the list ends at a value of
the list. -/
theorem foldl_running_max_attained {α : Type} (f : α → ℚ) (l : List α) (m0 : ℚ)
    (h : ∃ p ∈ l, m0 ≤ f p) :
    ∃ p ∈ l, l.foldl (fun m p => if f p > m then f p else m) m0 = f p := by
  obtain ⟨h1, h2, h3⟩ := foldl_running_max f l m0
  rcases h3 with h0 | h0
  · obtain ⟨p, hp, hle⟩ := h
    exact ⟨p, hp, le_antisymm (by rw [h0]; exact hle) (h2 p hp)⟩
  · exact h0

/-- The flag of one round of the loop of `ComputeStructuredCoordinates` is 0 or 1. -/
theorem axis_flag_cases (c : ℚ) (minExt maxExt : Int) :
    (ComputeStructuredCoordinates.axis c minExt maxExt).tmpInBounds = 0
      ∨ (ComputeStructuredCoordinates.axis c minExt maxExt).tmpInBounds = 1 := by
  unfold ComputeStructuredCoordinates.axis
  simp only
  split_ifs <;> simp

/-- The `&` of the three flags, each 0 or 1, starting from 1: it is 1 when all three are 1
and 0 otherwise. -/
theorem land_flags (a b c : Int) (ha : a = 0 ∨ a = 1) (hb : b = 0 ∨ b = 1)
    (hc : c = 0 ∨ c = 1) :
    (Int.land (Int.land (Int.land 1 a) b) c = 1 ↔ a = 1 ∧ b = 1 ∧ c = 1)
      ∧ (Int.land (Int.land (Int.land 1 a) b) c = 0
        ∨ Int.land (Int.land (Int.land 1 a) b) c = 1) := by
  rcases ha with rfl | rfl <;> rcases hb with rfl | rfl <;> rcases hc with rfl | rfl <;> decide

/-- `ComputeStructuredCoordinates` in terms of its three loop rounds. -/
theorem ComputeStructuredCoordinates_eq (self : vtkImageData) (x : ℚ × ℚ × ℚ) :
    self.ComputeStructuredCoordinates x
      = (Int.land (Int.land (Int.land 1
            (ComputeStructuredCoordinates.axis
              (self.TransformPhysicalPointToContinuousIndex x.1 x.2.1 x.2.2).1
              self.Extent.xmin self.Extent.xmax).tmpInBounds)
            (ComputeStructuredCoordinates.axis
              (self.TransformPhysicalPointToContinuousIndex x.1 x.2.1 x.2.2).2.1
              self.Extent.ymin self.Extent.ymax).tmpInBounds)
            (ComputeStructuredCoordinates.axis
              (self.TransformPhysicalPointToContinuousIndex x.1 x.2.1 x.2.2).2.2
              self.Extent.zmin self.Extent.zmax).tmpInBounds,
          ((ComputeStructuredCoordinates.axis
              (self.TransformPhysicalPointToContinuousIndex x.1 x.2.1 x.2.2).1
              self.Extent.xmin self.Extent.xmax).ijk,
            (ComputeStructuredCoordinates.axis
              (self.TransformPhysicalPointToContinuousIndex x.1 x.2.1 x.2.2).2.1
              self.Extent.ymin self.Extent.ymax).ijk,
            (ComputeStructuredCoordinates.axis
              (self.TransformPhysicalPointToContinuousIndex x.1 x.2.1 x.2.2).2.2
              self.Extent.zmin self.Extent.zmax).ijk),
          ((ComputeStructuredCoordinates.axis
              (self.TransformPhysicalPointToContinuousIndex x.1 x.2.1 x.2.2).1
              self.Extent.xmin self.Extent.xmax).pcoords,
            (ComputeStructuredCoordinates.axis
              (self.TransformPhysicalPointToContinuousIndex x.1 x.2.1 x.2.2).2.1
              self.Extent.ymin self.Extent.ymax).pcoords,
            (ComputeStructuredCoordinates.axis
              (self.TransformPhysicalPointToContinuousIndex x.1 x.2.1 x.2.2).2.2
              self.Extent.zmin self.Extent.zmax).pcoords)) := rfl

/-- One round of the loop at a continuous index equal to the axis maximum, on an axis with
`min < max`: the index snaps to `max - 1` with parametric coordinate 1, in bounds. -/
theorem axis_at_max (minExt maxExt : Int) (h : minExt < maxExt) :
    ComputeStructuredCoordinates.axis (maxExt : ℚ) minExt maxExt
      = { ijk := maxExt - 1, pcoords := 1, tmpInBounds := 1 } := by
  have hne : ¬ (minExt = maxExt ∨ maxExt < minExt) := by omega
  simp only [ComputeStructuredCoordinates.axis, vtkMath.Floor, Int.floor_intCast, hne, if_false,
    ge_iff_le, le_refl, if_true, sub_self, mul_zero]
  rw [if_pos]
  norm_num [ComputeStructuredCoordinates.tol2]

/-- C21: for every grid and every axis `a` with `min_a < max_a`, a physical point whose
continuous index equals `max_a` exactly on axis `a` and whose other two axes are in bounds
(their loop rounds set the flag) is resolved by `ComputeStructuredCoordinates` to
`ijk[a] = max_a - 1` and `pcoords[a] = 1`, with return value 1. -/
theorem ComputeStructuredCoordinates_boundary_snap (self : vtkImageData) (x : ℚ × ℚ × ℚ) :
    (self.Extent.xmin < self.Extent.xmax →
        (self.TransformPhysicalPointToContinuousIndex x.1 x.2.1 x.2.2).1 = (self.Extent.xmax : ℚ) →
        (ComputeStructuredCoordinates.axis
          (self.TransformPhysicalPointToContinuousIndex x.1 x.2.1 x.2.2).2.1
          self.Extent.ymin self.Extent.ymax).tmpInBounds = 1 →
        (ComputeStructuredCoordinates.axis
          (self.TransformPhysicalPointToContinuousIndex x.1 x.2.1 x.2.2).2.2
          self.Extent.zmin self.Extent.zmax).tmpInBounds = 1 →
        (self.ComputeStructuredCoordinates x).1 = 1
          ∧ (self.ComputeStructuredCoordinates x).2.1.1 = self.Extent.xmax - 1
          ∧ (self.ComputeStructuredCoordinates x).2.2.1 = 1)
      ∧ (self.Extent.ymin < self.Extent.ymax →
        (self.TransformPhysicalPointToContinuousIndex x.1 x.2.1 x.2.2).2.1
          = (self.Extent.ymax : ℚ) →
        (ComputeStructuredCoordinates.axis
          (self.TransformPhysicalPointToContinuousIndex x.1 x.2.1 x.2.2).1
          self.Extent.xmin self.Extent.xmax).tmpInBounds = 1 →
        (ComputeStructuredCoordinates.axis
          (self.TransformPhysicalPointToContinuousIndex x.1 x.2.1 x.2.2).2.2
          self.Extent.zmin self.Extent.zmax).tmpInBounds = 1 →
        (self.ComputeStructuredCoordinates x).1 = 1
          ∧ (self.ComputeStructuredCoordinates x).2.1.2.1 = self.Extent.ymax - 1
          ∧ (self.ComputeStructuredCoordinates x).2.2.2.1 = 1)
      ∧ (self.Extent.zmin < self.Extent.zmax →
        (self.TransformPhysicalPointToContinuousIndex x.1 x.2.1 x.2.2).2.2
          = (self.Extent.zmax : ℚ) →
        (ComputeStructuredCoordinates.axis
          (self.TransformPhysicalPointToContinuousIndex x.1 x.2.1 x.2.2).1
          self.Extent.xmin self.Extent.xmax).tmpInBounds = 1 →
        (ComputeStructuredCoordinates.axis
          (self.TransformPhysicalPointToContinuousIndex x.1 x.2.1 x.2.2).2.1
          self.Extent.ymin self.Extent.ymax).tmpInBounds = 1 →
        (self.ComputeStructuredCoordinates x).1 = 1
          ∧ (self.ComputeStructuredCoordinates x).2.1.2.2 = self.Extent.zmax - 1
          ∧ (self.ComputeStructuredCoordinates x).2.2.2.2 = 1) := by
  rw [ComputeStructuredCoordinates_eq]
  refine ⟨?_, ?_, ?_⟩
  · intro h hc h1 h2
    rw [hc, axis_at_max _ _ h, h1, h2]
    exact ⟨rfl, rfl, rfl⟩
  · intro h hc h1 h2
    rw [hc, axis_at_max _ _ h, h1, h2]
    exact ⟨rfl, rfl, rfl⟩
  · intro h hc h1 h2
    rw [hc, axis_at_max _ _ h, h1, h2]
    exact ⟨rfl, rfl, rfl⟩

/-- A use of C21: on the grid `[0,3,0,2,0,1]` with unit spacing and origin 0, the point
`(3, 1, 0)` lies on the face `x = xmax`; it resolves to `ijk[0] = 2`, `pcoords[0] = 1`,
in bounds. -/
theorem ComputeStructuredCoordinates_boundary_snap_witness :
    (volume432.ComputeStructuredCoordinates (3, 1, 0)).1 = 1
      ∧ (volume432.ComputeStructuredCoordinates (3, 1, 0)).2.1.1 = 3 - 1
      ∧ (volume432.ComputeStructuredCoordinates (3, 1, 0)).2.2.1 = 1 := by
  have hc : volume432.TransformPhysicalPointToContinuousIndex 3 1 0 = (3, 1, 0) := by
    simp [TransformPhysicalPointToContinuousIndex, TransformCoordinates, volume432, ofExtent,
      Matrix.one_apply]
  have h1 : (ComputeStructuredCoordinates.axis 1 0 2).tmpInBounds = 1 := by
    simp [ComputeStructuredCoordinates.axis, vtkMath.Floor]
  have h2 : (ComputeStructuredCoordinates.axis 0 0 1).tmpInBounds = 1 := by
    simp [ComputeStructuredCoordinates.axis, vtkMath.Floor]
  exact (ComputeStructuredCoordinates_boundary_snap volume432 (3, 1, 0)).1 (by decide)
    (by rw [hc]; norm_num [volume432, ofExtent]) (by rw [hc]; exact h1) (by rw [hc]; exact h2)
/-- The squared tolerance is the square of `1e-6`. -/
theorem tol2_eq : ComputeStructuredCoordinates.tol2 = 1 / 10 ^ 6 * (1 / 10 ^ 6) := by
  norm_num [ComputeStructuredCoordinates.tol2]

/-- A squared distance is within the squared tolerance exactly when the distance is within
`1e-6`, for a distance that is not negative. -/
theorem sq_le_tol2_iff (d : ℚ) (hd : 0 ≤ d) :
    d * d ≤ ComputeStructuredCoordinates.tol2 ↔ d ≤ 1 / 10 ^ 6 := by
  rw [tol2_eq]
  exact (mul_self_le_mul_self_iff hd (by norm_num)).symm

/-- One round of the loop of `ComputeStructuredCoordinates` on a non-empty axis sets the
flag exactly when the axis is in bounds in the claim's reading. -/
theorem axis_inBounds_iff (c : ℚ) (minExt maxExt : Int) (h : minExt ≤ maxExt) :
    (ComputeStructuredCoordinates.axis c minExt maxExt).tmpInBounds = 1
      ↔ AxisInBoundsSpec c minExt maxExt := by
  unfold ComputeStructuredCoordinates.axis AxisInBoundsSpec vtkMath.Floor
  simp only
  have hq : (minExt : ℚ) ≤ (maxExt : ℚ) := by exact_mod_cast h
  by_cases hdeg : minExt = maxExt
  · rw [if_pos (Or.inl hdeg), if_pos hdeg, tol2_eq]
    have e : (c - (minExt : ℚ)) ^ 2 = (c - (minExt : ℚ)) * (c - (minExt : ℚ)) := by ring
    have e2 : (1 : ℚ) / 10 ^ 12 = 1 / 10 ^ 6 * (1 / 10 ^ 6) := by norm_num
    rw [e, e2]
    split_ifs with h1
    · exact ⟨fun _ => h1, fun _ => rfl⟩
    · exact ⟨fun h => absurd h (zero_ne_one : (0 : Int) ≠ 1), fun h => absurd h h1⟩
  · have hlt : minExt < maxExt := lt_of_le_of_ne h hdeg
    have hqlt : (minExt : ℚ) < (maxExt : ℚ) := by exact_mod_cast hlt
    rw [if_neg hdeg]
    by_cases hlow : ⌊c⌋ < minExt
    · have hc : c < (minExt : ℚ) := Int.floor_lt.mp hlow
      rw [if_pos (Or.inr hlow)]
      have e : (c - (minExt : ℚ)) * (c - (minExt : ℚ))
          = ((minExt : ℚ) - c) * ((minExt : ℚ) - c) := by ring
      rw [e]
      have key := sq_le_tol2_iff ((minExt : ℚ) - c) (by linarith)
      split_ifs with h1
      · have := key.mp h1
        simp only [true_iff]
        constructor <;> linarith
      · simp only [zero_ne_one, false_iff]
        rintro ⟨h2, _⟩
        exact h1 (key.mpr (by linarith))
    · have hnot : ¬ (minExt = maxExt ∨ ⌊c⌋ < minExt) := by
        rintro (h1 | h1)
        · exact hdeg h1
        · exact hlow h1
      have hcmin : (minExt : ℚ) ≤ c := Int.le_floor.mp (not_lt.mp hlow)
      rw [if_neg hnot]
      by_cases hhigh : ⌊c⌋ ≥ maxExt
      · have hc : (maxExt : ℚ) ≤ c := Int.le_floor.mp hhigh
        rw [if_pos hhigh]
        have key := sq_le_tol2_iff (c - (maxExt : ℚ)) (by linarith)
        split_ifs with h1
        · have := key.mp h1
          simp only [true_iff]
          constructor <;> linarith
        · simp only [zero_ne_one, false_iff]
          rintro ⟨_, h2⟩
          exact h1 (key.mpr (by linarith))
      · have hc : c < (maxExt : ℚ) := Int.floor_lt.mp (not_le.mp hhigh)
        rw [if_neg hhigh]
        simp only [true_iff]
        constructor <;> linarith

/-- An axis that one round of the loop leaves out of bounds keeps `ijk = floor(c)` and
`pcoords = c - floor(c)`. -/
theorem axis_out_values (c : ℚ) (minExt maxExt : Int)
    (h : (ComputeStructuredCoordinates.axis c minExt maxExt).tmpInBounds ≠ 1) :
    (ComputeStructuredCoordinates.axis c minExt maxExt).ijk = ⌊c⌋
      ∧ (ComputeStructuredCoordinates.axis c minExt maxExt).pcoords = c - (⌊c⌋ : ℚ) := by
  unfold ComputeStructuredCoordinates.axis vtkMath.Floor at h ⊢
  simp only at h ⊢
  split_ifs at h ⊢ <;> simp_all

/-- An axis that one round of the loop leaves in bounds, on a non-empty axis, has
`min <= ijk <= max(max - 1, min)` and `0 <= pcoords <= 1`. -/
theorem axis_in_values (c : ℚ) (minExt maxExt : Int) (hne : minExt ≤ maxExt)
    (h : (ComputeStructuredCoordinates.axis c minExt maxExt).tmpInBounds = 1) :
    minExt ≤ (ComputeStructuredCoordinates.axis c minExt maxExt).ijk
      ∧ (ComputeStructuredCoordinates.axis c minExt maxExt).ijk ≤ max (maxExt - 1) minExt
      ∧ 0 ≤ (ComputeStructuredCoordinates.axis c minExt maxExt).pcoords
      ∧ (ComputeStructuredCoordinates.axis c minExt maxExt).pcoords ≤ 1 := by
  unfold ComputeStructuredCoordinates.axis vtkMath.Floor at h ⊢
  simp only at h ⊢
  split_ifs at h ⊢ with h1 h2 h3 h4 <;> dsimp only at h ⊢
  · exact ⟨le_refl _, le_max_right _ _, le_refl _, zero_le_one⟩
  · simp at h
  · have : minExt < maxExt := by omega
    exact ⟨by omega, le_max_left _ _, zero_le_one, le_refl _⟩
  · simp at h
  · have hf : minExt ≤ ⌊c⌋ ∧ ⌊c⌋ < maxExt := by omega
    refine ⟨hf.1, le_max_of_le_left (by omega), ?_, ?_⟩
    · have := Int.floor_le c
      linarith
    · have := Int.lt_floor_add_one c
      linarith

/-- On a degenerate axis, a loop round of `ComputeStructuredCoordinates` that ends in
bounds has snapped to `ijk = min`, `pcoords = 0`. -/
theorem axis_degenerate_in (c : ℚ) (minExt maxExt : Int) (hdeg : minExt = maxExt)
    (h : (ComputeStructuredCoordinates.axis c minExt maxExt).tmpInBounds = 1) :
    (ComputeStructuredCoordinates.axis c minExt maxExt).ijk = minExt
      ∧ (ComputeStructuredCoordinates.axis c minExt maxExt).pcoords = 0 := by
  unfold ComputeStructuredCoordinates.axis at h ⊢
  simp only [hdeg, true_or, if_true] at h ⊢
  split_ifs at h ⊢ with h1
  · exact ⟨rfl, rfl⟩
  · exact absurd h (zero_ne_one : (0 : Int) ≠ 1)

/-- A loop round of `ComputeStructuredCoordinates` that ends out of bounds with `floor(c) >= min` has `floor(c) >= max`. -/
theorem axis_out_high (c : ℚ) (minExt maxExt : Int)
    (h : (ComputeStructuredCoordinates.axis c minExt maxExt).tmpInBounds ≠ 1)
    (hlow : ¬ ⌊c⌋ < minExt) : maxExt ≤ ⌊c⌋ := by
  unfold ComputeStructuredCoordinates.axis vtkMath.Floor at h
  simp only at h
  by_cases hdeg : minExt = maxExt
  · rw [← hdeg]
    exact not_lt.mp hlow
  · have hnot : ¬ (minExt = maxExt ∨ ⌊c⌋ < minExt) := by
      rintro (h1 | h1)
      · exact hdeg h1
      · exact hlow h1
    rw [if_neg hnot] at h
    by_contra hhigh
    rw [if_neg (by simpa using hhigh)] at h
    exact h rfl

/-- The distance loop round of `FindCell` for an index below the axis minimum. -/
theorem FindCell_axis_low (idx : Int) (pcoords : ℚ) (minIdx maxIdx : Int) (spacing dist2 : ℚ)
    (h : idx < minIdx) :
    FindCell.axis idx pcoords minIdx maxIdx spacing dist2
      = { idx := minIdx, pcoords := 0,
          dist2 := dist2 + ((idx : ℚ) + pcoords - (minIdx : ℚ)) * spacing
            * (((idx : ℚ) + pcoords - (minIdx : ℚ)) * spacing) } := by
  simp only [FindCell.axis, h, if_true]

/-- The distance loop round of `FindCell` for an index at or above the maximum of a
degenerate axis. -/
theorem FindCell_axis_high_degenerate (idx : Int) (pcoords : ℚ) (minIdx maxIdx : Int)
    (spacing dist2 : ℚ) (h1 : ¬ idx < minIdx) (h2 : idx ≥ maxIdx) (h3 : maxIdx = minIdx) :
    FindCell.axis idx pcoords minIdx maxIdx spacing dist2
      = { idx := minIdx, pcoords := 0,
          dist2 := dist2 + ((idx : ℚ) + pcoords - (maxIdx : ℚ)) * spacing
            * (((idx : ℚ) + pcoords - (maxIdx : ℚ)) * spacing) } := by
  unfold FindCell.axis
  rw [if_neg h1, if_pos h2, if_pos h3]

/-- The distance loop round of `FindCell` for an index at or above the maximum of an axis
with `min < max`. -/
theorem FindCell_axis_high (idx : Int) (pcoords : ℚ) (minIdx maxIdx : Int)
    (spacing dist2 : ℚ) (h1 : ¬ idx < minIdx) (h2 : idx ≥ maxIdx) (h3 : ¬ maxIdx = minIdx) :
    FindCell.axis idx pcoords minIdx maxIdx spacing dist2
      = { idx := maxIdx - 1, pcoords := 1,
          dist2 := dist2 + ((idx : ℚ) + pcoords - (maxIdx : ℚ)) * spacing
            * (((idx : ℚ) + pcoords - (maxIdx : ℚ)) * spacing) } := by
  simp only [FindCell.axis, h1, if_false, h2, if_true, h3]

/-- The distance loop round of `FindCell` for an index inside `min .. max - 1`. -/
theorem FindCell_axis_mid (idx : Int) (pcoords : ℚ) (minIdx maxIdx : Int)
    (spacing dist2 : ℚ) (h1 : ¬ idx < minIdx) (h2 : ¬ idx ≥ maxIdx) :
    FindCell.axis idx pcoords minIdx maxIdx spacing dist2
      = { idx := idx, pcoords := pcoords, dist2 := dist2 } := by
  simp only [FindCell.axis, h1, h2, if_false]

/-- One round of the distance loop of `FindCell` on what `ComputeStructuredCoordinates`
left for a non-empty axis: the running squared distance grows by the spec's squared
distance of the axis, the index ends inside `min .. max(max - 1, min)`, the parametric
coordinate inside `0 .. 1`, and an axis in bounds is left as it was. -/
theorem FindCell_axis_spec (c : ℚ) (minExt maxExt : Int) (spacing dist2 : ℚ)
    (hne : minExt ≤ maxExt) :
    (FindCell.axis (ComputeStructuredCoordinates.axis c minExt maxExt).ijk
        (ComputeStructuredCoordinates.axis c minExt maxExt).pcoords minExt maxExt spacing
        dist2).dist2 = dist2 + AxisDist2Spec c minExt maxExt spacing
      ∧ minExt ≤ (FindCell.axis (ComputeStructuredCoordinates.axis c minExt maxExt).ijk
        (ComputeStructuredCoordinates.axis c minExt maxExt).pcoords minExt maxExt spacing
        dist2).idx
      ∧ (FindCell.axis (ComputeStructuredCoordinates.axis c minExt maxExt).ijk
        (ComputeStructuredCoordinates.axis c minExt maxExt).pcoords minExt maxExt spacing
        dist2).idx ≤ max (maxExt - 1) minExt
      ∧ 0 ≤ (FindCell.axis (ComputeStructuredCoordinates.axis c minExt maxExt).ijk
        (ComputeStructuredCoordinates.axis c minExt maxExt).pcoords minExt maxExt spacing
        dist2).pcoords
      ∧ (FindCell.axis (ComputeStructuredCoordinates.axis c minExt maxExt).ijk
        (ComputeStructuredCoordinates.axis c minExt maxExt).pcoords minExt maxExt spacing
        dist2).pcoords ≤ 1
      ∧ ((ComputeStructuredCoordinates.axis c minExt maxExt).tmpInBounds = 1 →
          (FindCell.axis (ComputeStructuredCoordinates.axis c minExt maxExt).ijk
            (ComputeStructuredCoordinates.axis c minExt maxExt).pcoords minExt maxExt spacing
            dist2).idx = (ComputeStructuredCoordinates.axis c minExt maxExt).ijk
          ∧ (FindCell.axis (ComputeStructuredCoordinates.axis c minExt maxExt).ijk
            (ComputeStructuredCoordinates.axis c minExt maxExt).pcoords minExt maxExt spacing
            dist2).pcoords = (ComputeStructuredCoordinates.axis c minExt maxExt).pcoords) := by
  have key : ∀ (i : Int) (p : ℚ) (f : Int), (f = 1 ↔ AxisInBoundsSpec c minExt maxExt) →
      (f = 1 → minExt ≤ i ∧ i ≤ max (maxExt - 1) minExt ∧ 0 ≤ p ∧ p ≤ 1) →
      (minExt = maxExt → f = 1 → i = minExt ∧ p = 0) →
      (f ≠ 1 → i = ⌊c⌋ ∧ p = c - ((⌊c⌋ : Int) : ℚ)) →
      (f ≠ 1 → ¬ ⌊c⌋ < minExt → maxExt ≤ ⌊c⌋) →
      (FindCell.axis i p minExt maxExt spacing dist2).dist2
          = dist2 + AxisDist2Spec c minExt maxExt spacing
        ∧ minExt ≤ (FindCell.axis i p minExt maxExt spacing dist2).idx
        ∧ (FindCell.axis i p minExt maxExt spacing dist2).idx ≤ max (maxExt - 1) minExt
        ∧ 0 ≤ (FindCell.axis i p minExt maxExt spacing dist2).pcoords
        ∧ (FindCell.axis i p minExt maxExt spacing dist2).pcoords ≤ 1
        ∧ (f = 1 → (FindCell.axis i p minExt maxExt spacing dist2).idx = i
          ∧ (FindCell.axis i p minExt maxExt spacing dist2).pcoords = p) := by
    intro i p f hiff hval hdegen hout hhi
    by_cases hin : f = 1
    · have hspec := hiff.mp hin
      obtain ⟨v1, v2, v3, v4⟩ := hval hin
      have hD : AxisDist2Spec c minExt maxExt spacing = 0 := by
        simp only [AxisDist2Spec, hspec, if_true]
      rw [hD, add_zero]
      by_cases hdeg : minExt = maxExt
      · obtain ⟨e1, e2⟩ := hdegen hdeg hin
        subst e1 e2
        rw [FindCell_axis_high_degenerate i 0 i maxExt spacing dist2 (lt_irrefl _)
          (by omega) hdeg.symm]
        refine ⟨?_, le_refl _, le_max_right _ _, le_refl _, zero_le_one, fun _ => ⟨rfl, rfl⟩⟩
        show dist2 + ((i : ℚ) + 0 - (maxExt : ℚ)) * spacing
          * (((i : ℚ) + 0 - (maxExt : ℚ)) * spacing) = dist2
        rw [hdeg]
        ring
      · have hlt : minExt < maxExt := lt_of_le_of_ne hne hdeg
        have hmax : max (maxExt - 1) minExt = maxExt - 1 := max_eq_left (by omega)
        rw [hmax] at v2
        rw [FindCell_axis_mid i p minExt maxExt spacing dist2 (not_lt.mpr v1) (by omega)]
        exact ⟨rfl, v1, by rw [hmax]; exact v2, v3, v4, fun _ => ⟨rfl, rfl⟩⟩
    · have hnspec : ¬ AxisInBoundsSpec c minExt maxExt := fun h => hin (hiff.mpr h)
      obtain ⟨e1, e2⟩ := hout hin
      subst e1 e2
      have hsum : ((⌊c⌋ : Int) : ℚ) + (c - ((⌊c⌋ : Int) : ℚ)) = c := by ring
      by_cases hlow : ⌊c⌋ < minExt
      · have hc : c < (minExt : ℚ) := Int.floor_lt.mp hlow
        rw [FindCell_axis_low _ _ _ _ _ _ hlow, hsum]
        refine ⟨?_, le_refl _, le_max_right _ _, le_refl _, zero_le_one, fun h => absurd h hin⟩
        show dist2 + (c - (minExt : ℚ)) * spacing * ((c - (minExt : ℚ)) * spacing) = _
        simp only [AxisDist2Spec, hnspec, if_false, hc, if_true]
        ring
      · have hhigh := hhi hin hlow
        have hc : ¬ c < (minExt : ℚ) := fun h => hlow (Int.floor_lt.mpr h)
        have hD : AxisDist2Spec c minExt maxExt spacing
            = (c - (maxExt : ℚ)) * spacing * ((c - (maxExt : ℚ)) * spacing) := by
          simp only [AxisDist2Spec, hnspec, if_false, hc]
          ring
        by_cases hdeg : maxExt = minExt
        · rw [FindCell_axis_high_degenerate _ _ _ _ _ _ hlow hhigh hdeg, hsum, hD]
          exact ⟨rfl, le_refl _, le_max_right _ _, le_refl _, zero_le_one,
            fun h => absurd h hin⟩
        · have hlt : minExt < maxExt := lt_of_le_of_ne hne (fun h => hdeg h.symm)
          rw [FindCell_axis_high _ _ _ _ _ _ hlow hhigh hdeg, hsum, hD]
          exact ⟨rfl, by show minExt ≤ maxExt - 1; omega, le_max_left _ _, zero_le_one,
            le_refl _, fun h => absurd h hin⟩
  exact key _ _ _ (axis_inBounds_iff c minExt maxExt hne)
    (axis_in_values c minExt maxExt hne) (axis_degenerate_in c minExt maxExt)
    (axis_out_values c minExt maxExt) (axis_out_high c minExt maxExt)
/-- The first block of `FindCell` on a non-empty grid, for a point with continuous index
`c`: it goes on exactly when every axis is in bounds or the spec's squared distances of
the three axes sum to at most `tol2`; the index it holds lies in
`min_a .. max(max_a - 1, min_a)` and the parametric coordinates in `0 .. 1` on every axis;
and when every axis is in bounds they are those of `ComputeStructuredCoordinates`. -/
theorem FindCell_locate_spec (self : vtkImageData) (x : ℚ × ℚ × ℚ) (tol2 : ℚ) (c : ℚ × ℚ × ℚ)
    (hc : c = self.TransformPhysicalPointToContinuousIndex x.1 x.2.1 x.2.2)
    (hx : self.Extent.xmin ≤ self.Extent.xmax) (hy : self.Extent.ymin ≤ self.Extent.ymax)
    (hz : self.Extent.zmin ≤ self.Extent.zmax) :
    ((FindCell.locate self x tol2).found = true
        ↔ (AxisInBoundsSpec c.1 self.Extent.xmin self.Extent.xmax
            ∧ AxisInBoundsSpec c.2.1 self.Extent.ymin self.Extent.ymax
            ∧ AxisInBoundsSpec c.2.2 self.Extent.zmin self.Extent.zmax)
          ∨ AxisDist2Spec c.1 self.Extent.xmin self.Extent.xmax self.Spacing.1
              + AxisDist2Spec c.2.1 self.Extent.ymin self.Extent.ymax self.Spacing.2.1
              + AxisDist2Spec c.2.2 self.Extent.zmin self.Extent.zmax self.Spacing.2.2 ≤ tol2)
      ∧ (self.Extent.xmin ≤ (FindCell.locate self x tol2).idx.1
          ∧ (FindCell.locate self x tol2).idx.1 ≤ max (self.Extent.xmax - 1) self.Extent.xmin)
      ∧ (self.Extent.ymin ≤ (FindCell.locate self x tol2).idx.2.1
          ∧ (FindCell.locate self x tol2).idx.2.1 ≤ max (self.Extent.ymax - 1) self.Extent.ymin)
      ∧ (self.Extent.zmin ≤ (FindCell.locate self x tol2).idx.2.2
          ∧ (FindCell.locate self x tol2).idx.2.2 ≤ max (self.Extent.zmax - 1) self.Extent.zmin)
      ∧ (0 ≤ (FindCell.locate self x tol2).pcoords.1
          ∧ (FindCell.locate self x tol2).pcoords.1 ≤ 1)
      ∧ (0 ≤ (FindCell.locate self x tol2).pcoords.2.1
          ∧ (FindCell.locate self x tol2).pcoords.2.1 ≤ 1)
      ∧ (0 ≤ (FindCell.locate self x tol2).pcoords.2.2
          ∧ (FindCell.locate self x tol2).pcoords.2.2 ≤ 1)
      ∧ ((self.ComputeStructuredCoordinates x).1 = 1 →
          (FindCell.locate self x tol2).idx = (self.ComputeStructuredCoordinates x).2.1
            ∧ (FindCell.locate self x tol2).pcoords = (self.ComputeStructuredCoordinates x).2.2) := by
  have fx := axis_flag_cases c.1 self.Extent.xmin self.Extent.xmax
  have fy := axis_flag_cases c.2.1 self.Extent.ymin self.Extent.ymax
  have fz := axis_flag_cases c.2.2 self.Extent.zmin self.Extent.zmax
  have ix := axis_inBounds_iff c.1 _ _ hx
  have iy := axis_inBounds_iff c.2.1 _ _ hy
  have iz := axis_inBounds_iff c.2.2 _ _ hz
  obtain ⟨l1, l2⟩ := land_flags _ _ _ fx fy fz
  have hcsc := ComputeStructuredCoordinates_eq self x
  rw [← hc] at hcsc
  unfold FindCell.locate
  rw [hcsc]
  dsimp only
  obtain ⟨dx, x1, x2, x3, x4, x5⟩ := FindCell_axis_spec c.1 self.Extent.xmin self.Extent.xmax
    self.Spacing.1 0 hx
  obtain ⟨dy, y1, y2, y3, y4, y5⟩ := FindCell_axis_spec c.2.1 self.Extent.ymin self.Extent.ymax
    self.Spacing.2.1 (FindCell.axis
      (ComputeStructuredCoordinates.axis c.1 self.Extent.xmin self.Extent.xmax).ijk
      (ComputeStructuredCoordinates.axis c.1 self.Extent.xmin self.Extent.xmax).pcoords
      self.Extent.xmin self.Extent.xmax self.Spacing.1 0).dist2 hy
  obtain ⟨dz, z1, z2, z3, z4, z5⟩ := FindCell_axis_spec c.2.2 self.Extent.zmin self.Extent.zmax
    self.Spacing.2.2 (FindCell.axis
      (ComputeStructuredCoordinates.axis c.2.1 self.Extent.ymin self.Extent.ymax).ijk
      (ComputeStructuredCoordinates.axis c.2.1 self.Extent.ymin self.Extent.ymax).pcoords
      self.Extent.ymin self.Extent.ymax self.Spacing.2.1 (FindCell.axis
        (ComputeStructuredCoordinates.axis c.1 self.Extent.xmin self.Extent.xmax).ijk
        (ComputeStructuredCoordinates.axis c.1 self.Extent.xmin self.Extent.xmax).pcoords
        self.Extent.xmin self.Extent.xmax self.Spacing.1 0).dist2).dist2 hz
  by_cases h1 : Int.land (Int.land (Int.land 1
      (ComputeStructuredCoordinates.axis c.1 self.Extent.xmin self.Extent.xmax).tmpInBounds)
      (ComputeStructuredCoordinates.axis c.2.1 self.Extent.ymin self.Extent.ymax).tmpInBounds)
      (ComputeStructuredCoordinates.axis c.2.2 self.Extent.zmin self.Extent.zmax).tmpInBounds = 1
  · have h0 : ¬ Int.land (Int.land (Int.land 1
        (ComputeStructuredCoordinates.axis c.1 self.Extent.xmin self.Extent.xmax).tmpInBounds)
        (ComputeStructuredCoordinates.axis c.2.1 self.Extent.ymin self.Extent.ymax).tmpInBounds)
        (ComputeStructuredCoordinates.axis c.2.2 self.Extent.zmin self.Extent.zmax).tmpInBounds
        = 0 := by
      rw [h1]
      decide
    obtain ⟨gx, gy, gz⟩ := l1.mp h1
    obtain ⟨vx1, vx2, vx3, vx4⟩ := axis_in_values _ _ _ hx gx
    obtain ⟨vy1, vy2, vy3, vy4⟩ := axis_in_values _ _ _ hy gy
    obtain ⟨vz1, vz2, vz3, vz4⟩ := axis_in_values _ _ _ hz gz
    rw [if_neg h0]
    refine ⟨⟨fun _ => Or.inl ⟨ix.mp gx, iy.mp gy, iz.mp gz⟩, fun _ => rfl⟩, ⟨vx1, vx2⟩,
      ⟨vy1, vy2⟩, ⟨vz1, vz2⟩, ⟨vx3, vx4⟩, ⟨vy3, vy4⟩, ⟨vz3, vz4⟩, fun _ => ⟨rfl, rfl⟩⟩
  · have h0 : Int.land (Int.land (Int.land 1
        (ComputeStructuredCoordinates.axis c.1 self.Extent.xmin self.Extent.xmax).tmpInBounds)
        (ComputeStructuredCoordinates.axis c.2.1 self.Extent.ymin self.Extent.ymax).tmpInBounds)
        (ComputeStructuredCoordinates.axis c.2.2 self.Extent.zmin self.Extent.zmax).tmpInBounds
        = 0 := l2.resolve_right h1
    have hns : ¬ (AxisInBoundsSpec c.1 self.Extent.xmin self.Extent.xmax
        ∧ AxisInBoundsSpec c.2.1 self.Extent.ymin self.Extent.ymax
        ∧ AxisInBoundsSpec c.2.2 self.Extent.zmin self.Extent.zmax) := by
      rintro ⟨s1, s2, s3⟩
      exact h1 (l1.mpr ⟨ix.mpr s1, iy.mpr s2, iz.mpr s3⟩)
    rw [if_pos h0]
    refine ⟨?_, ⟨x1, x2⟩, ⟨y1, y2⟩, ⟨z1, z2⟩, ⟨x3, x4⟩, ⟨y3, y4⟩, ⟨z3, z4⟩,
      fun h => absurd h h1⟩
    show (!decide (_ > tol2)) = true ↔ _
    rw [dz, dy, dx, zero_add]
    simp only [Bool.not_eq_true', decide_eq_false_iff_not, not_lt, gt_iff_lt]
    exact ⟨fun h => Or.inr h, fun h => h.resolve_left hns⟩
/-- For an index inside `min_a .. max(max_a - 1, min_a)` on every axis of a non-empty
extent, `ComputeCellId` lies in `0 .. GetNumberOfCells - 1`. -/
theorem ComputeCellId_range (self : vtkImageData) (idx : Int × Int × Int)
    (hx : self.Extent.xmin ≤ self.Extent.xmax) (hy : self.Extent.ymin ≤ self.Extent.ymax)
    (hz : self.Extent.zmin ≤ self.Extent.zmax)
    (h1 : self.Extent.xmin ≤ idx.1 ∧ idx.1 ≤ max (self.Extent.xmax - 1) self.Extent.xmin)
    (h2 : self.Extent.ymin ≤ idx.2.1 ∧ idx.2.1 ≤ max (self.Extent.ymax - 1) self.Extent.ymin)
    (h3 : self.Extent.zmin ≤ idx.2.2 ∧ idx.2.2 ≤ max (self.Extent.zmax - 1) self.Extent.zmin) :
    0 ≤ self.ComputeCellId idx ∧ self.ComputeCellId idx < self.GetNumberOfCells := by
  rw [GetNumberOfCells_eq_product self hx hy hz]
  have r := rowMajor_range (idx.1 - self.Extent.xmin) (idx.2.1 - self.Extent.ymin)
    (idx.2.2 - self.Extent.zmin) (max (self.Extent.xmax - self.Extent.xmin + 1 - 1) 1)
    (max (self.Extent.ymax - self.Extent.ymin + 1 - 1) 1)
    (max (self.Extent.zmax - self.Extent.zmin + 1 - 1) 1)
    (by omega) (by omega) (by omega)
  have hid : self.ComputeCellId idx
      = (idx.1 - self.Extent.xmin)
        + (idx.2.1 - self.Extent.ymin) * max (self.Extent.xmax - self.Extent.xmin + 1 - 1) 1
        + (idx.2.2 - self.Extent.zmin) * max (self.Extent.xmax - self.Extent.xmin + 1 - 1) 1
          * max (self.Extent.ymax - self.Extent.ymin + 1 - 1) 1 := rfl
  rw [hid]
  constructor
  · exact r.1
  · linarith [r.2]

/-- A row-major code of two digits decodes by one remainder and one quotient. -/
theorem div_mod_two (a b dx : Int) (ha : 0 ≤ a ∧ a < dx) :
    (a + b * dx) % dx = a ∧ (a + b * dx) / dx = b := by
  have hdx : 0 < dx := by omega
  constructor
  · rw [Int.add_mul_emod_self, Int.emod_eq_of_lt ha.1 ha.2]
  · rw [Int.add_mul_ediv_right a b (ne_of_gt hdx), Int.ediv_eq_zero_of_lt ha.1 ha.2, zero_add]

/-- On a non-empty grid whose classification matches its extent, `GetIJKMinForCellId`
undoes `ComputeCellId` on every index inside `min_a .. max(max_a - 1, min_a)`: it returns
the index relative to the extent minimum. -/
theorem GetIJKMinForCellId_ComputeCellId (self : vtkImageData) (idx : Int × Int × Int)
    (hx : self.Extent.xmin ≤ self.Extent.xmax) (hy : self.Extent.ymin ≤ self.Extent.ymax)
    (hz : self.Extent.zmin ≤ self.Extent.zmax)
    (hclass : self.DataDescription = GetDataDescriptionFromExtent self.Extent)
    (h1 : self.Extent.xmin ≤ idx.1 ∧ idx.1 ≤ max (self.Extent.xmax - 1) self.Extent.xmin)
    (h2 : self.Extent.ymin ≤ idx.2.1 ∧ idx.2.1 ≤ max (self.Extent.ymax - 1) self.Extent.ymin)
    (h3 : self.Extent.zmin ≤ idx.2.2 ∧ idx.2.2 ≤ max (self.Extent.zmax - 1) self.Extent.zmin) :
    self.GetIJKMinForCellId (self.ComputeCellId idx)
      = .ok ((true, (idx.1 - self.Extent.xmin, idx.2.1 - self.Extent.ymin,
          idx.2.2 - self.Extent.zmin)), self) := by
  have h0 := (ComputeCellId_range self idx hx hy hz h1 h2 h3).1
  have nx : self.Extent.xmax - self.Extent.xmin + 1 ≠ 0 := by omega
  have ny : self.Extent.ymax - self.Extent.ymin + 1 ≠ 0 := by omega
  have nz : self.Extent.zmax - self.Extent.zmin + 1 ≠ 0 := by omega
  have gx : ¬ self.Extent.xmin > self.Extent.xmax := by omega
  have gy : ¬ self.Extent.ymin > self.Extent.ymax := by omega
  have gz : ¬ self.Extent.zmin > self.Extent.zmax := by omega
  have hid : self.ComputeCellId idx
      = (idx.1 - self.Extent.xmin)
        + (idx.2.1 - self.Extent.ymin) * max (self.Extent.xmax - self.Extent.xmin + 1 - 1) 1
        + (idx.2.2 - self.Extent.zmin) * max (self.Extent.xmax - self.Extent.xmin + 1 - 1) 1
          * max (self.Extent.ymax - self.Extent.ymin + 1 - 1) 1 := rfl
  simp only [GetDataDescriptionFromExtent, gx, gy, gz, or_self, if_false] at hclass
  rcases eq_or_lt_of_le hx with ex | lx <;> rcases eq_or_lt_of_le hy with ey | ly <;>
    rcases eq_or_lt_of_le hz with ez | lz
  · -- a single point
    have bx : ¬ self.Extent.xmin < self.Extent.xmax := by omega
    have by1 : ¬ self.Extent.ymin < self.Extent.ymax := by omega
    have bz : ¬ self.Extent.zmin < self.Extent.zmax := by omega
    simp only [bx, by1, bz, decide_False] at hclass
    rw [GetIJKMinForCellId_point self _ hclass nx ny nz]
    have e1 : idx.1 - self.Extent.xmin = 0 := by omega
    have e2 : idx.2.1 - self.Extent.ymin = 0 := by omega
    have e3 : idx.2.2 - self.Extent.zmin = 0 := by omega
    rw [e1, e2, e3]
  · -- a line along z
    have bx : ¬ self.Extent.xmin < self.Extent.xmax := by omega
    have by1 : ¬ self.Extent.ymin < self.Extent.ymax := by omega
    simp only [bx, by1, lz, decide_False, decide_True] at hclass
    rw [GetIJKMinForCellId_zline self _ hclass nx ny nz]
    have e1 : idx.1 - self.Extent.xmin = 0 := by omega
    have e2 : idx.2.1 - self.Extent.ymin = 0 := by omega
    have m1 : max (self.Extent.xmax - self.Extent.xmin + 1 - 1) 1 = 1 := by omega
    have m2 : max (self.Extent.ymax - self.Extent.ymin + 1 - 1) 1 = 1 := by omega
    rw [hid, e1, e2, m1, m2]
    simp
  · -- a line along y
    have bx : ¬ self.Extent.xmin < self.Extent.xmax := by omega
    have bz : ¬ self.Extent.zmin < self.Extent.zmax := by omega
    simp only [bx, ly, bz, decide_False, decide_True] at hclass
    rw [GetIJKMinForCellId_yline self _ hclass nx ny nz]
    have e1 : idx.1 - self.Extent.xmin = 0 := by omega
    have e3 : idx.2.2 - self.Extent.zmin = 0 := by omega
    have m1 : max (self.Extent.xmax - self.Extent.xmin + 1 - 1) 1 = 1 := by omega
    rw [hid, e1, e3, m1]
    simp
  · -- a plane in y and z
    have bx : ¬ self.Extent.xmin < self.Extent.xmax := by omega
    simp only [bx, ly, lz, decide_False, decide_True] at hclass
    rw [GetIJKMinForCellId_yzplane self _ hclass h0 nx ly nz]
    have e1 : idx.1 - self.Extent.xmin = 0 := by omega
    have m1 : max (self.Extent.xmax - self.Extent.xmin + 1 - 1) 1 = 1 := by omega
    have m2 : max (self.Extent.ymax - self.Extent.ymin + 1 - 1) 1
        = self.Extent.ymax - self.Extent.ymin + 1 - 1 := by omega
    obtain ⟨d1, d2⟩ := div_mod_two (idx.2.1 - self.Extent.ymin) (idx.2.2 - self.Extent.zmin)
      (self.Extent.ymax - self.Extent.ymin + 1 - 1) (by omega)
    have hid2 : self.ComputeCellId idx = (idx.2.1 - self.Extent.ymin)
        + (idx.2.2 - self.Extent.zmin) * (self.Extent.ymax - self.Extent.ymin + 1 - 1) := by
      rw [hid, e1, m1, m2]
      ring
    rw [hid2, d1, d2, e1]
  · -- a line along x
    have by1 : ¬ self.Extent.ymin < self.Extent.ymax := by omega
    have bz : ¬ self.Extent.zmin < self.Extent.zmax := by omega
    simp only [lx, by1, bz, decide_False, decide_True] at hclass
    rw [GetIJKMinForCellId_xline self _ hclass nx ny nz]
    have e2 : idx.2.1 - self.Extent.ymin = 0 := by omega
    have e3 : idx.2.2 - self.Extent.zmin = 0 := by omega
    rw [hid, e2, e3]
    simp
  · -- a plane in x and z
    have by1 : ¬ self.Extent.ymin < self.Extent.ymax := by omega
    simp only [lx, by1, lz, decide_False, decide_True] at hclass
    rw [GetIJKMinForCellId_xzplane self _ hclass h0 lx ny nz]
    have e2 : idx.2.1 - self.Extent.ymin = 0 := by omega
    have m1 : max (self.Extent.xmax - self.Extent.xmin + 1 - 1) 1
        = self.Extent.xmax - self.Extent.xmin + 1 - 1 := by omega
    have m2 : max (self.Extent.ymax - self.Extent.ymin + 1 - 1) 1 = 1 := by omega
    obtain ⟨d1, d2⟩ := div_mod_two (idx.1 - self.Extent.xmin) (idx.2.2 - self.Extent.zmin)
      (self.Extent.xmax - self.Extent.xmin + 1 - 1) (by omega)
    have hid2 : self.ComputeCellId idx = (idx.1 - self.Extent.xmin)
        + (idx.2.2 - self.Extent.zmin) * (self.Extent.xmax - self.Extent.xmin + 1 - 1) := by
      rw [hid, e2, m1, m2]
      ring
    rw [hid2, d1, d2, e2]
  · -- a plane in x and y
    have bz : ¬ self.Extent.zmin < self.Extent.zmax := by omega
    simp only [lx, ly, bz, decide_False, decide_True] at hclass
    rw [GetIJKMinForCellId_xyplane self _ hclass h0 lx ny nz]
    have e3 : idx.2.2 - self.Extent.zmin = 0 := by omega
    have m1 : max (self.Extent.xmax - self.Extent.xmin + 1 - 1) 1
        = self.Extent.xmax - self.Extent.xmin + 1 - 1 := by omega
    obtain ⟨d1, d2⟩ := div_mod_two (idx.1 - self.Extent.xmin) (idx.2.1 - self.Extent.ymin)
      (self.Extent.xmax - self.Extent.xmin + 1 - 1) (by omega)
    have hid2 : self.ComputeCellId idx = (idx.1 - self.Extent.xmin)
        + (idx.2.1 - self.Extent.ymin) * (self.Extent.xmax - self.Extent.xmin + 1 - 1) := by
      rw [hid, e3, m1]
      ring
    rw [hid2, d1, d2, e3]
  · -- a 3D grid
    simp only [lx, ly, lz, decide_True] at hclass
    rw [GetIJKMinForCellId_xyz self _ hclass h0 lx ly nz]
    have m1 : max (self.Extent.xmax - self.Extent.xmin + 1 - 1) 1
        = self.Extent.xmax - self.Extent.xmin + 1 - 1 := by omega
    have m2 : max (self.Extent.ymax - self.Extent.ymin + 1 - 1) 1
        = self.Extent.ymax - self.Extent.ymin + 1 - 1 := by omega
    obtain ⟨d1, d2, d3⟩ := rowMajor_decode (idx.1 - self.Extent.xmin)
      (idx.2.1 - self.Extent.ymin) (idx.2.2 - self.Extent.zmin)
      (self.Extent.xmax - self.Extent.xmin + 1 - 1) (self.Extent.ymax - self.Extent.ymin + 1 - 1)
      (by omega) (by omega)
    rw [hid, m1, m2, d1, d2, d3]
/-- The id `FindCell` returns: `ComputeCellId` of the index its first block holds when it
goes on, and -1 when it leaves through `return -1;`. -/
theorem FindCell_cellId (self : vtkImageData) (x : ℚ × ℚ × ℚ) (tol2 : ℚ) (subId : Int)
    (weights : Bool) :
    (self.FindCell x tol2 subId weights).cellId
      = if (FindCell.locate self x tol2).found = true
        then self.ComputeCellId (FindCell.locate self x tol2).idx else -1 := by
  unfold FindCell
  cases hf : (FindCell.locate self x tol2).found <;> cases weights <;> simp [hf]

/-- For a continuous index `c` that lies outside a non-empty axis by `delta > 0`, the axis
is in bounds in the claim's reading exactly when `delta <= 1e-6`. -/
theorem spec_of_outside (c : ℚ) (minExt maxExt : Int) (delta : ℚ) (hne : minExt ≤ maxExt)
    (hd : 0 < delta) (hc : c = (minExt : ℚ) - delta ∨ c = (maxExt : ℚ) + delta) :
    AxisInBoundsSpec c minExt maxExt ↔ delta ≤ 1 / 10 ^ 6 := by
  have hq : (minExt : ℚ) ≤ (maxExt : ℚ) := by exact_mod_cast hne
  have hsq : delta ^ 2 ≤ 1 / 10 ^ 12 ↔ delta ≤ 1 / 10 ^ 6 := by
    have e : (1 : ℚ) / 10 ^ 12 = (1 / 10 ^ 6) ^ 2 := by norm_num
    rw [e]
    exact pow_le_pow_iff_left₀ hd.le (by norm_num) (by norm_num)
  unfold AxisInBoundsSpec
  by_cases hdeg : minExt = maxExt
  · rw [if_pos hdeg]
    have hqe : (minExt : ℚ) = (maxExt : ℚ) := by exact_mod_cast hdeg
    rcases hc with e | e
    · have e2 : (c - (minExt : ℚ)) ^ 2 = delta ^ 2 := by rw [e]; ring
      rw [e2]
      exact hsq
    · have e2 : (c - (minExt : ℚ)) ^ 2 = delta ^ 2 := by rw [e, hqe]; ring
      rw [e2]
      exact hsq
  · rw [if_neg hdeg]
    rcases hc with e | e
    · constructor
      · rintro ⟨h1, _⟩
        linarith
      · intro h
        constructor <;> linarith
    · constructor
      · rintro ⟨_, h2⟩
        linarith
      · intro h
        constructor <;> linarith

/-- For a continuous index `c` that lies outside a non-empty axis by `delta > 0` and is out
of bounds, the spec's squared distance of the axis is `(delta * spacing)^2`. -/
theorem dist2_of_outside (c : ℚ) (minExt maxExt : Int) (delta spacing : ℚ)
    (hne : minExt ≤ maxExt) (hd : 0 < delta)
    (hc : c = (minExt : ℚ) - delta ∨ c = (maxExt : ℚ) + delta)
    (hout : ¬ AxisInBoundsSpec c minExt maxExt) :
    AxisDist2Spec c minExt maxExt spacing = (delta * spacing) ^ 2 := by
  have hq : (minExt : ℚ) ≤ (maxExt : ℚ) := by exact_mod_cast hne
  unfold AxisDist2Spec
  rw [if_neg hout]
  rcases hc with e | e
  · have hlt : c < (minExt : ℚ) := by linarith
    rw [if_pos hlt, e]
    ring
  · have hlt : ¬ c < (minExt : ℚ) := by
      intro h
      linarith
    rw [if_neg hlt, e]
    ring

/-- The `found` test of the first block of `FindCell` when only one axis can be out of
bounds: that axis lies outside by `delta > 0`, is in bounds iff `delta <= 1e-6`, and has
squared distance `(delta * spacing)^2` when out of bounds. -/
theorem found_iff_of_one_axis (S found : Prop) (D tol2 delta spacing : ℚ)
    (hS : S ↔ delta ≤ 1 / 10 ^ 6) (hD : ¬ S → D = (delta * spacing) ^ 2)
    (hfound : found ↔ S ∨ D ≤ tol2) :
    found ↔ (delta ≤ 1 / 10 ^ 6 ∨ (delta * spacing) ^ 2 ≤ tol2) := by
  rw [hfound]
  by_cases h : S
  · exact ⟨fun _ => Or.inl (hS.mp h), fun _ => Or.inl h⟩
  · rw [hD h]
    constructor
    · rintro (h1 | h1)
      · exact absurd h1 h
      · exact Or.inr h1
    · rintro (h1 | h1)
      · exact absurd (hS.mpr h1) h
      · exact Or.inr h1

/-- The spec's squared distance of an axis in bounds is 0. -/
theorem dist2_of_in_bounds (c : ℚ) (minExt maxExt : Int) (spacing : ℚ)
    (h : AxisInBoundsSpec c minExt maxExt) : AxisDist2Spec c minExt maxExt spacing = 0 := by
  simp only [AxisDist2Spec, h, if_true]

/-- What `FindCell` returns, from the `found` test of its first block, on a non-empty
grid: a cell id in `0 .. GetNumberOfCells - 1` when the test passes and -1 when not. -/
theorem FindCell_outcome (self : vtkImageData) (x : ℚ × ℚ × ℚ) (tol2 : ℚ) (subId : Int)
    (weights : Bool) (P : Prop)
    (hx : self.Extent.xmin ≤ self.Extent.xmax) (hy : self.Extent.ymin ≤ self.Extent.ymax)
    (hz : self.Extent.zmin ≤ self.Extent.zmax)
    (hP : (FindCell.locate self x tol2).found = true ↔ P) :
    (P → 0 ≤ (self.FindCell x tol2 subId weights).cellId
        ∧ (self.FindCell x tol2 subId weights).cellId < self.GetNumberOfCells)
      ∧ (¬ P → (self.FindCell x tol2 subId weights).cellId = -1) := by
  obtain ⟨_, r1, r2, r3, _⟩ := FindCell_locate_spec self x tol2 _ rfl hx hy hz
  have hrange := ComputeCellId_range self (FindCell.locate self x tol2).idx hx hy hz r1 r2 r3
  rw [FindCell_cellId]
  constructor
  · intro h
    rw [if_pos (hP.mpr h)]
    exact hrange
  · intro h
    rw [if_neg (fun hf => h (hP.mp hf))]

/-- The forward matrix of the spec with the identity direction maps a continuous index
`(i, j, k)` to `origin + (i, j, k) * spacing`, axis by axis. -/
theorem TransformCoordinates_IndexToPhysicalSpec_one (origin spacing : ℚ × ℚ × ℚ) (i j k : ℚ) :
    TransformCoordinates i j k (IndexToPhysicalSpec origin spacing 1)
      = (origin.1 + i * spacing.1, origin.2.1 + j * spacing.2.1, origin.2.2 + k * spacing.2.2) := by
  unfold TransformCoordinates
  have e00 : IndexToPhysicalSpec origin spacing 1 0 0 = (1 : Matrix (Fin 3) (Fin 3) ℚ) 0 0 * spacing.1 := rfl
  have e01 : IndexToPhysicalSpec origin spacing 1 0 1 = (1 : Matrix (Fin 3) (Fin 3) ℚ) 0 1 * spacing.2.1 := rfl
  have e02 : IndexToPhysicalSpec origin spacing 1 0 2 = (1 : Matrix (Fin 3) (Fin 3) ℚ) 0 2 * spacing.2.2 := rfl
  have e03 : IndexToPhysicalSpec origin spacing 1 0 3 = origin.1 := rfl
  have e10 : IndexToPhysicalSpec origin spacing 1 1 0 = (1 : Matrix (Fin 3) (Fin 3) ℚ) 1 0 * spacing.1 := rfl
  have e11 : IndexToPhysicalSpec origin spacing 1 1 1 = (1 : Matrix (Fin 3) (Fin 3) ℚ) 1 1 * spacing.2.1 := rfl
  have e12 : IndexToPhysicalSpec origin spacing 1 1 2 = (1 : Matrix (Fin 3) (Fin 3) ℚ) 1 2 * spacing.2.2 := rfl
  have e13 : IndexToPhysicalSpec origin spacing 1 1 3 = origin.2.1 := rfl
  have e20 : IndexToPhysicalSpec origin spacing 1 2 0 = (1 : Matrix (Fin 3) (Fin 3) ℚ) 2 0 * spacing.1 := rfl
  have e21 : IndexToPhysicalSpec origin spacing 1 2 1 = (1 : Matrix (Fin 3) (Fin 3) ℚ) 2 1 * spacing.2.1 := rfl
  have e22 : IndexToPhysicalSpec origin spacing 1 2 2 = (1 : Matrix (Fin 3) (Fin 3) ℚ) 2 2 * spacing.2.2 := rfl
  have e23 : IndexToPhysicalSpec origin spacing 1 2 3 = origin.2.2 := rfl
  have o00 : (1 : Matrix (Fin 3) (Fin 3) ℚ) 0 0 = 1 := rfl
  have o01 : (1 : Matrix (Fin 3) (Fin 3) ℚ) 0 1 = 0 := rfl
  have o02 : (1 : Matrix (Fin 3) (Fin 3) ℚ) 0 2 = 0 := rfl
  have o10 : (1 : Matrix (Fin 3) (Fin 3) ℚ) 1 0 = 0 := rfl
  have o11 : (1 : Matrix (Fin 3) (Fin 3) ℚ) 1 1 = 1 := rfl
  have o12 : (1 : Matrix (Fin 3) (Fin 3) ℚ) 1 2 = 0 := rfl
  have o20 : (1 : Matrix (Fin 3) (Fin 3) ℚ) 2 0 = 0 := rfl
  have o21 : (1 : Matrix (Fin 3) (Fin 3) ℚ) 2 1 = 0 := rfl
  have o22 : (1 : Matrix (Fin 3) (Fin 3) ℚ) 2 2 = 1 := rfl
  rw [e00, e01, e02, e03, e10, e11, e12, e13, e20, e21, e22, e23, o00, o01, o02, o10, o11,
    o12, o20, o21, o22]
  refine Prod.ext ?_ (Prod.ext ?_ ?_) <;> simp only <;> ring

/-- After `ComputeTransforms` on a grid with the identity direction and nonzero spacing, a
physical point `(x, y, z)` has the continuous index `(point - origin) / spacing`, axis by
axis. -/
theorem TransformPhysicalPointToContinuousIndex_identity (self : vtkImageData)
    (hid : self.DirectionMatrix.IsIdentity = true)
    (hs : self.Spacing.1 ≠ 0 ∧ self.Spacing.2.1 ≠ 0 ∧ self.Spacing.2.2 ≠ 0) (x y z : ℚ) :
    self.ComputeTransforms.TransformPhysicalPointToContinuousIndex x y z
      = ((x - self.Origin.1) / self.Spacing.1, (y - self.Origin.2.1) / self.Spacing.2.1,
          (z - self.Origin.2.2) / self.Spacing.2.2) := by
  have hD : self.DirectionMatrix.Element = 1 := by
    simpa [vtkMatrix3x3.IsIdentity] using hid
  have hM := ComputeTransforms_IndexToPhysicalMatrix self
  have hdet : self.ComputeTransforms.IndexToPhysicalMatrix.det ≠ 0 := by
    rw [hM, det_IndexToPhysicalSpec, hD, Matrix.det_one, mul_one]
    exact mul_ne_zero (mul_ne_zero hs.1 hs.2.1) hs.2.2
  have hinv : self.ComputeTransforms.PhysicalToIndexMatrix
      * self.ComputeTransforms.IndexToPhysicalMatrix = 1 := by
    rw [ComputeTransforms_PhysicalToIndexMatrix]
    exact Invert_mul_self _ _ hdet
  have hrow : self.ComputeTransforms.IndexToPhysicalMatrix 3 0 = 0 ∧
      self.ComputeTransforms.IndexToPhysicalMatrix 3 1 = 0 ∧
      self.ComputeTransforms.IndexToPhysicalMatrix 3 2 = 0 ∧
      self.ComputeTransforms.IndexToPhysicalMatrix 3 3 = 1 := by
    rw [hM]
    exact ⟨rfl, rfl, rfl, rfl⟩
  have key := TransformCoordinates_left_inverse _ _ hinv hrow
    ((x - self.Origin.1) / self.Spacing.1) ((y - self.Origin.2.1) / self.Spacing.2.1)
    ((z - self.Origin.2.2) / self.Spacing.2.2)
  have hT : TransformCoordinates ((x - self.Origin.1) / self.Spacing.1)
      ((y - self.Origin.2.1) / self.Spacing.2.1) ((z - self.Origin.2.2) / self.Spacing.2.2)
      self.ComputeTransforms.IndexToPhysicalMatrix = (x, y, z) := by
    rw [hM, hD, TransformCoordinates_IndexToPhysicalSpec_one]
    refine Prod.ext ?_ (Prod.ext ?_ ?_)
    · show self.Origin.1 + (x - self.Origin.1) / self.Spacing.1 * self.Spacing.1 = x
      rw [div_mul_cancel₀ _ hs.1]
      ring
    · show self.Origin.2.1 + (y - self.Origin.2.1) / self.Spacing.2.1 * self.Spacing.2.1 = y
      rw [div_mul_cancel₀ _ hs.2.1]
      ring
    · show self.Origin.2.2 + (z - self.Origin.2.2) / self.Spacing.2.2 * self.Spacing.2.2 = z
      rw [div_mul_cancel₀ _ hs.2.2]
      ring
  rw [hT] at key
  exact key

/-- With the identity as inverse matrix the continuous index of a physical point is the
point itself. -/
theorem continuous_index_of_one (self : vtkImageData) (h : self.PhysicalToIndexMatrix = 1)
    (x y z : ℚ) : self.TransformPhysicalPointToContinuousIndex x y z = (x, y, z) := by
  simp [TransformPhysicalPointToContinuousIndex, TransformCoordinates, h, Matrix.one_apply]

/-- `ComputeStructuredCoordinates` on a grid whose inverse matrix is the identity, in terms
of its three loop rounds. -/
theorem ComputeStructuredCoordinates_of_one (self : vtkImageData)
    (h : self.PhysicalToIndexMatrix = 1) (x : ℚ × ℚ × ℚ) :
    self.ComputeStructuredCoordinates x
      = (Int.land (Int.land (Int.land 1
            (ComputeStructuredCoordinates.axis x.1 self.Extent.xmin self.Extent.xmax).tmpInBounds)
            (ComputeStructuredCoordinates.axis x.2.1 self.Extent.ymin self.Extent.ymax).tmpInBounds)
            (ComputeStructuredCoordinates.axis x.2.2 self.Extent.zmin self.Extent.zmax).tmpInBounds,
          ((ComputeStructuredCoordinates.axis x.1 self.Extent.xmin self.Extent.xmax).ijk,
            (ComputeStructuredCoordinates.axis x.2.1 self.Extent.ymin self.Extent.ymax).ijk,
            (ComputeStructuredCoordinates.axis x.2.2 self.Extent.zmin self.Extent.zmax).ijk),
          ((ComputeStructuredCoordinates.axis x.1 self.Extent.xmin self.Extent.xmax).pcoords,
            (ComputeStructuredCoordinates.axis x.2.1 self.Extent.ymin self.Extent.ymax).pcoords,
            (ComputeStructuredCoordinates.axis x.2.2 self.Extent.zmin self.Extent.zmax).pcoords)) := by
  rw [ComputeStructuredCoordinates_eq, continuous_index_of_one self h]

/-- Loop rounds of `ComputeStructuredCoordinates` at the sample values used below. -/
theorem axis_samples :
    ComputeStructuredCoordinates.axis (1 / 2) 0 3 = { ijk := 0, pcoords := 1 / 2, tmpInBounds := 1 }
      ∧ ComputeStructuredCoordinates.axis 0 0 0 = { ijk := 0, pcoords := 0, tmpInBounds := 1 }
      ∧ ComputeStructuredCoordinates.axis (3 / 4) 0 2
          = { ijk := 0, pcoords := 3 / 4, tmpInBounds := 1 }
      ∧ ComputeStructuredCoordinates.axis (-1 / 2) 0 3
          = { ijk := -1, pcoords := 1 / 2, tmpInBounds := 0 }
      ∧ ComputeStructuredCoordinates.axis 1 0 2 = { ijk := 1, pcoords := 0, tmpInBounds := 1 }
      ∧ ComputeStructuredCoordinates.axis (1 / 4) 0 3
          = { ijk := 0, pcoords := 1 / 4, tmpInBounds := 1 } := by
  have f1 : ⌊(1 / 2 : ℚ)⌋ = 0 := by norm_num
  have f2 : ⌊(3 / 4 : ℚ)⌋ = 0 := by norm_num
  have f3 : ⌊(1 / 4 : ℚ)⌋ = 0 := by norm_num
  have f4 : ⌊(-1 / 2 : ℚ)⌋ = -1 := by
    rw [Int.floor_eq_iff]
    norm_num
  refine ⟨?_, ?_, ?_, ?_, ?_, ?_⟩
  · unfold ComputeStructuredCoordinates.axis vtkMath.Floor
    rw [f1]
    norm_num
  · unfold ComputeStructuredCoordinates.axis vtkMath.Floor
    norm_num [ComputeStructuredCoordinates.tol2]
  · unfold ComputeStructuredCoordinates.axis vtkMath.Floor
    rw [f2]
    norm_num
  · unfold ComputeStructuredCoordinates.axis vtkMath.Floor
    rw [f4]
    norm_num [ComputeStructuredCoordinates.tol2]
  · unfold ComputeStructuredCoordinates.axis vtkMath.Floor
    norm_num
  · unfold ComputeStructuredCoordinates.axis vtkMath.Floor
    rw [f3]
    norm_num

/-- `ComputeStructuredCoordinates` at the sample points used below, on the plane grids
`[0,3,0,0,0,2]` and `[0,3,0,2,0,0]` and the line grid `[0,0,0,3,0,0]`. -/
theorem ComputeStructuredCoordinates_samples :
    xzplane43.ComputeStructuredCoordinates (1 / 2, 0, 3 / 4) = (1, (0, 0, 0), (1 / 2, 0, 3 / 4))
      ∧ xyplane43.ComputeStructuredCoordinates (-1 / 2, 1, 0) = (0, (-1, 1, 0), (1 / 2, 0, 0))
      ∧ yline4.ComputeStructuredCoordinates (0, 1 / 4, 0) = (1, (0, 0, 0), (0, 1 / 4, 0)) := by
  obtain ⟨s1, s2, s3, s4, s5, s6⟩ := axis_samples
  refine ⟨?_, ?_, ?_⟩
  · rw [ComputeStructuredCoordinates_of_one xzplane43 rfl]
    show (Int.land (Int.land (Int.land 1
        (ComputeStructuredCoordinates.axis (1 / 2) 0 3).tmpInBounds)
        (ComputeStructuredCoordinates.axis 0 0 0).tmpInBounds)
        (ComputeStructuredCoordinates.axis (3 / 4) 0 2).tmpInBounds,
      ((ComputeStructuredCoordinates.axis (1 / 2) 0 3).ijk,
        (ComputeStructuredCoordinates.axis 0 0 0).ijk,
        (ComputeStructuredCoordinates.axis (3 / 4) 0 2).ijk),
      ((ComputeStructuredCoordinates.axis (1 / 2) 0 3).pcoords,
        (ComputeStructuredCoordinates.axis 0 0 0).pcoords,
        (ComputeStructuredCoordinates.axis (3 / 4) 0 2).pcoords)) = _
    rw [s1, s2, s3]
    rfl
  · rw [ComputeStructuredCoordinates_of_one xyplane43 rfl]
    show (Int.land (Int.land (Int.land 1
        (ComputeStructuredCoordinates.axis (-1 / 2) 0 3).tmpInBounds)
        (ComputeStructuredCoordinates.axis 1 0 2).tmpInBounds)
        (ComputeStructuredCoordinates.axis 0 0 0).tmpInBounds,
      ((ComputeStructuredCoordinates.axis (-1 / 2) 0 3).ijk,
        (ComputeStructuredCoordinates.axis 1 0 2).ijk,
        (ComputeStructuredCoordinates.axis 0 0 0).ijk),
      ((ComputeStructuredCoordinates.axis (-1 / 2) 0 3).pcoords,
        (ComputeStructuredCoordinates.axis 1 0 2).pcoords,
        (ComputeStructuredCoordinates.axis 0 0 0).pcoords)) = _
    rw [s4, s5, s2]
    rfl
  · rw [ComputeStructuredCoordinates_of_one yline4 rfl]
    show (Int.land (Int.land (Int.land 1
        (ComputeStructuredCoordinates.axis 0 0 0).tmpInBounds)
        (ComputeStructuredCoordinates.axis (1 / 4) 0 3).tmpInBounds)
        (ComputeStructuredCoordinates.axis 0 0 0).tmpInBounds,
      ((ComputeStructuredCoordinates.axis 0 0 0).ijk,
        (ComputeStructuredCoordinates.axis (1 / 4) 0 3).ijk,
        (ComputeStructuredCoordinates.axis 0 0 0).ijk),
      ((ComputeStructuredCoordinates.axis 0 0 0).pcoords,
        (ComputeStructuredCoordinates.axis (1 / 4) 0 3).pcoords,
        (ComputeStructuredCoordinates.axis 0 0 0).pcoords)) = _
    rw [s2, s6]
    rfl

/-- C25, counterexample: on the plane grid `[0,3,0,0,0,2]` (x and z) with unit spacing the
point `(1/2, 0, 3/4)` is in bounds with per-axis parametric coordinates `(1/2, 0, 3/4)`;
the call `FindCell(x, nullptr, 0, tol2, subId, pcoords, nullptr)` made by `FindAndGetCell`
succeeds (cell 0) and hands back `pcoords = (1/2, 0, 3/4)`, not the re-ordered
`(px, pz, 0) = (1/2, 3/4, 0)`.  And on the plane grid `[0,3,0,2,0,0]` (x and y) the point
`(-1/2, 1, 0)` has the per-axis parametric coordinates `(1/2, 0, 0)` from
`ComputeStructuredCoordinates`, while `FindCell` with `tol2 = 1` and a weights buffer
succeeds (cell 3) with `pcoords = (0, 0, 0)`: the coordinate of the axis outside the extent
was clamped. -/
theorem FindCell_pcoords_counterexample :
    xzplane43.ComputeStructuredCoordinates (1 / 2, 0, 3 / 4) = (1, (0, 0, 0), (1 / 2, 0, 3 / 4))
      ∧ FindAndGetCell.FindCell xzplane43 (1 / 2, 0, 3 / 4) 0 7
          = { cellId := 0, subId := 0, pcoords := (1 / 2, 0, 3 / 4), weights := none }
      ∧ ((1 / 2, 0, 3 / 4) : ℚ × ℚ × ℚ) ≠ (1 / 2, 3 / 4, 0)
      ∧ xyplane43.ComputeStructuredCoordinates (-1 / 2, 1, 0) = (0, (-1, 1, 0), (1 / 2, 0, 0))
      ∧ xyplane43.FindCell (-1 / 2, 1, 0) 1 7 true
          = { cellId := 3, subId := 0, pcoords := (0, 0, 0),
              weights := some [1, 0, 0, 0, 0, 0, 0, 0] }
      ∧ ((0, 0, 0) : ℚ × ℚ × ℚ) ≠ (1 / 2, 0, 0) := by
  obtain ⟨e1, e2, _⟩ := ComputeStructuredCoordinates_samples
  have n2 : ((0, 0, 0) : ℚ × ℚ × ℚ) ≠ (1 / 2, 0, 0) := by
    intro h
    have h1 := congrArg Prod.fst h
    norm_num at h1
  refine ⟨e1, ?_, by norm_num, e2, ?_, n2⟩
  · simp only [FindAndGetCell.FindCell, FindCell, FindCell.locate, e1]
    rfl
  · simp only [FindCell, FindCell.locate, e2]
    norm_num [FindCell.axis, xyplane43, ofExtent, ComputeCellId, GetDimensions_dims,
      FindCell.shift, VTK_XY_PLANE, VTK_XZ_PLANE, VTK_YZ_PLANE, vtkVoxel.InterpolationFunctions]

/-- C25, amended: on every successful `FindCell` (its first block did not leave through
`return -1;`) that is given a weights buffer, on a plane grid, the `pcoords` returned to
the caller are re-ordered to the plane's 2D parametrization: `(px, py, 0)` for an XY
plane, `(px, pz, 0)` for an XZ plane and `(py, pz, 0)` for a YZ plane, where
`(px, py, pz)` are the per-axis parametric coordinates the first block holds: those of
`ComputeStructuredCoordinates` when it reports the point in bounds, and otherwise those
clamped by the distance loop of `FindCell`. -/
theorem FindCell_plane_pcoords (self : vtkImageData) (x : ℚ × ℚ × ℚ) (tol2 : ℚ) (subId : Int)
    (hfound : (FindCell.locate self x tol2).found = true) :
    (self.DataDescription = VTK_XY_PLANE →
        (self.FindCell x tol2 subId true).pcoords
          = ((FindCell.locate self x tol2).pcoords.1,
              (FindCell.locate self x tol2).pcoords.2.1, 0))
      ∧ (self.DataDescription = VTK_XZ_PLANE →
        (self.FindCell x tol2 subId true).pcoords
          = ((FindCell.locate self x tol2).pcoords.1,
              (FindCell.locate self x tol2).pcoords.2.2, 0))
      ∧ (self.DataDescription = VTK_YZ_PLANE →
        (self.FindCell x tol2 subId true).pcoords
          = ((FindCell.locate self x tol2).pcoords.2.1,
              (FindCell.locate self x tol2).pcoords.2.2, 0))
      ∧ ((self.ComputeStructuredCoordinates x).1 = 1 →
        (FindCell.locate self x tol2).pcoords = (self.ComputeStructuredCoordinates x).2.2) := by
  have hp : (self.FindCell x tol2 subId true).pcoords
      = FindCell.shift self (FindCell.locate self x tol2).pcoords := by
    simp [FindCell, hfound]
  refine ⟨?_, ?_, ?_, ?_⟩
  · intro hd
    rw [hp]
    simp [FindCell.shift, hd, VTK_XY_PLANE, VTK_XZ_PLANE, VTK_YZ_PLANE]
  · intro hd
    rw [hp]
    simp [FindCell.shift, hd]
  · intro hd
    rw [hp]
    simp [FindCell.shift, hd, VTK_XZ_PLANE, VTK_YZ_PLANE]
  · intro h1
    have h0 : ¬ (self.ComputeStructuredCoordinates x).1 = 0 := by
      rw [h1]
      decide
    simp only [FindCell.locate, h0, if_false]

/-- A use of C25: on the plane grid `[0,3,0,0,0,2]` (x and z) the in-bounds point
`(1/2, 0, 3/4)` with a weights buffer gives `pcoords = (1/2, 3/4, 0)`. -/
theorem FindCell_plane_pcoords_witness :
    (xzplane43.FindCell (1 / 2, 0, 3 / 4) 0 7 true).pcoords = (1 / 2, 3 / 4, 0) := by
  have e1 := ComputeStructuredCoordinates_samples.1
  have hl : FindCell.locate xzplane43 (1 / 2, 0, 3 / 4) 0
      = { found := true, idx := (0, 0, 0), pcoords := (1 / 2, 0, 3 / 4) } := by
    simp only [FindCell.locate, e1]
    rfl
  have h := (FindCell_plane_pcoords xzplane43 (1 / 2, 0, 3 / 4) 0 7 (by rw [hl])).2.1 rfl
  rw [h, hl]

/-- C26: on the line grid `[0,0,0,3,0,0]` (along y, 3 cells) with unit spacing the point
`(0, 1/4, 0)` lies in cell 0 at parametric coordinate `1/4` along the line, whose two
linear weights are `(3/4, 1/4)`.  `FindCell` with a weights buffer succeeds and returns the
unshifted `pcoords = (0, 1/4, 0)` and the voxel weights `(3/4, 0, 1/4, 0, 0, 0, 0, 0)`:
the first two weights are `(3/4, 0)`, not the line's, and the third weight is not 0. -/
theorem FindCell_yline_weights :
    yline4.GetNumberOfCells = 3
      ∧ yline4.FindCell (0, 1 / 4, 0) 0 7 true
          = { cellId := 0, subId := 0, pcoords := (0, 1 / 4, 0),
              weights := some [3 / 4, 0, 1 / 4, 0, 0, 0, 0, 0] }
      ∧ ([3 / 4, 0, 1 / 4, 0, 0, 0, 0, 0] : List ℚ).take 2 ≠ [1 - 1 / 4, 1 / 4]
      ∧ ([3 / 4, 0, 1 / 4, 0, 0, 0, 0, 0] : List ℚ).drop 2 ≠ [0, 0, 0, 0, 0, 0] := by
  have e1 := ComputeStructuredCoordinates_samples.2.2
  refine ⟨rfl, ?_, ?_, ?_⟩
  · simp only [FindCell, FindCell.locate, e1]
    norm_num [yline4, ofExtent, ComputeCellId, GetDimensions_dims, FindCell.shift, VTK_XY_PLANE,
      VTK_XZ_PLANE, VTK_YZ_PLANE, VTK_Y_LINE, vtkVoxel.InterpolationFunctions]
  · norm_num
  · norm_num
/-- With a divisor other than 0 the quotient of two doubles is the rational quotient. -/
theorem dDiv_of_ne_zero (a b : ℚ) (hb : b ≠ 0) : dDiv a b = .ok (a / b) := by
  simp only [dDiv, hb, if_false]

/-- The identity direction leaves a vector as it is. -/
theorem MultiplyPoint_one (v : ℚ × ℚ × ℚ) : MultiplyPoint 1 v = v := by
  have o00 : (1 : Matrix (Fin 3) (Fin 3) ℚ) 0 0 = 1 := rfl
  have o01 : (1 : Matrix (Fin 3) (Fin 3) ℚ) 0 1 = 0 := rfl
  have o02 : (1 : Matrix (Fin 3) (Fin 3) ℚ) 0 2 = 0 := rfl
  have o10 : (1 : Matrix (Fin 3) (Fin 3) ℚ) 1 0 = 0 := rfl
  have o11 : (1 : Matrix (Fin 3) (Fin 3) ℚ) 1 1 = 1 := rfl
  have o12 : (1 : Matrix (Fin 3) (Fin 3) ℚ) 1 2 = 0 := rfl
  have o20 : (1 : Matrix (Fin 3) (Fin 3) ℚ) 2 0 = 0 := rfl
  have o21 : (1 : Matrix (Fin 3) (Fin 3) ℚ) 2 1 = 0 := rfl
  have o22 : (1 : Matrix (Fin 3) (Fin 3) ℚ) 2 2 = 1 := rfl
  unfold MultiplyPoint
  rw [o00, o01, o02, o10, o11, o12, o20, o21, o22]
  refine Prod.ext ?_ (Prod.ext ?_ ?_) <;> simp

/-- The four cases of the block `// i-axis` of `GetPointGradient`, with `i`, `j`, `k`
relative to the start of the extent. -/
theorem iAxis_cases (self : vtkImageData) (s : vtkIdType → ℚ) (i j k : Int) :
    (self.GetDimensions_dims.1 = 1 →
        GetPointGradient.iAxis self s i j k = .ok { g := 0, reads := [], divisors := [] })
      ∧ (self.GetDimensions_dims.1 ≠ 1 → self.Spacing.1 ≠ 0 → i = 0 →
        GetPointGradient.iAxis self s i j k = .ok
          { g := (s (i + j * self.GetDimensions_dims.1 + k * (self.GetDimensions_dims.1 * self.GetDimensions_dims.2.1))
                - s (i + 1 + j * self.GetDimensions_dims.1 + k * (self.GetDimensions_dims.1 * self.GetDimensions_dims.2.1)))
                / self.Spacing.1
            reads := [i + 1 + j * self.GetDimensions_dims.1 + k * (self.GetDimensions_dims.1 * self.GetDimensions_dims.2.1),
                i + j * self.GetDimensions_dims.1 + k * (self.GetDimensions_dims.1 * self.GetDimensions_dims.2.1)]
            divisors := [self.Spacing.1] })
      ∧ (self.GetDimensions_dims.1 ≠ 1 → self.Spacing.1 ≠ 0 → i ≠ 0 →
        i = self.GetDimensions_dims.1 - 1 →
        GetPointGradient.iAxis self s i j k = .ok
          { g := (s (i - 1 + j * self.GetDimensions_dims.1 + k * (self.GetDimensions_dims.1 * self.GetDimensions_dims.2.1))
                - s (i + j * self.GetDimensions_dims.1 + k * (self.GetDimensions_dims.1 * self.GetDimensions_dims.2.1)))
                / self.Spacing.1
            reads := [i + j * self.GetDimensions_dims.1 + k * (self.GetDimensions_dims.1 * self.GetDimensions_dims.2.1),
                i - 1 + j * self.GetDimensions_dims.1 + k * (self.GetDimensions_dims.1 * self.GetDimensions_dims.2.1)]
            divisors := [self.Spacing.1] })
      ∧ (self.GetDimensions_dims.1 ≠ 1 → self.Spacing.1 ≠ 0 → i ≠ 0 →
        i ≠ self.GetDimensions_dims.1 - 1 →
        GetPointGradient.iAxis self s i j k = .ok
          { g := 1 / 2 * (s (i - 1 + j * self.GetDimensions_dims.1 + k * (self.GetDimensions_dims.1 * self.GetDimensions_dims.2.1))
                - s (i + 1 + j * self.GetDimensions_dims.1 + k * (self.GetDimensions_dims.1 * self.GetDimensions_dims.2.1)))
                / self.Spacing.1
            reads := [i + 1 + j * self.GetDimensions_dims.1 + k * (self.GetDimensions_dims.1 * self.GetDimensions_dims.2.1),
                i - 1 + j * self.GetDimensions_dims.1 + k * (self.GetDimensions_dims.1 * self.GetDimensions_dims.2.1)]
            divisors := [self.Spacing.1] }) := by
  refine ⟨?_, ?_, ?_, ?_⟩
  · intro h
    simp only [GetPointGradient.iAxis, h, if_true]
  · intro h hs hi
    simp only [GetPointGradient.iAxis]
    rw [if_neg h, if_pos hi, dDiv_of_ne_zero _ _ hs]
    rfl
  · intro h hs hi hl
    simp only [GetPointGradient.iAxis]
    rw [if_neg h, if_neg hi, if_pos hl, dDiv_of_ne_zero _ _ hs]
    rfl
  · intro h hs hi hl
    simp only [GetPointGradient.iAxis]
    rw [if_neg h, if_neg hi, if_neg hl, dDiv_of_ne_zero _ _ hs]
    rfl

/-- The block `// i-axis` of `GetPointGradient` ends without a fault when its axis has one
sample or a spacing other than 0. -/
theorem iAxis_ok (self : vtkImageData) (s : vtkIdType → ℚ) (i j k : Int)
    (h : self.GetDimensions_dims.1 = 1 ∨ self.Spacing.1 ≠ 0) :
    ∃ g : GetPointGradient.Axis, GetPointGradient.iAxis self s i j k = .ok g := by
  obtain ⟨c1, c2, c3, c4⟩ := iAxis_cases self s i j k
  by_cases h1 : self.GetDimensions_dims.1 = 1
  · exact ⟨_, c1 h1⟩
  · have hs := h.resolve_left h1
    by_cases h2 : i = 0
    · exact ⟨_, c2 h1 hs h2⟩
    · by_cases h3 : i = self.GetDimensions_dims.1 - 1
      · exact ⟨_, c3 h1 hs h2 h3⟩
      · exact ⟨_, c4 h1 hs h2 h3⟩

/-- The four cases of the block `// j-axis` of `GetPointGradient`, with `i`, `j`, `k`
relative to the start of the extent. -/
theorem jAxis_cases (self : vtkImageData) (s : vtkIdType → ℚ) (i j k : Int) :
    (self.GetDimensions_dims.2.1 = 1 →
        GetPointGradient.jAxis self s i j k = .ok { g := 0, reads := [], divisors := [] })
      ∧ (self.GetDimensions_dims.2.1 ≠ 1 → self.Spacing.2.1 ≠ 0 → j = 0 →
        GetPointGradient.jAxis self s i j k = .ok
          { g := (s (i + j * self.GetDimensions_dims.1 + k * (self.GetDimensions_dims.1 * self.GetDimensions_dims.2.1))
                - s (i + (j + 1) * self.GetDimensions_dims.1 + k * (self.GetDimensions_dims.1 * self.GetDimensions_dims.2.1)))
                / self.Spacing.2.1
            reads := [i + (j + 1) * self.GetDimensions_dims.1 + k * (self.GetDimensions_dims.1 * self.GetDimensions_dims.2.1),
                i + j * self.GetDimensions_dims.1 + k * (self.GetDimensions_dims.1 * self.GetDimensions_dims.2.1)]
            divisors := [self.Spacing.2.1] })
      ∧ (self.GetDimensions_dims.2.1 ≠ 1 → self.Spacing.2.1 ≠ 0 → j ≠ 0 →
        j = self.GetDimensions_dims.2.1 - 1 →
        GetPointGradient.jAxis self s i j k = .ok
          { g := (s (i + (j - 1) * self.GetDimensions_dims.1 + k * (self.GetDimensions_dims.1 * self.GetDimensions_dims.2.1))
                - s (i + j * self.GetDimensions_dims.1 + k * (self.GetDimensions_dims.1 * self.GetDimensions_dims.2.1)))
                / self.Spacing.2.1
            reads := [i + j * self.GetDimensions_dims.1 + k * (self.GetDimensions_dims.1 * self.GetDimensions_dims.2.1),
                i + (j - 1) * self.GetDimensions_dims.1 + k * (self.GetDimensions_dims.1 * self.GetDimensions_dims.2.1)]
            divisors := [self.Spacing.2.1] })
      ∧ (self.GetDimensions_dims.2.1 ≠ 1 → self.Spacing.2.1 ≠ 0 → j ≠ 0 →
        j ≠ self.GetDimensions_dims.2.1 - 1 →
        GetPointGradient.jAxis self s i j k = .ok
          { g := 1 / 2 * (s (i + (j - 1) * self.GetDimensions_dims.1 + k * (self.GetDimensions_dims.1 * self.GetDimensions_dims.2.1))
                - s (i + (j + 1) * self.GetDimensions_dims.1 + k * (self.GetDimensions_dims.1 * self.GetDimensions_dims.2.1)))
                / self.Spacing.2.1
            reads := [i + (j + 1) * self.GetDimensions_dims.1 + k * (self.GetDimensions_dims.1 * self.GetDimensions_dims.2.1),
                i + (j - 1) * self.GetDimensions_dims.1 + k * (self.GetDimensions_dims.1 * self.GetDimensions_dims.2.1)]
            divisors := [self.Spacing.2.1] }) := by
  refine ⟨?_, ?_, ?_, ?_⟩
  · intro h
    simp only [GetPointGradient.jAxis, h, if_true]
  · intro h hs hi
    simp only [GetPointGradient.jAxis]
    rw [if_neg h, if_pos hi, dDiv_of_ne_zero _ _ hs]
    rfl
  · intro h hs hi hl
    simp only [GetPointGradient.jAxis]
    rw [if_neg h, if_neg hi, if_pos hl, dDiv_of_ne_zero _ _ hs]
    rfl
  · intro h hs hi hl
    simp only [GetPointGradient.jAxis]
    rw [if_neg h, if_neg hi, if_neg hl, dDiv_of_ne_zero _ _ hs]
    rfl

/-- The block `// j-axis` of `GetPointGradient` ends without a fault when its axis has one
sample or a spacing other than 0. -/
theorem jAxis_ok (self : vtkImageData) (s : vtkIdType → ℚ) (i j k : Int)
    (h : self.GetDimensions_dims.2.1 = 1 ∨ self.Spacing.2.1 ≠ 0) :
    ∃ g : GetPointGradient.Axis, GetPointGradient.jAxis self s i j k = .ok g := by
  obtain ⟨c1, c2, c3, c4⟩ := jAxis_cases self s i j k
  by_cases h1 : self.GetDimensions_dims.2.1 = 1
  · exact ⟨_, c1 h1⟩
  · have hs := h.resolve_left h1
    by_cases h2 : j = 0
    · exact ⟨_, c2 h1 hs h2⟩
    · by_cases h3 : j = self.GetDimensions_dims.2.1 - 1
      · exact ⟨_, c3 h1 hs h2 h3⟩
      · exact ⟨_, c4 h1 hs h2 h3⟩

/-- The four cases of the block `// k-axis` of `GetPointGradient`, with `i`, `j`, `k`
relative to the start of the extent. -/
theorem kAxis_cases (self : vtkImageData) (s : vtkIdType → ℚ) (i j k : Int) :
    (self.GetDimensions_dims.2.2 = 1 →
        GetPointGradient.kAxis self s i j k = .ok { g := 0, reads := [], divisors := [] })
      ∧ (self.GetDimensions_dims.2.2 ≠ 1 → self.Spacing.2.2 ≠ 0 → k = 0 →
        GetPointGradient.kAxis self s i j k = .ok
          { g := (s (i + j * self.GetDimensions_dims.1 + k * (self.GetDimensions_dims.1 * self.GetDimensions_dims.2.1))
                - s (i + j * self.GetDimensions_dims.1 + (k + 1) * (self.GetDimensions_dims.1 * self.GetDimensions_dims.2.1)))
                / self.Spacing.2.2
            reads := [i + j * self.GetDimensions_dims.1 + (k + 1) * (self.GetDimensions_dims.1 * self.GetDimensions_dims.2.1),
                i + j * self.GetDimensions_dims.1 + k * (self.GetDimensions_dims.1 * self.GetDimensions_dims.2.1)]
            divisors := [self.Spacing.2.2] })
      ∧ (self.GetDimensions_dims.2.2 ≠ 1 → self.Spacing.2.2 ≠ 0 → k ≠ 0 →
        k = self.GetDimensions_dims.2.2 - 1 →
        GetPointGradient.kAxis self s i j k = .ok
          { g := (s (i + j * self.GetDimensions_dims.1 + (k - 1) * (self.GetDimensions_dims.1 * self.GetDimensions_dims.2.1))
                - s (i + j * self.GetDimensions_dims.1 + k * (self.GetDimensions_dims.1 * self.GetDimensions_dims.2.1)))
                / self.Spacing.2.2
            reads := [i + j * self.GetDimensions_dims.1 + k * (self.GetDimensions_dims.1 * self.GetDimensions_dims.2.1),
                i + j * self.GetDimensions_dims.1 + (k - 1) * (self.GetDimensions_dims.1 * self.GetDimensions_dims.2.1)]
            divisors := [self.Spacing.2.2] })
      ∧ (self.GetDimensions_dims.2.2 ≠ 1 → self.Spacing.2.2 ≠ 0 → k ≠ 0 →
        k ≠ self.GetDimensions_dims.2.2 - 1 →
        GetPointGradient.kAxis self s i j k = .ok
          { g := 1 / 2 * (s (i + j * self.GetDimensions_dims.1 + (k - 1) * (self.GetDimensions_dims.1 * self.GetDimensions_dims.2.1))
                - s (i + j * self.GetDimensions_dims.1 + (k + 1) * (self.GetDimensions_dims.1 * self.GetDimensions_dims.2.1)))
                / self.Spacing.2.2
            reads := [i + j * self.GetDimensions_dims.1 + (k + 1) * (self.GetDimensions_dims.1 * self.GetDimensions_dims.2.1),
                i + j * self.GetDimensions_dims.1 + (k - 1) * (self.GetDimensions_dims.1 * self.GetDimensions_dims.2.1)]
            divisors := [self.Spacing.2.2] }) := by
  refine ⟨?_, ?_, ?_, ?_⟩
  · intro h
    simp only [GetPointGradient.kAxis, h, if_true]
  · intro h hs hi
    simp only [GetPointGradient.kAxis]
    rw [if_neg h, if_pos hi, dDiv_of_ne_zero _ _ hs]
    rfl
  · intro h hs hi hl
    simp only [GetPointGradient.kAxis]
    rw [if_neg h, if_neg hi, if_pos hl, dDiv_of_ne_zero _ _ hs]
    rfl
  · intro h hs hi hl
    simp only [GetPointGradient.kAxis]
    rw [if_neg h, if_neg hi, if_neg hl, dDiv_of_ne_zero _ _ hs]
    rfl

/-- The block `// k-axis` of `GetPointGradient` ends without a fault when its axis has one
sample or a spacing other than 0. -/
theorem kAxis_ok (self : vtkImageData) (s : vtkIdType → ℚ) (i j k : Int)
    (h : self.GetDimensions_dims.2.2 = 1 ∨ self.Spacing.2.2 ≠ 0) :
    ∃ g : GetPointGradient.Axis, GetPointGradient.kAxis self s i j k = .ok g := by
  obtain ⟨c1, c2, c3, c4⟩ := kAxis_cases self s i j k
  by_cases h1 : self.GetDimensions_dims.2.2 = 1
  · exact ⟨_, c1 h1⟩
  · have hs := h.resolve_left h1
    by_cases h2 : k = 0
    · exact ⟨_, c2 h1 hs h2⟩
    · by_cases h3 : k = self.GetDimensions_dims.2.2 - 1
      · exact ⟨_, c3 h1 hs h2 h3⟩
      · exact ⟨_, c4 h1 hs h2 h3⟩

/-- For a sample inside the extent of a grid with the identity direction whose three axis
blocks end without a fault, `GetPointGradient` returns the three components the blocks
stored, with their reads and divisors in the order x, y, z. -/
theorem GetPointGradient_blocks (self : vtkImageData) (i j k : Int) (s : vtkIdType → ℚ)
    (gx gy gz : GetPointGradient.Axis)
    (hid : self.DirectionMatrix.IsIdentity = true)
    (hin : (self.Extent.xmin ≤ i ∧ i ≤ self.Extent.xmax)
      ∧ (self.Extent.ymin ≤ j ∧ j ≤ self.Extent.ymax)
      ∧ (self.Extent.zmin ≤ k ∧ k ≤ self.Extent.zmax))
    (hx : GetPointGradient.iAxis self s (i - self.Extent.xmin) (j - self.Extent.ymin)
      (k - self.Extent.zmin) = .ok gx)
    (hy : GetPointGradient.jAxis self s (i - self.Extent.xmin) (j - self.Extent.ymin)
      (k - self.Extent.zmin) = .ok gy)
    (hz : GetPointGradient.kAxis self s (i - self.Extent.xmin) (j - self.Extent.ymin)
      (k - self.Extent.zmin) = .ok gz) :
    self.GetPointGradient i j k s = .ok ((gx.g, gy.g, gz.g), gx.reads ++ gy.reads ++ gz.reads,
      gx.divisors ++ gy.divisors ++ gz.divisors) := by
  have hD : self.DirectionMatrix.Element = 1 := by
    simpa [vtkMatrix3x3.IsIdentity] using hid
  have hb : ¬ (i - self.Extent.xmin < 0 ∨ i - self.Extent.xmin ≥ self.GetDimensions_dims.1
      ∨ j - self.Extent.ymin < 0 ∨ j - self.Extent.ymin ≥ self.GetDimensions_dims.2.1
      ∨ k - self.Extent.zmin < 0 ∨ k - self.Extent.zmin ≥ self.GetDimensions_dims.2.2) := by
    simp only [GetDimensions_dims]
    omega
  simp only [GetPointGradient]
  rw [if_neg hb, hx, hy, hz, hD]
  simp only [bind, Except.bind, MultiplyPoint_one]

/-- The tuple ids the axis blocks of `GetPointGradient` read are those of the samples next
to `(i, j, k)` along the axes, in the numbering of `GetTupleIndex`. -/
theorem gradient_tuple_ids (self : vtkImageData) (i j k : Int) :
    (i - self.Extent.xmin) + (j - self.Extent.ymin) * self.GetDimensions_dims.1
        + (k - self.Extent.zmin) * (self.GetDimensions_dims.1 * self.GetDimensions_dims.2.1)
        = GetTupleIndex.idx self.Extent (i, j, k)
      ∧ (i - self.Extent.xmin) + 1 + (j - self.Extent.ymin) * self.GetDimensions_dims.1
        + (k - self.Extent.zmin) * (self.GetDimensions_dims.1 * self.GetDimensions_dims.2.1)
        = GetTupleIndex.idx self.Extent (i + 1, j, k)
      ∧ (i - self.Extent.xmin) - 1 + (j - self.Extent.ymin) * self.GetDimensions_dims.1
        + (k - self.Extent.zmin) * (self.GetDimensions_dims.1 * self.GetDimensions_dims.2.1)
        = GetTupleIndex.idx self.Extent (i - 1, j, k)
      ∧ (i - self.Extent.xmin) + ((j - self.Extent.ymin) + 1) * self.GetDimensions_dims.1
        + (k - self.Extent.zmin) * (self.GetDimensions_dims.1 * self.GetDimensions_dims.2.1)
        = GetTupleIndex.idx self.Extent (i, j + 1, k)
      ∧ (i - self.Extent.xmin) + ((j - self.Extent.ymin) - 1) * self.GetDimensions_dims.1
        + (k - self.Extent.zmin) * (self.GetDimensions_dims.1 * self.GetDimensions_dims.2.1)
        = GetTupleIndex.idx self.Extent (i, j - 1, k)
      ∧ (i - self.Extent.xmin) + (j - self.Extent.ymin) * self.GetDimensions_dims.1
        + ((k - self.Extent.zmin) + 1)
          * (self.GetDimensions_dims.1 * self.GetDimensions_dims.2.1)
        = GetTupleIndex.idx self.Extent (i, j, k + 1)
      ∧ (i - self.Extent.xmin) + (j - self.Extent.ymin) * self.GetDimensions_dims.1
        + ((k - self.Extent.zmin) - 1)
          * (self.GetDimensions_dims.1 * self.GetDimensions_dims.2.1)
        = GetTupleIndex.idx self.Extent (i, j, k - 1) := by
  simp only [GetTupleIndex_idx_eq, GetDimensions_dims]
  refine ⟨?_, ?_, ?_, ?_, ?_, ?_, ?_⟩ <;> ring
/-- The central case of an axis block of `GetPointGradient` written as a quotient by twice
the spacing. -/
theorem half_div_eq (a b sp : ℚ) : 1 / 2 * (a - b) / sp = (a - b) / (2 * sp) := by
  rw [div_mul_eq_div_div_swap]
  ring

/-- Where no other axis divides by a zero spacing: for every grid with identity direction,
every scalar array and every in-extent sample, on an axis with exactly one sample
(`dims[a] == 1`) the axis block of
`GetPointGradient` sets the component to exactly 0, reads no scalar and divides by nothing,
whatever the spacing on that axis; and when the blocks of the other two axes are defined
(one sample, or a spacing other than 0), `GetPointGradient` returns a gradient whose
component on that axis is 0 and whose reads and divisions are those of the other two
blocks only. -/
theorem GetPointGradient_single_sample (self : vtkImageData) (i j k : Int)
    (s : vtkIdType → ℚ)
    (hid : self.DirectionMatrix.IsIdentity = true)
    (hin : (self.Extent.xmin ≤ i ∧ i ≤ self.Extent.xmax)
      ∧ (self.Extent.ymin ≤ j ∧ j ≤ self.Extent.ymax)
      ∧ (self.Extent.zmin ≤ k ∧ k ≤ self.Extent.zmax)) :
    (self.GetDimensions_dims.1 = 1 →
        GetPointGradient.iAxis self s (i - self.Extent.xmin) (j - self.Extent.ymin)
            (k - self.Extent.zmin) = .ok { g := 0, reads := [], divisors := [] }
        ∧ ((self.GetDimensions_dims.2.1 = 1 ∨ self.Spacing.2.1 ≠ 0) →
           (self.GetDimensions_dims.2.2 = 1 ∨ self.Spacing.2.2 ≠ 0) →
           ∃ gy gz : GetPointGradient.Axis,
             GetPointGradient.jAxis self s (i - self.Extent.xmin) (j - self.Extent.ymin)
               (k - self.Extent.zmin) = .ok gy
             ∧ GetPointGradient.kAxis self s (i - self.Extent.xmin) (j - self.Extent.ymin)
               (k - self.Extent.zmin) = .ok gz
             ∧ self.GetPointGradient i j k s
               = .ok ((0, gy.g, gz.g), gy.reads ++ gz.reads, gy.divisors ++ gz.divisors)))
      ∧ (self.GetDimensions_dims.2.1 = 1 →
        GetPointGradient.jAxis self s (i - self.Extent.xmin) (j - self.Extent.ymin)
            (k - self.Extent.zmin) = .ok { g := 0, reads := [], divisors := [] }
        ∧ ((self.GetDimensions_dims.1 = 1 ∨ self.Spacing.1 ≠ 0) →
           (self.GetDimensions_dims.2.2 = 1 ∨ self.Spacing.2.2 ≠ 0) →
           ∃ gx gz : GetPointGradient.Axis,
             GetPointGradient.iAxis self s (i - self.Extent.xmin) (j - self.Extent.ymin)
               (k - self.Extent.zmin) = .ok gx
             ∧ GetPointGradient.kAxis self s (i - self.Extent.xmin) (j - self.Extent.ymin)
               (k - self.Extent.zmin) = .ok gz
             ∧ self.GetPointGradient i j k s
               = .ok ((gx.g, 0, gz.g), gx.reads ++ gz.reads, gx.divisors ++ gz.divisors)))
      ∧ (self.GetDimensions_dims.2.2 = 1 →
        GetPointGradient.kAxis self s (i - self.Extent.xmin) (j - self.Extent.ymin)
            (k - self.Extent.zmin) = .ok { g := 0, reads := [], divisors := [] }
        ∧ ((self.GetDimensions_dims.1 = 1 ∨ self.Spacing.1 ≠ 0) →
           (self.GetDimensions_dims.2.1 = 1 ∨ self.Spacing.2.1 ≠ 0) →
           ∃ gx gy : GetPointGradient.Axis,
             GetPointGradient.iAxis self s (i - self.Extent.xmin) (j - self.Extent.ymin)
               (k - self.Extent.zmin) = .ok gx
             ∧ GetPointGradient.jAxis self s (i - self.Extent.xmin) (j - self.Extent.ymin)
               (k - self.Extent.zmin) = .ok gy
             ∧ self.GetPointGradient i j k s
               = .ok ((gx.g, gy.g, 0), gx.reads ++ gy.reads, gx.divisors ++ gy.divisors))) := by
  refine ⟨?_, ?_, ?_⟩
  · intro h1
    have hx := (iAxis_cases self s (i - self.Extent.xmin) (j - self.Extent.ymin)
      (k - self.Extent.zmin)).1 h1
    refine ⟨hx, ?_⟩
    intro hy hz
    obtain ⟨gy, hgy⟩ := jAxis_ok self s (i - self.Extent.xmin) (j - self.Extent.ymin)
      (k - self.Extent.zmin) hy
    obtain ⟨gz, hgz⟩ := kAxis_ok self s (i - self.Extent.xmin) (j - self.Extent.ymin)
      (k - self.Extent.zmin) hz
    refine ⟨gy, gz, hgy, hgz, ?_⟩
    rw [GetPointGradient_blocks self i j k s _ gy gz hid hin hx hgy hgz]
    simp
  · intro h1
    have hy := (jAxis_cases self s (i - self.Extent.xmin) (j - self.Extent.ymin)
      (k - self.Extent.zmin)).1 h1
    refine ⟨hy, ?_⟩
    intro hx hz
    obtain ⟨gx, hgx⟩ := iAxis_ok self s (i - self.Extent.xmin) (j - self.Extent.ymin)
      (k - self.Extent.zmin) hx
    obtain ⟨gz, hgz⟩ := kAxis_ok self s (i - self.Extent.xmin) (j - self.Extent.ymin)
      (k - self.Extent.zmin) hz
    refine ⟨gx, gz, hgx, hgz, ?_⟩
    rw [GetPointGradient_blocks self i j k s gx _ gz hid hin hgx hy hgz]
    simp
  · intro h1
    have hz := (kAxis_cases self s (i - self.Extent.xmin) (j - self.Extent.ymin)
      (k - self.Extent.zmin)).1 h1
    refine ⟨hz, ?_⟩
    intro hx hy
    obtain ⟨gx, hgx⟩ := iAxis_ok self s (i - self.Extent.xmin) (j - self.Extent.ymin)
      (k - self.Extent.zmin) hx
    obtain ⟨gy, hgy⟩ := jAxis_ok self s (i - self.Extent.xmin) (j - self.Extent.ymin)
      (k - self.Extent.zmin) hy
    refine ⟨gx, gy, hgx, hgy, ?_⟩
    rw [GetPointGradient_blocks self i j k s gx gy _ hid hin hgx hgy hz]
    simp

/-- C32: on the line grid `[0,3,0,0,0,0]` with spacing `(0, 1, 1)` (four samples along x,
spacing 0 on x) and the scalars `s[n] = n`, `FindPoint` returns -1 with the warning for the
I axis before it uses the transform, but `GetPointGradient` at the in-extent sample
`(1, 0, 0)` reaches `0.5 * (sm - sp) / ar[0]` with `ar[0] = 0`: the x block divides by the
zero spacing, and so it does at the first and at the last sample. -/
theorem GetPointGradient_divides_by_zero_spacing :
    xline4ZeroXSpacing.Spacing.1 = 0 ∧ xline4ZeroXSpacing.GetDimensions_dims.1 = 4
      ∧ xline4ZeroXSpacing.FindPoint (1, 0, 0) = (-1, [.SpacingAlongAxisIsZero "I"])
      ∧ xline4ZeroXSpacing.GetPointGradient 1 0 0 (fun n => (n : ℚ))
          = .error .DoubleDivisionByZero
      ∧ xline4ZeroXSpacing.GetPointGradient 0 0 0 (fun n => (n : ℚ))
          = .error .DoubleDivisionByZero
      ∧ xline4ZeroXSpacing.GetPointGradient 3 0 0 (fun n => (n : ℚ))
          = .error .DoubleDivisionByZero := by
  refine ⟨rfl, rfl, rfl, rfl, rfl, rfl⟩

/-- On a non-empty grid whose classification matches its extent, the classification
tells which axes have `min < max`. -/
theorem classification_cases (self : vtkImageData)
    (hx : self.Extent.xmin ≤ self.Extent.xmax) (hy : self.Extent.ymin ≤ self.Extent.ymax)
    (hz : self.Extent.zmin ≤ self.Extent.zmax)
    (hclass : self.DataDescription = GetDataDescriptionFromExtent self.Extent) :
    (self.DataDescription = VTK_SINGLE_POINT ∧ self.Extent.xmin = self.Extent.xmax
        ∧ self.Extent.ymin = self.Extent.ymax ∧ self.Extent.zmin = self.Extent.zmax)
      ∨ (self.DataDescription = VTK_X_LINE ∧ self.Extent.xmin < self.Extent.xmax
        ∧ self.Extent.ymin = self.Extent.ymax ∧ self.Extent.zmin = self.Extent.zmax)
      ∨ (self.DataDescription = VTK_Y_LINE ∧ self.Extent.xmin = self.Extent.xmax
        ∧ self.Extent.ymin < self.Extent.ymax ∧ self.Extent.zmin = self.Extent.zmax)
      ∨ (self.DataDescription = VTK_Z_LINE ∧ self.Extent.xmin = self.Extent.xmax
        ∧ self.Extent.ymin = self.Extent.ymax ∧ self.Extent.zmin < self.Extent.zmax)
      ∨ (self.DataDescription = VTK_XY_PLANE ∧ self.Extent.xmin < self.Extent.xmax
        ∧ self.Extent.ymin < self.Extent.ymax ∧ self.Extent.zmin = self.Extent.zmax)
      ∨ (self.DataDescription = VTK_YZ_PLANE ∧ self.Extent.xmin = self.Extent.xmax
        ∧ self.Extent.ymin < self.Extent.ymax ∧ self.Extent.zmin < self.Extent.zmax)
      ∨ (self.DataDescription = VTK_XZ_PLANE ∧ self.Extent.xmin < self.Extent.xmax
        ∧ self.Extent.ymin = self.Extent.ymax ∧ self.Extent.zmin < self.Extent.zmax)
      ∨ (self.DataDescription = VTK_XYZ_GRID ∧ self.Extent.xmin < self.Extent.xmax
        ∧ self.Extent.ymin < self.Extent.ymax ∧ self.Extent.zmin < self.Extent.zmax) := by
  have gx : ¬ self.Extent.xmin > self.Extent.xmax := by omega
  have gy : ¬ self.Extent.ymin > self.Extent.ymax := by omega
  have gz : ¬ self.Extent.zmin > self.Extent.zmax := by omega
  simp only [GetDataDescriptionFromExtent, gx, gy, gz, or_self, if_false] at hclass
  rcases eq_or_lt_of_le hx with ex | lx <;> rcases eq_or_lt_of_le hy with ey | ly <;>
    rcases eq_or_lt_of_le hz with ez | lz
  · have bx : ¬ self.Extent.xmin < self.Extent.xmax := by omega
    have by1 : ¬ self.Extent.ymin < self.Extent.ymax := by omega
    have bz : ¬ self.Extent.zmin < self.Extent.zmax := by omega
    simp only [bx, by1, bz, decide_False, decide_True] at hclass
    exact .inl ⟨hclass, ex, ey, ez⟩
  · have bx : ¬ self.Extent.xmin < self.Extent.xmax := by omega
    have by1 : ¬ self.Extent.ymin < self.Extent.ymax := by omega
    simp only [bx, by1, lz, decide_False, decide_True] at hclass
    exact .inr (.inr (.inr (.inl ⟨hclass, ex, ey, lz⟩)))
  · have bx : ¬ self.Extent.xmin < self.Extent.xmax := by omega
    have bz : ¬ self.Extent.zmin < self.Extent.zmax := by omega
    simp only [bx, ly, bz, decide_False, decide_True] at hclass
    exact .inr (.inr (.inl ⟨hclass, ex, ly, ez⟩))
  · have bx : ¬ self.Extent.xmin < self.Extent.xmax := by omega
    simp only [bx, ly, lz, decide_False, decide_True] at hclass
    exact .inr (.inr (.inr (.inr (.inr (.inl ⟨hclass, ex, ly, lz⟩)))))
  · have by1 : ¬ self.Extent.ymin < self.Extent.ymax := by omega
    have bz : ¬ self.Extent.zmin < self.Extent.zmax := by omega
    simp only [lx, by1, bz, decide_False, decide_True] at hclass
    exact .inr (.inl ⟨hclass, lx, ey, ez⟩)
  · have by1 : ¬ self.Extent.ymin < self.Extent.ymax := by omega
    simp only [lx, by1, lz, decide_False, decide_True] at hclass
    exact .inr (.inr (.inr (.inr (.inr (.inr (.inl ⟨hclass, lx, ey, lz⟩))))))
  · have bz : ¬ self.Extent.zmin < self.Extent.zmax := by omega
    simp only [lx, ly, bz, decide_False, decide_True] at hclass
    exact .inr (.inr (.inr (.inr (.inl ⟨hclass, lx, ly, ez⟩))))
  · simp only [lx, ly, lz, decide_False, decide_True] at hclass
    exact .inr (.inr (.inr (.inr (.inr (.inr (.inr (⟨hclass, lx, ly, lz⟩)))))))

/-- `GetPoint` on a grid with no dimension equal to 0 and a classification other than
empty, once the switch has decoded `loc`. -/
theorem GetPoint_of_loc (self : vtkImageData) (ptId : vtkIdType) (loc : Int × Int × Int)
    (nx : self.Extent.xmax - self.Extent.xmin + 1 ≠ 0)
    (ny : self.Extent.ymax - self.Extent.ymin + 1 ≠ 0)
    (nz : self.Extent.zmax - self.Extent.zmin + 1 ≠ 0)
    (hne : self.DataDescription ≠ VTK_EMPTY)
    (hloc : GetPoint.loc self ptId = .ok loc) :
    self.GetPoint ptId = .ok (self.TransformIndexToPhysicalPoint (loc.1 + self.Extent.xmin)
      (loc.2.1 + self.Extent.ymin) (loc.2.2 + self.Extent.zmin), self) := by
  simp only [GetPoint, GetDimensions_dims, nx, ny, nz, or_self, if_false, hne, hloc, bind,
    Except.bind]

/-- On a non-empty grid whose classification matches its extent, the switch of `GetPoint`
decodes the row-major id of in-range offsets `(a, b, c)` back to `(a, b, c)`. -/
theorem GetPoint_loc_of_offsets (self : vtkImageData) (a b c : Int)
    (hx : self.Extent.xmin ≤ self.Extent.xmax) (hy : self.Extent.ymin ≤ self.Extent.ymax)
    (hz : self.Extent.zmin ≤ self.Extent.zmax)
    (hclass : self.DataDescription = GetDataDescriptionFromExtent self.Extent)
    (ha : 0 ≤ a ∧ a ≤ self.Extent.xmax - self.Extent.xmin)
    (hb : 0 ≤ b ∧ b ≤ self.Extent.ymax - self.Extent.ymin)
    (hc : 0 ≤ c ∧ c ≤ self.Extent.zmax - self.Extent.zmin) :
    GetPoint.loc self (a + b * (self.Extent.xmax - self.Extent.xmin + 1)
        + c * (self.Extent.xmax - self.Extent.xmin + 1)
          * (self.Extent.ymax - self.Extent.ymin + 1)) = .ok (a, b, c) := by
  have px : 0 < self.Extent.xmax - self.Extent.xmin + 1 := by omega
  have py : 0 < self.Extent.ymax - self.Extent.ymin + 1 := by omega
  have hr := rowMajor_range a b c (self.Extent.xmax - self.Extent.xmin + 1)
    (self.Extent.ymax - self.Extent.ymin + 1) (self.Extent.zmax - self.Extent.zmin + 1)
    ⟨ha.1, by omega⟩ ⟨hb.1, by omega⟩ ⟨hc.1, by omega⟩
  have hd := rowMajor_decode a b c (self.Extent.xmax - self.Extent.xmin + 1)
    (self.Extent.ymax - self.Extent.ymin + 1) ⟨ha.1, by omega⟩ ⟨hb.1, by omega⟩
  generalize hid : a + b * (self.Extent.xmax - self.Extent.xmin + 1)
    + c * (self.Extent.xmax - self.Extent.xmin + 1)
      * (self.Extent.ymax - self.Extent.ymin + 1) = ptId at hr hd
  have h0 : 0 ≤ ptId := hr.1
  have hq : 0 ≤ ptId / (self.Extent.xmax - self.Extent.xmin + 1) :=
    Int.ediv_nonneg h0 (le_of_lt px)
  rcases classification_cases self hx hy hz hclass with
    ⟨hd1, ex, ey, ez⟩ | ⟨hd1, lx, ey, ez⟩ | ⟨hd1, ex, ly, ez⟩ | ⟨hd1, ex, ey, lz⟩
    | ⟨hd1, lx, ly, ez⟩ | ⟨hd1, ex, ly, lz⟩ | ⟨hd1, lx, ey, lz⟩ | ⟨hd1, lx, ly, lz⟩
  · -- a single point
    have a0 : a = 0 := by omega
    have b0 : b = 0 := by omega
    have c0 : c = 0 := by omega
    simp only [GetPoint.loc, hd1, a0, b0, c0]
    simp [VTK_SINGLE_POINT]
  · -- a line along x
    have b0 : b = 0 := by omega
    have c0 : c = 0 := by omega
    have e : ptId = a := by rw [← hid, b0, c0]; ring
    simp only [GetPoint.loc, hd1, b0, c0, e]
    simp [VTK_SINGLE_POINT, VTK_X_LINE]
  · -- a line along y
    have a0 : a = 0 := by omega
    have c0 : c = 0 := by omega
    have d1 : self.Extent.xmax - self.Extent.xmin + 1 = 1 := by omega
    have e : ptId = b := by rw [← hid, a0, c0, d1]; ring
    simp only [GetPoint.loc, hd1, a0, c0, e]
    simp [VTK_SINGLE_POINT, VTK_X_LINE, VTK_Y_LINE]
  · -- a line along z
    have a0 : a = 0 := by omega
    have b0 : b = 0 := by omega
    have d1 : self.Extent.xmax - self.Extent.xmin + 1 = 1 := by omega
    have d2 : self.Extent.ymax - self.Extent.ymin + 1 = 1 := by omega
    have e : ptId = c := by rw [← hid, a0, b0, d1, d2]; ring
    simp only [GetPoint.loc, hd1, a0, b0, e]
    simp [VTK_SINGLE_POINT, VTK_X_LINE, VTK_Y_LINE, VTK_Z_LINE]
  · -- a plane in x and y
    have c0 : c = 0 := by omega
    have e : ptId = a + b * (self.Extent.xmax - self.Extent.xmin + 1) := by
      rw [← hid, c0]; ring
    have k := div_mod_two a b (self.Extent.xmax - self.Extent.xmin + 1) ⟨ha.1, by omega⟩
    rw [← e] at k
    simp only [GetPoint.loc, GetDimensions_dims, hd1, cMod_of_pos _ _ h0 px,
      cDiv_of_pos _ _ h0 px, bind, Except.bind, k.1, k.2, c0]
    simp [VTK_SINGLE_POINT, VTK_X_LINE, VTK_Y_LINE, VTK_Z_LINE, VTK_XY_PLANE]
  · -- a plane in y and z
    have a0 : a = 0 := by omega
    have d1 : self.Extent.xmax - self.Extent.xmin + 1 = 1 := by omega
    have e : ptId = b + c * (self.Extent.ymax - self.Extent.ymin + 1) := by
      rw [← hid, a0, d1]; ring
    have k := div_mod_two b c (self.Extent.ymax - self.Extent.ymin + 1) ⟨hb.1, by omega⟩
    rw [← e] at k
    simp only [GetPoint.loc, GetDimensions_dims, hd1, cMod_of_pos _ _ h0 py,
      cDiv_of_pos _ _ h0 py, bind, Except.bind, k.1, k.2, a0]
    simp [VTK_SINGLE_POINT, VTK_X_LINE, VTK_Y_LINE, VTK_Z_LINE, VTK_XY_PLANE, VTK_YZ_PLANE]
  · -- a plane in x and z
    have b0 : b = 0 := by omega
    have d2 : self.Extent.ymax - self.Extent.ymin + 1 = 1 := by omega
    have e : ptId = a + c * (self.Extent.xmax - self.Extent.xmin + 1) := by
      rw [← hid, b0, d2]; ring
    have k := div_mod_two a c (self.Extent.xmax - self.Extent.xmin + 1) ⟨ha.1, by omega⟩
    rw [← e] at k
    simp only [GetPoint.loc, GetDimensions_dims, hd1, cMod_of_pos _ _ h0 px,
      cDiv_of_pos _ _ h0 px, bind, Except.bind, k.1, k.2, b0]
    simp [VTK_SINGLE_POINT, VTK_X_LINE, VTK_Y_LINE, VTK_Z_LINE, VTK_XY_PLANE, VTK_YZ_PLANE,
      VTK_XZ_PLANE]
  · -- a 3D grid
    simp only [GetPoint.loc, GetDimensions_dims, hd1, cMod_of_pos _ _ h0 px,
      cDiv_of_pos _ _ h0 px, cMod_of_pos _ _ hq py, cDiv_of_pos _ _ h0 (mul_pos px py), bind,
      Except.bind, hd.1, hd.2.1, hd.2.2]
    simp [VTK_SINGLE_POINT, VTK_X_LINE, VTK_Y_LINE, VTK_Z_LINE, VTK_XY_PLANE, VTK_YZ_PLANE,
      VTK_XZ_PLANE, VTK_XYZ_GRID]

/-- On a non-empty grid whose classification matches its extent, `GetPoint` of the
row-major id of in-range offsets `(a, b, c)` is the physical point of the sample
`(a + xmin, b + ymin, c + zmin)`, and the grid is left as it was. -/
theorem GetPoint_of_offsets (self : vtkImageData) (a b c : Int)
    (hx : self.Extent.xmin ≤ self.Extent.xmax) (hy : self.Extent.ymin ≤ self.Extent.ymax)
    (hz : self.Extent.zmin ≤ self.Extent.zmax)
    (hclass : self.DataDescription = GetDataDescriptionFromExtent self.Extent)
    (ha : 0 ≤ a ∧ a ≤ self.Extent.xmax - self.Extent.xmin)
    (hb : 0 ≤ b ∧ b ≤ self.Extent.ymax - self.Extent.ymin)
    (hc : 0 ≤ c ∧ c ≤ self.Extent.zmax - self.Extent.zmin) :
    self.GetPoint (a + b * (self.Extent.xmax - self.Extent.xmin + 1)
        + c * (self.Extent.xmax - self.Extent.xmin + 1)
          * (self.Extent.ymax - self.Extent.ymin + 1))
      = .ok (self.TransformIndexToPhysicalPoint (a + self.Extent.xmin) (b + self.Extent.ymin)
          (c + self.Extent.zmin), self) := by
  have hne : self.DataDescription ≠ VTK_EMPTY := by
    rcases classification_cases self hx hy hz hclass with
      h | h | h | h | h | h | h | h <;> rw [h.1] <;> decide
  exact GetPoint_of_loc self _ (a, b, c) (by omega) (by omega) (by omega) hne
    (GetPoint_loc_of_offsets self a b c hx hy hz hclass ha hb hc)

/-- Rounding an integer by `vtkMath::Floor(x + 0.5)` gives the integer back. -/
theorem Floor_int_add_half (n : Int) : vtkMath.Floor ((n : ℚ) + 1 / 2) = n := by
  unfold vtkMath.Floor
  rw [Int.floor_eq_iff]
  constructor <;> linarith

/-- On a grid whose inverse matrix is a left inverse of its forward matrix and whose
spacing has no zero component, `FindPoint` at the physical point of an in-extent sample
returns the row-major id of the sample, with no warning. -/
theorem FindPoint_of_sample (g : vtkImageData) (i j k : Int)
    (hinv : g.PhysicalToIndexMatrix * g.IndexToPhysicalMatrix = 1)
    (hrow : g.IndexToPhysicalMatrix 3 0 = 0 ∧ g.IndexToPhysicalMatrix 3 1 = 0
      ∧ g.IndexToPhysicalMatrix 3 2 = 0 ∧ g.IndexToPhysicalMatrix 3 3 = 1)
    (hs : g.Spacing.1 ≠ 0 ∧ g.Spacing.2.1 ≠ 0 ∧ g.Spacing.2.2 ≠ 0)
    (hi : g.Extent.xmin ≤ i ∧ i ≤ g.Extent.xmax) (hj : g.Extent.ymin ≤ j ∧ j ≤ g.Extent.ymax)
    (hk : g.Extent.zmin ≤ k ∧ k ≤ g.Extent.zmax) :
    g.FindPoint (g.TransformIndexToPhysicalPoint i j k)
      = ((i - g.Extent.xmin) + (j - g.Extent.ymin) * (g.Extent.xmax - g.Extent.xmin + 1)
          + (k - g.Extent.zmin) * (g.Extent.xmax - g.Extent.xmin + 1)
            * (g.Extent.ymax - g.Extent.ymin + 1), []) := by
  have hc : g.TransformPhysicalPointToContinuousIndex (g.TransformIndexToPhysicalPoint i j k).1
      (g.TransformIndexToPhysicalPoint i j k).2.1 (g.TransformIndexToPhysicalPoint i j k).2.2
      = ((i : ℚ), (j : ℚ), (k : ℚ)) :=
    TransformCoordinates_left_inverse _ _ hinv hrow (i : ℚ) (j : ℚ) (k : ℚ)
  have hl : FindPoint.locate g (g.TransformIndexToPhysicalPoint i j k)
      = FindPoint.pointId g (i, j, k) := by
    unfold FindPoint.locate
    simp only [hc, Floor_int_add_half]
  simp only [FindPoint, hs.1, hs.2.1, hs.2.2, false_and, if_false, hl]
  rw [FindPoint_pointId_eq g i j k hi hj hk]

/-- On a non-empty grid whose classification matches its extent and for a cell id in
`0 .. GetNumberOfCells - 1`, both cell lookups succeed and leave the grid as it was; on
every axis `0 <= ijkMin[a]` and `ijkMax[a] <= dimension[a] - 1`, with
`ijkMax[a] = ijkMin[a] + 1` on an axis with `min < max` and `ijkMax[a] = ijkMin[a]` on a
degenerate axis. -/
theorem cell_corner_ranges (self : vtkImageData) (cellId : Int)
    (hx : self.Extent.xmin ≤ self.Extent.xmax) (hy : self.Extent.ymin ≤ self.Extent.ymax)
    (hz : self.Extent.zmin ≤ self.Extent.zmax)
    (hclass : self.DataDescription = GetDataDescriptionFromExtent self.Extent)
    (hid : 0 ≤ cellId ∧ cellId < self.GetNumberOfCells) :
    ∃ ijkMin ijkMax : Int × Int × Int,
      self.GetIJKMinForCellId cellId = .ok ((true, ijkMin), self)
      ∧ self.GetIJKMaxForIJKMin ijkMin = ((true, ijkMax), self)
      ∧ (0 ≤ ijkMin.1 ∧ ijkMax.1 ≤ self.Extent.xmax - self.Extent.xmin
        ∧ ((self.Extent.xmin < self.Extent.xmax ∧ ijkMax.1 = ijkMin.1 + 1)
          ∨ (self.Extent.xmin = self.Extent.xmax ∧ ijkMax.1 = ijkMin.1)))
      ∧ (0 ≤ ijkMin.2.1 ∧ ijkMax.2.1 ≤ self.Extent.ymax - self.Extent.ymin
        ∧ ((self.Extent.ymin < self.Extent.ymax ∧ ijkMax.2.1 = ijkMin.2.1 + 1)
          ∨ (self.Extent.ymin = self.Extent.ymax ∧ ijkMax.2.1 = ijkMin.2.1)))
      ∧ (0 ≤ ijkMin.2.2 ∧ ijkMax.2.2 ≤ self.Extent.zmax - self.Extent.zmin
        ∧ ((self.Extent.zmin < self.Extent.zmax ∧ ijkMax.2.2 = ijkMin.2.2 + 1)
          ∨ (self.Extent.zmin = self.Extent.zmax ∧ ijkMax.2.2 = ijkMin.2.2))) := by
  obtain ⟨h0, hlt⟩ := hid
  rw [GetNumberOfCells_eq_product self hx hy hz] at hlt
  have nx : self.Extent.xmax - self.Extent.xmin + 1 ≠ 0 := by omega
  have ny : self.Extent.ymax - self.Extent.ymin + 1 ≠ 0 := by omega
  have nz : self.Extent.zmax - self.Extent.zmin + 1 ≠ 0 := by omega
  rcases classification_cases self hx hy hz hclass with
    ⟨hd, ex, ey, ez⟩ | ⟨hd, lx, ey, ez⟩ | ⟨hd, ex, ly, ez⟩ | ⟨hd, ex, ey, lz⟩
    | ⟨hd, lx, ly, ez⟩ | ⟨hd, ex, ly, lz⟩ | ⟨hd, lx, ey, lz⟩ | ⟨hd, lx, ly, lz⟩
  · have mx : max (self.Extent.xmax - self.Extent.xmin + 1 - 1) 1 = 1 := max_eq_right (by omega)
    have my : max (self.Extent.ymax - self.Extent.ymin + 1 - 1) 1 = 1 := max_eq_right (by omega)
    have mz : max (self.Extent.zmax - self.Extent.zmin + 1 - 1) 1 = 1 := max_eq_right (by omega)
    rw [mx, my, mz] at hlt
    have hmin := GetIJKMinForCellId_point self cellId hd nx ny nz
    have hmax := (GetIJKMaxForIJKMin_cases self (0, 0, 0) nx ny nz).1 hd
    exact ⟨_, _, hmin, hmax, ⟨le_refl _, by dsimp only; linarith, .inr ⟨ex, rfl⟩⟩,
      ⟨le_refl _, by dsimp only; linarith, .inr ⟨ey, rfl⟩⟩,
      ⟨le_refl _, by dsimp only; linarith, .inr ⟨ez, rfl⟩⟩⟩
  · have mx : max (self.Extent.xmax - self.Extent.xmin + 1 - 1) 1 = (self.Extent.xmax - self.Extent.xmin + 1 - 1) := max_eq_left (by omega)
    have px : 0 < (self.Extent.xmax - self.Extent.xmin + 1 - 1) := by omega
    have my : max (self.Extent.ymax - self.Extent.ymin + 1 - 1) 1 = 1 := max_eq_right (by omega)
    have mz : max (self.Extent.zmax - self.Extent.zmin + 1 - 1) 1 = 1 := max_eq_right (by omega)
    rw [mx, my, mz] at hlt
    have hmin := GetIJKMinForCellId_xline self cellId hd nx ny nz
    have hmax := (GetIJKMaxForIJKMin_cases self (cellId, 0, 0) nx ny nz).2.1 hd
    simp only [mul_one, one_mul] at hlt
    exact ⟨_, _, hmin, hmax, ⟨h0, by dsimp only; linarith [hlt], .inl ⟨lx, rfl⟩⟩,
      ⟨le_refl _, by dsimp only; linarith, .inr ⟨ey, rfl⟩⟩,
      ⟨le_refl _, by dsimp only; linarith, .inr ⟨ez, rfl⟩⟩⟩
  · have mx : max (self.Extent.xmax - self.Extent.xmin + 1 - 1) 1 = 1 := max_eq_right (by omega)
    have my : max (self.Extent.ymax - self.Extent.ymin + 1 - 1) 1 = (self.Extent.ymax - self.Extent.ymin + 1 - 1) := max_eq_left (by omega)
    have py : 0 < (self.Extent.ymax - self.Extent.ymin + 1 - 1) := by omega
    have mz : max (self.Extent.zmax - self.Extent.zmin + 1 - 1) 1 = 1 := max_eq_right (by omega)
    rw [mx, my, mz] at hlt
    have hmin := GetIJKMinForCellId_yline self cellId hd nx ny nz
    have hmax := (GetIJKMaxForIJKMin_cases self (0, cellId, 0) nx ny nz).2.2.1 hd
    simp only [mul_one, one_mul] at hlt
    exact ⟨_, _, hmin, hmax, ⟨le_refl _, by dsimp only; linarith, .inr ⟨ex, rfl⟩⟩,
      ⟨h0, by dsimp only; linarith [hlt], .inl ⟨ly, rfl⟩⟩,
      ⟨le_refl _, by dsimp only; linarith, .inr ⟨ez, rfl⟩⟩⟩
  · have mx : max (self.Extent.xmax - self.Extent.xmin + 1 - 1) 1 = 1 := max_eq_right (by omega)
    have my : max (self.Extent.ymax - self.Extent.ymin + 1 - 1) 1 = 1 := max_eq_right (by omega)
    have mz : max (self.Extent.zmax - self.Extent.zmin + 1 - 1) 1 = (self.Extent.zmax - self.Extent.zmin + 1 - 1) := max_eq_left (by omega)
    have pz : 0 < (self.Extent.zmax - self.Extent.zmin + 1 - 1) := by omega
    rw [mx, my, mz] at hlt
    have hmin := GetIJKMinForCellId_zline self cellId hd nx ny nz
    have hmax := (GetIJKMaxForIJKMin_cases self (0, 0, cellId) nx ny nz).2.2.2.1 hd
    simp only [mul_one, one_mul] at hlt
    exact ⟨_, _, hmin, hmax, ⟨le_refl _, by dsimp only; linarith, .inr ⟨ex, rfl⟩⟩,
      ⟨le_refl _, by dsimp only; linarith, .inr ⟨ey, rfl⟩⟩,
      ⟨h0, by dsimp only; linarith [hlt], .inl ⟨lz, rfl⟩⟩⟩
  · have mx : max (self.Extent.xmax - self.Extent.xmin + 1 - 1) 1 = (self.Extent.xmax - self.Extent.xmin + 1 - 1) := max_eq_left (by omega)
    have px : 0 < (self.Extent.xmax - self.Extent.xmin + 1 - 1) := by omega
    have my : max (self.Extent.ymax - self.Extent.ymin + 1 - 1) 1 = (self.Extent.ymax - self.Extent.ymin + 1 - 1) := max_eq_left (by omega)
    have py : 0 < (self.Extent.ymax - self.Extent.ymin + 1 - 1) := by omega
    have mz : max (self.Extent.zmax - self.Extent.zmin + 1 - 1) 1 = 1 := max_eq_right (by omega)
    rw [mx, my, mz] at hlt
    have hmin := GetIJKMinForCellId_xyplane self cellId hd h0 lx ny nz
    have hmax := (GetIJKMaxForIJKMin_cases self (cellId % (self.Extent.xmax - self.Extent.xmin + 1 - 1), cellId / (self.Extent.xmax - self.Extent.xmin + 1 - 1), 0) nx ny nz).2.2.2.2.1 hd
    simp only [mul_one, one_mul] at hlt
    have ra := Int.emod_nonneg cellId (ne_of_gt px)
    have ra2 := Int.emod_lt_of_pos cellId px
    have rb := Int.ediv_nonneg h0 (le_of_lt px)
    have rb2 : cellId / (self.Extent.xmax - self.Extent.xmin + 1 - 1) < (self.Extent.ymax - self.Extent.ymin + 1 - 1) := Int.ediv_lt_of_lt_mul px (by linarith)
    exact ⟨_, _, hmin, hmax, ⟨ra, by dsimp only; linarith [ra2], .inl ⟨lx, rfl⟩⟩,
      ⟨rb, by dsimp only; linarith [rb2], .inl ⟨ly, rfl⟩⟩,
      ⟨le_refl _, by dsimp only; linarith, .inr ⟨ez, rfl⟩⟩⟩
  · have mx : max (self.Extent.xmax - self.Extent.xmin + 1 - 1) 1 = 1 := max_eq_right (by omega)
    have my : max (self.Extent.ymax - self.Extent.ymin + 1 - 1) 1 = (self.Extent.ymax - self.Extent.ymin + 1 - 1) := max_eq_left (by omega)
    have py : 0 < (self.Extent.ymax - self.Extent.ymin + 1 - 1) := by omega
    have mz : max (self.Extent.zmax - self.Extent.zmin + 1 - 1) 1 = (self.Extent.zmax - self.Extent.zmin + 1 - 1) := max_eq_left (by omega)
    have pz : 0 < (self.Extent.zmax - self.Extent.zmin + 1 - 1) := by omega
    rw [mx, my, mz] at hlt
    have hmin := GetIJKMinForCellId_yzplane self cellId hd h0 nx ly nz
    have hmax := (GetIJKMaxForIJKMin_cases self (0, cellId % (self.Extent.ymax - self.Extent.ymin + 1 - 1), cellId / (self.Extent.ymax - self.Extent.ymin + 1 - 1)) nx ny nz).2.2.2.2.2.1 hd
    simp only [mul_one, one_mul] at hlt
    have ra := Int.emod_nonneg cellId (ne_of_gt py)
    have ra2 := Int.emod_lt_of_pos cellId py
    have rb := Int.ediv_nonneg h0 (le_of_lt py)
    have rb2 : cellId / (self.Extent.ymax - self.Extent.ymin + 1 - 1) < (self.Extent.zmax - self.Extent.zmin + 1 - 1) := Int.ediv_lt_of_lt_mul py (by linarith)
    exact ⟨_, _, hmin, hmax, ⟨le_refl _, by dsimp only; linarith, .inr ⟨ex, rfl⟩⟩,
      ⟨ra, by dsimp only; linarith [ra2], .inl ⟨ly, rfl⟩⟩,
      ⟨rb, by dsimp only; linarith [rb2], .inl ⟨lz, rfl⟩⟩⟩
  · have mx : max (self.Extent.xmax - self.Extent.xmin + 1 - 1) 1 = (self.Extent.xmax - self.Extent.xmin + 1 - 1) := max_eq_left (by omega)
    have px : 0 < (self.Extent.xmax - self.Extent.xmin + 1 - 1) := by omega
    have my : max (self.Extent.ymax - self.Extent.ymin + 1 - 1) 1 = 1 := max_eq_right (by omega)
    have mz : max (self.Extent.zmax - self.Extent.zmin + 1 - 1) 1 = (self.Extent.zmax - self.Extent.zmin + 1 - 1) := max_eq_left (by omega)
    have pz : 0 < (self.Extent.zmax - self.Extent.zmin + 1 - 1) := by omega
    rw [mx, my, mz] at hlt
    have hmin := GetIJKMinForCellId_xzplane self cellId hd h0 lx ny nz
    have hmax := (GetIJKMaxForIJKMin_cases self (cellId % (self.Extent.xmax - self.Extent.xmin + 1 - 1), 0, cellId / (self.Extent.xmax - self.Extent.xmin + 1 - 1)) nx ny nz).2.2.2.2.2.2.1 hd
    simp only [mul_one, one_mul] at hlt
    have ra := Int.emod_nonneg cellId (ne_of_gt px)
    have ra2 := Int.emod_lt_of_pos cellId px
    have rb := Int.ediv_nonneg h0 (le_of_lt px)
    have rb2 : cellId / (self.Extent.xmax - self.Extent.xmin + 1 - 1) < (self.Extent.zmax - self.Extent.zmin + 1 - 1) := Int.ediv_lt_of_lt_mul px (by linarith)
    exact ⟨_, _, hmin, hmax, ⟨ra, by dsimp only; linarith [ra2], .inl ⟨lx, rfl⟩⟩,
      ⟨le_refl _, by dsimp only; linarith, .inr ⟨ey, rfl⟩⟩,
      ⟨rb, by dsimp only; linarith [rb2], .inl ⟨lz, rfl⟩⟩⟩
  · have mx : max (self.Extent.xmax - self.Extent.xmin + 1 - 1) 1 = (self.Extent.xmax - self.Extent.xmin + 1 - 1) := max_eq_left (by omega)
    have px : 0 < (self.Extent.xmax - self.Extent.xmin + 1 - 1) := by omega
    have my : max (self.Extent.ymax - self.Extent.ymin + 1 - 1) 1 = (self.Extent.ymax - self.Extent.ymin + 1 - 1) := max_eq_left (by omega)
    have py : 0 < (self.Extent.ymax - self.Extent.ymin + 1 - 1) := by omega
    have mz : max (self.Extent.zmax - self.Extent.zmin + 1 - 1) 1 = (self.Extent.zmax - self.Extent.zmin + 1 - 1) := max_eq_left (by omega)
    have pz : 0 < (self.Extent.zmax - self.Extent.zmin + 1 - 1) := by omega
    rw [mx, my, mz] at hlt
    have hmin := GetIJKMinForCellId_xyz self cellId hd h0 lx ly nz
    have hmax := (GetIJKMaxForIJKMin_cases self (cellId % (self.Extent.xmax - self.Extent.xmin + 1 - 1), cellId / (self.Extent.xmax - self.Extent.xmin + 1 - 1) % (self.Extent.ymax - self.Extent.ymin + 1 - 1), cellId / ((self.Extent.xmax - self.Extent.xmin + 1 - 1) * (self.Extent.ymax - self.Extent.ymin + 1 - 1))) nx ny nz).2.2.2.2.2.2.2 hd
    obtain ⟨ra, rb, rc, _⟩ := rowMajor_encode cellId (self.Extent.xmax - self.Extent.xmin + 1 - 1) (self.Extent.ymax - self.Extent.ymin + 1 - 1) (self.Extent.zmax - self.Extent.zmin + 1 - 1) px py
      ⟨h0, Int.le_sub_one_of_lt hlt⟩
    exact ⟨_, _, hmin, hmax, ⟨ra.1, by dsimp only; linarith [ra.2], .inl ⟨lx, rfl⟩⟩,
      ⟨rb.1, by dsimp only; linarith [rb.2], .inl ⟨ly, rfl⟩⟩,
      ⟨rc.1, by dsimp only; linarith [rc.2], .inl ⟨lz, rfl⟩⟩⟩

/-- The number of rounds of a loop `for (v = lo; v <= hi; v++)`. -/
theorem length_forRange (lo hi : Int) : (forRange lo hi).length = (hi + 1 - lo).toNat := by
  simp [forRange]

/-- The values of a loop `for (v = lo; v <= hi; v++)` come in increasing order. -/
theorem forRange_pairwise (lo hi : Int) : (forRange lo hi).Pairwise (· < ·) := by
  unfold forRange
  rw [List.pairwise_map]
  exact (List.pairwise_lt_range _).imp (by intro a b h; omega)

/-- The length of a `flatMap` whose pieces all have the same length. -/
theorem length_flatMap_const {α β : Type} (l : List α) (f : α → List β) (n : Nat)
    (h : ∀ a, (f a).length = n) : (l.flatMap f).length = l.length * n := by
  induction l with
  | nil => simp
  | cons a l ih =>
    rw [List.flatMap_cons, List.length_append, ih, h a, List.length_cons, Nat.succ_mul,
      Nat.add_comm]

/-- The number of `loc` the triple loop of `AddPointsToCellTemplate` visits. -/
theorem length_forLoc (ijkMin ijkMax : Int × Int × Int) :
    (forLoc ijkMin ijkMax).length
      = (ijkMax.2.2 + 1 - ijkMin.2.2).toNat
        * ((ijkMax.2.1 + 1 - ijkMin.2.1).toNat * (ijkMax.1 + 1 - ijkMin.1).toNat) := by
  unfold forLoc
  rw [length_flatMap_const _ _ ((ijkMax.2.1 + 1 - ijkMin.2.1).toNat
    * (ijkMax.1 + 1 - ijkMin.1).toNat), length_forRange]
  intro z
  rw [length_flatMap_const _ _ (ijkMax.1 + 1 - ijkMin.1).toNat, length_forRange]
  intro y
  rw [List.length_map, length_forRange]

/-- Along the triple loop of `AddPointsToCellTemplate` (x fastest, then y, then z) the
point ids `loc[0] + loc[1] * dims[0] + loc[2] * d01` increase strictly, when the x and y
ranges lie inside `0 .. dims - 1`. -/
theorem forLoc_ids_pairwise (ijkMin ijkMax : Int × Int × Int) (dX dY : Int)
    (h1 : 0 ≤ ijkMin.1 ∧ ijkMax.1 < dX) (h2 : 0 ≤ ijkMin.2.1 ∧ ijkMax.2.1 < dY) :
    ((forLoc ijkMin ijkMax).map
      (fun loc => loc.1 + loc.2.1 * dX + loc.2.2 * (dX * dY))).Pairwise (· < ·) := by
  rw [List.pairwise_map]
  unfold forLoc
  rw [List.pairwise_flatMap]
  constructor
  · intro z _
    rw [List.pairwise_flatMap]
    constructor
    · intro y _
      rw [List.pairwise_map]
      exact (forRange_pairwise _ _).imp (by intro a b h; dsimp only; linarith)
    · refine (forRange_pairwise _ _).imp_of_mem ?_
      intro y1 y2 hy1 hy2 hlt p hp q hq
      rw [List.mem_map] at hp hq
      obtain ⟨x1, hx1, rfl⟩ := hp
      obtain ⟨x2, hx2, rfl⟩ := hq
      rw [mem_forRange] at hx1 hx2
      dsimp only
      have k : 0 ≤ (y2 - y1 - 1) * dX := mul_nonneg (by omega) (by omega)
      nlinarith [k, hx1.2, hx2.1, h1.1, h1.2]
  · refine (forRange_pairwise _ _).imp_of_mem ?_
    intro z1 z2 _ _ hlt p hp q hq
    rw [List.mem_flatMap] at hp hq
    obtain ⟨y1, hy1, hp⟩ := hp
    obtain ⟨y2, hy2, hq⟩ := hq
    rw [List.mem_map] at hp hq
    obtain ⟨x1, hx1, rfl⟩ := hp
    obtain ⟨x2, hx2, rfl⟩ := hq
    rw [mem_forRange] at hx1 hx2 hy1 hy2
    dsimp only
    have pX : 0 ≤ dX := by omega
    have pY : 0 ≤ dY := by omega
    have k1 : 0 ≤ (dY - 1 - y1) * dX := mul_nonneg (by omega) pX
    have k2 : 0 ≤ y2 * dX := mul_nonneg (by omega) pX
    have k3 : 0 ≤ (z2 - z1 - 1) * (dX * dY) := mul_nonneg (by omega) (mul_nonneg pX pY)
    nlinarith [k1, k2, k3, hx1.2, hx2.1, h1.1, h1.2]

/-- On a non-empty grid whose classification matches its extent and which holds the
member primitive of its classification, `GetCellTemplateForDataDescription` returns that
primitive and leaves the grid as it was. -/
theorem GetCellTemplate_held (self : vtkImageData)
    (hx : self.Extent.xmin ≤ self.Extent.xmax) (hy : self.Extent.ymin ≤ self.Extent.ymax)
    (hz : self.Extent.zmin ≤ self.Extent.zmax)
    (hclass : self.DataDescription = GetDataDescriptionFromExtent self.Extent)
    (hprim : HoldsCellTemplate self) :
    ∃ t : CellTemplate, self.GetCellTemplateForDataDescription = (some t, self) := by
  obtain ⟨p1, p2, p3, p4⟩ := hprim
  rcases classification_cases self hx hy hz hclass with
    h | h | h | h | h | h | h | h
  · refine ⟨.Vertex, ?_⟩
    simp only [GetCellTemplateForDataDescription, p1 h.1, h.1]
    simp [VTK_EMPTY, VTK_SINGLE_POINT]
  · refine ⟨.Line, ?_⟩
    simp only [GetCellTemplateForDataDescription, p2 (.inl h.1), h.1]
    simp [VTK_EMPTY, VTK_SINGLE_POINT, VTK_X_LINE]
  · refine ⟨.Line, ?_⟩
    simp only [GetCellTemplateForDataDescription, p2 (.inr (.inl h.1)), h.1]
    simp [VTK_EMPTY, VTK_SINGLE_POINT, VTK_X_LINE, VTK_Y_LINE]
  · refine ⟨.Line, ?_⟩
    simp only [GetCellTemplateForDataDescription, p2 (.inr (.inr h.1)), h.1]
    simp [VTK_EMPTY, VTK_SINGLE_POINT, VTK_X_LINE, VTK_Y_LINE, VTK_Z_LINE]
  · refine ⟨.Pixel, ?_⟩
    simp only [GetCellTemplateForDataDescription, p3 (.inl h.1), h.1]
    simp [VTK_EMPTY, VTK_SINGLE_POINT, VTK_X_LINE, VTK_Y_LINE, VTK_Z_LINE, VTK_XY_PLANE]
  · refine ⟨.Pixel, ?_⟩
    simp only [GetCellTemplateForDataDescription, p3 (.inr (.inl h.1)), h.1]
    simp [VTK_EMPTY, VTK_SINGLE_POINT, VTK_X_LINE, VTK_Y_LINE, VTK_Z_LINE, VTK_XY_PLANE,
      VTK_YZ_PLANE]
  · refine ⟨.Pixel, ?_⟩
    simp only [GetCellTemplateForDataDescription, p3 (.inr (.inr h.1)), h.1]
    simp [VTK_EMPTY, VTK_SINGLE_POINT, VTK_X_LINE, VTK_Y_LINE, VTK_Z_LINE, VTK_XY_PLANE,
      VTK_YZ_PLANE, VTK_XZ_PLANE]
  · refine ⟨.Voxel, ?_⟩
    simp only [GetCellTemplateForDataDescription, p4 h.1, h.1]
    simp [VTK_EMPTY, VTK_SINGLE_POINT, VTK_X_LINE, VTK_Y_LINE, VTK_Z_LINE, VTK_XY_PLANE,
      VTK_YZ_PLANE, VTK_XZ_PLANE, VTK_XYZ_GRID]

/-- When the two cell lookups and the template lookup succeed and leave the grid as it
was, `GetCell(cellId)` hands back the template with the points
`AddPointsToCellTemplate` stores. -/
theorem GetCell_cellId_eq (self : vtkImageData) (cellId : Int) (t : CellTemplate)
    (ijkMin ijkMax : Int × Int × Int)
    (hmin : self.GetIJKMinForCellId cellId = .ok ((true, ijkMin), self))
    (ht : self.GetCellTemplateForDataDescription = (some t, self))
    (hmax : self.GetIJKMaxForIJKMin ijkMin = ((true, ijkMax), self)) :
    self.GetCell_cellId cellId
      = .ok (some { Template := t, Stored := self.AddPointsToCellTemplate ijkMin ijkMax },
          self) := by
  simp only [GetCell_cellId, hmin, GetCell_iMin, ht, hmax, Bool.not_true, Bool.false_eq_true,
    if_false]

/-- The clamping block of `Crop` computes the intersection of the target with the extent
as the spec words it. -/
theorem Crop_nExt_eq (extent updateExtent : Extent6) :
    Crop.nExt extent updateExtent = IntersectExtents updateExtent extent := by
  unfold Crop.nExt IntersectExtents
  congr 1
  · split_ifs with h
    · exact (max_eq_right (le_of_lt h)).symm
    · exact (max_eq_left (not_lt.mp h)).symm
  · split_ifs with h
    · exact (min_eq_right (le_of_lt h)).symm
    · exact (min_eq_left (not_lt.mp h)).symm
  · split_ifs with h
    · exact (max_eq_right (le_of_lt h)).symm
    · exact (max_eq_left (not_lt.mp h)).symm
  · split_ifs with h
    · exact (min_eq_right (le_of_lt h)).symm
    · exact (min_eq_left (not_lt.mp h)).symm
  · split_ifs with h
    · exact (max_eq_right (le_of_lt h)).symm
    · exact (max_eq_left (not_lt.mp h)).symm
  · split_ifs with h
    · exact (min_eq_right (le_of_lt h)).symm
    · exact (min_eq_left (not_lt.mp h)).symm

/-- C33: `Crop(target)` is a no-op (the grid with its extent and modification time, the
point data and the cell data are what they were, nothing allocated) whenever `target`
equals the grid's current extent, and more generally whenever the intersection of `target`
with the current extent equals the current extent. -/
theorem Crop_no_op {α β : Type} (structuredSetExtent : Extent6 → Extent6 → Int × Extent6)
    (self : vtkImageData) (PointData : vtkDataSetAttributes α)
    (CellData : vtkDataSetAttributes β) (updateExtent : Extent6)
    (h : updateExtent = self.Extent ∨ IntersectExtents updateExtent self.Extent = self.Extent) :
    self.Crop structuredSetExtent PointData CellData updateExtent
      = { grid := self, PointData := PointData, CellData := CellData } := by
  unfold Crop
  simp only []
  split_ifs with h1 h2 h3
  · rfl
  · rfl
  · rfl
  · exfalso
    rcases h with h | h
    · rw [h] at h2
      exact h2 ⟨rfl, rfl, rfl, rfl, rfl, rfl⟩
    · rw [Crop_nExt_eq, h] at h3
      exact h3 ⟨rfl, rfl, rfl, rfl, rfl, rfl⟩

/-- A use of C33: the grid `[0,3,0,2,0,1]` cropped to `[-1,5,0,2,0,7]`, which contains
its extent. -/
theorem Crop_no_op_witness :
    volume432.Crop storingSetExtent (identityTuples 24) (identityTuples 6) ⟨-1, 5, 0, 2, 0, 7⟩
      = { grid := volume432, PointData := identityTuples 24, CellData := identityTuples 6 } :=
  Crop_no_op storingSetExtent volume432 _ _ ⟨-1, 5, 0, 2, 0, 7⟩ (Or.inr (by decide))

/-- The innermost copy loop of `Crop` after `n` rounds: both ids have advanced by `n`,
the tuples below the starting `outId` are untouched, tuple `outId + t` is tuple
`inId + t` of the source for `t < n`, and a container that held `outId` tuples holds
`outId + n`. -/
theorem Crop_xLoop_spec {α : Type} (src : vtkDataSetAttributes α) (xs : List Int)
    (c : Crop.Cursor α) :
    (Crop.xLoop src xs c).inId = c.inId + (xs.length : Int)
      ∧ (Crop.xLoop src xs c).outId = c.outId + (xs.length : Int)
      ∧ (∀ q : Int, q < c.outId → (Crop.xLoop src xs c).data.Tuple q = c.data.Tuple q)
      ∧ (∀ t : Int, 0 ≤ t → t < (xs.length : Int) →
          (Crop.xLoop src xs c).data.Tuple (c.outId + t) = src.Tuple (c.inId + t))
      ∧ (c.data.NumberOfTuples = c.outId →
          (Crop.xLoop src xs c).data.NumberOfTuples = c.outId + (xs.length : Int)) := by
  induction xs generalizing c with
  | nil =>
    refine ⟨by simp [Crop.xLoop], by simp [Crop.xLoop], fun _ _ => rfl, ?_, ?_⟩
    · intro t h0 h1
      simp only [List.length_nil, Nat.cast_zero] at h1
      omega
    · intro h
      simp only [Crop.xLoop, List.foldl_nil, List.length_nil, Nat.cast_zero, add_zero]
      exact h
  | cons x xs ih =>
    have hstep : Crop.xLoop src (x :: xs) c = Crop.xLoop src xs
        { data := c.data.CopyData src c.inId c.outId, inId := c.inId + 1,
          outId := c.outId + 1 } := rfl
    obtain ⟨i1, i2, i3, i4, i5⟩ := ih
      { data := c.data.CopyData src c.inId c.outId, inId := c.inId + 1, outId := c.outId + 1 }
    rw [hstep]
    simp only [List.length_cons, Nat.cast_add, Nat.cast_one]
    dsimp only at i1 i2 i3 i4 i5
    refine ⟨by rw [i1]; ring, by rw [i2]; ring, ?_, ?_, ?_⟩
    · intro q hq
      rw [i3 q (by linarith)]
      simp only [vtkDataSetAttributes.CopyData]
      rw [if_neg (ne_of_lt hq)]
    · intro t h0 h1
      rcases eq_or_lt_of_le h0 with e | l
      · rw [← e, add_zero, add_zero, i3 c.outId (by linarith)]
        simp only [vtkDataSetAttributes.CopyData]
        exact if_pos trivial
      · have e1 : c.outId + t = c.outId + 1 + (t - 1) := by ring
        have e2 : c.inId + t = c.inId + 1 + (t - 1) := by ring
        rw [e1, e2]
        exact i4 (t - 1) (by linarith [Int.add_one_le_iff.mpr l]) (by linarith)
    · intro h
      have hN : (c.data.CopyData src c.inId c.outId).NumberOfTuples = c.outId + 1 := by
        simp only [vtkDataSetAttributes.CopyData, h]
        exact max_eq_right (by linarith)
      rw [i5 hN]
      ring

/-- The middle copy loop of `Crop` after `m` rounds of `n` copies each. -/
theorem Crop_yLoop_spec {α : Type} (src : vtkDataSetAttributes α) (xs ys : List Int)
    (incY : vtkIdType) (c : Crop.Cursor α) :
    (Crop.yLoop src xs ys incY c).inId = c.inId + (ys.length : Int) * incY
      ∧ (Crop.yLoop src xs ys incY c).outId = c.outId + (ys.length : Int) * (xs.length : Int)
      ∧ (∀ q : Int, q < c.outId →
          (Crop.yLoop src xs ys incY c).data.Tuple q = c.data.Tuple q)
      ∧ (∀ b t : Int, 0 ≤ b → b < (ys.length : Int) → 0 ≤ t → t < (xs.length : Int) →
          (Crop.yLoop src xs ys incY c).data.Tuple (c.outId + b * (xs.length : Int) + t)
            = src.Tuple (c.inId + b * incY + t))
      ∧ (c.data.NumberOfTuples = c.outId →
          (Crop.yLoop src xs ys incY c).data.NumberOfTuples
            = c.outId + (ys.length : Int) * (xs.length : Int)) := by
  induction ys generalizing c with
  | nil =>
    refine ⟨by simp [Crop.yLoop], by simp [Crop.yLoop], fun _ _ => rfl, ?_, ?_⟩
    · intro b t h0 h1
      simp only [List.length_nil, Nat.cast_zero] at h1
      omega
    · intro h
      simp only [Crop.yLoop, List.foldl_nil, List.length_nil, Nat.cast_zero, zero_mul, add_zero]
      exact h
  | cons y ys ih =>
    have hstep : Crop.yLoop src xs (y :: ys) incY c = Crop.yLoop src xs ys incY
        { data := (Crop.xLoop src xs c).data, inId := c.inId + incY,
          outId := (Crop.xLoop src xs c).outId } := rfl
    obtain ⟨_, x2, x3, x4, x5⟩ := Crop_xLoop_spec src xs c
    obtain ⟨i1, i2, i3, i4, i5⟩ := ih
      { data := (Crop.xLoop src xs c).data, inId := c.inId + incY,
        outId := (Crop.xLoop src xs c).outId }
    rw [hstep, x2]
    simp only [List.length_cons, Nat.cast_add, Nat.cast_one]
    dsimp only at i1 i2 i3 i4 i5
    rw [x2] at i1 i2 i3 i4 i5
    have hn : (0 : Int) ≤ (xs.length : Int) := Int.natCast_nonneg _
    have hm : (0 : Int) ≤ (ys.length : Int) := Int.natCast_nonneg _
    refine ⟨by rw [i1]; ring, by rw [i2]; ring, ?_, ?_, ?_⟩
    · intro q hq
      rw [i3 q (by linarith), x3 q hq]
    · intro b t hb0 hb1 ht0 ht1
      rcases eq_or_lt_of_le hb0 with e | l
      · rw [← e, zero_mul, zero_mul, add_zero, add_zero, i3 _ (by linarith)]
        exact x4 t ht0 ht1
      · have e1 : c.outId + b * (xs.length : Int) + t
            = c.outId + (xs.length : Int) + (b - 1) * (xs.length : Int) + t := by ring
        have e2 : c.inId + b * incY + t = c.inId + incY + (b - 1) * incY + t := by ring
        rw [e1, e2]
        exact i4 (b - 1) t (by linarith [Int.add_one_le_iff.mpr l]) (by linarith) ht0 ht1
    · intro h
      rw [i5 (x5 h)]
      ring

/-- The outer copy loop of `Crop` after `l` rounds of `m` rows of `n` copies each. -/
theorem Crop_zLoop_spec {α : Type} (src : vtkDataSetAttributes α) (xs ys zs : List Int)
    (incY incZ : vtkIdType) (c : Crop.Cursor α) :
    (Crop.zLoop src xs ys zs incY incZ c).outId
        = c.outId + (zs.length : Int) * ((ys.length : Int) * (xs.length : Int))
      ∧ (∀ q : Int, q < c.outId →
          (Crop.zLoop src xs ys zs incY incZ c).data.Tuple q = c.data.Tuple q)
      ∧ (∀ a b t : Int, 0 ≤ a → a < (zs.length : Int) → 0 ≤ b → b < (ys.length : Int) →
          0 ≤ t → t < (xs.length : Int) →
          (Crop.zLoop src xs ys zs incY incZ c).data.Tuple
              (c.outId + (a * (ys.length : Int) + b) * (xs.length : Int) + t)
            = src.Tuple (c.inId + a * incZ + b * incY + t))
      ∧ (c.data.NumberOfTuples = c.outId →
          (Crop.zLoop src xs ys zs incY incZ c).data.NumberOfTuples
            = c.outId + (zs.length : Int) * ((ys.length : Int) * (xs.length : Int))) := by
  induction zs generalizing c with
  | nil =>
    refine ⟨by simp [Crop.zLoop], fun _ _ => rfl, ?_, ?_⟩
    · intro a b t h0 h1
      simp only [List.length_nil, Nat.cast_zero] at h1
      omega
    · intro h
      simp only [Crop.zLoop, List.foldl_nil, List.length_nil, Nat.cast_zero, zero_mul, add_zero]
      exact h
  | cons z zs ih =>
    have hstep : Crop.zLoop src xs ys (z :: zs) incY incZ c = Crop.zLoop src xs ys zs incY incZ
        { data := (Crop.yLoop src xs ys incY c).data, inId := c.inId + incZ,
          outId := (Crop.yLoop src xs ys incY c).outId } := rfl
    obtain ⟨_, y2, y3, y4, y5⟩ := Crop_yLoop_spec src xs ys incY c
    obtain ⟨i2, i3, i4, i5⟩ := ih
      { data := (Crop.yLoop src xs ys incY c).data, inId := c.inId + incZ,
        outId := (Crop.yLoop src xs ys incY c).outId }
    rw [hstep, y2]
    simp only [List.length_cons, Nat.cast_add, Nat.cast_one]
    dsimp only at i2 i3 i4 i5
    rw [y2] at i2 i3 i4 i5
    have hn : (0 : Int) ≤ (xs.length : Int) := Int.natCast_nonneg _
    have hm : (0 : Int) ≤ (ys.length : Int) := Int.natCast_nonneg _
    have hmn : (0 : Int) ≤ (ys.length : Int) * (xs.length : Int) := mul_nonneg hm hn
    refine ⟨by rw [i2]; ring, ?_, ?_, ?_⟩
    · intro q hq
      rw [i3 q (by linarith), y3 q hq]
    · intro a b t ha0 ha1 hb0 hb1 ht0 ht1
      rcases eq_or_lt_of_le ha0 with e | l
      · have hlt : c.outId + (0 * (ys.length : Int) + b) * (xs.length : Int) + t
            < c.outId + (ys.length : Int) * (xs.length : Int) := by
          have k : (b + 1) * (xs.length : Int) ≤ (ys.length : Int) * (xs.length : Int) :=
            mul_le_mul_of_nonneg_right (by linarith) hn
          nlinarith [k]
        rw [← e, i3 _ hlt]
        have e1 : c.outId + (0 * (ys.length : Int) + b) * (xs.length : Int) + t
            = c.outId + b * (xs.length : Int) + t := by ring
        have e2 : c.inId + 0 * incZ + b * incY + t = c.inId + b * incY + t := by ring
        rw [e1, e2]
        exact y4 b t hb0 hb1 ht0 ht1
      · have e1 : c.outId + (a * (ys.length : Int) + b) * (xs.length : Int) + t
            = c.outId + (ys.length : Int) * (xs.length : Int)
              + ((a - 1) * (ys.length : Int) + b) * (xs.length : Int) + t := by ring
        have e2 : c.inId + a * incZ + b * incY + t
            = c.inId + incZ + (a - 1) * incZ + b * incY + t := by ring
        rw [e1, e2]
        exact i4 (a - 1) b t (by linarith [Int.add_one_le_iff.mpr l]) (by linarith) hb0 hb1
          ht0 ht1
    · intro h
      rw [i5 (y5 h)]
      ring

/-- After `SetExtent` the stored extent is the one the validation step leaves. -/
theorem SetExtent_Extent (structuredSetExtent : Extent6 → Extent6 → Int × Extent6)
    (self : vtkImageData) (extent : Extent6) :
    (self.SetExtent structuredSetExtent extent).Extent
      = (structuredSetExtent extent self.Extent).2 := by
  unfold SetExtent SetDataDescription Modified vtkErrorMacro
  simp only []
  split_ifs <;> rfl

/-- Two extents with the same six entries are the same extent. -/
theorem Extent6_eq_of_entries (a b : Extent6)
    (h : a.xmin = b.xmin ∧ a.xmax = b.xmax ∧ a.ymin = b.ymin ∧ a.ymax = b.ymax ∧
      a.zmin = b.zmin ∧ a.zmax = b.zmax) : a = b := by
  cases a
  cases b
  simp only [Extent6.mk.injEq]
  exact h

/-- On a non-empty grid and for a target whose intersection with the extent differs from
the extent, `Crop` goes through both copy loops and `SetExtent`. -/
theorem Crop_eq_of_ne {α β : Type} (structuredSetExtent : Extent6 → Extent6 → Int × Extent6)
    (self : vtkImageData) (PointData : vtkDataSetAttributes α)
    (CellData : vtkDataSetAttributes β) (updateExtent : Extent6)
    (hx : self.Extent.xmin ≤ self.Extent.xmax) (hy : self.Extent.ymin ≤ self.Extent.ymax)
    (hz : self.Extent.zmin ≤ self.Extent.zmax)
    (hne : Crop.nExt self.Extent updateExtent ≠ self.Extent) :
    self.Crop structuredSetExtent PointData CellData updateExtent
      = { grid := self.SetExtent structuredSetExtent (Crop.nExt self.Extent updateExtent)
          PointData := Crop.copyPoints self.Extent (Crop.nExt self.Extent updateExtent) PointData
            ((vtkDataSetAttributes.New).CopyAllocate PointData
              (Crop.numPts (Crop.nExt self.Extent updateExtent)))
          CellData := Crop.copyCells self.Extent (Crop.nExt self.Extent updateExtent) CellData
            ((vtkDataSetAttributes.New).CopyAllocate CellData
              (Crop.numCells (Crop.nExt self.Extent updateExtent))) } := by
  have h1 : ¬ (self.Extent.xmin > self.Extent.xmax ∨ self.Extent.ymin > self.Extent.ymax
      ∨ self.Extent.zmin > self.Extent.zmax) := by omega
  have h3 : ¬ (self.Extent.xmin = (Crop.nExt self.Extent updateExtent).xmin
      ∧ self.Extent.xmax = (Crop.nExt self.Extent updateExtent).xmax
      ∧ self.Extent.ymin = (Crop.nExt self.Extent updateExtent).ymin
      ∧ self.Extent.ymax = (Crop.nExt self.Extent updateExtent).ymax
      ∧ self.Extent.zmin = (Crop.nExt self.Extent updateExtent).zmin
      ∧ self.Extent.zmax = (Crop.nExt self.Extent updateExtent).zmax) :=
    fun h => hne (Extent6_eq_of_entries _ _ h).symm
  have h2 : ¬ (self.Extent.xmin = updateExtent.xmin ∧ self.Extent.xmax = updateExtent.xmax
      ∧ self.Extent.ymin = updateExtent.ymin ∧ self.Extent.ymax = updateExtent.ymax
      ∧ self.Extent.zmin = updateExtent.zmin ∧ self.Extent.zmax = updateExtent.zmax) := by
    intro h
    apply hne
    rw [← Extent6_eq_of_entries _ _ h]
    apply Extent6_eq_of_entries
    simp [Crop.nExt]
  unfold Crop
  simp only []
  rw [if_neg h1, if_neg h2, if_neg h3]
  rfl

/-- The number of rounds of a loop `for (v = lo; v <= hi; v++)` with `lo <= hi + 1`, as
an integer. -/
theorem length_forRange_cast (lo hi : Int) (h : lo ≤ hi + 1) :
    ((forRange lo hi).length : Int) = hi + 1 - lo := by
  rw [length_forRange, Int.toNat_of_nonneg (by linarith)]

/-- The point loop of `Crop` on a non-empty intersection `nExt` inside the extent, filling
a container that holds nothing: the result holds `dimX * dimY * dimZ` tuples of `nExt`, and
under the row-major id of `(x, y, z)` relative to `nExt` the tuple the source stores
under the row-major id of `(x, y, z)` relative to the extent. -/
theorem Crop_copyPoints_spec {α : Type} (extent nExt : Extent6)
    (PointData npd : vtkDataSetAttributes α) (h0 : npd.NumberOfTuples = 0)
    (hIx : nExt.xmin ≤ nExt.xmax) (hIy : nExt.ymin ≤ nExt.ymax) (hIz : nExt.zmin ≤ nExt.zmax) :
    (Crop.copyPoints extent nExt PointData npd).NumberOfTuples
        = (nExt.xmax - nExt.xmin + 1) * (nExt.ymax - nExt.ymin + 1) * (nExt.zmax - nExt.zmin + 1)
      ∧ ∀ x y z : Int, (x, y, z) ∈ GridPoints nExt →
          (Crop.copyPoints extent nExt PointData npd).Tuple (GetTupleIndex.idx nExt (x, y, z))
            = PointData.Tuple (GetTupleIndex.idx extent (x, y, z)) := by
  obtain ⟨_, _, s3, s4⟩ := Crop_zLoop_spec PointData (forRange nExt.xmin nExt.xmax)
    (forRange nExt.ymin nExt.ymax) (forRange nExt.zmin nExt.zmax)
    (extent.xmax - extent.xmin + 1) ((extent.ymax - extent.ymin + 1)
      * (extent.xmax - extent.xmin + 1))
    { data := npd
      inId := (extent.ymax - extent.ymin + 1) * (extent.xmax - extent.xmin + 1)
          * (nExt.zmin - extent.zmin)
        + (extent.xmax - extent.xmin + 1) * (nExt.ymin - extent.ymin)
        + (nExt.xmin - extent.xmin)
      outId := 0 }
  rw [length_forRange_cast _ _ (by linarith), length_forRange_cast _ _ (by linarith),
    length_forRange_cast _ _ (by linarith)] at s3 s4
  dsimp only at s3 s4
  constructor
  · show (Crop.zLoop _ _ _ _ _ _ _).data.NumberOfTuples = _
    rw [s4 h0]
    ring
  · intro x y z hmem
    obtain ⟨⟨a1, a2⟩, ⟨b1, b2⟩, ⟨c1, c2⟩⟩ := hmem
    dsimp only at a1 a2 b1 b2 c1 c2
    have k := s3 (z - nExt.zmin) (y - nExt.ymin) (x - nExt.xmin) (by linarith) (by linarith)
      (by linarith) (by linarith) (by linarith) (by linarith)
    have e1 : GetTupleIndex.idx nExt (x, y, z)
        = 0 + ((z - nExt.zmin) * (nExt.ymax + 1 - nExt.ymin) + (y - nExt.ymin))
          * (nExt.xmax + 1 - nExt.xmin) + (x - nExt.xmin) := by
      simp only [GetTupleIndex.idx, GetTupleIndex.incs]
      ring
    have e2 : GetTupleIndex.idx extent (x, y, z)
        = (extent.ymax - extent.ymin + 1) * (extent.xmax - extent.xmin + 1)
            * (nExt.zmin - extent.zmin)
          + (extent.xmax - extent.xmin + 1) * (nExt.ymin - extent.ymin)
          + (nExt.xmin - extent.xmin)
          + (z - nExt.zmin) * ((extent.ymax - extent.ymin + 1)
            * (extent.xmax - extent.xmin + 1))
          + (y - nExt.ymin) * (extent.xmax - extent.xmin + 1) + (x - nExt.xmin) := by
      simp only [GetTupleIndex.idx, GetTupleIndex.incs]
      ring
    rw [e1, e2]
    exact k

/-- C35: the plane grid `[0,3,0,0,0,2]` (x and z; `3 x 2` cells, ids `x + 3*z`), holding
under each cell id the id itself, is cropped to `[1,3,0,0,0,2]` (the intersection is the
target, non-empty and different from the extent; `2 x 2` cells, ids `(x-1) + 2*z`).  The
cell with minimum corner `(1, 0, 1)` has the new id 2 and the old id 4, but after `Crop`
the cell tuple at id 2 is the tuple that was stored at id 1: the four cell tuples are those
of the old ids `1, 2, 1, 2` instead of `1, 2, 4, 5`.  The cell loop takes the strides
`incY = extent[1] - extent[0]` and `incZ = (extent[3] - extent[2]) * incY`, which is 0 on a
grid with one sample along y. -/
theorem Crop_cell_data_xz_plane :
    IntersectExtents ⟨1, 3, 0, 0, 0, 2⟩ xzplane43.Extent = ⟨1, 3, 0, 0, 0, 2⟩
      ∧ (xzplane43.Crop storingSetExtent (identityTuples 12) (identityTuples 6)
          ⟨1, 3, 0, 0, 0, 2⟩).grid.Extent = ⟨1, 3, 0, 0, 0, 2⟩
      ∧ (xzplane43.Crop storingSetExtent (identityTuples 12) (identityTuples 6)
          ⟨1, 3, 0, 0, 0, 2⟩).grid.GetIJKMinForCellId 2
          = .ok ((true, (1 - 1, 0 - 0, 1 - 0)),
              (xzplane43.Crop storingSetExtent (identityTuples 12) (identityTuples 6)
                ⟨1, 3, 0, 0, 0, 2⟩).grid)
      ∧ xzplane43.GetIJKMinForCellId 4 = .ok ((true, (1 - 0, 0 - 0, 1 - 0)), xzplane43)
      ∧ (xzplane43.Crop storingSetExtent (identityTuples 12) (identityTuples 6)
          ⟨1, 3, 0, 0, 0, 2⟩).CellData.Tuple 2 = some 1
      ∧ (identityTuples 6).Tuple 4 = some 4
      ∧ [0, 1, 2, 3].map (xzplane43.Crop storingSetExtent (identityTuples 12) (identityTuples 6)
          ⟨1, 3, 0, 0, 0, 2⟩).CellData.Tuple = [some 1, some 2, some 1, some 2] := by
  refine ⟨by decide, rfl, rfl, rfl, rfl, rfl, rfl⟩

/-- C36: a grid with extent `[0,2047,0,2047,0,1024]` is cropped to
`[0,2047,0,2047,0,1023]`.  The intersection is the target, with `2048 x 2048 x 1024`
points, each dimension far inside the range of a 32-bit `int`, and the exact product is
`2^32 = 4294967296`.  `numPts` is formed by `int` multiplications and wraps modulo `2^32`
to 0, which is the size `Crop` passes to `CopyAllocate`; `AllocateScalars` converts the
dimensions to `vtkIdType` first and gets `4294967296`, and the `vtkIdType` increments of
`GetTupleIndex` give the last point the index `4294967295`. -/
theorem Crop_numPts_wraps :
    Crop.nExt ⟨0, 2047, 0, 2047, 0, 1024⟩ ⟨0, 2047, 0, 2047, 0, 1023⟩
        = ⟨0, 2047, 0, 2047, 0, 1023⟩
      ∧ (2047 - 0 + 1 : Int) * (2047 - 0 + 1) * (1023 - 0 + 1) = 4294967296
      ∧ (4294967296 : Int) > 2 ^ 31 - 1
      ∧ Crop.numPts ⟨0, 2047, 0, 2047, 0, 1023⟩ = 0
      ∧ ((vtkDataSetAttributes.New).CopyAllocate (identityTuples 0)
          (Crop.numPts ⟨0, 2047, 0, 2047, 0, 1023⟩)).Allocated = 0
      ∧ AllocateScalars.imageSize ⟨0, 2047, 0, 2047, 0, 1023⟩ = 4294967296
      ∧ GetTupleIndex.idx ⟨0, 2047, 0, 2047, 0, 1023⟩ (2047, 2047, 1023) = 4294967295 := by
  refine ⟨by decide, by decide, by decide, by decide, by decide, by decide, by decide⟩

/-- A `flatMap` whose pieces are single values is a `map`. -/
theorem flatMap_single_eq_map {α β : Type} (l : List α) (f : α → β) :
    l.flatMap (fun a => [f a]) = l.map f := by
  induction l with
  | nil => rfl
  | cons a l ih => rw [List.flatMap_cons, ih, List.map_cons, List.singleton_append]

/-- The values below `a * b` are the values `i * b + j` with `i < a` and `j < b`, in
order. -/
theorem range_mul_flatMap {β : Type} (a b : Nat) (F : Nat → β) :
    (List.range (a * b)).map F
      = (List.range a).flatMap (fun i => (List.range b).map (fun j => F (i * b + j))) := by
  induction a with
  | zero => simp
  | succ a ih =>
    rw [Nat.succ_mul, List.range_add, List.map_append, ih, List.range_succ, List.flatMap_append,
      List.flatMap_singleton, List.map_map]
    rfl

/-- Replaying two lists of assignments one after the other. -/
theorem CastReplay_append {IT OT : Type} (cast : IT → OT) (inMem : vtkIdType → IT)
    (l1 l2 : List (vtkIdType × vtkIdType)) (out : vtkIdType → OT) :
    CastReplay cast inMem (l1 ++ l2) out = CastReplay cast inMem l2 (CastReplay cast inMem l1 out) := by
  unfold CastReplay
  rw [List.foldl_append]

/-- A loop that repeats a body `n` times, where the body appends the assignments
`G inPtr outPtr` and moves the pointers by `dIn` and `dOut`: it appends the assignments of
the rounds `i = 0 .. n - 1`, started at `inPtr + i * dIn` and `outPtr + i * dOut`. -/
theorem cast_repeat_spec {IT OT : Type} (cast : IT → OT) (inMem : vtkIdType → IT)
    (body : vtkImageDataCastExecute.Cursor OT → vtkImageDataCastExecute.Cursor OT)
    (G : Int → Int → List (vtkIdType × vtkIdType)) (dIn dOut : Int)
    (hbody : ∀ c, (body c).copies = c.copies ++ G c.inPtr c.outPtr
      ∧ (body c).inPtr = c.inPtr + dIn ∧ (body c).outPtr = c.outPtr + dOut
      ∧ (body c).out = CastReplay cast inMem (G c.inPtr c.outPtr) c.out)
    (l : List Int) (c : vtkImageDataCastExecute.Cursor OT) :
    (l.foldl (fun c _ => body c) c).copies
        = c.copies ++ (List.range l.length).flatMap
            (fun i => G (c.inPtr + (i : Int) * dIn) (c.outPtr + (i : Int) * dOut))
      ∧ (l.foldl (fun c _ => body c) c).inPtr = c.inPtr + (l.length : Int) * dIn
      ∧ (l.foldl (fun c _ => body c) c).outPtr = c.outPtr + (l.length : Int) * dOut
      ∧ (l.foldl (fun c _ => body c) c).out
        = CastReplay cast inMem ((List.range l.length).flatMap
            (fun i => G (c.inPtr + (i : Int) * dIn) (c.outPtr + (i : Int) * dOut))) c.out := by
  induction l generalizing c with
  | nil =>
    simp only [List.foldl_nil, List.length_nil, List.range_zero, List.flatMap_nil,
      List.append_nil, Nat.cast_zero, zero_mul, add_zero, true_and]
    rfl
  | cons x l ih =>
    obtain ⟨b1, b2, b3, b4⟩ := hbody c
    obtain ⟨i1, i2, i3, i4⟩ := ih (body c)
    have hlist : (List.range (l.length + 1)).flatMap
          (fun i => G (c.inPtr + (i : Int) * dIn) (c.outPtr + (i : Int) * dOut))
        = G c.inPtr c.outPtr ++ (List.range l.length).flatMap
            (fun i => G ((body c).inPtr + (i : Int) * dIn) ((body c).outPtr + (i : Int) * dOut)) := by
      rw [List.range_succ_eq_map, List.flatMap_cons, List.flatMap_map, b2, b3]
      simp only [Nat.cast_zero, zero_mul, add_zero]
      congr 1
      apply List.flatMap_congr
      intro i _
      simp only [Function.comp, Nat.succ_eq_add_one, Nat.cast_add, Nat.cast_one]
      congr 1 <;> ring
    simp only [List.foldl_cons, List.length_cons]
    rw [hlist, i1, i2, i3, i4, b1, b2, b3, b4, List.append_assoc, CastReplay_append]
    refine ⟨rfl, ?_, ?_, rfl⟩
    · push_cast
      ring
    · push_cast
      ring

/-- The row loop of `vtkImageDataCastExecute` after its `R` rounds. -/
theorem cast_rowLoop_spec {IT OT : Type} (cast : IT → OT) (inMem : vtkIdType → IT)
    (rs : List Int) (c : vtkImageDataCastExecute.Cursor OT) :
    (vtkImageDataCastExecute.rowLoop cast inMem rs c).copies
        = c.copies ++ (List.range rs.length).flatMap
            (fun t => [(c.inPtr + (t : Int) * 1, c.outPtr + (t : Int) * 1)])
      ∧ (vtkImageDataCastExecute.rowLoop cast inMem rs c).inPtr
        = c.inPtr + (rs.length : Int) * 1
      ∧ (vtkImageDataCastExecute.rowLoop cast inMem rs c).outPtr
        = c.outPtr + (rs.length : Int) * 1
      ∧ (vtkImageDataCastExecute.rowLoop cast inMem rs c).out
        = CastReplay cast inMem ((List.range rs.length).flatMap
            (fun t => [(c.inPtr + (t : Int) * 1, c.outPtr + (t : Int) * 1)])) c.out :=
  cast_repeat_spec cast inMem
    (fun c => { out := fun p => if p = c.outPtr then cast (inMem c.inPtr) else c.out p
                copies := c.copies ++ [(c.inPtr, c.outPtr)]
                inPtr := c.inPtr + 1
                outPtr := c.outPtr + 1 })
    (fun p q => [(p, q)]) 1 1 (fun _ => ⟨rfl, rfl, rfl, rfl⟩) rs c

/-- The middle loop of `vtkImageDataCastExecute` after its rounds: row `b` starts
`b * (R + incY)` values after the first. -/
theorem cast_yLoop_spec {IT OT : Type} (cast : IT → OT) (inMem : vtkIdType → IT)
    (rs ys : List Int) (inIncY outIncY : vtkIdType) (c : vtkImageDataCastExecute.Cursor OT) :
    (vtkImageDataCastExecute.yLoop cast inMem rs ys inIncY outIncY c).copies
        = c.copies ++ (List.range ys.length).flatMap (fun b =>
            (List.range rs.length).flatMap (fun t =>
              [(c.inPtr + (b : Int) * ((rs.length : Int) * 1 + inIncY) + (t : Int) * 1,
                c.outPtr + (b : Int) * ((rs.length : Int) * 1 + outIncY) + (t : Int) * 1)]))
      ∧ (vtkImageDataCastExecute.yLoop cast inMem rs ys inIncY outIncY c).inPtr
        = c.inPtr + (ys.length : Int) * ((rs.length : Int) * 1 + inIncY)
      ∧ (vtkImageDataCastExecute.yLoop cast inMem rs ys inIncY outIncY c).outPtr
        = c.outPtr + (ys.length : Int) * ((rs.length : Int) * 1 + outIncY)
      ∧ (vtkImageDataCastExecute.yLoop cast inMem rs ys inIncY outIncY c).out
        = CastReplay cast inMem ((List.range ys.length).flatMap (fun b =>
            (List.range rs.length).flatMap (fun t =>
              [(c.inPtr + (b : Int) * ((rs.length : Int) * 1 + inIncY) + (t : Int) * 1,
                c.outPtr + (b : Int) * ((rs.length : Int) * 1 + outIncY) + (t : Int) * 1)])))
            c.out :=
  cast_repeat_spec cast inMem
    (fun c =>
      { out := (vtkImageDataCastExecute.rowLoop cast inMem rs c).out
        copies := (vtkImageDataCastExecute.rowLoop cast inMem rs c).copies
        inPtr := (vtkImageDataCastExecute.rowLoop cast inMem rs c).inPtr + inIncY
        outPtr := (vtkImageDataCastExecute.rowLoop cast inMem rs c).outPtr + outIncY })
    (fun p q => (List.range rs.length).flatMap (fun t => [(p + (t : Int) * 1, q + (t : Int) * 1)]))
    ((rs.length : Int) * 1 + inIncY) ((rs.length : Int) * 1 + outIncY)
    (fun c => by
      obtain ⟨r1, r2, r3, r4⟩ := cast_rowLoop_spec cast inMem rs c
      refine ⟨r1, ?_, ?_, r4⟩
      · show (vtkImageDataCastExecute.rowLoop cast inMem rs c).inPtr + inIncY = _
        rw [r2, add_assoc]
      · show (vtkImageDataCastExecute.rowLoop cast inMem rs c).outPtr + outIncY = _
        rw [r3, add_assoc]) ys c

/-- The outer loop of `vtkImageDataCastExecute` after its rounds: plane `a` starts
`a * (m * (R + incY) + incZ)` values after the first. -/
theorem cast_zLoop_spec {IT OT : Type} (cast : IT → OT) (inMem : vtkIdType → IT)
    (rs ys zs : List Int) (inIncY outIncY inIncZ outIncZ : vtkIdType)
    (c : vtkImageDataCastExecute.Cursor OT) :
    (vtkImageDataCastExecute.zLoop cast inMem rs ys zs inIncY outIncY inIncZ outIncZ c).copies
        = c.copies ++ (List.range zs.length).flatMap (fun a =>
            (List.range ys.length).flatMap (fun b =>
              (List.range rs.length).flatMap (fun t =>
                [(c.inPtr + (a : Int) * ((ys.length : Int) * ((rs.length : Int) * 1 + inIncY)
                      + inIncZ)
                    + (b : Int) * ((rs.length : Int) * 1 + inIncY) + (t : Int) * 1,
                  c.outPtr + (a : Int) * ((ys.length : Int) * ((rs.length : Int) * 1 + outIncY)
                      + outIncZ)
                    + (b : Int) * ((rs.length : Int) * 1 + outIncY) + (t : Int) * 1)])))
      ∧ (vtkImageDataCastExecute.zLoop cast inMem rs ys zs inIncY outIncY inIncZ outIncZ c).out
        = CastReplay cast inMem ((List.range zs.length).flatMap (fun a =>
            (List.range ys.length).flatMap (fun b =>
              (List.range rs.length).flatMap (fun t =>
                [(c.inPtr + (a : Int) * ((ys.length : Int) * ((rs.length : Int) * 1 + inIncY)
                      + inIncZ)
                    + (b : Int) * ((rs.length : Int) * 1 + inIncY) + (t : Int) * 1,
                  c.outPtr + (a : Int) * ((ys.length : Int) * ((rs.length : Int) * 1 + outIncY)
                      + outIncZ)
                    + (b : Int) * ((rs.length : Int) * 1 + outIncY) + (t : Int) * 1)]))))
            c.out := by
  obtain ⟨h1, _, _, h4⟩ := cast_repeat_spec cast inMem
    (fun c =>
      { out := (vtkImageDataCastExecute.yLoop cast inMem rs ys inIncY outIncY c).out
        copies := (vtkImageDataCastExecute.yLoop cast inMem rs ys inIncY outIncY c).copies
        inPtr := (vtkImageDataCastExecute.yLoop cast inMem rs ys inIncY outIncY c).inPtr + inIncZ
        outPtr := (vtkImageDataCastExecute.yLoop cast inMem rs ys inIncY outIncY c).outPtr
          + outIncZ })
    (fun p q => (List.range ys.length).flatMap (fun b =>
      (List.range rs.length).flatMap (fun t =>
        [(p + (b : Int) * ((rs.length : Int) * 1 + inIncY) + (t : Int) * 1,
          q + (b : Int) * ((rs.length : Int) * 1 + outIncY) + (t : Int) * 1)])))
    ((ys.length : Int) * ((rs.length : Int) * 1 + inIncY) + inIncZ)
    ((ys.length : Int) * ((rs.length : Int) * 1 + outIncY) + outIncZ)
    (fun c => by
      obtain ⟨r1, r2, r3, r4⟩ := cast_yLoop_spec cast inMem rs ys inIncY outIncY c
      refine ⟨r1, ?_, ?_, r4⟩
      · show (vtkImageDataCastExecute.yLoop cast inMem rs ys inIncY outIncY c).inPtr + inIncZ = _
        rw [r2, add_assoc]
      · show (vtkImageDataCastExecute.yLoop cast inMem rs ys inIncY outIncY c).outPtr + outIncZ
          = _
        rw [r3, add_assoc]) zs c
  exact ⟨h1, h4⟩

/-- The increments of a grid with scalars of `nC` components, and its continuous increments
for a sub-extent `E` with `xmin <= E.xmin`, `E.xmax <= xmax`, `ymin <= E.ymin` and
`E.ymax <= ymax`. -/
theorem increments_of_scalars (g : vtkImageData) (arr : vtkDataArray) (nC : Int) (E : Extent6)
    (hs : g.Scalars = some arr) (hc : arr.NumberOfComponents = nC)
    (hx : g.Extent.xmin ≤ E.xmin ∧ E.xmax ≤ g.Extent.xmax)
    (hy : g.Extent.ymin ≤ E.ymin ∧ E.ymax ≤ g.Extent.ymax) :
    g.ComputeIncrements.1 = (nC, nC * (g.Extent.xmax - g.Extent.xmin + 1),
        nC * (g.Extent.xmax - g.Extent.xmin + 1) * (g.Extent.ymax - g.Extent.ymin + 1))
      ∧ (g.GetContinuousIncrements E).1.2.1
        = nC * (g.Extent.xmax - g.Extent.xmin + 1) - (E.xmax - E.xmin + 1) * nC
      ∧ (g.GetContinuousIncrements E).1.2.2
        = nC * (g.Extent.xmax - g.Extent.xmin + 1) * (g.Extent.ymax - g.Extent.ymin + 1)
          - (E.ymax - E.ymin + 1) * (nC * (g.Extent.xmax - g.Extent.xmin + 1))
      ∧ g.GetNumberOfScalarComponents = nC := by
  have n0 : ¬ E.xmin < g.Extent.xmin := not_lt.mpr hx.1
  have n1 : ¬ E.xmax > g.Extent.xmax := not_lt.mpr hx.2
  have n2 : ¬ E.ymin < g.Extent.ymin := not_lt.mpr hy.1
  have n3 : ¬ E.ymax > g.Extent.ymax := not_lt.mpr hy.2
  refine ⟨?_, ?_, ?_, ?_⟩
  · simp only [ComputeIncrements, ComputeIncrements_scalars, hs,
      ComputeIncrements_numberOfComponents, hc]
  · simp only [GetContinuousIncrements, GetContinuousIncrements_scalars,
      ComputeIncrements_scalars, hs, ComputeIncrements_numberOfComponents, hc, if_neg n0,
      if_neg n1]
  · simp only [GetContinuousIncrements, GetContinuousIncrements_scalars,
      ComputeIncrements_scalars, hs, ComputeIncrements_numberOfComponents, hc, if_neg n2,
      if_neg n3]
  · simp only [GetNumberOfScalarComponents, hs, hc]

/-- The pointer the scan-line loop holds at round `(a, b, i * nC + j)` is the claim's
offset of the value `(E.xmin + i, E.ymin + b, E.zmin + a, j)`. -/
theorem scan_offset (g : vtkImageData) (arr : vtkDataArray) (nC : Int) (E : Extent6)
    (hs : g.Scalars = some arr) (hc : arr.NumberOfComponents = nC)
    (hx : g.Extent.xmin ≤ E.xmin ∧ E.xmax ≤ g.Extent.xmax)
    (hy : g.Extent.ymin ≤ E.ymin ∧ E.ymax ≤ g.Extent.ymax)
    (a b i j : Nat) (hb : b < (E.ymax + 1 - E.ymin).toNat) (hi : i < (E.xmax + 1 - E.xmin).toNat)
    (hj : j < (nC - 1 + 1 - 0).toNat) :
    arr.NumberOfComponents * GetTupleIndex.idx g.Extent (E.xmin, E.ymin, E.zmin)
        + (a : Int) * ((((E.ymax + 1 - E.ymin).toNat : Nat) : Int)
            * (((((E.xmax + 1 - E.xmin).toNat * (nC - 1 + 1 - 0).toNat : Nat)) : Int) * 1
              + (g.GetContinuousIncrements E).1.2.1)
          + (g.GetContinuousIncrements E).1.2.2)
        + (b : Int) * (((((E.xmax + 1 - E.xmin).toNat * (nC - 1 + 1 - 0).toNat : Nat)) : Int) * 1
            + (g.GetContinuousIncrements E).1.2.1)
        + (((i * (nC - 1 + 1 - 0).toNat + j : Nat)) : Int) * 1
      = g.ScalarOffsetSpec g.ComputeIncrements.1 (E.xmin + (i : Int)) (E.ymin + (b : Int))
          (E.zmin + (a : Int)) (0 + (j : Int)) := by
  obtain ⟨k1, k2, k3, _⟩ := increments_of_scalars g arr nC E hs hc hx hy
  have cx : (((E.xmax + 1 - E.xmin).toNat : Nat) : Int) = E.xmax + 1 - E.xmin :=
    Int.toNat_of_nonneg (by omega)
  have cy : (((E.ymax + 1 - E.ymin).toNat : Nat) : Int) = E.ymax + 1 - E.ymin :=
    Int.toNat_of_nonneg (by omega)
  have cc : (((nC - 1 + 1 - 0).toNat : Nat) : Int) = nC := by
    rw [Int.toNat_of_nonneg (by omega)]
    ring
  rw [k2, k3, k1, hc]
  simp only [ScalarOffsetSpec, GetTupleIndex.idx, GetTupleIndex.incs]
  push_cast
  rw [cx, cy, cc]
  ring

/-- The natural-number part of a product with a factor that is not negative. -/
theorem toNat_mul_of_nonneg (x y : Int) (hy : 0 ≤ y) : (x * y).toNat = x.toNat * y.toNat := by
  rcases le_or_lt 0 x with hx | hx
  · apply Int.ofNat.inj
    show (((x * y).toNat : Nat) : Int) = ((x.toNat * y.toNat : Nat) : Int)
    rw [Int.toNat_of_nonneg (mul_nonneg hx hy), Nat.cast_mul, Int.toNat_of_nonneg hx,
      Int.toNat_of_nonneg hy]
  · have h1 : x * y ≤ 0 := mul_nonpos_of_nonpos_of_nonneg (le_of_lt hx) hy
    rw [Int.toNat_eq_zero.mpr h1, Int.toNat_eq_zero.mpr (le_of_lt hx), Nat.zero_mul]

/-- Two equal lists of assignments leave the same output array. -/
theorem eq_and_replay {IT OT : Type} (cast : IT → OT) (inMem : vtkIdType → IT)
    (out : vtkIdType → OT) (l s : List (vtkIdType × vtkIdType)) (h : l = s) :
    [] ++ l = s ∧ CastReplay cast inMem l out = CastReplay cast inMem s out := by
  rw [h]
  exact ⟨rfl, rfl⟩

/-- The scan-line loop of `vtkImageDataCastExecute`, started at the offsets of the first
value of `E` in two grids with scalars of `nC` components that contain `E` along x and y,
makes the assignments of the claim's list, in its order. -/
theorem cast_copies_eq_spec {IT OT : Type} (cast : IT → OT) (inMem : vtkIdType → IT)
    (outMem : vtkIdType → OT) (inData outData : vtkImageData) (arrIn arrOut : vtkDataArray)
    (nC : Int) (E : Extent6)
    (hsi : inData.Scalars = some arrIn) (hso : outData.Scalars = some arrOut)
    (hci : arrIn.NumberOfComponents = nC) (hco : arrOut.NumberOfComponents = nC)
    (hnC : 0 ≤ nC)
    (hxi : inData.Extent.xmin ≤ E.xmin ∧ E.xmax ≤ inData.Extent.xmax)
    (hyi : inData.Extent.ymin ≤ E.ymin ∧ E.ymax ≤ inData.Extent.ymax)
    (hxo : outData.Extent.xmin ≤ E.xmin ∧ E.xmax ≤ outData.Extent.xmax)
    (hyo : outData.Extent.ymin ≤ E.ymin ∧ E.ymax ≤ outData.Extent.ymax) :
    (vtkImageDataCastExecute cast inMem outMem inData
        (arrIn.NumberOfComponents * GetTupleIndex.idx inData.Extent (E.xmin, E.ymin, E.zmin))
        outData
        (arrOut.NumberOfComponents * GetTupleIndex.idx outData.Extent (E.xmin, E.ymin, E.zmin))
        E).copies = CastCopiesSpec inData outData E nC
      ∧ (vtkImageDataCastExecute cast inMem outMem inData
        (arrIn.NumberOfComponents * GetTupleIndex.idx inData.Extent (E.xmin, E.ymin, E.zmin))
        outData
        (arrOut.NumberOfComponents * GetTupleIndex.idx outData.Extent (E.xmin, E.ymin, E.zmin))
        E).out = CastReplay cast inMem (CastCopiesSpec inData outData E nC) outMem := by
  have z := cast_zLoop_spec cast inMem
    (forRange 0 ((E.xmax - E.xmin + 1) * inData.GetNumberOfScalarComponents - 1))
    (forRange 0 (E.ymax - E.ymin)) (forRange 0 (E.zmax - E.zmin))
    (inData.GetContinuousIncrements E).1.2.1 (outData.GetContinuousIncrements E).1.2.1
    (inData.GetContinuousIncrements E).1.2.2 (outData.GetContinuousIncrements E).1.2.2
    { out := outMem, copies := []
      inPtr := arrIn.NumberOfComponents
        * GetTupleIndex.idx inData.Extent (E.xmin, E.ymin, E.zmin)
      outPtr := arrOut.NumberOfComponents
        * GetTupleIndex.idx outData.Extent (E.xmin, E.ymin, E.zmin) }
  unfold vtkImageDataCastExecute
  dsimp only at z ⊢
  rw [z.1, z.2]
  apply eq_and_replay
  have eR : ((E.xmax - E.xmin + 1) * inData.GetNumberOfScalarComponents - 1 + 1 - 0).toNat
      = (E.xmax + 1 - E.xmin).toNat * (nC - 1 + 1 - 0).toNat := by
    rw [(increments_of_scalars inData arrIn nC E hsi hci hxi hyi).2.2.2,
      ← toNat_mul_of_nonneg _ _ (by omega)]
    congr 1
    ring
  have eY : (E.ymax - E.ymin + 1 - 0).toNat = (E.ymax + 1 - E.ymin).toNat := by
    congr 1
    ring
  have eZ : (E.zmax - E.zmin + 1 - 0).toNat = (E.zmax + 1 - E.zmin).toNat := by
    congr 1
    ring
  rw [length_forRange, length_forRange, length_forRange, eR, eY, eZ]
  unfold CastCopiesSpec forRange
  simp only [flatMap_single_eq_map, range_mul_flatMap, List.flatMap_map, List.map_map]
  apply List.flatMap_congr
  intro a _
  apply List.flatMap_congr
  intro b hb
  apply List.flatMap_congr
  intro i hi
  apply List.map_congr_left
  intro j hj
  rw [List.mem_range] at hb hi hj
  rw [scan_offset inData arrIn nC E hsi hci hxi hyi a b i j hb hi hj,
    scan_offset outData arrOut nC E hso hco hxo hyo a b i j hb hi hj]
  rfl

/-- Row-major offsets with components grow along the order "component fastest, then x,
then y, then z", for offsets inside the dimensions. -/
theorem offset_lex_lt (nC dX dY gx gy gz x1 y1 z1 c1 x2 y2 z2 c2 : Int)
    (hx1 : gx ≤ x1 ∧ x1 - gx < dX) (hx2 : gx ≤ x2 ∧ x2 - gx < dX)
    (hy1 : gy ≤ y1 ∧ y1 - gy < dY) (hy2 : gy ≤ y2 ∧ y2 - gy < dY)
    (hc1 : 0 ≤ c1 ∧ c1 < nC) (hc2 : 0 ≤ c2 ∧ c2 < nC)
    (hlex : z1 < z2 ∨ (z1 = z2 ∧ (y1 < y2 ∨ (y1 = y2 ∧ (x1 < x2 ∨ (x1 = x2 ∧ c1 < c2)))))) :
    (x1 - gx) * nC + (y1 - gy) * (nC * dX) + (z1 - gz) * (nC * dX * dY) + c1
      < (x2 - gx) * nC + (y2 - gy) * (nC * dX) + (z2 - gz) * (nC * dX * dY) + c2 := by
  have pn : 0 ≤ nC := by omega
  have pX : 0 ≤ dX := by omega
  have pY : 0 ≤ dY := by omega
  have pnX : 0 ≤ nC * dX := mul_nonneg pn pX
  have h1 : 0 ≤ (dX - 1 - (x1 - gx)) * nC := mul_nonneg (by omega) pn
  have h2 : 0 ≤ (dY - 1 - (y1 - gy)) * (nC * dX) := mul_nonneg (by omega) pnX
  have h4 : 0 ≤ (x2 - gx) * nC := mul_nonneg (by omega) pn
  have h5 : 0 ≤ (y2 - gy) * (nC * dX) := mul_nonneg (by omega) pnX
  rcases hlex with hz | ⟨ez, hy | ⟨ey, hx | ⟨ex, hc⟩⟩⟩
  · have h3 : 0 ≤ (z2 - z1 - 1) * (nC * dX * dY) :=
      mul_nonneg (by omega) (mul_nonneg pnX pY)
    nlinarith [h1, h2, h3, h4, h5, hc1.2, hc2.1]
  · have h3 : 0 ≤ (y2 - y1 - 1) * (nC * dX) := mul_nonneg (by omega) pnX
    rw [ez]
    nlinarith [h1, h3, h4, hc1.2, hc2.1]
  · have h3 : 0 ≤ (x2 - x1 - 1) * nC := mul_nonneg (by omega) pn
    rw [ez, ey]
    nlinarith [h3, hc1.2, hc2.1]
  · rw [ez, ey, ex]
    linarith

/-- For two values of `E` in the order "component fastest, then x, then y, then z", the
claim's offsets in a grid with scalars of `nC` components that contains `E` along x and y
are in the same order. -/
theorem ScalarOffsetSpec_lt (g : vtkImageData) (arr : vtkDataArray) (nC : Int) (E : Extent6)
    (hs : g.Scalars = some arr) (hc : arr.NumberOfComponents = nC)
    (hx : g.Extent.xmin ≤ E.xmin ∧ E.xmax ≤ g.Extent.xmax)
    (hy : g.Extent.ymin ≤ E.ymin ∧ E.ymax ≤ g.Extent.ymax)
    (x1 y1 z1 c1 x2 y2 z2 c2 : Int)
    (hx1 : E.xmin ≤ x1 ∧ x1 ≤ E.xmax) (hx2 : E.xmin ≤ x2 ∧ x2 ≤ E.xmax)
    (hy1 : E.ymin ≤ y1 ∧ y1 ≤ E.ymax) (hy2 : E.ymin ≤ y2 ∧ y2 ≤ E.ymax)
    (hc1 : 0 ≤ c1 ∧ c1 ≤ nC - 1) (hc2 : 0 ≤ c2 ∧ c2 ≤ nC - 1)
    (hlex : z1 < z2 ∨ (z1 = z2 ∧ (y1 < y2 ∨ (y1 = y2 ∧ (x1 < x2 ∨ (x1 = x2 ∧ c1 < c2)))))) :
    g.ScalarOffsetSpec g.ComputeIncrements.1 x1 y1 z1 c1
      < g.ScalarOffsetSpec g.ComputeIncrements.1 x2 y2 z2 c2 := by
  rw [(increments_of_scalars g arr nC E hs hc hx hy).1]
  simp only [ScalarOffsetSpec]
  exact offset_lex_lt nC (g.Extent.xmax - g.Extent.xmin + 1) (g.Extent.ymax - g.Extent.ymin + 1)
    g.Extent.xmin g.Extent.ymin g.Extent.zmin x1 y1 z1 c1 x2 y2 z2 c2
    ⟨by omega, by omega⟩ ⟨by omega, by omega⟩ ⟨by omega, by omega⟩ ⟨by omega, by omega⟩
    ⟨hc1.1, by omega⟩ ⟨hc2.1, by omega⟩ hlex

/-- Along the claim's list of copies both the input offsets and the output offsets increase
strictly. -/
theorem CastCopiesSpec_pairwise (inData outData : vtkImageData) (arrIn arrOut : vtkDataArray)
    (nC : Int) (E : Extent6)
    (hsi : inData.Scalars = some arrIn) (hso : outData.Scalars = some arrOut)
    (hci : arrIn.NumberOfComponents = nC) (hco : arrOut.NumberOfComponents = nC)
    (hxi : inData.Extent.xmin ≤ E.xmin ∧ E.xmax ≤ inData.Extent.xmax)
    (hyi : inData.Extent.ymin ≤ E.ymin ∧ E.ymax ≤ inData.Extent.ymax)
    (hxo : outData.Extent.xmin ≤ E.xmin ∧ E.xmax ≤ outData.Extent.xmax)
    (hyo : outData.Extent.ymin ≤ E.ymin ∧ E.ymax ≤ outData.Extent.ymax) :
    (CastCopiesSpec inData outData E nC).Pairwise (fun p q => p.1 < q.1 ∧ p.2 < q.2) := by
  have key : ∀ x1 y1 z1 c1 x2 y2 z2 c2 : Int,
      x1 ∈ forRange E.xmin E.xmax → x2 ∈ forRange E.xmin E.xmax →
      y1 ∈ forRange E.ymin E.ymax → y2 ∈ forRange E.ymin E.ymax →
      c1 ∈ forRange 0 (nC - 1) → c2 ∈ forRange 0 (nC - 1) →
      (z1 < z2 ∨ (z1 = z2 ∧ (y1 < y2 ∨ (y1 = y2 ∧ (x1 < x2 ∨ (x1 = x2 ∧ c1 < c2)))))) →
      inData.ScalarOffsetSpec inData.ComputeIncrements.1 x1 y1 z1 c1
          < inData.ScalarOffsetSpec inData.ComputeIncrements.1 x2 y2 z2 c2
        ∧ outData.ScalarOffsetSpec outData.ComputeIncrements.1 x1 y1 z1 c1
          < outData.ScalarOffsetSpec outData.ComputeIncrements.1 x2 y2 z2 c2 := by
    intro x1 y1 z1 c1 x2 y2 z2 c2 hx1 hx2 hy1 hy2 hc1 hc2 hlex
    rw [mem_forRange] at hx1 hx2 hy1 hy2 hc1 hc2
    exact ⟨ScalarOffsetSpec_lt inData arrIn nC E hsi hci hxi hyi x1 y1 z1 c1 x2 y2 z2 c2
        hx1 hx2 hy1 hy2 hc1 hc2 hlex,
      ScalarOffsetSpec_lt outData arrOut nC E hso hco hxo hyo x1 y1 z1 c1 x2 y2 z2 c2
        hx1 hx2 hy1 hy2 hc1 hc2 hlex⟩
  unfold CastCopiesSpec
  rw [List.pairwise_flatMap]
  constructor
  · intro z _
    rw [List.pairwise_flatMap]
    constructor
    · intro y hy
      rw [List.pairwise_flatMap]
      constructor
      · intro x hx
        rw [List.pairwise_map]
        refine (forRange_pairwise _ _).imp_of_mem ?_
        intro c1 c2 hc1 hc2 hlt
        exact key x y z c1 x y z c2 hx hx hy hy hc1 hc2
          (.inr ⟨rfl, .inr ⟨rfl, .inr ⟨rfl, hlt⟩⟩⟩)
      · refine (forRange_pairwise _ _).imp_of_mem ?_
        intro x1 x2 hx1 hx2 hlt p hp q hq
        rw [List.mem_map] at hp hq
        obtain ⟨c1, hc1, rfl⟩ := hp
        obtain ⟨c2, hc2, rfl⟩ := hq
        exact key x1 y z c1 x2 y z c2 hx1 hx2 hy hy hc1 hc2 (.inr ⟨rfl, .inr ⟨rfl, .inl hlt⟩⟩)
    · refine (forRange_pairwise _ _).imp_of_mem ?_
      intro y1 y2 hy1 hy2 hlt p hp q hq
      rw [List.mem_flatMap] at hp hq
      obtain ⟨x1, hx1, hp⟩ := hp
      obtain ⟨x2, hx2, hq⟩ := hq
      rw [List.mem_map] at hp hq
      obtain ⟨c1, hc1, rfl⟩ := hp
      obtain ⟨c2, hc2, rfl⟩ := hq
      exact key x1 y1 z c1 x2 y2 z c2 hx1 hx2 hy1 hy2 hc1 hc2 (.inr ⟨rfl, .inl hlt⟩)
  · refine (forRange_pairwise _ _).imp_of_mem ?_
    intro z1 z2 _ _ hlt p hp q hq
    rw [List.mem_flatMap] at hp hq
    obtain ⟨y1, hy1, hp⟩ := hp
    obtain ⟨y2, hy2, hq⟩ := hq
    rw [List.mem_flatMap] at hp hq
    obtain ⟨x1, hx1, hp⟩ := hp
    obtain ⟨x2, hx2, hq⟩ := hq
    rw [List.mem_map] at hp hq
    obtain ⟨c1, hc1, rfl⟩ := hp
    obtain ⟨c2, hc2, rfl⟩ := hq
    exact key x1 y1 z1 c1 x2 y2 z2 c2 hx1 hx2 hy1 hy2 hc1 hc2 (.inl hlt)

/-- Replaying assignments with pairwise different output offsets: every assigned offset
holds the cast of the value read for it, and every other offset is left alone. -/
theorem CastReplay_of_nodup {IT OT : Type} (cast : IT → OT) (inMem : vtkIdType → IT)
    (l : List (vtkIdType × vtkIdType)) (out : vtkIdType → OT)
    (hnd : (l.map Prod.snd).Nodup) :
    (∀ a ∈ l, CastReplay cast inMem l out a.2 = cast (inMem a.1))
      ∧ (∀ q : vtkIdType, q ∉ l.map Prod.snd → CastReplay cast inMem l out q = out q) := by
  induction l generalizing out with
  | nil =>
    exact ⟨fun a ha => absurd ha (List.not_mem_nil a), fun _ _ => rfl⟩
  | cons x l ih =>
    rw [List.map_cons, List.nodup_cons] at hnd
    have hstep : CastReplay cast inMem (x :: l) out
        = CastReplay cast inMem l (fun p => if p = x.2 then cast (inMem x.1) else out p) := rfl
    obtain ⟨i1, i2⟩ := ih (fun p => if p = x.2 then cast (inMem x.1) else out p) hnd.2
    rw [hstep]
    constructor
    · intro a ha
      rcases List.mem_cons.mp ha with e | hm
      · rw [e, i2 x.2 hnd.1]
        exact if_pos rfl
      · exact i1 a hm
    · intro q hq
      rw [List.map_cons, List.mem_cons, not_or] at hq
      rw [i2 q hq.2]
      exact if_neg hq.1

/-- For a sub-extent whose first point lies in the grid's extent and whose tuple index the
scalar array can hold, `GetScalarPointerForExtent` is the pointer to the value offset
`NumberOfComponents * GetTupleIndex.idx` of the scalar array, and the grid is left as it
was. -/
theorem GetScalarPointerForExtent_of_inside (g : vtkImageData) (arr : vtkDataArray)
    (E : Extent6) (hs : g.Scalars = some arr)
    (hx : g.Extent.xmin ≤ E.xmin ∧ E.xmin ≤ g.Extent.xmax)
    (hy : g.Extent.ymin ≤ E.ymin ∧ E.ymin ≤ g.Extent.ymax)
    (hz : g.Extent.zmin ≤ E.zmin ∧ E.zmin ≤ g.Extent.zmax)
    (hmax : GetTupleIndex.idx g.Extent (E.xmin, E.ymin, E.zmin) ≤ arr.MaxId) :
    g.GetScalarPointerForExtent E
      = .ok (.GetVoidPointer arr
          (arr.NumberOfComponents * GetTupleIndex.idx g.Extent (E.xmin, E.ymin, E.zmin)), g) := by
  have hin := not_outOfExtent_of_inside g.Extent E.xmin E.ymin E.zmin hx hy hz
  have h0 := GetTupleIndex_idx_nonneg g.Extent E.xmin E.ymin E.zmin hx hy hz
  have hb : ¬ (GetTupleIndex.idx g.Extent (E.xmin, E.ymin, E.zmin) < 0
      ∨ GetTupleIndex.idx g.Extent (E.xmin, E.ymin, E.zmin) > arr.MaxId) := by
    intro h
    rcases h with h | h
    · exact absurd h (not_lt.mpr h0)
    · exact absurd h (not_lt.mpr hmax)
  simp only [GetScalarPointerForExtent, GetScalarPointer, hs, if_neg hin, GetArrayPointer,
    GetTupleIndex, if_neg hb]

/-- The members of the claim's list of copies are the pairs of offsets of the values
`(x, y, z, c)` with `(x, y, z)` in `E` and `0 <= c <= nC - 1`. -/
theorem mem_CastCopiesSpec (inData outData : vtkImageData) (E : Extent6) (nC : Int)
    (a : vtkIdType × vtkIdType) :
    a ∈ CastCopiesSpec inData outData E nC ↔
      ∃ x y z c : Int, (x, y, z) ∈ GridPoints E ∧ 0 ≤ c ∧ c ≤ nC - 1
        ∧ a = (inData.ScalarOffsetSpec inData.ComputeIncrements.1 x y z c,
            outData.ScalarOffsetSpec outData.ComputeIncrements.1 x y z c) := by
  unfold CastCopiesSpec
  simp only [List.mem_flatMap, List.mem_map, mem_forRange]
  constructor
  · rintro ⟨z, hz, y, hy, x, hx, c, hc, rfl⟩
    exact ⟨x, y, z, c, ⟨hx, hy, hz⟩, hc.1, hc.2, rfl⟩
  · rintro ⟨x, y, z, c, ⟨hx, hy, hz⟩, hc1, hc2, rfl⟩
    exact ⟨z, hz, y, hy, x, hx, c, ⟨hc1, hc2⟩, rfl⟩

/-- A value of `int` is left as it is by the 32-bit wrap. -/
theorem wrapInt32_of_isInt32 (x : Int) (h : IsInt32 x) : wrapInt32 x = x := by
  unfold IsInt32 at h
  unfold wrapInt32
  norm_num at h ⊢
  omega

/-- A value of `vtkIdType` is left as it is by the 64-bit wrap. -/
theorem wrapInt64_of_isInt64 (x : Int) (h : IsInt64 x) : wrapInt64 x = x := by
  unfold IsInt64 at h
  unfold wrapInt64
  norm_num at h ⊢
  omega

/-- The 32-bit wrap always yields a value of `int`. -/
theorem isInt32_wrapInt32 (x : Int) : IsInt32 (wrapInt32 x) := by
  unfold IsInt32 wrapInt32
  norm_num
  omega

/-- The `int` expression `hi - lo + 1` is the 32-bit wrap of the difference plus one. -/
theorem extentDim_eq_wrap (lo hi : Int) : Machine.extentDim lo hi = wrapInt32 (hi - lo + 1) := by
  unfold Machine.extentDim wrapInt32
  norm_num
  omega

/-- Where `hi - lo + 1` is a value of `int`, the `int` expression yields it. -/
theorem extentDim_of_isInt32 (lo hi : Int) (h : IsInt32 (hi - lo + 1)) :
    Machine.extentDim lo hi = hi - lo + 1 := by
  rw [extentDim_eq_wrap, wrapInt32_of_isInt32 _ h]

/-- The product of two values of `int` is a value of `vtkIdType`. -/
theorem isInt64_mul_of_isInt32 (a b : Int) (ha : IsInt32 a) (hb : IsInt32 b) :
    IsInt64 (a * b) := by
  unfold IsInt32 at ha hb
  unfold IsInt64
  norm_num at ha hb ⊢
  constructor <;> nlinarith [ha.1, ha.2, hb.1, hb.2]

/-- C10 as stated fails: for the extent `[0,-3,0,0,0,0]` every form of `GetDimensions`
returns `-2` on the x axis, a negative dimension, where clamping at 0 would give 0; and
for the extent `[0,2147483647,0,0,0,0]`, where `max - min + 1 = 2147483648` is not a value
of `int`, it returns `-2147483648`. -/
theorem GetDimensions_clamp_counterexample :
    Machine.GetDimensions_dOut (ofExtent ⟨0, -3, 0, 0, 0, 0⟩ none) = (-2, 1, 1)
      ∧ Machine.GetDimensions_dims (ofExtent ⟨0, -3, 0, 0, 0, 0⟩ none) = (-2, 1, 1)
      ∧ (Machine.GetDimensions (ofExtent ⟨0, -3, 0, 0, 0, 0⟩ none)).1 = (-2, 1, 1)
      ∧ (Machine.GetDimensions_dOut (ofExtent ⟨0, -3, 0, 0, 0, 0⟩ none)).1 < 0
      ∧ (Machine.GetDimensions_dOut (ofExtent ⟨0, -3, 0, 0, 0, 0⟩ none)).1 ≠ max (-3 - 0 + 1) 0
      ∧ Machine.GetDimensions_dOut (ofExtent ⟨0, 2147483647, 0, 0, 0, 0⟩ none)
          = (-2147483648, 1, 1)
      ∧ Machine.GetDimensions_dims (ofExtent ⟨0, 2147483647, 0, 0, 0, 0⟩ none)
          = (-2147483648, 1, 1)
      ∧ (Machine.GetDimensions_dOut (ofExtent ⟨0, 2147483647, 0, 0, 0, 0⟩ none)).1
          ≠ max (2147483647 - 0 + 1) 0 := by
  refine ⟨by decide, by decide, by decide, by decide, by decide, by decide, by decide,
    by decide⟩

/-- C10 as amended: for every extent on which `max - min + 1` is a value of `int` on each
axis, every form of `GetDimensions` returns `max - min + 1` on each axis, not clamped (the
form without argument also stores it in the cached dimensions): the returned dimension is
negative when `max < min - 1` on that axis and is 0 when `max = min - 1`. -/
theorem GetDimensions_values (self : vtkImageData)
    (hdx : IsInt32 (self.Extent.xmax - self.Extent.xmin + 1))
    (hdy : IsInt32 (self.Extent.ymax - self.Extent.ymin + 1))
    (hdz : IsInt32 (self.Extent.zmax - self.Extent.zmin + 1)) :
    (Machine.GetDimensions_dOut self = (self.Extent.xmax - self.Extent.xmin + 1,
        self.Extent.ymax - self.Extent.ymin + 1, self.Extent.zmax - self.Extent.zmin + 1)
      ∧ Machine.GetDimensions_dims self = Machine.GetDimensions_dOut self
      ∧ (Machine.GetDimensions self).1 = Machine.GetDimensions_dOut self
      ∧ (Machine.GetDimensions self).2
          = { self with Dimensions := Machine.GetDimensions_dOut self })
    ∧ ((self.Extent.xmax < self.Extent.xmin - 1 → (Machine.GetDimensions_dOut self).1 < 0)
      ∧ (self.Extent.ymax < self.Extent.ymin - 1 → (Machine.GetDimensions_dOut self).2.1 < 0)
      ∧ (self.Extent.zmax < self.Extent.zmin - 1 → (Machine.GetDimensions_dOut self).2.2 < 0))
    ∧ ((self.Extent.xmax = self.Extent.xmin - 1 → (Machine.GetDimensions_dOut self).1 = 0)
      ∧ (self.Extent.ymax = self.Extent.ymin - 1 → (Machine.GetDimensions_dOut self).2.1 = 0)
      ∧ (self.Extent.zmax = self.Extent.zmin - 1
          → (Machine.GetDimensions_dOut self).2.2 = 0)) := by
  have e : Machine.GetDimensions_dOut self = (self.Extent.xmax - self.Extent.xmin + 1,
      self.Extent.ymax - self.Extent.ymin + 1, self.Extent.zmax - self.Extent.zmin + 1) := by
    simp only [Machine.GetDimensions_dOut, extentDim_of_isInt32 _ _ hdx,
      extentDim_of_isInt32 _ _ hdy, extentDim_of_isInt32 _ _ hdz]
  refine ⟨⟨e, rfl, rfl, rfl⟩, ?_, ?_⟩
  · rw [e]
    refine ⟨fun h => ?_, fun h => ?_, fun h => ?_⟩ <;> dsimp only <;> omega
  · rw [e]
    refine ⟨fun h => ?_, fun h => ?_, fun h => ?_⟩ <;> dsimp only <;> omega

/-- A use of C10 as amended: the grid `[0,3,0,2,0,1]` has the dimensions `(4, 3, 2)`. -/
theorem GetDimensions_values_witness :
    Machine.GetDimensions_dOut volume432 = (3 - 0 + 1, 2 - 0 + 1, 1 - 0 + 1)
      ∧ Machine.GetDimensions_dims volume432 = Machine.GetDimensions_dOut volume432 :=
  ⟨(GetDimensions_values volume432 (by decide) (by decide) (by decide)).1.1,
    (GetDimensions_values volume432 (by decide) (by decide) (by decide)).1.2.1⟩

/-- C6 as stated fails where a dimension or an increment is not a value of its type.  On
the extent `[0,2147483647,0,0,0,0]` the x axis has `2147483648` samples, the `int`
expression `extent[1] - extent[0] + 1` yields `-2147483648`, and `ComputeIncrements(1)`
gives `(1, -2147483648, -2147483648)`, not `inc[1] = 1 * 2147483648`.  On the extent
`[0,2147483646,0,2147483646,0,0]` with 3 components both dimensions are `2147483647`,
but `3 * 2147483647 * 2147483647` is beyond the 64-bit `vtkIdType` and `inc[2]` is the
wrapped product. -/
theorem ComputeIncrements_overflow_counterexample :
    Machine.ComputeIncrements_numberOfComponents (ofExtent ⟨0, 2147483647, 0, 0, 0, 0⟩ none) 1
        = (1, -2147483648, -2147483648)
      ∧ (1 : Int) * (2147483647 - 0 + 1) = 2147483648
      ∧ Machine.ComputeIncrements_numberOfComponents
          (ofExtent ⟨0, 2147483646, 0, 2147483646, 0, 0⟩ none) 3
        = (3, 6442450941, -4611686031312289789)
      ∧ (3 : Int) * (2147483646 - 0 + 1) * (2147483646 - 0 + 1) = 13835058042397261827 := by
  refine ⟨by decide, by decide, by decide, by decide⟩

/-- C6 as amended: for every extent whose x and y dimensions `max - min + 1` are values of
`int`, and every component count `c` (an `int`) for which `c*dimX*dimY` is a value of the
64-bit `vtkIdType`, `ComputeIncrements(c)` yields `inc[0] = c`, `inc[1] = c*dimX`,
`inc[2] = c*dimX*dimY`, that is `inc[i] = inc[i-1] * dimension[i-1]` with the dimensions
`GetDimensions` returns; for extent `[0,3,0,2,0,1]` it yields `[1,4,12]` with 1 component
and `[3,12,36]` with 3 components. -/
theorem ComputeIncrements_values (self : vtkImageData) (c : Int) (hc : IsInt32 c)
    (hdx : IsInt32 (self.Extent.xmax - self.Extent.xmin + 1))
    (hdy : IsInt32 (self.Extent.ymax - self.Extent.ymin + 1))
    (hinc : IsInt64 (c * (self.Extent.xmax - self.Extent.xmin + 1)
      * (self.Extent.ymax - self.Extent.ymin + 1))) :
    Machine.ComputeIncrements_numberOfComponents self c =
        (c, c * (self.Extent.xmax - self.Extent.xmin + 1),
          c * (self.Extent.xmax - self.Extent.xmin + 1) * (self.Extent.ymax - self.Extent.ymin + 1))
      ∧ (Machine.ComputeIncrements_numberOfComponents self c).2.1 =
          (Machine.ComputeIncrements_numberOfComponents self c).1
            * (Machine.GetDimensions_dims self).1
      ∧ (Machine.ComputeIncrements_numberOfComponents self c).2.2 =
          (Machine.ComputeIncrements_numberOfComponents self c).2.1
            * (Machine.GetDimensions_dims self).2.1
      ∧ (∀ (dims : Int × Int × Int) (scalars : Option vtkDataArray) (log : List ErrorMessage),
          Machine.ComputeIncrements_numberOfComponents
            { Extent := ⟨0, 3, 0, 2, 0, 1⟩, Dimensions := dims, Scalars := scalars, ErrorLog := log } 1
              = (1, 4, 12)
          ∧ Machine.ComputeIncrements_numberOfComponents
            { Extent := ⟨0, 3, 0, 2, 0, 1⟩, Dimensions := dims, Scalars := scalars, ErrorLog := log } 3
              = (3, 12, 36)) := by
  have e : Machine.ComputeIncrements_numberOfComponents self c =
      (c, c * (self.Extent.xmax - self.Extent.xmin + 1),
        c * (self.Extent.xmax - self.Extent.xmin + 1)
          * (self.Extent.ymax - self.Extent.ymin + 1)) := by
    simp only [Machine.ComputeIncrements_numberOfComponents, extentDim_of_isInt32 _ _ hdx,
      extentDim_of_isInt32 _ _ hdy, wrapInt64_of_isInt64 _ (isInt64_mul_of_isInt32 _ _ hc hdx),
      wrapInt64_of_isInt64 _ hinc]
  refine ⟨e, ?_, ?_, ?_⟩
  · rw [e]
    simp only [Machine.GetDimensions_dims, extentDim_of_isInt32 _ _ hdx]
  · rw [e]
    simp only [Machine.GetDimensions_dims, extentDim_of_isInt32 _ _ hdy]
  · intro dims scalars log
    exact ⟨rfl, rfl⟩

/-- A use of C6 as amended: the grid `[0,3,0,2,0,1]` with 3 components has the increments
`(3, 3*4, 3*4*3)`. -/
theorem ComputeIncrements_values_witness :
    Machine.ComputeIncrements_numberOfComponents volume432 3
      = (3, 3 * (3 - 0 + 1), 3 * (3 - 0 + 1) * (2 - 0 + 1)) :=
  (ComputeIncrements_values volume432 3 (by decide) (by decide) (by decide) (by decide)).1

/-- One round of the loop of `GetNumberOfCells` on a dimension that is at least 1, when
the product is a value of `vtkIdType`. -/
theorem GetNumberOfCells_loop_step (n d : Int) (hd : 1 ≤ d)
    (hn : IsInt64 (n * max (d - 1) 1)) :
    (if d > 1 then wrapInt64 (n * (d - 1)) else n) = n * max (d - 1) 1 := by
  by_cases h : d > 1
  · have e : max (d - 1) 1 = d - 1 := max_eq_left (by omega)
    rw [if_pos h]
    rw [e] at hn
    rw [wrapInt64_of_isInt64 _ hn, e]
  · have e : max (d - 1) 1 = 1 := max_eq_right (by omega)
    rw [if_neg h, e, mul_one]

/-- One entry of `GetCellDims` for a cached dimension that is at least 1 and a value of
`int`. -/
theorem GetCellDims_entry (d : Int) (hd : 1 ≤ d) (hi : IsInt32 d) :
    (if wrapInt32 (d - 1) < 1 then 1 else wrapInt32 (d - 1)) = max (d - 1) 1 := by
  have hw : wrapInt32 (d - 1) = d - 1 := by
    apply wrapInt32_of_isInt32
    unfold IsInt32 at hi ⊢
    norm_num at hi ⊢
    omega
  rw [hw]
  by_cases h : d - 1 < 1
  · rw [if_pos h, max_eq_right (by omega)]
  · rw [if_neg h, max_eq_left (by omega)]

/-- On a non-empty extent whose dimensions are values of `int` and whose cell count is a
value of `vtkIdType`, `GetNumberOfCells` is the product of `max(dimension-1, 1)` over the
axes. -/
theorem Machine_GetNumberOfCells_eq_product (self : vtkImageData) (dimX dimY dimZ : Int)
    (hx : self.Extent.xmin ≤ self.Extent.xmax) (hy : self.Extent.ymin ≤ self.Extent.ymax)
    (hz : self.Extent.zmin ≤ self.Extent.zmax)
    (hdx : dimX = self.Extent.xmax - self.Extent.xmin + 1)
    (hdy : dimY = self.Extent.ymax - self.Extent.ymin + 1)
    (hdz : dimZ = self.Extent.zmax - self.Extent.zmin + 1)
    (hix : IsInt32 dimX) (hiy : IsInt32 dimY) (hiz : IsInt32 dimZ)
    (hcells : IsInt64 (max (dimX - 1) 1 * max (dimY - 1) 1 * max (dimZ - 1) 1)) :
    Machine.GetNumberOfCells self
      = max (dimX - 1) 1 * max (dimY - 1) 1 * max (dimZ - 1) 1 := by
  have px : 1 ≤ dimX := by omega
  have py : 1 ≤ dimY := by omega
  have pz : 1 ≤ dimZ := by omega
  have ex : Machine.extentDim self.Extent.xmin self.Extent.xmax = dimX := by
    rw [extentDim_of_isInt32 _ _ (hdx ▸ hix), hdx]
  have ey : Machine.extentDim self.Extent.ymin self.Extent.ymax = dimY := by
    rw [extentDim_of_isInt32 _ _ (hdy ▸ hiy), hdy]
  have ez : Machine.extentDim self.Extent.zmin self.Extent.zmax = dimZ := by
    rw [extentDim_of_isInt32 _ _ (hdz ▸ hiz), hdz]
  have ax : 1 ≤ max (dimX - 1) 1 := le_max_right _ _
  have ay : 1 ≤ max (dimY - 1) 1 := le_max_right _ _
  have az : 1 ≤ max (dimZ - 1) 1 := le_max_right _ _
  have axy : 1 ≤ max (dimX - 1) 1 * max (dimY - 1) 1 := one_le_mul_of_one_le_of_one_le ax ay
  have bxy : max (dimX - 1) 1 * max (dimY - 1) 1
      ≤ max (dimX - 1) 1 * max (dimY - 1) 1 * max (dimZ - 1) 1 :=
    le_mul_of_one_le_right (by omega) az
  have bx : max (dimX - 1) 1 ≤ max (dimX - 1) 1 * max (dimY - 1) 1 :=
    le_mul_of_one_le_right (by omega) ay
  have hc2 := hcells
  unfold IsInt64 at hc2
  norm_num at hc2
  have i1 : IsInt64 (1 * max (dimX - 1) 1) := by
    unfold IsInt64
    norm_num
    omega
  have i2 : IsInt64 (1 * max (dimX - 1) 1 * max (dimY - 1) 1) := by
    unfold IsInt64
    norm_num
    omega
  have i3 : IsInt64 (1 * max (dimX - 1) 1 * max (dimY - 1) 1 * max (dimZ - 1) 1) := by
    rw [one_mul]
    exact hcells
  simp only [Machine.GetNumberOfCells, Machine.GetNumberOfCells.loop, ex, ey, ez]
  rw [if_neg (show ¬ dimX = 0 by omega), if_neg (show ¬ dimY = 0 by omega),
    if_neg (show ¬ dimZ = 0 by omega),
    GetNumberOfCells_loop_step 1 dimX px i1, GetNumberOfCells_loop_step _ dimY py i2,
    GetNumberOfCells_loop_step _ dimZ pz i3, one_mul]

/-- C9 as stated fails where a dimension or the cell count is not a value of its type.
The extent `[0,2147483647,0,0,0,0]` is not empty and the product of `max(dimension-1, 1)`
is `2147483647`, but the `int` expression `extent[1] - extent[0] + 1` yields `-2147483648`
and `GetNumberOfCells` returns 1.  The extent `[0,2097152,0,2097152,0,2097152]` has
`2097152` cells along each axis, `2^63` in all, beyond the 64-bit `vtkIdType`, and the
`vtkIdType` product wraps. -/
theorem GetNumberOfCells_overflow_counterexample :
    Machine.GetNumberOfCells (ofExtent ⟨0, 2147483647, 0, 0, 0, 0⟩ none) = 1
      ∧ max ((2147483647 - 0 + 1 : Int) - 1) 1 * max ((0 - 0 + 1) - 1) 1 * max ((0 - 0 + 1) - 1) 1
          = 2147483647
      ∧ Machine.GetNumberOfCells (ofExtent ⟨0, 2097152, 0, 2097152, 0, 2097152⟩ none)
          = -9223372036854775808
      ∧ max ((2097152 - 0 + 1 : Int) - 1) 1 * max ((2097152 - 0 + 1) - 1) 1
            * max ((2097152 - 0 + 1) - 1) 1
          = 9223372036854775808 := by
  refine ⟨by decide, by decide, by decide, by decide⟩

/-- C9 as amended: for every non-empty extent (`min <= max` on all axes) whose dimensions
`max - min + 1` are values of `int` and for which the product over the three axes of
`max(dimension-1, 1)` is a value of the 64-bit `vtkIdType`, `GetNumberOfCells` equals that
product; this is the product of the three values `GetCellDims` returns, both once
`GetDimensions()` has refreshed the cached dimensions and on any grid whose cached
dimensions are those of its extent; it is 1 for extent `[0,0,0,0,0,0]` and 6 for extent
`[0,3,0,2,0,1]`. -/
theorem GetNumberOfCells_nonempty (self : vtkImageData) (dimX dimY dimZ : Int)
    (hx : self.Extent.xmin ≤ self.Extent.xmax) (hy : self.Extent.ymin ≤ self.Extent.ymax)
    (hz : self.Extent.zmin ≤ self.Extent.zmax)
    (hdx : dimX = self.Extent.xmax - self.Extent.xmin + 1)
    (hdy : dimY = self.Extent.ymax - self.Extent.ymin + 1)
    (hdz : dimZ = self.Extent.zmax - self.Extent.zmin + 1)
    (hix : IsInt32 dimX) (hiy : IsInt32 dimY) (hiz : IsInt32 dimZ)
    (hcells : IsInt64 (max (dimX - 1) 1 * max (dimY - 1) 1 * max (dimZ - 1) 1)) :
    Machine.GetNumberOfCells self = max (dimX - 1) 1 * max (dimY - 1) 1 * max (dimZ - 1) 1
      ∧ Machine.GetNumberOfCells self =
          (Machine.GetCellDims (Machine.GetDimensions self).2).1
            * (Machine.GetCellDims (Machine.GetDimensions self).2).2.1
            * (Machine.GetCellDims (Machine.GetDimensions self).2).2.2
      ∧ (self.Dimensions = (dimX, dimY, dimZ) →
          Machine.GetNumberOfCells self = (Machine.GetCellDims self).1
            * (Machine.GetCellDims self).2.1 * (Machine.GetCellDims self).2.2)
      ∧ Machine.GetNumberOfCells (ofExtent ⟨0, 0, 0, 0, 0, 0⟩ none) = 1
      ∧ Machine.GetNumberOfCells (ofExtent ⟨0, 3, 0, 2, 0, 1⟩ none) = 6 := by
  have px : 1 ≤ dimX := by omega
  have py : 1 ≤ dimY := by omega
  have pz : 1 ≤ dimZ := by omega
  have ex : Machine.extentDim self.Extent.xmin self.Extent.xmax = dimX := by
    rw [extentDim_of_isInt32 _ _ (hdx ▸ hix), hdx]
  have ey : Machine.extentDim self.Extent.ymin self.Extent.ymax = dimY := by
    rw [extentDim_of_isInt32 _ _ (hdy ▸ hiy), hdy]
  have ez : Machine.extentDim self.Extent.zmin self.Extent.zmax = dimZ := by
    rw [extentDim_of_isInt32 _ _ (hdz ▸ hiz), hdz]
  have e := Machine_GetNumberOfCells_eq_product self dimX dimY dimZ hx hy hz hdx hdy hdz hix hiy
    hiz hcells
  have cd : ∀ g : vtkImageData, g.Dimensions = (dimX, dimY, dimZ) →
      (Machine.GetCellDims g).1 * (Machine.GetCellDims g).2.1 * (Machine.GetCellDims g).2.2
        = max (dimX - 1) 1 * max (dimY - 1) 1 * max (dimZ - 1) 1 := by
    intro g hg
    simp only [Machine.GetCellDims, hg, GetCellDims_entry dimX px hix,
      GetCellDims_entry dimY py hiy, GetCellDims_entry dimZ pz hiz]
  refine ⟨e, ?_, ?_, by decide, by decide⟩
  · rw [e, cd]
    simp only [Machine.GetDimensions, Machine.GetDimensions_dOut, ex, ey, ez]
  · intro hd
    rw [e, cd self hd]

/-- A use of C9 as amended: the grid with extent `[0,3,0,2,0,1]` has `3 * 2 * 1` cells. -/
theorem GetNumberOfCells_nonempty_witness :
    Machine.GetNumberOfCells (ofExtent ⟨0, 3, 0, 2, 0, 1⟩ none)
      = max (4 - 1) 1 * max (3 - 1) 1 * max (2 - 1) 1 :=
  (GetNumberOfCells_nonempty (ofExtent ⟨0, 3, 0, 2, 0, 1⟩ none) 4 3 2 (by decide) (by decide)
    (by decide) (by decide) (by decide) (by decide) (by decide) (by decide) (by decide)
    (by decide)).1

/-- Where the three dimensions `max - min + 1` are values of `int`, the dimensions formed
in `int` are the exact ones. -/
theorem Machine_GetDimensions_dims_eq (self : vtkImageData)
    (hdx : IsInt32 (self.Extent.xmax - self.Extent.xmin + 1))
    (hdy : IsInt32 (self.Extent.ymax - self.Extent.ymin + 1))
    (hdz : IsInt32 (self.Extent.zmax - self.Extent.zmin + 1)) :
    Machine.GetDimensions_dims self = self.GetDimensions_dims := by
  simp only [Machine.GetDimensions_dims, GetDimensions_dims, extentDim_of_isInt32 _ _ hdx,
    extentDim_of_isInt32 _ _ hdy, extentDim_of_isInt32 _ _ hdz]

/-- On a grid whose dimensions are values of `int`, `GetIJKMaxForIJKMin` with `int` sums
returns what it returns with exact sums, for an `ijkMin` with `ijkMin[a] + 1` a value of
`int` on every axis. -/
theorem Machine_GetIJKMaxForIJKMin_eq (self : vtkImageData) (ijkMin : Int × Int × Int)
    (hdx : IsInt32 (self.Extent.xmax - self.Extent.xmin + 1))
    (hdy : IsInt32 (self.Extent.ymax - self.Extent.ymin + 1))
    (hdz : IsInt32 (self.Extent.zmax - self.Extent.zmin + 1))
    (h1 : IsInt32 (ijkMin.1 + 1)) (h2 : IsInt32 (ijkMin.2.1 + 1))
    (h3 : IsInt32 (ijkMin.2.2 + 1)) :
    Machine.GetIJKMaxForIJKMin self ijkMin = self.GetIJKMaxForIJKMin ijkMin := by
  simp only [Machine.GetIJKMaxForIJKMin, GetIJKMaxForIJKMin,
    Machine_GetDimensions_dims_eq self hdx hdy hdz, wrapInt32_of_isInt32 _ h1,
    wrapInt32_of_isInt32 _ h2, wrapInt32_of_isInt32 _ h3]

/-- On a grid whose dimensions are values of `int`, `GetIJKMinForCellId` with the
conversions to `int` returns what it returns in exact integers, when the entries of that
`ijkMin` are values of `int`. -/
theorem Machine_GetIJKMinForCellId_eq (self after : vtkImageData) (cellId : Int)
    (ok : Bool) (ijkMin : Int × Int × Int)
    (hdx : IsInt32 (self.Extent.xmax - self.Extent.xmin + 1))
    (hdy : IsInt32 (self.Extent.ymax - self.Extent.ymin + 1))
    (hdz : IsInt32 (self.Extent.zmax - self.Extent.zmin + 1))
    (h : self.GetIJKMinForCellId cellId = .ok ((ok, ijkMin), after))
    (h1 : IsInt32 ijkMin.1) (h2 : IsInt32 ijkMin.2.1) (h3 : IsInt32 ijkMin.2.2) :
    Machine.GetIJKMinForCellId self cellId = .ok ((ok, ijkMin), after) := by
  have w0 : wrapInt32 0 = 0 := by decide
  have key : Machine.GetIJKMinForCellId self cellId
      = (self.GetIJKMinForCellId cellId).map
          (fun r => ((r.1.1, (wrapInt32 r.1.2.1, wrapInt32 r.1.2.2.1, wrapInt32 r.1.2.2.2)),
            r.2)) := by
    simp only [Machine.GetIJKMinForCellId, GetIJKMinForCellId,
      Machine_GetDimensions_dims_eq self hdx hdy hdz, GetDimensions_dims]
    by_cases c0 : self.Extent.xmax - self.Extent.xmin + 1 = 0
        ∨ self.Extent.ymax - self.Extent.ymin + 1 = 0
        ∨ self.Extent.zmax - self.Extent.zmin + 1 = 0
    · rw [if_pos c0, if_pos c0]
      simp only [Except.map, w0]
    rw [if_neg c0, if_neg c0]
    by_cases c1 : self.DataDescription = VTK_EMPTY
    · rw [if_pos c1, if_pos c1]
      simp only [Except.map, w0]
    rw [if_neg c1, if_neg c1]
    by_cases c2 : self.DataDescription = VTK_SINGLE_POINT
    · rw [if_pos c2, if_pos c2]
      simp only [Except.map, w0]
    rw [if_neg c2, if_neg c2]
    by_cases c3 : self.DataDescription = VTK_X_LINE
    · rw [if_pos c3, if_pos c3]
      simp only [Except.map, w0]
    rw [if_neg c3, if_neg c3]
    by_cases c4 : self.DataDescription = VTK_Y_LINE
    · rw [if_pos c4, if_pos c4]
      simp only [Except.map, w0]
    rw [if_neg c4, if_neg c4]
    by_cases c5 : self.DataDescription = VTK_Z_LINE
    · rw [if_pos c5, if_pos c5]
      simp only [Except.map, w0]
    rw [if_neg c5, if_neg c5]
    by_cases c6 : self.DataDescription = VTK_XY_PLANE
    · rw [if_pos c6, if_pos c6]
      by_cases hd : self.Extent.xmax - self.Extent.xmin + 1 - 1 = 0
      · simp only [cMod, cDiv, hd, if_true, bind, Except.bind, Except.map]
      · simp only [cMod, cDiv, hd, if_false, bind, Except.bind, Except.map, w0]
    rw [if_neg c6, if_neg c6]
    by_cases c7 : self.DataDescription = VTK_YZ_PLANE
    · rw [if_pos c7, if_pos c7]
      by_cases hd : self.Extent.ymax - self.Extent.ymin + 1 - 1 = 0
      · simp only [cMod, cDiv, hd, if_true, bind, Except.bind, Except.map]
      · simp only [cMod, cDiv, hd, if_false, bind, Except.bind, Except.map, w0]
    rw [if_neg c7, if_neg c7]
    by_cases c8 : self.DataDescription = VTK_XZ_PLANE
    · rw [if_pos c8, if_pos c8]
      by_cases hd : self.Extent.xmax - self.Extent.xmin + 1 - 1 = 0
      · simp only [cMod, cDiv, hd, if_true, bind, Except.bind, Except.map]
      · simp only [cMod, cDiv, hd, if_false, bind, Except.bind, Except.map, w0]
    rw [if_neg c8, if_neg c8]
    by_cases c9 : self.DataDescription = VTK_XYZ_GRID
    · rw [if_pos c9, if_pos c9]
      by_cases hd : self.Extent.xmax - self.Extent.xmin + 1 - 1 = 0
      · simp only [cMod, cDiv, hd, if_true, bind, Except.bind, Except.map]
      · by_cases he : self.Extent.ymax - self.Extent.ymin + 1 - 1 = 0
        · simp only [cMod, cDiv, hd, he, if_true, if_false, bind, Except.bind, Except.map]
        · simp only [cMod, cDiv, hd, he, mul_eq_zero, or_self, if_false, bind, Except.bind,
            Except.map]
    rw [if_neg c9, if_neg c9]
    simp only [Except.map, w0]
  rw [key, h]
  simp only [Except.map, wrapInt32_of_isInt32 _ h1, wrapInt32_of_isInt32 _ h2,
    wrapInt32_of_isInt32 _ h3]

/-- An `int` loop `for (v = lo; v <= hi; v++)` with `hi` below `INT_MAX` runs through the
integers from `lo` to `hi` and ends. -/
theorem Machine_forRange_eq (lo hi : Int) (h : hi < 2 ^ 31 - 1) :
    Machine.forRange lo hi = .ok (forRange lo hi) := by
  have hne : ¬ (lo ≤ hi ∧ hi = 2 ^ 31 - 1) := fun hh => absurd hh.2 (ne_of_lt h)
  simp only [Machine.forRange, hne, if_false]

/-- The triple `int` loop with every upper limit below `INT_MAX` runs through the `loc`
of the exact triple loop and ends. -/
theorem Machine_forLoc_eq (ijkMin ijkMax : Int × Int × Int) (h1 : ijkMax.1 < 2 ^ 31 - 1)
    (h2 : ijkMax.2.1 < 2 ^ 31 - 1) (h3 : ijkMax.2.2 < 2 ^ 31 - 1) :
    Machine.forLoc ijkMin ijkMax = .ok (forLoc ijkMin ijkMax) := by
  simp only [Machine.forLoc, Machine_forRange_eq _ _ h1, Machine_forRange_eq _ _ h2,
    Machine_forRange_eq _ _ h3, bind, Except.bind, forLoc]
  by_cases hz : forRange ijkMin.2.2 ijkMax.2.2 = []
  · simp [hz]
  · by_cases hy : forRange ijkMin.2.1 ijkMax.2.1 = []
    · simp [hz, hy]
    · simp [hz, hy]

/-- C13 as stated fails: on the x line `[0,3,0,0,0,0]` and `ijkMin = (0, 5, 0)`,
`GetIJKMaxForIJKMin` succeeds with `ijkMax = (1, 0, 0)`: on the degenerate y axis it
returns 0, not `ijkMin[1] + 0 = 5`.  And on the same line with
`ijkMin = (2147483647, 0, 0)` the `int` sum `ijkMin[0] + 1` on the x axis, which is not
degenerate, yields `-2147483648`. -/
theorem GetIJKMaxForIJKMin_degenerate_counterexample :
    (Machine.GetIJKMaxForIJKMin xline4 (0, 5, 0)).1 = (true, (1, 0, 0))
      ∧ ¬ SpansY xline4.DataDescription
      ∧ (Machine.GetIJKMaxForIJKMin xline4 (0, 5, 0)).1.2.2.1 ≠ 5 + 0
      ∧ (Machine.GetIJKMaxForIJKMin xline4 (2147483647, 0, 0)).1 = (true, (-2147483648, 0, 0))
      ∧ SpansX xline4.DataDescription
      ∧ (Machine.GetIJKMaxForIJKMin xline4 (2147483647, 0, 0)).1.2.1 ≠ 2147483647 + 1 := by
  decide

/-- C13 as amended: for every non-empty grid classified as point, line, plane or 3D grid
whose dimensions are values of `int`, and every `ijkMin` for which `ijkMin[a] + 1` is a
value of `int` on each axis, `GetIJKMaxForIJKMin` succeeds, leaves the grid as it was, and
returns `ijkMax[a] = ijkMin[a] + 1` on every non-degenerate axis of the classification and
`ijkMax[a] = 0` on every degenerate axis (which is `ijkMin[a] + 0` exactly when
`ijkMin[a] = 0`). -/
theorem GetIJKMaxForIJKMin_values (self : vtkImageData) (ijkMin : Int × Int × Int)
    (hx : self.Extent.xmin ≤ self.Extent.xmax) (hy : self.Extent.ymin ≤ self.Extent.ymax)
    (hz : self.Extent.zmin ≤ self.Extent.zmax)
    (hdx : IsInt32 (self.Extent.xmax - self.Extent.xmin + 1))
    (hdy : IsInt32 (self.Extent.ymax - self.Extent.ymin + 1))
    (hdz : IsInt32 (self.Extent.zmax - self.Extent.zmin + 1))
    (h1 : IsInt32 (ijkMin.1 + 1)) (h2 : IsInt32 (ijkMin.2.1 + 1))
    (h3 : IsInt32 (ijkMin.2.2 + 1))
    (hclass : IsCellClassification self.DataDescription) :
    ∃ ijkMax : Int × Int × Int,
      Machine.GetIJKMaxForIJKMin self ijkMin = ((true, ijkMax), self) ∧
      (SpansX self.DataDescription → ijkMax.1 = ijkMin.1 + 1) ∧
      (¬ SpansX self.DataDescription → ijkMax.1 = 0 ∧ (ijkMax.1 = ijkMin.1 + 0 ↔ ijkMin.1 = 0)) ∧
      (SpansY self.DataDescription → ijkMax.2.1 = ijkMin.2.1 + 1) ∧
      (¬ SpansY self.DataDescription →
        ijkMax.2.1 = 0 ∧ (ijkMax.2.1 = ijkMin.2.1 + 0 ↔ ijkMin.2.1 = 0)) ∧
      (SpansZ self.DataDescription → ijkMax.2.2 = ijkMin.2.2 + 1) ∧
      (¬ SpansZ self.DataDescription →
        ijkMax.2.2 = 0 ∧ (ijkMax.2.2 = ijkMin.2.2 + 0 ↔ ijkMin.2.2 = 0)) := by
  have nx : self.Extent.xmax - self.Extent.xmin + 1 ≠ 0 := by omega
  have ny : self.Extent.ymax - self.Extent.ymin + 1 ≠ 0 := by omega
  have nz : self.Extent.zmax - self.Extent.zmin + 1 ≠ 0 := by omega
  rw [Machine_GetIJKMaxForIJKMin_eq self ijkMin hdx hdy hdz h1 h2 h3]
  obtain ⟨c1, c2, c3, c4, c5, c6, c7, c8⟩ := GetIJKMaxForIJKMin_cases self ijkMin nx ny nz
  have hshape : ∀ (m : Int × Int × Int) (d : Int), self.DataDescription = d →
      self.GetIJKMaxForIJKMin ijkMin = ((true, m), self) →
      ((SpansX d → m.1 = ijkMin.1 + 1) ∧ (¬ SpansX d → m.1 = 0)
        ∧ (SpansY d → m.2.1 = ijkMin.2.1 + 1) ∧ (¬ SpansY d → m.2.1 = 0)
        ∧ (SpansZ d → m.2.2 = ijkMin.2.2 + 1) ∧ (¬ SpansZ d → m.2.2 = 0)) →
      ∃ ijkMax : Int × Int × Int,
        self.GetIJKMaxForIJKMin ijkMin = ((true, ijkMax), self) ∧
        (SpansX self.DataDescription → ijkMax.1 = ijkMin.1 + 1) ∧
        (¬ SpansX self.DataDescription →
          ijkMax.1 = 0 ∧ (ijkMax.1 = ijkMin.1 + 0 ↔ ijkMin.1 = 0)) ∧
        (SpansY self.DataDescription → ijkMax.2.1 = ijkMin.2.1 + 1) ∧
        (¬ SpansY self.DataDescription →
          ijkMax.2.1 = 0 ∧ (ijkMax.2.1 = ijkMin.2.1 + 0 ↔ ijkMin.2.1 = 0)) ∧
        (SpansZ self.DataDescription → ijkMax.2.2 = ijkMin.2.2 + 1) ∧
        (¬ SpansZ self.DataDescription →
          ijkMax.2.2 = 0 ∧ (ijkMax.2.2 = ijkMin.2.2 + 0 ↔ ijkMin.2.2 = 0)) := by
    intro m d hd hm ⟨s1, s2, s3, s4, s5, s6⟩
    rw [hd]
    refine ⟨m, hm, s1, fun h => ⟨s2 h, ?_⟩, s3, fun h => ⟨s4 h, ?_⟩, s5, fun h => ⟨s6 h, ?_⟩⟩
    · rw [s2 h]; omega
    · rw [s4 h]; omega
    · rw [s6 h]; omega
  rcases hclass with h | h | h | h | h | h | h | h <;>
    first
    | refine hshape _ _ h (c1 h) ?_
    | refine hshape _ _ h (c2 h) ?_
    | refine hshape _ _ h (c3 h) ?_
    | refine hshape _ _ h (c4 h) ?_
    | refine hshape _ _ h (c5 h) ?_
    | refine hshape _ _ h (c6 h) ?_
    | refine hshape _ _ h (c7 h) ?_
    | refine hshape _ _ h (c8 h) ?_
  all_goals
    simp [SpansX, SpansY, SpansZ, VTK_XYZ_GRID, VTK_SINGLE_POINT, VTK_X_LINE, VTK_Y_LINE,
      VTK_Z_LINE, VTK_XY_PLANE, VTK_YZ_PLANE, VTK_XZ_PLANE]

/-- A use of C13 as amended: on the x line `[0,3,0,0,0,0]`, `ijkMin = (2, 0, 0)` gives
`ijkMax` with `3` on the x axis. -/
theorem GetIJKMaxForIJKMin_values_witness :
    ∃ ijkMax : Int × Int × Int,
      Machine.GetIJKMaxForIJKMin xline4 (2, 0, 0) = ((true, ijkMax), xline4)
        ∧ ijkMax.1 = 2 + 1 := by
  obtain ⟨ijkMax, h, hxs, -⟩ := GetIJKMaxForIJKMin_values xline4 (2, 0, 0) (by decide) (by decide)
    (by decide) (by decide) (by decide) (by decide) (by decide) (by decide) (by decide)
    (by decide)
  exact ⟨ijkMax, h, hxs (by decide)⟩

/-- When both cell lookups succeed with `ijkMin[a] <= ijkMax[a] < INT_MAX` on every axis,
the triple loop ends, `AddPointsToCellTemplate` lists at least one point, and
`GetCellBounds` returns the running extrema of its corner loop, started from
`VTK_DOUBLE_MAX` and `VTK_DOUBLE_MIN`, over the points `AddPointsToCellTemplate` lists. -/
theorem Machine_GetCellBounds_eq_fold (VTK_DOUBLE_MAX VTK_DOUBLE_MIN : ℚ) (self : vtkImageData)
    (cellId : Int) (ijkMin ijkMax : Int × Int × Int)
    (hmin : Machine.GetIJKMinForCellId self cellId = .ok ((true, ijkMin), self))
    (hmax : Machine.GetIJKMaxForIJKMin self ijkMin = ((true, ijkMax), self))
    (h1 : ijkMin.1 ≤ ijkMax.1) (h2 : ijkMin.2.1 ≤ ijkMax.2.1) (h3 : ijkMin.2.2 ≤ ijkMax.2.2)
    (b1 : ijkMax.1 < 2 ^ 31 - 1) (b2 : ijkMax.2.1 < 2 ^ 31 - 1) (b3 : ijkMax.2.2 < 2 ^ 31 - 1) :
    ∃ pts : List (vtkIdType × (ℚ × ℚ × ℚ)),
      Machine.AddPointsToCellTemplate self ijkMin ijkMax = .ok pts
      ∧ pts ≠ []
      ∧ Machine.GetCellBounds VTK_DOUBLE_MAX VTK_DOUBLE_MIN self cellId = .ok
        ((pts.map (fun p => p.2)).foldl GetCellBounds.update ⟨VTK_DOUBLE_MAX, VTK_DOUBLE_MIN,
          VTK_DOUBLE_MAX, VTK_DOUBLE_MIN, VTK_DOUBLE_MAX, VTK_DOUBLE_MIN⟩, self) := by
  have hge : ijkMax.2.2 ≥ ijkMin.2.2 ∧ ijkMax.2.1 ≥ ijkMin.2.1 ∧ ijkMax.1 ≥ ijkMin.1 :=
    ⟨h3, h2, h1⟩
  have hloc := Machine_forLoc_eq ijkMin ijkMax b1 b2 b3
  have hmem : ijkMin ∈ forLoc ijkMin ijkMax :=
    (mem_forLoc ijkMin ijkMax ijkMin).mpr ⟨⟨le_refl _, h1⟩, ⟨le_refl _, h2⟩, ⟨le_refl _, h3⟩⟩
  refine ⟨(forLoc ijkMin ijkMax).map fun loc =>
      (wrapInt64 (wrapInt64 (loc.1 + wrapInt64 (loc.2.1 * (Machine.GetDimensions_dims self).1))
          + wrapInt64 (loc.2.2 * wrapInt64 ((Machine.GetDimensions_dims self).1
            * (Machine.GetDimensions_dims self).2.1))),
        self.TransformIndexToPhysicalPoint (wrapInt32 (loc.1 + self.Extent.xmin))
          (wrapInt32 (loc.2.1 + self.Extent.ymin)) (wrapInt32 (loc.2.2 + self.Extent.zmin))),
    by simp only [Machine.AddPointsToCellTemplate, hloc, bind, Except.bind], ?_, ?_⟩
  · intro hnil
    rw [List.map_eq_nil_iff] at hnil
    rw [hnil] at hmem
    exact absurd hmem (List.not_mem_nil _)
  · simp only [Machine.GetCellBounds, hmin, hmax, hge, hloc, Bool.not_true, Bool.false_eq_true,
      if_false, if_true, and_self, List.map_map, List.foldl_map]
    rfl

/-- When a dimension is 0 or the classification is `VTK_EMPTY`, `GetIJKMinForCellId`
reports failure. -/
theorem Machine_GetIJKMinForCellId_empty (self : vtkImageData) (cellId : Int)
    (hempty : ((Machine.GetDimensions_dims self).1 = 0 ∨ (Machine.GetDimensions_dims self).2.1 = 0
        ∨ (Machine.GetDimensions_dims self).2.2 = 0) ∨ self.DataDescription = VTK_EMPTY) :
    ∃ after : vtkImageData,
      Machine.GetIJKMinForCellId self cellId = .ok ((false, (0, 0, 0)), after) := by
  unfold Machine.GetIJKMinForCellId
  by_cases hd : (Machine.GetDimensions_dims self).1 = 0 ∨ (Machine.GetDimensions_dims self).2.1 = 0
      ∨ (Machine.GetDimensions_dims self).2.2 = 0
  · exact ⟨self.vtkErrorMacro .RequestingCellFromEmptyImage, by simp only [hd, if_true]⟩
  · rcases hempty with h | h
    · exact absurd h hd
    · exact ⟨self, by simp only [hd, if_false, h, if_true]⟩

/-- A running minimum that starts below every value of the list ends at its initial
value. -/
theorem foldl_running_min_initial {α : Type} (f : α → ℚ) (l : List α) (m0 : ℚ)
    (h : ∀ p ∈ l, m0 < f p) :
    l.foldl (fun m p => if f p < m then f p else m) m0 = m0 := by
  obtain ⟨h1, -, h3⟩ := foldl_running_min f l m0
  rcases h3 with e | ⟨p, hp, e⟩
  · exact e
  · rw [e] at h1
    exact absurd (h p hp) (not_lt.mpr h1)

/-- A running maximum that starts above every value of the list ends at its initial
value. -/
theorem foldl_running_max_initial {α : Type} (f : α → ℚ) (l : List α) (m0 : ℚ)
    (h : ∀ p ∈ l, f p < m0) :
    l.foldl (fun m p => if f p > m then f p else m) m0 = m0 := by
  obtain ⟨h1, -, h3⟩ := foldl_running_max f l m0
  rcases h3 with e | ⟨p, hp, e⟩
  · exact e
  · rw [e] at h1
    exact absurd (h p hp) (not_lt.mpr h1)

/-- On a non-empty grid whose classification matches its extent, whose dimensions are
values of `int` and whose cell count is a value of `vtkIdType`, both cell lookups succeed
for a cell id in `0 .. GetNumberOfCells - 1`, leave the grid as it was, and give
`ijkMin[a] <= ijkMax[a] < INT_MAX` on every axis. -/
theorem Machine_cell_lookups (self : vtkImageData) (cellId : Int)
    (hx : self.Extent.xmin ≤ self.Extent.xmax) (hy : self.Extent.ymin ≤ self.Extent.ymax)
    (hz : self.Extent.zmin ≤ self.Extent.zmax)
    (hdx : IsInt32 (self.Extent.xmax - self.Extent.xmin + 1))
    (hdy : IsInt32 (self.Extent.ymax - self.Extent.ymin + 1))
    (hdz : IsInt32 (self.Extent.zmax - self.Extent.zmin + 1))
    (hcells : IsInt64 (max (self.Extent.xmax - self.Extent.xmin + 1 - 1) 1
      * max (self.Extent.ymax - self.Extent.ymin + 1 - 1) 1
      * max (self.Extent.zmax - self.Extent.zmin + 1 - 1) 1))
    (hclass : self.DataDescription = GetDataDescriptionFromExtent self.Extent)
    (hid : 0 ≤ cellId ∧ cellId < Machine.GetNumberOfCells self) :
    ∃ ijkMin ijkMax : Int × Int × Int,
      Machine.GetIJKMinForCellId self cellId = .ok ((true, ijkMin), self)
      ∧ Machine.GetIJKMaxForIJKMin self ijkMin = ((true, ijkMax), self)
      ∧ (ijkMin.1 ≤ ijkMax.1 ∧ ijkMax.1 < 2 ^ 31 - 1)
      ∧ (ijkMin.2.1 ≤ ijkMax.2.1 ∧ ijkMax.2.1 < 2 ^ 31 - 1)
      ∧ (ijkMin.2.2 ≤ ijkMax.2.2 ∧ ijkMax.2.2 < 2 ^ 31 - 1) := by
  have hn : Machine.GetNumberOfCells self = self.GetNumberOfCells := by
    rw [Machine_GetNumberOfCells_eq_product self _ _ _ hx hy hz rfl rfl rfl hdx hdy hdz hcells,
      GetNumberOfCells_eq_product self hx hy hz]
  rw [hn] at hid
  obtain ⟨ijkMin, ijkMax, hmin, hmax, ⟨a1, a2, a3⟩, ⟨b1, b2, b3⟩, ⟨c1, c2, c3⟩⟩ :=
    cell_corner_ranges self cellId hx hy hz hclass hid
  have ux := hdx
  have uy := hdy
  have uz := hdz
  unfold IsInt32 at ux uy uz
  norm_num at ux uy uz
  have i1 : IsInt32 ijkMin.1 := by unfold IsInt32; norm_num; omega
  have i2 : IsInt32 ijkMin.2.1 := by unfold IsInt32; norm_num; omega
  have i3 : IsInt32 ijkMin.2.2 := by unfold IsInt32; norm_num; omega
  have j1 : IsInt32 (ijkMin.1 + 1) := by unfold IsInt32; norm_num; omega
  have j2 : IsInt32 (ijkMin.2.1 + 1) := by unfold IsInt32; norm_num; omega
  have j3 : IsInt32 (ijkMin.2.2 + 1) := by unfold IsInt32; norm_num; omega
  refine ⟨ijkMin, ijkMax,
    Machine_GetIJKMinForCellId_eq self self cellId true ijkMin hdx hdy hdz hmin i1 i2 i3,
    by rw [Machine_GetIJKMaxForIJKMin_eq self ijkMin hdx hdy hdz j1 j2 j3, hmax],
    ⟨by omega, by norm_num; omega⟩, ⟨by omega, by norm_num; omega⟩,
    ⟨by omega, by norm_num; omega⟩⟩

/-- Cell 0 of the grid `[0,3,0,2,0,1]` with unit spacing, the identity direction and the
origin `(o, 0, 0)`: the corners `AddPointsToCellTemplate` lists have `x = o` or
`x = o + 1`, and `GetCellBounds` returns for x the least of `VTK_DOUBLE_MAX`, `o`, `o + 1`
and the greatest of `VTK_DOUBLE_MIN`, `o`, `o + 1`. -/
theorem Machine_GetCellBounds_cell0_x (VTK_DOUBLE_MAX VTK_DOUBLE_MIN o : ℚ) :
    ∃ (pts : List (vtkIdType × (ℚ × ℚ × ℚ))) (b : Bounds6),
      Machine.AddPointsToCellTemplate
          ({ volume432 with Origin := (o, 0, 0) } : vtkImageData).ComputeTransforms (0, 0, 0)
          (1, 1, 1) = .ok pts
      ∧ (∀ q ∈ pts.map (fun p => p.2), q.1 = o ∨ q.1 = o + 1)
      ∧ Machine.GetCellBounds VTK_DOUBLE_MAX VTK_DOUBLE_MIN
          ({ volume432 with Origin := (o, 0, 0) } : vtkImageData).ComputeTransforms 0
        = .ok (b, ({ volume432 with Origin := (o, 0, 0) } : vtkImageData).ComputeTransforms)
      ∧ b.xmin = min VTK_DOUBLE_MAX (min o (o + 1))
      ∧ b.xmax = max VTK_DOUBLE_MIN (max o (o + 1)) := by
  have hid : ({ volume432 with Origin := (o, 0, 0) }
      : vtkImageData).DirectionMatrix.IsIdentity = true := by
    simp [vtkMatrix3x3.IsIdentity, volume432, ofExtent]
  have hloc : forLoc (0, 0, 0) (1, 1, 1)
      = [(0, 0, 0), (1, 0, 0), (0, 1, 0), (1, 1, 0), (0, 0, 1), (1, 0, 1), (0, 1, 1),
          (1, 1, 1)] := by decide
  have w0 : wrapInt32 0 = 0 := by decide
  have w1 : wrapInt32 1 = 1 := by decide
  obtain ⟨pts, hpts, -, hb⟩ := Machine_GetCellBounds_eq_fold VTK_DOUBLE_MAX VTK_DOUBLE_MIN
    ({ volume432 with Origin := (o, 0, 0) } : vtkImageData).ComputeTransforms 0 (0, 0, 0)
    (1, 1, 1) rfl rfl (by decide) (by decide) (by decide) (by decide) (by decide) (by decide)
  have hp2 : pts.map (fun p => p.2)
      = [(o, 0, 0), (o + 1, 0, 0), (o, 1, 0), (o + 1, 1, 0), (o, 0, 1), (o + 1, 0, 1),
          (o, 1, 1), (o + 1, 1, 1)] := by
    simp only [Machine.AddPointsToCellTemplate,
      Machine_forLoc_eq (0, 0, 0) (1, 1, 1) (by decide) (by decide) (by decide), bind,
      Except.bind, Except.ok.injEq] at hpts
    rw [← hpts]
    simp only [List.map_map, hloc, TransformIndexToPhysicalPoint_identity _ hid]
    simp [volume432, ofExtent, ComputeTransforms, w0, w1]
  refine ⟨pts, _, hpts, ?_, hb, ?_, ?_⟩
  · rw [hp2]
    simp
  · rw [(foldl_update_components _ _).1, hp2]
    exact foldl_running_min_two (fun p : ℚ × ℚ × ℚ => p.1) _ _ _ _ (by simp) (by simp)
      (by simp)
  · rw [(foldl_update_components _ _).2.1, hp2]
    exact foldl_running_max_two (fun p : ℚ × ℚ × ℚ => p.1) _ _ _ _ (by simp) (by simp)
      (by simp)

/-- C15, counterexample: whatever the values of `VTK_DOUBLE_MAX` and `VTK_DOUBLE_MIN`, on
the grid `[0,3,0,2,0,1]` with unit spacing, the identity direction and the origin
`(VTK_DOUBLE_MAX + |VTK_DOUBLE_MAX| + 1, 0, 0)` the valid cell id 0 (of 6 cells) gives
`bounds[0] = VTK_DOUBLE_MAX`, the initial value of the running minimum, although every
corner of the cell has a greater x.  And when `VTK_DOUBLE_MIN` is positive, as the smallest
positive double is, the same grid with the origin `(-5, 0, 0)` gives
`bounds[1] = VTK_DOUBLE_MIN` for cell 0, although every corner has `x = -5` or `x = -4`. -/
theorem GetCellBounds_initial_value_counterexample :
    Machine.GetNumberOfCells volume432 = 6
      ∧ (∀ VTK_DOUBLE_MAX VTK_DOUBLE_MIN : ℚ,
          ∃ (pts : List (vtkIdType × (ℚ × ℚ × ℚ))) (b : Bounds6),
            Machine.AddPointsToCellTemplate
                ({ volume432 with Origin := (VTK_DOUBLE_MAX + |VTK_DOUBLE_MAX| + 1, 0, 0) }
                  : vtkImageData).ComputeTransforms (0, 0, 0) (1, 1, 1) = .ok pts
            ∧ (∀ q ∈ pts.map (fun p => p.2), VTK_DOUBLE_MAX < q.1)
            ∧ Machine.GetCellBounds VTK_DOUBLE_MAX VTK_DOUBLE_MIN
                ({ volume432 with Origin := (VTK_DOUBLE_MAX + |VTK_DOUBLE_MAX| + 1, 0, 0) }
                  : vtkImageData).ComputeTransforms 0
              = .ok (b, ({ volume432 with
                  Origin := (VTK_DOUBLE_MAX + |VTK_DOUBLE_MAX| + 1, 0, 0) }
                : vtkImageData).ComputeTransforms)
            ∧ b.xmin = VTK_DOUBLE_MAX)
      ∧ (∀ VTK_DOUBLE_MAX VTK_DOUBLE_MIN : ℚ, 0 < VTK_DOUBLE_MIN →
          ∃ (pts : List (vtkIdType × (ℚ × ℚ × ℚ))) (b : Bounds6),
            Machine.AddPointsToCellTemplate
                ({ volume432 with Origin := (-5, 0, 0) } : vtkImageData).ComputeTransforms
                (0, 0, 0) (1, 1, 1) = .ok pts
            ∧ (∀ q ∈ pts.map (fun p => p.2), q.1 < VTK_DOUBLE_MIN)
            ∧ Machine.GetCellBounds VTK_DOUBLE_MAX VTK_DOUBLE_MIN
                ({ volume432 with Origin := (-5, 0, 0) } : vtkImageData).ComputeTransforms 0
              = .ok (b, ({ volume432 with Origin := (-5, 0, 0) }
                : vtkImageData).ComputeTransforms)
            ∧ b.xmax = VTK_DOUBLE_MIN) := by
  refine ⟨by decide, ?_, ?_⟩
  · intro dmax dmin
    have ho : dmax < dmax + |dmax| + 1 := by
      have := abs_nonneg dmax
      linarith
    obtain ⟨pts, b, hpts, hcorner, hb, hmin, -⟩ :=
      Machine_GetCellBounds_cell0_x dmax dmin (dmax + |dmax| + 1)
    refine ⟨pts, b, hpts, ?_, hb, ?_⟩
    · intro p hp
      rcases hcorner p hp with e | e <;> rw [e] <;> linarith
    · rw [hmin, min_eq_left]
      exact le_min ho.le (by linarith)
  · intro dmax dmin hpos
    obtain ⟨pts, b, hpts, hcorner, hb, -, hmax⟩ := Machine_GetCellBounds_cell0_x dmax dmin (-5)
    refine ⟨pts, b, hpts, ?_, hb, ?_⟩
    · intro p hp
      rcases hcorner p hp with e | e <;> rw [e] <;> linarith
    · rw [hmax, max_eq_left]
      exact max_le (by linarith) (by linarith)

/-- C15, amended: for every non-empty grid whose classification matches its extent, whose
dimensions are values of `int` and whose cell count is a value of the 64-bit `vtkIdType`,
whatever its origin, spacing, direction and cached forward matrix, and every valid cell
id, the two lookups succeed and `AddPointsToCellTemplate` lists the corner points it
places in the primitive, at least one; `GetCellBounds` returns bounds that no corner lies
outside, and on each physical axis the lower bound is the least of `VTK_DOUBLE_MAX` and
the corner coordinates and the upper bound the greatest of `VTK_DOUBLE_MIN` and the corner
coordinates: exactly the minimum over the corners when some corner coordinate is at most
`VTK_DOUBLE_MAX`, and `VTK_DOUBLE_MAX` when every corner coordinate is above it; exactly
the maximum over the corners when some corner coordinate is at least `VTK_DOUBLE_MIN`, and
`VTK_DOUBLE_MIN` when every corner coordinate is below it. -/
theorem GetCellBounds_min_max (VTK_DOUBLE_MAX VTK_DOUBLE_MIN : ℚ) (self : vtkImageData)
    (cellId : Int)
    (hx : self.Extent.xmin ≤ self.Extent.xmax) (hy : self.Extent.ymin ≤ self.Extent.ymax)
    (hz : self.Extent.zmin ≤ self.Extent.zmax)
    (hdx : IsInt32 (self.Extent.xmax - self.Extent.xmin + 1))
    (hdy : IsInt32 (self.Extent.ymax - self.Extent.ymin + 1))
    (hdz : IsInt32 (self.Extent.zmax - self.Extent.zmin + 1))
    (hcells : IsInt64 (max (self.Extent.xmax - self.Extent.xmin + 1 - 1) 1
      * max (self.Extent.ymax - self.Extent.ymin + 1 - 1) 1
      * max (self.Extent.zmax - self.Extent.zmin + 1 - 1) 1))
    (hclass : self.DataDescription = GetDataDescriptionFromExtent self.Extent)
    (hid : 0 ≤ cellId ∧ cellId < Machine.GetNumberOfCells self) :
    ∃ (ijkMin ijkMax : Int × Int × Int) (pts : List (vtkIdType × (ℚ × ℚ × ℚ))) (b : Bounds6),
      Machine.GetIJKMinForCellId self cellId = .ok ((true, ijkMin), self)
      ∧ Machine.GetIJKMaxForIJKMin self ijkMin = ((true, ijkMax), self)
      ∧ Machine.AddPointsToCellTemplate self ijkMin ijkMax = .ok pts
      ∧ pts ≠ []
      ∧ Machine.GetCellBounds VTK_DOUBLE_MAX VTK_DOUBLE_MIN self cellId = .ok (b, self)
      ∧ (∀ q ∈ pts.map (fun p => p.2),
          b.xmin ≤ q.1 ∧ q.1 ≤ b.xmax ∧ b.ymin ≤ q.2.1 ∧ q.2.1 ≤ b.ymax
            ∧ b.zmin ≤ q.2.2 ∧ q.2.2 ≤ b.zmax)
      ∧ (((∃ q ∈ pts.map (fun p => p.2), q.1 ≤ VTK_DOUBLE_MAX) →
            ∃ q ∈ pts.map (fun p => p.2), b.xmin = q.1)
        ∧ ((∀ q ∈ pts.map (fun p => p.2), VTK_DOUBLE_MAX < q.1) → b.xmin = VTK_DOUBLE_MAX)
        ∧ ((∃ q ∈ pts.map (fun p => p.2), VTK_DOUBLE_MIN ≤ q.1) →
            ∃ q ∈ pts.map (fun p => p.2), b.xmax = q.1)
        ∧ ((∀ q ∈ pts.map (fun p => p.2), q.1 < VTK_DOUBLE_MIN) → b.xmax = VTK_DOUBLE_MIN))
      ∧ (((∃ q ∈ pts.map (fun p => p.2), q.2.1 ≤ VTK_DOUBLE_MAX) →
            ∃ q ∈ pts.map (fun p => p.2), b.ymin = q.2.1)
        ∧ ((∀ q ∈ pts.map (fun p => p.2), VTK_DOUBLE_MAX < q.2.1) → b.ymin = VTK_DOUBLE_MAX)
        ∧ ((∃ q ∈ pts.map (fun p => p.2), VTK_DOUBLE_MIN ≤ q.2.1) →
            ∃ q ∈ pts.map (fun p => p.2), b.ymax = q.2.1)
        ∧ ((∀ q ∈ pts.map (fun p => p.2), q.2.1 < VTK_DOUBLE_MIN) → b.ymax = VTK_DOUBLE_MIN))
      ∧ (((∃ q ∈ pts.map (fun p => p.2), q.2.2 ≤ VTK_DOUBLE_MAX) →
            ∃ q ∈ pts.map (fun p => p.2), b.zmin = q.2.2)
        ∧ ((∀ q ∈ pts.map (fun p => p.2), VTK_DOUBLE_MAX < q.2.2) → b.zmin = VTK_DOUBLE_MAX)
        ∧ ((∃ q ∈ pts.map (fun p => p.2), VTK_DOUBLE_MIN ≤ q.2.2) →
            ∃ q ∈ pts.map (fun p => p.2), b.zmax = q.2.2)
        ∧ ((∀ q ∈ pts.map (fun p => p.2), q.2.2 < VTK_DOUBLE_MIN)
            → b.zmax = VTK_DOUBLE_MIN)) := by
  obtain ⟨ijkMin, ijkMax, hmin, hmax, h1, h2, h3⟩ :=
    Machine_cell_lookups self cellId hx hy hz hdx hdy hdz hcells hclass hid
  obtain ⟨pts, hpts, hne, hb⟩ := Machine_GetCellBounds_eq_fold VTK_DOUBLE_MAX VTK_DOUBLE_MIN self
    cellId ijkMin ijkMax hmin hmax h1.1 h2.1 h3.1 h1.2 h2.2 h3.2
  obtain ⟨c1, c2, c3, c4, c5, c6⟩ := foldl_update_components (pts.map (fun p => p.2))
    ⟨VTK_DOUBLE_MAX, VTK_DOUBLE_MIN, VTK_DOUBLE_MAX, VTK_DOUBLE_MIN, VTK_DOUBLE_MAX,
      VTK_DOUBLE_MIN⟩
  refine ⟨ijkMin, ijkMax, pts, _, hmin, hmax, hpts, hne, hb, ?_, ?_, ?_, ?_⟩
  · intro p hp
    rw [c1, c2, c3, c4, c5, c6]
    exact ⟨(foldl_running_min (fun q : ℚ × ℚ × ℚ => q.1) _ _).2.1 p hp,
      (foldl_running_max (fun q : ℚ × ℚ × ℚ => q.1) _ _).2.1 p hp,
      (foldl_running_min (fun q : ℚ × ℚ × ℚ => q.2.1) _ _).2.1 p hp,
      (foldl_running_max (fun q : ℚ × ℚ × ℚ => q.2.1) _ _).2.1 p hp,
      (foldl_running_min (fun q : ℚ × ℚ × ℚ => q.2.2) _ _).2.1 p hp,
      (foldl_running_max (fun q : ℚ × ℚ × ℚ => q.2.2) _ _).2.1 p hp⟩
  · rw [c1, c2]
    exact ⟨foldl_running_min_attained (fun q : ℚ × ℚ × ℚ => q.1) _ _,
      foldl_running_min_initial (fun q : ℚ × ℚ × ℚ => q.1) _ _,
      foldl_running_max_attained (fun q : ℚ × ℚ × ℚ => q.1) _ _,
      foldl_running_max_initial (fun q : ℚ × ℚ × ℚ => q.1) _ _⟩
  · rw [c3, c4]
    exact ⟨foldl_running_min_attained (fun q : ℚ × ℚ × ℚ => q.2.1) _ _,
      foldl_running_min_initial (fun q : ℚ × ℚ × ℚ => q.2.1) _ _,
      foldl_running_max_attained (fun q : ℚ × ℚ × ℚ => q.2.1) _ _,
      foldl_running_max_initial (fun q : ℚ × ℚ × ℚ => q.2.1) _ _⟩
  · rw [c5, c6]
    exact ⟨foldl_running_min_attained (fun q : ℚ × ℚ × ℚ => q.2.2) _ _,
      foldl_running_min_initial (fun q : ℚ × ℚ × ℚ => q.2.2) _ _,
      foldl_running_max_attained (fun q : ℚ × ℚ × ℚ => q.2.2) _ _,
      foldl_running_max_initial (fun q : ℚ × ℚ × ℚ => q.2.2) _ _⟩

/-- A use of C15: the last cell, id 5, of the grid `[0,3,0,2,0,1]` with
`VTK_DOUBLE_MAX = 1.0e+299` and `VTK_DOUBLE_MIN = -1.0e+299`: the bounds are returned and
hold the corners, so no lower bound is above its upper bound. -/
theorem GetCellBounds_min_max_witness :
    ∃ b : Bounds6, Machine.GetCellBounds (10 ^ 299) (-10 ^ 299) volume432 5 = .ok (b, volume432)
      ∧ b.xmin ≤ b.xmax ∧ b.ymin ≤ b.ymax ∧ b.zmin ≤ b.zmax := by
  obtain ⟨_, _, pts, b, -, -, -, hne, hb, hall, -⟩ := GetCellBounds_min_max (10 ^ 299)
    (-10 ^ 299) volume432 5 (by decide) (by decide) (by decide) (by decide) (by decide)
    (by decide) (by decide) rfl (by decide)
  obtain ⟨p, hp⟩ := List.exists_mem_of_ne_nil _ hne
  obtain ⟨x0, x1, y0, y1, z0, z1⟩ := hall p.2 (List.mem_map_of_mem _ hp)
  exact ⟨b, hb, x0.trans x1, y0.trans y1, z0.trans z1⟩

/-- C39 (the code at a failing input): on the grid `[0,3,0,2,0,1]` with unit spacing,
origin 0 and the identity direction, the point `(3000000000, 1, 0)` has the continuous
index `c = (3000000000, 1, 0)`, whose floor on x is not a value of `int`.
`vtkMath::Floor` returns an `int`: whatever value `r` of `int` it returns for
`3000000000`, and with the floors 1 and 0 on y and z, `ComputeStructuredCoordinates`
writes `ijk = (r, 1, 0)` and `pcoords = (3000000000 - r, 0, 0)`, no snap being within
reach, so `pcoords[0]` is at least `852516353` and not in `[0, 1]`. -/
theorem ComputeStructuredCoordinates_pcoords_out_of_range (Floor : ℚ → Int)
    (hr : IsInt32 (Floor 3000000000)) (h1 : Floor 1 = 1) (h0 : Floor 0 = 0) :
    (Machine.ComputeStructuredCoordinates Floor volume432 (3000000000, 1, 0)).2
        = ((Floor 3000000000, 1, 0), (3000000000 - (Floor 3000000000 : ℚ), 0, 0))
      ∧ 852516353 ≤ (Machine.ComputeStructuredCoordinates Floor volume432
          (3000000000, 1, 0)).2.2.1
      ∧ ¬ (Machine.ComputeStructuredCoordinates Floor volume432 (3000000000, 1, 0)).2.2.1 ≤ 1
      ∧ volume432.TransformPhysicalPointToContinuousIndex 3000000000 1 0
          = (3000000000, 1, 0) := by
  have hc : volume432.TransformPhysicalPointToContinuousIndex 3000000000 1 0
      = (3000000000, 1, 0) := by
    simp [TransformPhysicalPointToContinuousIndex, TransformCoordinates, volume432, ofExtent,
      Matrix.one_apply]
  have hq : ((Floor 3000000000 : Int) : ℚ) ≤ 2147483647 ∧ (-2147483648 : ℚ) ≤ (Floor 3000000000 : Int) := by
    unfold IsInt32 at hr
    norm_num at hr
    exact ⟨by exact_mod_cast (by omega : Floor 3000000000 ≤ 2147483647),
      by exact_mod_cast hr.1⟩
  have ax : Machine.ComputeStructuredCoordinates.axis Floor 3000000000 0 3
      = { pcoords := 3000000000 - (Floor 3000000000 : ℚ), ijk := Floor 3000000000,
          tmpInBounds := (Machine.ComputeStructuredCoordinates.axis Floor 3000000000 0 3).tmpInBounds } := by
    unfold Machine.ComputeStructuredCoordinates.axis ComputeStructuredCoordinates.tol2
    simp only
    split_ifs with c1 c2 c3 c4
    · exfalso
      norm_num at c2
    · rfl
    · exfalso
      norm_num at c4
    · rfl
    · rfl
  have ay : Machine.ComputeStructuredCoordinates.axis Floor 1 0 2
      = { pcoords := 0, ijk := 1, tmpInBounds := 1 } := by
    unfold Machine.ComputeStructuredCoordinates.axis
    simp [h1]
  have az : Machine.ComputeStructuredCoordinates.axis Floor 0 0 1
      = { pcoords := 0, ijk := 0, tmpInBounds := 1 } := by
    unfold Machine.ComputeStructuredCoordinates.axis
    simp [h0]
  have e : (Machine.ComputeStructuredCoordinates Floor volume432 (3000000000, 1, 0)).2
      = ((Floor 3000000000, 1, 0), (3000000000 - (Floor 3000000000 : ℚ), 0, 0)) := by
    have hext : volume432.Extent = ⟨0, 3, 0, 2, 0, 1⟩ := rfl
    simp only [Machine.ComputeStructuredCoordinates, hc, hext, ay, az]
    rw [ax]
  refine ⟨e, ?_, ?_, hc⟩
  · rw [e]
    dsimp only
    linarith [hq.1]
  · rw [e]
    dsimp only
    linarith [hq.1]

/-- C39, the failing input with the conversion of the common 64-bit processors, which
yields `INT_MIN` for `3000000000`: the call writes `ijk[0] = -2147483648` and
`pcoords[0] = 5147483648`. -/
theorem ComputeStructuredCoordinates_pcoords_out_of_range_witness :
    convertingFloor 3000000000 = -2147483648
      ∧ (Machine.ComputeStructuredCoordinates convertingFloor volume432 (3000000000, 1, 0)).2
          = ((-2147483648, 1, 0), (5147483648, 0, 0)) := by
  have f3 : convertingFloor 3000000000 = -2147483648 := by
    have hf : ⌊(3000000000 : ℚ)⌋ = 3000000000 := by
      rw [show (3000000000 : ℚ) = ((3000000000 : Int) : ℚ) by norm_num, Int.floor_intCast]
    simp only [convertingFloor, hf]
    decide
  have f1 : convertingFloor 1 = 1 := by
    have hf : ⌊(1 : ℚ)⌋ = 1 := Int.floor_one
    simp only [convertingFloor, hf]
    decide
  have f0 : convertingFloor 0 = 0 := by
    have hf : ⌊(0 : ℚ)⌋ = 0 := Int.floor_zero
    simp only [convertingFloor, hf]
    decide
  have h := (ComputeStructuredCoordinates_pcoords_out_of_range convertingFloor
    (by rw [f3]; decide) f1 f0).1
  rw [f3] at h
  refine ⟨f3, ?_⟩
  rw [h]
  norm_num

/-- C30 (the code at a failing input): on the line grid `[0,3,0,0,0,0]` with identity
direction and spacing `(0, 1, 1)` the y and the z axis have exactly one sample.  At the
in-extent sample `(1, 0, 0)`, with the scalars `s[n] = n`, the y block and the z block
assign 0 without a read or a division, but the x block divides by the zero spacing and
the call does not return a gradient with the components 0 on y and z: in the embedding it
ends in the fault `DoubleDivisionByZero` (in IEEE arithmetic `g[0]` is infinite and
`MultiplyPoint` turns the two zeros into `0 * inf + 0`, not a number). -/
theorem GetPointGradient_single_sample_not_returned :
    xline4ZeroXSpacing.DirectionMatrix.IsIdentity = true
      ∧ xline4ZeroXSpacing.GetDimensions_dims = (4, 1, 1)
      ∧ xline4ZeroXSpacing.Spacing = (0, 1, 1)
      ∧ ¬ OutOfExtent xline4ZeroXSpacing.Extent (1, 0, 0)
      ∧ GetPointGradient.jAxis xline4ZeroXSpacing (fun n => (n : ℚ)) 1 0 0
          = .ok { g := 0, reads := [], divisors := [] }
      ∧ GetPointGradient.kAxis xline4ZeroXSpacing (fun n => (n : ℚ)) 1 0 0
          = .ok { g := 0, reads := [], divisors := [] }
      ∧ GetPointGradient.iAxis xline4ZeroXSpacing (fun n => (n : ℚ)) 1 0 0
          = .error .DoubleDivisionByZero
      ∧ (∀ (g : ℚ × ℚ × ℚ) (reads : List vtkIdType) (divisors : List ℚ),
          xline4ZeroXSpacing.GetPointGradient 1 0 0 (fun n => (n : ℚ))
            ≠ .ok (g, reads, divisors)) := by
  have hg : xline4ZeroXSpacing.GetPointGradient 1 0 0 (fun n => (n : ℚ))
      = .error .DoubleDivisionByZero := rfl
  refine ⟨by simp [vtkMatrix3x3.IsIdentity, xline4ZeroXSpacing, xline4, ofExtent], rfl, rfl,
    by decide, rfl, rfl, rfl, ?_⟩
  intro g reads divisors h
  rw [hg] at h
  exact absurd h (by simp)

/-- The one way to the sentinel: on the x line `[0,3,0,0,0,0]` the cell id `2147483647`
gives `ijkMin[0] = 2147483647`, the `int` sum `ijkMin[0] + 1` yields `-2147483648`, the
test `ijkMax[0] >= ijkMin[0]` fails and `GetCellBounds` returns the uninitialized bounds;
for the cell id `2147483646` the upper limit of the x loop is `INT_MAX` and the loop does
not end. -/
theorem Machine_GetCellBounds_sentinel (VTK_DOUBLE_MAX VTK_DOUBLE_MIN : ℚ) :
    Machine.GetCellBounds VTK_DOUBLE_MAX VTK_DOUBLE_MIN xline4 2147483647
        = .ok (UninitializeBounds, xline4)
      ∧ Machine.GetCellBounds VTK_DOUBLE_MAX VTK_DOUBLE_MIN xline4 2147483646
        = .error .LoopCounterOverflow :=
  ⟨rfl, rfl⟩

end vtkImageData

end VTK
